import Mathlib

/-!
# DAIDALUS band layer and alerting ladder (nasa/WellClear, C++)

Shallow embedding of `KinematicRealBands`, `KinematicAltBands`, `KinematicBandsCore`,
`AlertThresholds` and the alerting functions of `Daidalus`.

Conventions of the embedding:
* C++ `double` values are rationals (`ℚ`); `Util::almost_less(a,b,PRECISION_DEFAULT)` is read as `a < b`.
* `std::vector` is `List`, `push_back` appends at the end.
* The virtual functions `none_bands`, `any_red`, `all_red` of an axis and the detector are
  parameters (fields of `Axis` and `KinematicBandsCore`), because their result depends on
  trajectory geometry that the band layer treats as a black box.
* `while` and `for` loops over rationals are structural recursions on a fuel argument; the fuel
  handed over by the callers is computed from the loop bounds and is shown to be enough
  (`search_fuel_enough`, `shrink_fuel_enough`, `maneuver_fuel_enough`, `sweep_fuel_enough`).
-/

namespace larcfm

/-! ## Data model -/

/-- Modelled from the spec: `Interval` (its header is not among the sources) is the "closed
interval [low, up] of real numbers". -/
structure Interval where
  low : ℚ
  up : ℚ
deriving DecidableEq, Repr

namespace Interval

/-- Modelled from the spec: the constant `Interval::EMPTY`, an interval without points, whose
bounds are crossed. -/
def EMPTY : Interval := ⟨0, -1⟩

/-- Modelled from the spec: `Interval::isEmpty`, the bounds are crossed. -/
def isEmpty (i : Interval) : Bool := decide (i.up < i.low)

/-- Modelled from the spec: `Interval::inCC`, membership in the closed interval. -/
def inCC (i : Interval) (x : ℚ) : Bool := decide (i.low ≤ x) && decide (x ≤ i.up)

end Interval

/-- Modelled from the spec: `IntervalSet` (its header and implementation are not among the
sources) is "a sorted disjoint union of intervals"; it is represented by the list of its
intervals in increasing order. -/
abbrev IntervalSet := List Interval

namespace IntervalSet

/-- Modelled from the spec: `IntervalSet::unions(Interval)`, the union with one closed interval.
An empty interval adds nothing; intervals that overlap or touch are merged, the others are kept
in increasing order. -/
def unions : IntervalSet → Interval → IntervalSet
  | [], i => if i.up < i.low then [] else [i]
  | j :: rest, i =>
    if i.up < i.low then j :: rest
    else if i.up < j.low then i :: j :: rest
    else if j.up < i.low then j :: unions rest i
    else unions rest ⟨min i.low j.low, max i.up j.up⟩

/-- Modelled from the spec: `IntervalSet::unions(IntervalSet)`, interval by interval. -/
def unionsSet (s t : IntervalSet) : IntervalSet := t.foldl unions s

/-- Modelled from the spec: `IntervalSet::almost_add(l,u)`, the `almost_` variant of adding
`[l,u]`: the interval is added when `l` is (almost) less than `u`. -/
def almost_add (s : IntervalSet) (l u : ℚ) : IntervalSet :=
  if l < u then unions s ⟨l, u⟩ else s

/-- Modelled from the spec: `IntervalSet::almost_intersect`, the `almost_` variant of the
intersection: every pairwise overlap `[max low, min up]` of positive length is kept. -/
def almost_intersect (s t : IntervalSet) : IntervalSet :=
  if s.isEmpty || t.isEmpty then []
  else t.foldl (fun acc ii => s.foldl (fun acc2 jj =>
    almost_add acc2 (max ii.low jj.low) (min ii.up jj.up)) acc) []

/-- Modelled from the spec: `IntervalSet::in`, membership of a value in one of the closed
intervals of the set. -/
def contains (s : IntervalSet) (x : ℚ) : Bool := s.any (fun i => i.inCC x)

end IntervalSet

/-- The enumeration `BandsRegion::Region`. -/
inductive Region where
  | NONE | FAR | MID | NEAR | RECOVERY | UNKNOWN
deriving DecidableEq, Repr

/-- The pair `(time_in, time_out)` of `LossData`. -/
structure LossData where
  time_in : ℚ
  time_out : ℚ
deriving DecidableEq, Repr

namespace LossData

/-- Translation of `LossData::conflict()`: `time_in < time_out`. -/
def conflict (d : LossData) : Bool := decide (d.time_in < d.time_out)

/-- Translation of `LossData::conflict(thr)`. -/
def conflictThr (d : LossData) (thr : ℚ) : Bool :=
  d.conflict && decide (d.time_out - d.time_in > thr)

end LossData

/-- The detector passed to the band functions: the detector configured in the core
(`core.detector`) or a cylinder built by `CDCylinder::mk(D,H)`. -/
inductive Detection3D where
  | core
  | cylinder (D H : ℚ)
deriving DecidableEq, Repr

/-- The constants `ACCoRDConfig::NMAC_D` and `ACCoRDConfig::NMAC_H` (their header is not among
the sources), taken as parameters. -/
structure ACCoRDConfig where
  NMAC_D : ℚ
  NMAC_H : ℚ

/-- State and parameters of `KinematicBandsCore` over aircraft records `AC`. The detector query
`checkConflict`, the aircraft identifier `getId` and the two `TCASTable` look-ups used by
`minHorizontalRecovery`/`minVerticalRecovery` are taken as parameters. -/
structure KinematicBandsCore (AC : Type) where
  hasOwnship : Bool
  traffic : List AC
  implicit_bands : Bool
  lookahead : ℚ
  alerting_time : ℚ
  max_recovery_time : ℚ
  recovery_stability_time : ℚ
  criteria_ac : String
  conflict_crit : Bool
  recovery_crit : Bool
  min_horizontal_recovery : ℚ
  min_vertical_recovery : ℚ
  ca_bands : Bool
  getId : AC → String
  checkConflict : AC → ℚ → ℚ → LossData
  RA_HMD : ℚ
  RA_ZTHR : ℚ

namespace KinematicBandsCore

variable {AC : Type}

/-- Translation of `KinematicBandsCore::alertingTime`. -/
def alertingTime (core : KinematicBandsCore AC) : ℚ :=
  if core.alerting_time > 0 then core.alerting_time else core.lookahead

/-- Translation of `KinematicBandsCore::maxRecoveryTime`. -/
def maxRecoveryTime (core : KinematicBandsCore AC) : ℚ :=
  if core.max_recovery_time > 0 then core.max_recovery_time else core.lookahead

/-- Translation of `KinematicBandsCore::minHorizontalRecovery`. -/
def minHorizontalRecovery (core : KinematicBandsCore AC) : ℚ :=
  if core.min_horizontal_recovery > 0 then core.min_horizontal_recovery else core.RA_HMD

/-- Translation of `KinematicBandsCore::minVerticalRecovery`. -/
def minVerticalRecovery (core : KinematicBandsCore AC) : ℚ :=
  if core.min_vertical_recovery > 0 then core.min_vertical_recovery else core.RA_ZTHR

/-- Translation of `TrafficState::getTraffic(traffic,id)`: the first aircraft with that
identifier; `none` stands for `TrafficState::INVALID`, whose identifier is `_NoAc_`. -/
def getTraffic (core : KinematicBandsCore AC) (id : String) : Option AC :=
  if id ≠ "_NoAc_" then core.traffic.find? (fun ac => decide (id = core.getId ac)) else none

end KinematicBandsCore

/-- The pure virtual functions of `KinematicRealBands` that an axis (track, ground speed,
vertical speed) supplies. `none_bands` receives the current content of the `noneset` reference
as its first argument and returns the new content. The remaining arguments are the conflict
detector, the optional recovery detector, the criterion aircraft (`none` for
`TrafficState::INVALID`), the window `[B,T]` and the aircraft list. -/
structure Axis (AC : Type) where
  none_bands : IntervalSet → Detection3D → Option Detection3D → Option AC → ℚ → ℚ → List AC →
    IntervalSet
  any_red : Detection3D → Option Detection3D → Option AC → ℚ → ℚ → List AC → Bool
  all_red : Detection3D → Option Detection3D → Option AC → ℚ → ℚ → List AC → Bool

/-- State of `KinematicRealBands`. -/
structure KinematicRealBands where
  outdated : Bool
  intervals : List Interval
  regions : List Region
  recovery_time : ℚ
  min : ℚ
  max : ℚ
  step : ℚ
  do_recovery : Bool

namespace KinematicRealBands

variable {AC : Type}

/-- Translation of `KinematicRealBands::reset`. -/
def reset (b : KinematicRealBands) : KinematicRealBands :=
  { b with outdated := true, intervals := [], regions := [], recovery_time := 0 }

/-- Label pushed for an interval that fills a gap of `bands` (lines 226, 235 and 249 of
`color_bands`). -/
def gap_region (greenbands recovery : Bool) : Region :=
  if greenbands then Region.NEAR else if recovery then Region.RECOVERY else Region.NONE

/-- Label pushed for an interval taken from `bands` (line 243 of `color_bands`). -/
def band_region (greenbands recovery : Bool) : Region :=
  if greenbands then (if recovery then Region.RECOVERY else Region.NONE) else Region.NEAR

/-- The `for` loop of `color_bands` over the remaining intervals of `bands`, started with the
running lower end `l`, followed by the closing test on `l`; it returns the pushed
interval/region pairs in order. -/
def color_loop (max : ℚ) (greenbands nearonly recovery : Bool) :
    ℚ → List Interval → List (Interval × Region)
  | l, [] =>
    if l < max ∧ (greenbands || !nearonly) = true then
      [(⟨l, max⟩, gap_region greenbands recovery)]
    else []
  | l, ii :: rest =>
    (if l < ii.low ∧ (greenbands || !nearonly) = true then
      [(⟨l, ii.low⟩, gap_region greenbands recovery)] else []) ++
    ((if (!greenbands || !nearonly) = true then
      [(⟨ii.low, if ii.up < max then ii.up else max⟩, band_region greenbands recovery)]
      else []) ++
    color_loop max greenbands nearonly recovery (if ii.up < max then ii.up else max) rest)

/-- The interval/region pairs that `color_bands` pushes, in order. -/
def color_list (min max : ℚ) (bands : IntervalSet) (greenbands nearonly recovery : Bool) :
    List (Interval × Region) :=
  if bands.isEmpty then
    (if (greenbands || !nearonly) = true then
      [(⟨min, max⟩, gap_region greenbands recovery)] else [])
  else color_loop max greenbands nearonly recovery min bands

/-- Translation of `KinematicRealBands::color_bands`: `intervals` and `regions` are cleared and
receive the pushed pairs. -/
def color_bands (b : KinematicRealBands) (bands : IntervalSet)
    (greenbands nearonly recovery : Bool) : KinematicRealBands :=
  { b with
    intervals := (color_list b.min b.max bands greenbands nearonly recovery).map Prod.fst
    regions := (color_list b.min b.max bands greenbands nearonly recovery).map Prod.snd }

/-- The computed bands as interval/region pairs (`intervals[i]` with `regions[i]`). -/
def bands (b : KinematicRealBands) : List (Interval × Region) :=
  List.zip b.intervals b.regions

/-- Translation of `KinematicRealBands::kinematicConflict`: the axis red-test with the single
aircraft `ac`, the core detector, no recovery detector, over `[0,T]`. -/
def kinematicConflict (axis : Axis AC) (repac : Option AC) (T : ℚ) (ac : AC) : Bool :=
  axis.any_red Detection3D.core none repac 0 T [ac]

/-- Translation of `KinematicRealBands::alertingAircraft`: the pair (preventive, corrective),
filled by `push_back` while the traffic list is walked in order. -/
def alertingAircraft (core : KinematicBandsCore AC) (axis : Axis AC) : List AC × List AC :=
  core.traffic.foldl (fun (acc : List AC × List AC) ac =>
    if (core.checkConflict ac 0 core.alertingTime).conflict then (acc.1, acc.2 ++ [ac])
    else if kinematicConflict axis none core.alertingTime ac then (acc.1 ++ [ac], acc.2)
    else acc) ([], [])

/-- Translation of `KinematicRealBands::compute_none_bands`. -/
def compute_none_bands (core : KinematicBandsCore AC) (axis : Axis AC) (noneset : IntervalSet)
    (repac : Option AC) (alerting_aircraft : List AC × List AC) : IntervalSet :=
  IntervalSet.almost_intersect
    (axis.none_bands noneset Detection3D.core none repac 0 core.alertingTime alerting_aircraft.1)
    (axis.none_bands [] Detection3D.core none repac 0 core.lookahead alerting_aircraft.2)

/-- The inner `while ((pivot_green-pivot_red) > 1)` loop of `compute_recovery_bands`; `query p ns`
is the call `none_bands(noneset,core.detector,&cd3d,repac,p,T,...)` on the current `noneset`.
The result is the final `(noneset, pivot_red, pivot_green)`. -/
def recovery_pivot_loop (query : ℚ → IntervalSet → IntervalSet) :
    Nat → IntervalSet → ℚ → ℚ → ℚ → IntervalSet × ℚ × ℚ
  | 0, noneset, pivot_red, pivot_green, _ => (noneset, pivot_red, pivot_green)
  | fuel + 1, noneset, pivot_red, pivot_green, pivot =>
    if pivot_green - pivot_red > 1 then
      if (query pivot noneset).isEmpty then
        recovery_pivot_loop query fuel (query pivot noneset) pivot pivot_green
          ((pivot + pivot_green) / 2)
      else
        recovery_pivot_loop query fuel (query pivot noneset) pivot_red pivot
          ((pivot_red + pivot) / 2)
    else (noneset, pivot_red, pivot_green)

/-- Number of iterations that the pivot loop needs at most when started on `[0, T+1]`. -/
def search_fuel (T : ℚ) : Nat := ⌈T⌉₊ + 2

/-- The recovery time chosen after the pivot search (lines 285-289). -/
def recovery_time_of (T stability pivot_red pivot_green : ℚ) : ℚ :=
  if pivot_green ≤ T then Min.min T (pivot_green + stability) else pivot_red

/-- The pivot search of `compute_recovery_bands` (lines 272-284) for the cylinder `(h, v)`:
`pivot_red = 0`, `pivot_green = T+1`, `pivot = pivot_green-1`, then the loop. -/
def recovery_search (axis : Axis AC) (alerting_set : List AC) (repac : Option AC) (T h v : ℚ)
    (noneset : IntervalSet) : IntervalSet × ℚ × ℚ :=
  recovery_pivot_loop
    (fun p ns => axis.none_bands ns Detection3D.core (some (Detection3D.cylinder h v))
      repac p T alerting_set)
    (search_fuel T) noneset 0 (T + 1) (T + 1 - 1)

/-- The outer `while` loop of `compute_recovery_bands` over the shrinking cylinder with
horizontal separation `h` and vertical separation `v`; it returns the state and the `noneset`. -/
def recovery_loop (cfg : ACCoRDConfig) (core : KinematicBandsCore AC) (axis : Axis AC)
    (alerting_set : List AC) (repac : Option AC) (T : ℚ) :
    Nat → KinematicRealBands → IntervalSet → ℚ → ℚ → KinematicRealBands × IntervalSet
  | 0, b, noneset, _, _ => (b, noneset)
  | fuel + 1, b, noneset, h, v =>
    if h > cfg.NMAC_D ∨ v > cfg.NMAC_H then
      let ns1 := axis.none_bands noneset (Detection3D.cylinder h v) none repac 0 T alerting_set
      if ns1.isEmpty && !core.ca_bands then (b, ns1)
      else if !ns1.isEmpty then
        let found := recovery_search axis alerting_set repac T h v ns1
        let rt := recovery_time_of T core.recovery_stability_time found.2.1 found.2.2
        let ns2 := axis.none_bands found.1 Detection3D.core (some (Detection3D.cylinder h v))
          repac rt T alerting_set
        if !ns2.isEmpty || !core.ca_bands then
          ({ b with recovery_time := if ns2.isEmpty then -1 else rt }, ns2)
        else
          recovery_loop cfg core axis alerting_set repac T fuel
            { b with recovery_time := if ns2.isEmpty then -1 else rt } ns2
            (h * (4 / 5)) (v * (4 / 5))
      else
        recovery_loop cfg core axis alerting_set repac T fuel b ns1 (h * (4 / 5)) (v * (4 / 5))
    else (b, noneset)

/-- Number of shrinking steps by the factor 0.8 after which a cylinder `(h, v)` is inside the
NMAC cylinder. -/
def shrink_fuel (cfg : ACCoRDConfig) (h v : ℚ) : Nat :=
  4 * ⌈h / cfg.NMAC_D⌉₊ + 4 * ⌈v / cfg.NMAC_H⌉₊ + 1

/-- Translation of `KinematicRealBands::compute_recovery_bands`. -/
def compute_recovery_bands (cfg : ACCoRDConfig) (core : KinematicBandsCore AC) (axis : Axis AC)
    (b : KinematicRealBands) (noneset : IntervalSet) (alerting_set : List AC) :
    KinematicRealBands × IntervalSet :=
  let T := core.maxRecoveryTime
  let repac := if core.recovery_crit then core.getTraffic core.criteria_ac else none
  let ns0 := axis.none_bands noneset (Detection3D.cylinder cfg.NMAC_D cfg.NMAC_H) none repac 0 T
    alerting_set
  if !ns0.isEmpty then
    recovery_loop cfg core axis alerting_set repac T
      (shrink_fuel cfg core.minHorizontalRecovery core.minVerticalRecovery) b ns0
      core.minHorizontalRecovery core.minVerticalRecovery
  else (b, ns0)

/-- The part of `KinematicRealBands::compute` before the call of `color_bands`: the state (with
its `recovery_time`) and the local `noneset`. -/
def compute_noneset (cfg : ACCoRDConfig) (core : KinematicBandsCore AC) (axis : Axis AC)
    (b : KinematicRealBands) : KinematicRealBands × IntervalSet :=
  let alerting_aircraft := alertingAircraft core axis
  let alerting_set := alerting_aircraft.1 ++ alerting_aircraft.2
  if alerting_set.isEmpty then (b, IntervalSet.almost_add [] b.min b.max)
  else
    let repac := if core.conflict_crit then core.getTraffic core.criteria_ac else none
    let noneset := compute_none_bands core axis [] repac alerting_aircraft
    if noneset.isEmpty then
      if b.do_recovery then
        compute_recovery_bands cfg core axis { b with recovery_time := -1 } noneset alerting_set
      else ({ b with recovery_time := -1 }, noneset)
    else (b, noneset)

/-- Translation of `KinematicRealBands::compute`. -/
def compute (cfg : ACCoRDConfig) (core : KinematicBandsCore AC) (axis : Axis AC)
    (b : KinematicRealBands) : KinematicRealBands :=
  color_bands (compute_noneset cfg core axis b).1 (compute_noneset cfg core axis b).2 true
    core.implicit_bands (decide ((compute_noneset cfg core axis b).1.recovery_time > 0))

/-- Translation of `KinematicRealBands::recompute`. -/
def recompute (cfg : ACCoRDConfig) (core : KinematicBandsCore AC) (axis : Axis AC)
    (b : KinematicRealBands) : KinematicRealBands :=
  if core.hasOwnship && b.outdated then { compute cfg core axis b with outdated := false } else b

/-- Translation of `KinematicRealBands::force_compute`. -/
def force_compute (cfg : ACCoRDConfig) (core : KinematicBandsCore AC) (axis : Axis AC)
    (b : KinematicRealBands) : KinematicRealBands :=
  recompute cfg core axis (reset b)

/-- The non-red set computed at line 266 for the cylinder `(h, v)`. -/
def loop_ns1 (axis : Axis AC) (alerting_set : List AC) (repac : Option AC) (T : ℚ)
    (noneset : IntervalSet) (h v : ℚ) : IntervalSet :=
  axis.none_bands noneset (Detection3D.cylinder h v) none repac 0 T alerting_set

/-- The recovery time assigned at lines 285-289 for the cylinder `(h, v)`. -/
def loop_rt (core : KinematicBandsCore AC) (axis : Axis AC) (alerting_set : List AC)
    (repac : Option AC) (T : ℚ) (noneset : IntervalSet) (h v : ℚ) : ℚ :=
  recovery_time_of T core.recovery_stability_time
    (recovery_search axis alerting_set repac T h v
      (loop_ns1 axis alerting_set repac T noneset h v)).2.1
    (recovery_search axis alerting_set repac T h v
      (loop_ns1 axis alerting_set repac T noneset h v)).2.2

/-- The non-red set computed at line 290 for the cylinder `(h, v)`. -/
def loop_ns2 (core : KinematicBandsCore AC) (axis : Axis AC) (alerting_set : List AC)
    (repac : Option AC) (T : ℚ) (noneset : IntervalSet) (h v : ℚ) : IntervalSet :=
  axis.none_bands
    (recovery_search axis alerting_set repac T h v
      (loop_ns1 axis alerting_set repac T noneset h v)).1
    Detection3D.core (some (Detection3D.cylinder h v)) repac
    (loop_rt core axis alerting_set repac T noneset h v) T alerting_set

/-- A sorted list of pairwise disjoint closed intervals inside `[lo, hi]`: every interval has
`lo ≤ low ≤ up ≤ hi` and every interval ends strictly before each later one starts. -/
def SortedDisjointIn (lo hi : ℚ) (s : IntervalSet) : Prop :=
  (∀ i ∈ s, lo ≤ i.low ∧ i.low ≤ i.up ∧ i.up ≤ hi) ∧ s.Pairwise (fun a b => a.up < b.low)

end KinematicRealBands

/-! ## Altitude bands -/

/-- State of `KinematicAltBands`: the state of `KinematicRealBands` with the vertical rate and
the vertical acceleration of the level-off manoeuvre. -/
structure KinematicAltBands extends KinematicRealBands where
  vertical_rate : ℚ
  vertical_accel : ℚ

/-- What `KinematicAltBands` reads from the level-off kinematics (`ProjectedKinematics`, not
among the sources) and from the detector, for the ownship of the core.
* `levelOutFinalTime a`: the time component of `vsLevelOutFinal` for the target altitude `a`;
* `finalConflict ac a B T`: `checkConflict` of the levelled-off ownship against aircraft `ac`
  projected by that time, over `[B,T]`;
* `own_z`: the ownship altitude;
* `levelOutTime fl`: `vsLevelOutTime` for the target `fl`;
* `levelOutVs fl t`: the vertical speed of `vsLevelOut` at time `t` towards `fl`;
* `violationAt ac fl t`: `checkViolation` at time `t` of the manoeuvre towards `fl`. -/
structure AltKinematics (AC : Type) where
  levelOutFinalTime : ℚ → ℚ
  finalConflict : AC → ℚ → ℚ → ℚ → LossData
  own_z : ℚ
  levelOutTime : ℚ → ℚ
  levelOutVs : ℚ → ℚ → ℚ
  violationAt : AC → ℚ → ℚ → Bool

namespace KinematicAltBands

variable {AC : Type}

/-- The interval `in` that `red_bands` computes for the target altitude `a`. -/
def red_cell (env : AltKinematics AC) (b : KinematicAltBands) (B T : ℚ) (traffic : List AC)
    (a : ℚ) : Interval :=
  if env.levelOutFinalTime a < 0 then ⟨a - b.step, a + b.step⟩
  else if env.levelOutFinalTime a < T then
    if traffic.any (fun ac =>
        (env.finalConflict ac a (Max.max 0 (B - env.levelOutFinalTime a))
          (Max.max 1 (T - env.levelOutFinalTime a))).conflict) then
      ⟨a - b.step, a + b.step⟩
    else Interval.EMPTY
  else Interval.EMPTY

/-- The loop `for (double a = min; a < max; a += step)` of `red_bands`, started at `a`. -/
def red_bands_loop (env : AltKinematics AC) (b : KinematicAltBands) (B T : ℚ)
    (traffic : List AC) : Nat → ℚ → IntervalSet → IntervalSet
  | 0, _, redset => redset
  | fuel + 1, a, redset =>
    if a < b.max then
      red_bands_loop env b B T traffic fuel (a + b.step)
        (IntervalSet.unions redset (red_cell env b B T traffic a))
    else redset

/-- Number of steps of size `step` from `lo` until `hi` is passed. -/
def sweep_fuel (lo hi step : ℚ) : Nat := ⌈(hi - lo) / step⌉₊ + 1

/-- The loop `for (double t = const; go && t <= dt; t += tstep)` of `losSetDuringFL` for one
aircraft and one flight level `fl`; `target_vs` is `vertical_rate` on the way up and
`-vertical_rate` on the way down. The state is `(losSet, go, const)`. -/
def los_time_loop (env : AltKinematics AC) (b : KinematicAltBands) (ac : AC)
    (fl B dt tstep target_vs : ℚ) : Nat → ℚ → IntervalSet × Bool × ℚ → IntervalSet × Bool × ℚ
  | 0, _, st => st
  | fuel + 1, t, st =>
    if st.2.1 = true ∧ t ≤ dt then
      los_time_loop env b ac fl B dt tstep target_vs fuel (t + tstep)
        (if t ≥ B ∧ env.violationAt ac fl t = true then
            IntervalSet.unions st.1 ⟨fl - b.step, fl + b.step⟩ else st.1,
          if (t ≥ B ∧ env.violationAt ac fl t = true) ∧ env.levelOutVs fl t = target_vs
            then false else st.2.1,
          if env.levelOutVs fl t = target_vs then t else st.2.2)
    else st

/-- The loop over the traffic of `losSetDuringFL` at one flight level `fl`; `outside` is the
test `fl1 > max` (up) or `fl2 < min` (down). -/
def los_traffic_loop (env : AltKinematics AC) (b : KinematicAltBands) (traffic : List AC)
    (conflictSet : IntervalSet) (fl B dt tstep target_vs : ℚ) (outside : Bool)
    (st : IntervalSet × Bool × ℚ) : IntervalSet × Bool × ℚ :=
  traffic.foldl (fun st ac =>
    if (!st.2.1 || outside || IntervalSet.contains conflictSet fl) = true then
      (IntervalSet.unions st.1 ⟨fl - b.step, fl + b.step⟩, st.2.1, st.2.2)
    else
      los_time_loop env b ac fl B dt tstep target_vs (sweep_fuel st.2.2 dt tstep) st.2.2 st) st

/-- The loop `for (double fl1 = min; fl1 <= max; fl1 += step)` of `losSetDuringFL`. -/
def los_up_loop (env : AltKinematics AC) (b : KinematicAltBands) (traffic : List AC)
    (conflictSet : IntervalSet) (B T tstep : ℚ) :
    Nat → ℚ → IntervalSet × Bool × ℚ → IntervalSet × Bool × ℚ
  | 0, _, st => st
  | fuel + 1, fl1, st =>
    if fl1 ≤ b.max then
      los_up_loop env b traffic conflictSet B T tstep fuel (fl1 + b.step)
        (if fl1 ≥ env.own_z then
          los_traffic_loop env b traffic conflictSet fl1 B (Min.min (env.levelOutTime fl1) T)
            tstep b.vertical_rate (decide (fl1 > b.max)) st
        else st)
    else st

/-- The loop `for (double fl2 = max; fl2 >= min; fl2 -= step)` of `losSetDuringFL`. -/
def los_down_loop (env : AltKinematics AC) (b : KinematicAltBands) (traffic : List AC)
    (conflictSet : IntervalSet) (B T tstep : ℚ) :
    Nat → ℚ → IntervalSet × Bool × ℚ → IntervalSet × Bool × ℚ
  | 0, _, st => st
  | fuel + 1, fl2, st =>
    if fl2 ≥ b.min then
      los_down_loop env b traffic conflictSet B T tstep fuel (fl2 - b.step)
        (if fl2 < env.own_z then
          los_traffic_loop env b traffic conflictSet fl2 B (Min.min (env.levelOutTime fl2) T)
            tstep (-b.vertical_rate) (decide (fl2 < b.min)) st
        else st)
    else st

/-- Translation of `KinematicAltBands::losSetDuringFL`. -/
def losSetDuringFL (env : AltKinematics AC) (b : KinematicAltBands) (tstep : ℚ)
    (traffic : List AC) (B T : ℚ) (conflictSet : IntervalSet) : IntervalSet :=
  (los_down_loop env b traffic conflictSet B T tstep (sweep_fuel b.min b.max b.step) b.max
    ((los_up_loop env b traffic conflictSet B T tstep (sweep_fuel b.min b.max b.step) b.min
      ([], true, 0)).1, true, 0)).1

/-- Translation of `KinematicAltBands::red_bands`. -/
def red_bands (env : AltKinematics AC) (b : KinematicAltBands) (B T : ℚ) (traffic : List AC) :
    IntervalSet :=
  if b.vertical_rate ≠ 0 then
    IntervalSet.unionsSet
      (red_bands_loop env b B T traffic (sweep_fuel b.min b.max b.step) b.min [])
      (losSetDuringFL env b 1 traffic B T
        (red_bands_loop env b B T traffic (sweep_fuel b.min b.max b.step) b.min []))
  else red_bands_loop env b B T traffic (sweep_fuel b.min b.max b.step) b.min []

/-- Translation of `KinematicAltBands::compute`. -/
def compute (core : KinematicBandsCore AC) (env : AltKinematics AC) (b : KinematicAltBands) :
    KinematicAltBands :=
  { b with
    toKinematicRealBands :=
      KinematicRealBands.color_bands b.toKinematicRealBands
        (if !core.traffic.isEmpty then red_bands env b 0 core.alertingTime core.traffic else [])
        false core.implicit_bands false }

end KinematicAltBands

/-! ## Alerting ladder -/

/-- An `AlertThresholds` tier over the pair of aircraft states `S` (ownship and intruder
vectors `so, vo, si, vi`): its detector, seen as the query `conflictDetection(so,vo,si,vi,B,T)`,
the alerting time and the minimum duration. -/
structure AlertThresholds (S : Type) where
  detector : S → ℚ → ℚ → LossData
  alerting_time : ℚ
  duration_thr : ℚ

namespace AlertThresholds

/-- Translation of `AlertThresholds::alerting`: the pair (alert, time_in). -/
def alerting {S : Type} (a : AlertThresholds S) (st : S) : Bool × ℚ :=
  ((a.detector st 0 a.alerting_time).conflictThr a.duration_thr &&
      (if a.alerting_time = 0 then decide ((a.detector st 0 a.alerting_time).time_in = 0)
        else true),
    (a.detector st 0 a.alerting_time).time_in)

end AlertThresholds

/-- The record `AlertInfo`: alert type, the states it was computed from (`none` for the invalid
vectors of the default constructor) and the time to violation (`none` for `PINFINITY`). -/
structure AlertInfo (S : Type) where
  type : Int
  state : Option S
  tin : Option ℚ

/-- The fields of `DaidalusParameters` read by the alerting logic. -/
structure DaidalusParameters where
  alerting_time : ℚ
  lookahead_time : ℚ
  bands_alerting : Bool
  trk_alerting : Bool
  gs_alerting : Bool
  vs_alerting : Bool
  preventive_alt : ℚ
  preventive_trk : ℚ
  preventive_gs : ℚ
  preventive_vs : ℚ
  time_to_warning : ℚ
  warning_when_recovery : Bool

/-- What `bands_alerting` and `last_time_to_maneuver` read for one ownship/intruder pair: the
lengths of the bands built for the pair (recovery disabled, implicit bands enabled), the detector
query on the current trajectory, the altitudes `so.z`, `si.z`, the ownship track, ground speed
and vertical speed, the three `near...Conflict` tests, and the three `all_red` tests on the
states linearly projected by a pivot time (first argument) over `[0,T]` (second argument). -/
structure AlertingView where
  trackLength : Int
  groundSpeedLength : Int
  verticalSpeedLength : Int
  conflictDetection : ℚ → ℚ → LossData
  so_z : ℚ
  si_z : ℚ
  trk : ℚ
  gs : ℚ
  vs : ℚ
  nearTrackConflict : ℚ → ℚ → Bool
  nearGroundSpeedConflict : ℚ → ℚ → Bool
  nearVerticalSpeedConflict : ℚ → ℚ → Bool
  trk_all_red : ℚ → ℚ → Bool
  gs_all_red : ℚ → ℚ → Bool
  vs_all_red : ℚ → ℚ → Bool

namespace Daidalus

/-- Translation of `Daidalus::alerting_time`. -/
def alerting_time (p : DaidalusParameters) : ℚ :=
  if p.alerting_time > 0 then p.alerting_time else p.lookahead_time

/-- The `for (int i=alertor.size(); i > 0; --i)` loop of `thresholds_alerting`, started at `i`;
it returns the alert level and the recorded `AlertInfo`. -/
def thresholds_loop {S : Type} (alertor : List (AlertThresholds S)) (st : S) :
    Nat → Int × AlertInfo S
  | 0 => (0, ⟨-1, none, none⟩)
  | i + 1 =>
    match alertor[i]? with
    | some a =>
      if (a.alerting st).1 = true then
        (((i + 1 : Nat) : Int), ⟨((i + 1 : Nat) : Int), some st, some (a.alerting st).2⟩)
      else thresholds_loop alertor st i
    | none => thresholds_loop alertor st i

/-- Translation of `Daidalus::thresholds_alerting`. -/
def thresholds_alerting {S : Type} (alertor : List (AlertThresholds S)) (st : S) :
    Int × AlertInfo S :=
  thresholds_loop alertor st alertor.length

/-- The tier of level `i` (`alertor[i-1]`, `1 ≤ i ≤ alertor.size()`) fires on the states `st`:
its `AlertThresholds::alerting` predicate is true. -/
def level_fires {S : Type} (alertor : List (AlertThresholds S)) (st : S) (i : Nat) : Prop :=
  1 ≤ i ∧ ∃ a, alertor[i - 1]? = some a ∧ (a.alerting st).1 = true

/-- The test of `last_time_to_maneuver` at a pivot: every alerting-enabled axis is entirely
red. -/
def all_axes_red (p : DaidalusParameters) (q : AlertingView) (pivot : ℚ) : Bool :=
  (!p.trk_alerting || q.trk_all_red pivot (alerting_time p)) &&
  (!p.gs_alerting || q.gs_all_red pivot (alerting_time p)) &&
  (!p.vs_alerting || q.vs_all_red pivot (alerting_time p))

/-- The `while ((pivot_red-pivot_green) > 1)` loop of `last_time_to_maneuver`; it returns
`pivot_red`. -/
def maneuver_loop (p : DaidalusParameters) (q : AlertingView) : Nat → ℚ → ℚ → ℚ → ℚ
  | 0, _, pivot_red, _ => pivot_red
  | fuel + 1, pivot_green, pivot_red, pivot =>
    if pivot_red - pivot_green > 1 then
      if all_axes_red p q pivot = true then
        maneuver_loop p q fuel pivot_green pivot ((pivot + pivot_green) / 2)
      else
        maneuver_loop p q fuel pivot pivot_red ((pivot_red + pivot) / 2)
    else pivot_red

/-- Number of iterations that the time-to-maneuver loop needs at most on `[0, t2v]`. -/
def maneuver_fuel (t2v : ℚ) : Nat := ⌈t2v⌉₊ + 2

/-- Translation of `Daidalus::last_time_to_maneuver`. -/
def last_time_to_maneuver (p : DaidalusParameters) (q : AlertingView) (t2v : ℚ) : ℚ :=
  maneuver_loop p q (maneuver_fuel t2v) 0 t2v (0 + 1)

/-- Translation of `Daidalus::bands_alerting`. -/
def bands_alerting (p : DaidalusParameters) (q : AlertingView) : Int :=
  if (!p.trk_alerting || decide (q.trackLength = 0)) &&
      (!p.gs_alerting || decide (q.groundSpeedLength = 0)) &&
      (!p.vs_alerting || decide (q.verticalSpeedLength = 0)) then 0
  else if (q.conflictDetection 0 (alerting_time p)).conflict then
    if (if p.warning_when_recovery then
          last_time_to_maneuver p q (q.conflictDetection 0 (alerting_time p)).time_in
        else (q.conflictDetection 0 (alerting_time p)).time_in) ≤ p.time_to_warning then 4
    else 3
  else if p.preventive_alt < 0 ∨ |q.so_z - q.si_z| ≤ p.preventive_alt then
    if (p.trk_alerting && decide (q.trackLength > 0) &&
          (decide (p.preventive_trk < 0) || q.nearTrackConflict q.trk p.preventive_trk)) ||
        (p.gs_alerting && decide (q.groundSpeedLength > 0) &&
          (decide (p.preventive_gs < 0) ||
            q.nearGroundSpeedConflict q.gs p.preventive_gs)) ||
        (p.vs_alerting && decide (q.verticalSpeedLength > 0) &&
          (decide (p.preventive_vs < 0) ||
            q.nearVerticalSpeedConflict q.vs p.preventive_vs)) then 2
    else 1
  else 1

end Daidalus

/-! ## Vectors, positions and aircraft states -/

/-- Modelled from the spec: a 3D vector (`Vect3.h` is not among the sources). -/
structure Vect3 where
  x : ℚ
  y : ℚ
  z : ℚ
deriving DecidableEq, Repr

namespace Vect3

/-- Component-wise sum (`Vect3::Add`). -/
def Add (a b : Vect3) : Vect3 := ⟨a.x + b.x, a.y + b.y, a.z + b.z⟩

/-- Component-wise difference (`Vect3::Sub`). -/
def Sub (a b : Vect3) : Vect3 := ⟨a.x - b.x, a.y - b.y, a.z - b.z⟩

/-- The point `s + t * v` (`Vect3::linear`). -/
def linear (s v : Vect3) (t : ℚ) : Vect3 := ⟨s.x + t * v.x, s.y + t * v.y, s.z + t * v.z⟩

/-- The zero vector. -/
def ZERO : Vect3 := ⟨0, 0, 0⟩

end Vect3

/-- Modelled from the spec: a velocity, "three components stored internally as Cartesian
(v_x, v_y, v_z)"; `Velocity::Add` and `Velocity::Sub` are the component-wise operations. -/
abbrev Velocity := Vect3

/-- Modelled from the spec: a position, "either (lat, lon, alt) on a spherical Earth or
(x, y, z) in a local Cartesian frame", with its coordinate system tag. -/
structure Position where
  latlon : Bool
  coords : Vect3
deriving DecidableEq, Repr

/-- The great-circle projection `GreatCircle::linear_initial(lla, v, t)` used for positions in
latitude and longitude; it is made of trigonometric functions and is taken as a parameter. -/
abbrev GreatCircleLinear := Vect3 → Velocity → ℚ → Vect3

namespace Position

/-- Modelled from the spec: `Position::linear(v, t)`, the linear projection `p + t * v` in
Euclidean coordinates and the great-circle projection in latitude and longitude; the coordinate
system is kept. -/
def linear (gc : GreatCircleLinear) (p : Position) (v : Velocity) (t : ℚ) : Position :=
  if p.latlon then ⟨true, gc p.coords v t⟩ else ⟨false, Vect3.linear p.coords v t⟩

end Position

/-- The record `TrafficState`: identifier, position and velocity. -/
structure TrafficState where
  id : String
  pos : Position
  vel : Velocity
deriving DecidableEq, Repr

namespace TrafficState

/-- Translation of `TrafficState::isLatLon`. -/
def isLatLon (ac : TrafficState) : Bool := ac.pos.latlon

/-- Translation of `TrafficState::linearProjection`. -/
def linearProjection (gc : GreatCircleLinear) (ac : TrafficState) (offset : ℚ) : TrafficState :=
  ⟨ac.id, Position.linear gc ac.pos ac.vel offset, ac.vel⟩

end TrafficState

/-- The record `OwnshipState`: a `TrafficState` whose constructor also caches the projection of
its own position and velocity, a function of the three fields kept here. -/
structure OwnshipState extends TrafficState
deriving DecidableEq, Repr

namespace OwnshipState

/-- Translation of `OwnshipState::linearProjectionOwn`. -/
def linearProjectionOwn (gc : GreatCircleLinear) (own : OwnshipState) (offset : ℚ) :
    OwnshipState :=
  ⟨⟨own.id, Position.linear gc own.pos own.vel offset, own.vel⟩⟩

end OwnshipState

/-! ## Error log -/

/-- The static members of `ErrorLog` and the number formatting used in its messages
(`Fm4` and `Fm0` of `format.cpp` print floating-point numbers), taken as parameters. -/
structure ErrorLogStatics where
  global_purge_flag : Int
  limit : Int
  Fm4 : ℚ → String
  Fm0 : ℚ → String

/-- State of `ErrorLog`. -/
structure ErrorLog where
  name : String
  message : String
  has_error : Bool
  fail_fast : Bool
  console_out : Bool
  local_purge_flag : Int
  size : Int
deriving DecidableEq, Repr

namespace ErrorLog

/-- The line feed that ends every entry of the log. -/
def newline : String := String.singleton (Char.ofNat 10)

/-- The trimming at the end of `addError`/`addWarning` when `size > limit`:
`message.erase(0, message.find(newline))` followed by `message.insert(0, "[...] ")`. -/
def trim (message : String) : String :=
  "[...] " ++ String.mk (message.data.dropWhile (fun c => c != Char.ofNat 10))

/-- Translation of `ErrorLog::addError`. Neither the console output nor the `exit(1)` of the
fail-fast mode is part of the state; no caller in the sources turns fail-fast on. -/
def addError (g : ErrorLogStatics) (e : ErrorLog) (msg : String) : ErrorLog :=
  { e with
    has_error := true
    local_purge_flag := g.global_purge_flag
    message :=
      if e.size + 1 > g.limit then
        trim ((if e.local_purge_flag ≠ g.global_purge_flag then "" else e.message) ++
          "ERROR in " ++ e.name ++ ": " ++ msg ++ newline)
      else (if e.local_purge_flag ≠ g.global_purge_flag then "" else e.message) ++
          "ERROR in " ++ e.name ++ ": " ++ msg ++ newline
    size := if e.size + 1 > g.limit then e.size + 1 - 1 else e.size + 1 }

/-- Translation of `ErrorLog::addWarning`. -/
def addWarning (g : ErrorLogStatics) (e : ErrorLog) (msg : String) : ErrorLog :=
  { e with
    has_error := if e.local_purge_flag ≠ g.global_purge_flag then false else e.has_error
    local_purge_flag := g.global_purge_flag
    message :=
      if e.size + 1 > g.limit then
        trim ((if e.local_purge_flag ≠ g.global_purge_flag then "" else e.message) ++
          "Warning in " ++ e.name ++ ": " ++ msg ++ newline)
      else (if e.local_purge_flag ≠ g.global_purge_flag then "" else e.message) ++
          "Warning in " ++ e.name ++ ": " ++ msg ++ newline
    size := if e.size + 1 > g.limit then e.size + 1 - 1 else e.size + 1 }

/-- Translation of `ErrorLog::isPositive`: the answer and the log. -/
def isPositive (g : ErrorLogStatics) (e : ErrorLog) (method : String) (val : ℚ) :
    Bool × ErrorLog :=
  if val > 0 then (true, e)
  else (false, addError g e ("[" ++ method ++ "] Value " ++ g.Fm4 val ++ " is non positive"))

/-- Translation of `ErrorLog::isNonNegative`: the answer and the log. -/
def isNonNegative (g : ErrorLogStatics) (e : ErrorLog) (method : String) (val : ℚ) :
    Bool × ErrorLog :=
  if val ≥ 0 then (true, e)
  else (false, addError g e ("[" ++ method ++ "] Value " ++ g.Fm4 val ++ " is negative"))

/-- Translation of `ErrorLog::hasError`. -/
def hasError (e : ErrorLog) : Bool := e.has_error

/-- The log built by the constructor `ErrorLog(name)`. -/
def init (g : ErrorLogStatics) (name : String) : ErrorLog :=
  { name := name, message := "", has_error := false, fail_fast := false, console_out := false,
    local_purge_flag := g.global_purge_flag, size := 0 }

end ErrorLog

/-! ## Parameter block -/

/-- The class `DaidalusParameters` as a whole: the alerting fields of the structure
`DaidalusParameters` above, the remaining fields and the error log. -/
structure ParameterBlock extends DaidalusParameters where
  error : ErrorLog
  DTHR : ℚ
  ZTHR : ℚ
  TTHR : ℚ
  TCOA : ℚ
  D : ℚ
  H : ℚ
  min_gs : ℚ
  max_gs : ℚ
  min_vs : ℚ
  max_vs : ℚ
  min_alt : ℚ
  max_alt : ℚ
  implicit_bands : Bool
  trk_step : ℚ
  gs_step : ℚ
  vs_step : ℚ
  alt_step : ℚ
  horizontal_accel : ℚ
  vertical_accel : ℚ
  turn_rate : ℚ
  bank_angle : ℚ
  vertical_rate : ℚ
  recovery_stability_time : ℚ
  max_recovery_time : ℚ
  min_horizontal_recovery : ℚ
  min_vertical_recovery : ℚ
  conflict_crit : Bool
  recovery_crit : Bool
  recovery_trk : Bool
  recovery_gs : Bool
  recovery_vs : Bool
  ca_bands : Bool

namespace ParameterBlock

/-- Translation of `DaidalusParameters::setDTHR(double)`. -/
def setDTHR (g : ErrorLogStatics) (p : ParameterBlock) (val : ℚ) : ParameterBlock :=
  if (ErrorLog.isPositive g p.error "DaidalusParameters::setDTHR" val).1 = true then
    { p with error := (ErrorLog.isPositive g p.error "DaidalusParameters::setDTHR" val).2, DTHR := val }
  else { p with error := (ErrorLog.isPositive g p.error "DaidalusParameters::setDTHR" val).2 }

/-- Translation of `DaidalusParameters::setZTHR(double)`. -/
def setZTHR (g : ErrorLogStatics) (p : ParameterBlock) (val : ℚ) : ParameterBlock :=
  if (ErrorLog.isPositive g p.error "DaidalusParameters::setZTHR" val).1 = true then
    { p with error := (ErrorLog.isPositive g p.error "DaidalusParameters::setZTHR" val).2, ZTHR := val }
  else { p with error := (ErrorLog.isPositive g p.error "DaidalusParameters::setZTHR" val).2 }

/-- Translation of `DaidalusParameters::setD(double)`. -/
def setD (g : ErrorLogStatics) (p : ParameterBlock) (val : ℚ) : ParameterBlock :=
  if (ErrorLog.isPositive g p.error "DaidalusParameters::setD" val).1 = true then
    { p with error := (ErrorLog.isPositive g p.error "DaidalusParameters::setD" val).2, D := val }
  else { p with error := (ErrorLog.isPositive g p.error "DaidalusParameters::setD" val).2 }

/-- Translation of `DaidalusParameters::setH(double)`. -/
def setH (g : ErrorLogStatics) (p : ParameterBlock) (val : ℚ) : ParameterBlock :=
  if (ErrorLog.isPositive g p.error "DaidalusParameters::setH" val).1 = true then
    { p with error := (ErrorLog.isPositive g p.error "DaidalusParameters::setH" val).2, H := val }
  else { p with error := (ErrorLog.isPositive g p.error "DaidalusParameters::setH" val).2 }

/-- Translation of `DaidalusParameters::setLookaheadTime(double)`. -/
def setLookaheadTime (g : ErrorLogStatics) (p : ParameterBlock) (val : ℚ) : ParameterBlock :=
  if (ErrorLog.isPositive g p.error "DaidalusParameters::setLookaheadTime" val).1 = true then
    { p with error := (ErrorLog.isPositive g p.error "DaidalusParameters::setLookaheadTime" val).2, lookahead_time := val }
  else { p with error := (ErrorLog.isPositive g p.error "DaidalusParameters::setLookaheadTime" val).2 }

/-- Translation of `DaidalusParameters::setMaxGroundSpeed(double)`. -/
def setMaxGroundSpeed (g : ErrorLogStatics) (p : ParameterBlock) (val : ℚ) : ParameterBlock :=
  if (ErrorLog.isPositive g p.error "DaidalusParameters::setMaxGroundSpeed" val).1 = true then
    { p with error := (ErrorLog.isPositive g p.error "DaidalusParameters::setMaxGroundSpeed" val).2, max_gs := val }
  else { p with error := (ErrorLog.isPositive g p.error "DaidalusParameters::setMaxGroundSpeed" val).2 }

/-- Translation of `DaidalusParameters::setMaxAltitude(double)`. -/
def setMaxAltitude (g : ErrorLogStatics) (p : ParameterBlock) (val : ℚ) : ParameterBlock :=
  if (ErrorLog.isPositive g p.error "DaidalusParameters::setMaxAltitude" val).1 = true then
    { p with error := (ErrorLog.isPositive g p.error "DaidalusParameters::setMaxAltitude" val).2, max_alt := val }
  else { p with error := (ErrorLog.isPositive g p.error "DaidalusParameters::setMaxAltitude" val).2 }

/-- Translation of `DaidalusParameters::setTrackStep(double)`. -/
def setTrackStep (g : ErrorLogStatics) (p : ParameterBlock) (val : ℚ) : ParameterBlock :=
  if (ErrorLog.isPositive g p.error "DaidalusParameters::setTrackStep" val).1 = true then
    { p with error := (ErrorLog.isPositive g p.error "DaidalusParameters::setTrackStep" val).2, trk_step := val }
  else { p with error := (ErrorLog.isPositive g p.error "DaidalusParameters::setTrackStep" val).2 }

/-- Translation of `DaidalusParameters::setGroundSpeedStep(double)`. -/
def setGroundSpeedStep (g : ErrorLogStatics) (p : ParameterBlock) (val : ℚ) : ParameterBlock :=
  if (ErrorLog.isPositive g p.error "DaidalusParameters::setGroundSpeedStep" val).1 = true then
    { p with error := (ErrorLog.isPositive g p.error "DaidalusParameters::setGroundSpeedStep" val).2, gs_step := val }
  else { p with error := (ErrorLog.isPositive g p.error "DaidalusParameters::setGroundSpeedStep" val).2 }

/-- Translation of `DaidalusParameters::setVerticalSpeedStep(double)`. -/
def setVerticalSpeedStep (g : ErrorLogStatics) (p : ParameterBlock) (val : ℚ) : ParameterBlock :=
  if (ErrorLog.isPositive g p.error "DaidalusParameters::setVerticalSpeedStep" val).1 = true then
    { p with error := (ErrorLog.isPositive g p.error "DaidalusParameters::setVerticalSpeedStep" val).2, vs_step := val }
  else { p with error := (ErrorLog.isPositive g p.error "DaidalusParameters::setVerticalSpeedStep" val).2 }

/-- Translation of `DaidalusParameters::setAltitudeStep(double)`. -/
def setAltitudeStep (g : ErrorLogStatics) (p : ParameterBlock) (val : ℚ) : ParameterBlock :=
  if (ErrorLog.isPositive g p.error "DaidalusParameters::setAltitudeStep" val).1 = true then
    { p with error := (ErrorLog.isPositive g p.error "DaidalusParameters::setAltitudeStep" val).2, alt_step := val }
  else { p with error := (ErrorLog.isPositive g p.error "DaidalusParameters::setAltitudeStep" val).2 }

/-- Translation of `DaidalusParameters::setTimeToWarningThreshold(double)`. -/
def setTimeToWarningThreshold (g : ErrorLogStatics) (p : ParameterBlock) (val : ℚ) : ParameterBlock :=
  if (ErrorLog.isPositive g p.error "DaidalusParameters::setTimeToWarning" val).1 = true then
    { p with error := (ErrorLog.isPositive g p.error "DaidalusParameters::setTimeToWarning" val).2, time_to_warning := val }
  else { p with error := (ErrorLog.isPositive g p.error "DaidalusParameters::setTimeToWarning" val).2 }

/-- Translation of `DaidalusParameters::setTTHR(double)`. -/
def setTTHR (g : ErrorLogStatics) (p : ParameterBlock) (val : ℚ) : ParameterBlock :=
  if (ErrorLog.isNonNegative g p.error "DaidalusParameters::setTTHR" val).1 = true then
    { p with error := (ErrorLog.isNonNegative g p.error "DaidalusParameters::setTTHR" val).2, TTHR := val }
  else { p with error := (ErrorLog.isNonNegative g p.error "DaidalusParameters::setTTHR" val).2 }

/-- Translation of `DaidalusParameters::setTCOA(double)`. -/
def setTCOA (g : ErrorLogStatics) (p : ParameterBlock) (val : ℚ) : ParameterBlock :=
  if (ErrorLog.isNonNegative g p.error "DaidalusParameters::setTCOA" val).1 = true then
    { p with error := (ErrorLog.isNonNegative g p.error "DaidalusParameters::setTCOA" val).2, TCOA := val }
  else { p with error := (ErrorLog.isNonNegative g p.error "DaidalusParameters::setTCOA" val).2 }

/-- Translation of `DaidalusParameters::setAlertingTime(double)`. -/
def setAlertingTime (g : ErrorLogStatics) (p : ParameterBlock) (val : ℚ) : ParameterBlock :=
  if (ErrorLog.isNonNegative g p.error "DaidalusParameters::setAlertingTime" val).1 = true then
    { p with error := (ErrorLog.isNonNegative g p.error "DaidalusParameters::setAlertingTime" val).2, alerting_time := val }
  else { p with error := (ErrorLog.isNonNegative g p.error "DaidalusParameters::setAlertingTime" val).2 }

/-- Translation of `DaidalusParameters::setMinGroundSpeed(double)`. -/
def setMinGroundSpeed (g : ErrorLogStatics) (p : ParameterBlock) (val : ℚ) : ParameterBlock :=
  if (ErrorLog.isNonNegative g p.error "DaidalusParameters::setMinGroundSpeed" val).1 = true then
    { p with error := (ErrorLog.isNonNegative g p.error "DaidalusParameters::setMinGroundSpeed" val).2, min_gs := val }
  else { p with error := (ErrorLog.isNonNegative g p.error "DaidalusParameters::setMinGroundSpeed" val).2 }

/-- Translation of `DaidalusParameters::setMinAltitude(double)`. -/
def setMinAltitude (g : ErrorLogStatics) (p : ParameterBlock) (val : ℚ) : ParameterBlock :=
  if (ErrorLog.isNonNegative g p.error "DaidalusParameters::setMinAltitude" val).1 = true then
    { p with error := (ErrorLog.isNonNegative g p.error "DaidalusParameters::setMinAltitude" val).2, min_alt := val }
  else { p with error := (ErrorLog.isNonNegative g p.error "DaidalusParameters::setMinAltitude" val).2 }

/-- Translation of `DaidalusParameters::setHorizontalAcceleration(double)`. -/
def setHorizontalAcceleration (g : ErrorLogStatics) (p : ParameterBlock) (val : ℚ) : ParameterBlock :=
  if (ErrorLog.isNonNegative g p.error "DaidalusParameters::setHorizontalAcceleration" val).1 = true then
    { p with error := (ErrorLog.isNonNegative g p.error "DaidalusParameters::setHorizontalAcceleration" val).2, horizontal_accel := val }
  else { p with error := (ErrorLog.isNonNegative g p.error "DaidalusParameters::setHorizontalAcceleration" val).2 }

/-- Translation of `DaidalusParameters::setVerticalAcceleration(double)`. -/
def setVerticalAcceleration (g : ErrorLogStatics) (p : ParameterBlock) (val : ℚ) : ParameterBlock :=
  if (ErrorLog.isNonNegative g p.error "DaidalusParameters::setVerticalAcceleration" val).1 = true then
    { p with error := (ErrorLog.isNonNegative g p.error "DaidalusParameters::setVerticalAcceleration" val).2, vertical_accel := val }
  else { p with error := (ErrorLog.isNonNegative g p.error "DaidalusParameters::setVerticalAcceleration" val).2 }

/-- Translation of `DaidalusParameters::setTurnRate(double)`. -/
def setTurnRate (g : ErrorLogStatics) (p : ParameterBlock) (val : ℚ) : ParameterBlock :=
  if (ErrorLog.isNonNegative g p.error "DaidalusParameters::setTurnRate" val).1 = true then
    { p with error := (ErrorLog.isNonNegative g p.error "DaidalusParameters::setTurnRate" val).2, turn_rate := val }
  else { p with error := (ErrorLog.isNonNegative g p.error "DaidalusParameters::setTurnRate" val).2 }

/-- Translation of `DaidalusParameters::setBankAngle(double)`. -/
def setBankAngle (g : ErrorLogStatics) (p : ParameterBlock) (val : ℚ) : ParameterBlock :=
  if (ErrorLog.isNonNegative g p.error "DaidalusParameters::setBankAngle" val).1 = true then
    { p with error := (ErrorLog.isNonNegative g p.error "DaidalusParameters::setBankAngle" val).2, bank_angle := val }
  else { p with error := (ErrorLog.isNonNegative g p.error "DaidalusParameters::setBankAngle" val).2 }

/-- Translation of `DaidalusParameters::setVerticalRate(double)`. -/
def setVerticalRate (g : ErrorLogStatics) (p : ParameterBlock) (val : ℚ) : ParameterBlock :=
  if (ErrorLog.isNonNegative g p.error "DaidalusParameters::setVerticalRate" val).1 = true then
    { p with error := (ErrorLog.isNonNegative g p.error "DaidalusParameters::setVerticalRate" val).2, vertical_rate := val }
  else { p with error := (ErrorLog.isNonNegative g p.error "DaidalusParameters::setVerticalRate" val).2 }

/-- Translation of `DaidalusParameters::setRecoveryStabilityTime(double)`. -/
def setRecoveryStabilityTime (g : ErrorLogStatics) (p : ParameterBlock) (val : ℚ) : ParameterBlock :=
  if (ErrorLog.isNonNegative g p.error "DaidalusParameters::setRecoveryStabilityTime" val).1 = true then
    { p with error := (ErrorLog.isNonNegative g p.error "DaidalusParameters::setRecoveryStabilityTime" val).2, recovery_stability_time := val }
  else { p with error := (ErrorLog.isNonNegative g p.error "DaidalusParameters::setRecoveryStabilityTime" val).2 }

/-- Translation of `DaidalusParameters::setMaxRecoveryTime(double)`. -/
def setMaxRecoveryTime (g : ErrorLogStatics) (p : ParameterBlock) (val : ℚ) : ParameterBlock :=
  if (ErrorLog.isNonNegative g p.error "DaidalusParameters::setMaxRecoveryTime" val).1 = true then
    { p with error := (ErrorLog.isNonNegative g p.error "DaidalusParameters::setMaxRecoveryTime" val).2, max_recovery_time := val }
  else { p with error := (ErrorLog.isNonNegative g p.error "DaidalusParameters::setMaxRecoveryTime" val).2 }

/-- Translation of `DaidalusParameters::setMinHorizontalRecovery(double)`. -/
def setMinHorizontalRecovery (g : ErrorLogStatics) (p : ParameterBlock) (val : ℚ) : ParameterBlock :=
  if (ErrorLog.isNonNegative g p.error "DaidalusParameters::setMinHorizontalRecovery" val).1 = true then
    { p with error := (ErrorLog.isNonNegative g p.error "DaidalusParameters::setMinHorizontalRecovery" val).2, min_horizontal_recovery := val }
  else { p with error := (ErrorLog.isNonNegative g p.error "DaidalusParameters::setMinHorizontalRecovery" val).2 }

/-- Translation of `DaidalusParameters::setMinVerticalRecovery(double)`. -/
def setMinVerticalRecovery (g : ErrorLogStatics) (p : ParameterBlock) (val : ℚ) : ParameterBlock :=
  if (ErrorLog.isNonNegative g p.error "DaidalusParameters::setMinVerticalRecovery" val).1 = true then
    { p with error := (ErrorLog.isNonNegative g p.error "DaidalusParameters::setMinVerticalRecovery" val).2, min_vertical_recovery := val }
  else { p with error := (ErrorLog.isNonNegative g p.error "DaidalusParameters::setMinVerticalRecovery" val).2 }

/-- Translation of `DaidalusParameters::hasError`. -/
def hasError (p : ParameterBlock) : Bool := p.error.hasError

/-- The validating setters of `DaidalusParameters`, named by the field they guard. -/
inductive Validated where
  | DTHR
  | ZTHR
  | D
  | H
  | lookahead_time
  | max_gs
  | max_alt
  | trk_step
  | gs_step
  | vs_step
  | alt_step
  | time_to_warning
  | TTHR
  | TCOA
  | alerting_time
  | min_gs
  | min_alt
  | horizontal_accel
  | vertical_accel
  | turn_rate
  | bank_angle
  | vertical_rate
  | recovery_stability_time
  | max_recovery_time
  | min_horizontal_recovery
  | min_vertical_recovery
deriving DecidableEq, Repr

namespace Validated

/-- The setter requires a positive value (`isPositive`); the others require a non-negative
value (`isNonNegative`). -/
def positive : Validated → Bool
  | DTHR => true
  | ZTHR => true
  | D => true
  | H => true
  | lookahead_time => true
  | max_gs => true
  | max_alt => true
  | trk_step => true
  | gs_step => true
  | vs_step => true
  | alt_step => true
  | time_to_warning => true
  | TTHR => false
  | TCOA => false
  | alerting_time => false
  | min_gs => false
  | min_alt => false
  | horizontal_accel => false
  | vertical_accel => false
  | turn_rate => false
  | bank_angle => false
  | vertical_rate => false
  | recovery_stability_time => false
  | max_recovery_time => false
  | min_horizontal_recovery => false
  | min_vertical_recovery => false

/-- The value satisfies the requirement of the setter. -/
def admissible (f : Validated) (val : ℚ) : Prop :=
  if f.positive = true then 0 < val else 0 ≤ val

/-- The setter of the source that guards the field. -/
def setter : Validated → ErrorLogStatics → ParameterBlock → ℚ → ParameterBlock
  | DTHR => setDTHR
  | ZTHR => setZTHR
  | D => setD
  | H => setH
  | lookahead_time => setLookaheadTime
  | max_gs => setMaxGroundSpeed
  | max_alt => setMaxAltitude
  | trk_step => setTrackStep
  | gs_step => setGroundSpeedStep
  | vs_step => setVerticalSpeedStep
  | alt_step => setAltitudeStep
  | time_to_warning => setTimeToWarningThreshold
  | TTHR => setTTHR
  | TCOA => setTCOA
  | alerting_time => setAlertingTime
  | min_gs => setMinGroundSpeed
  | min_alt => setMinAltitude
  | horizontal_accel => setHorizontalAcceleration
  | vertical_accel => setVerticalAcceleration
  | turn_rate => setTurnRate
  | bank_angle => setBankAngle
  | vertical_rate => setVerticalRate
  | recovery_stability_time => setRecoveryStabilityTime
  | max_recovery_time => setMaxRecoveryTime
  | min_horizontal_recovery => setMinHorizontalRecovery
  | min_vertical_recovery => setMinVerticalRecovery

/-- The plain assignment of the field, every other field and the error log kept. -/
def assign : Validated → ParameterBlock → ℚ → ParameterBlock
  | DTHR, p, val => { p with DTHR := val }
  | ZTHR, p, val => { p with ZTHR := val }
  | D, p, val => { p with D := val }
  | H, p, val => { p with H := val }
  | lookahead_time, p, val => { p with lookahead_time := val }
  | max_gs, p, val => { p with max_gs := val }
  | max_alt, p, val => { p with max_alt := val }
  | trk_step, p, val => { p with trk_step := val }
  | gs_step, p, val => { p with gs_step := val }
  | vs_step, p, val => { p with vs_step := val }
  | alt_step, p, val => { p with alt_step := val }
  | time_to_warning, p, val => { p with time_to_warning := val }
  | TTHR, p, val => { p with TTHR := val }
  | TCOA, p, val => { p with TCOA := val }
  | alerting_time, p, val => { p with alerting_time := val }
  | min_gs, p, val => { p with min_gs := val }
  | min_alt, p, val => { p with min_alt := val }
  | horizontal_accel, p, val => { p with horizontal_accel := val }
  | vertical_accel, p, val => { p with vertical_accel := val }
  | turn_rate, p, val => { p with turn_rate := val }
  | bank_angle, p, val => { p with bank_angle := val }
  | vertical_rate, p, val => { p with vertical_rate := val }
  | recovery_stability_time, p, val => { p with recovery_stability_time := val }
  | max_recovery_time, p, val => { p with max_recovery_time := val }
  | min_horizontal_recovery, p, val => { p with min_horizontal_recovery := val }
  | min_vertical_recovery, p, val => { p with min_vertical_recovery := val }

/-- The getter of the field. -/
def get : Validated → ParameterBlock → ℚ
  | DTHR, p => p.DTHR
  | ZTHR, p => p.ZTHR
  | D, p => p.D
  | H, p => p.H
  | lookahead_time, p => p.lookahead_time
  | max_gs, p => p.max_gs
  | max_alt, p => p.max_alt
  | trk_step, p => p.trk_step
  | gs_step, p => p.gs_step
  | vs_step, p => p.vs_step
  | alt_step, p => p.alt_step
  | time_to_warning, p => p.time_to_warning
  | TTHR, p => p.TTHR
  | TCOA, p => p.TCOA
  | alerting_time, p => p.alerting_time
  | min_gs, p => p.min_gs
  | min_alt, p => p.min_alt
  | horizontal_accel, p => p.horizontal_accel
  | vertical_accel, p => p.vertical_accel
  | turn_rate, p => p.turn_rate
  | bank_angle, p => p.bank_angle
  | vertical_rate, p => p.vertical_rate
  | recovery_stability_time, p => p.recovery_stability_time
  | max_recovery_time, p => p.max_recovery_time
  | min_horizontal_recovery, p => p.min_horizontal_recovery
  | min_vertical_recovery, p => p.min_vertical_recovery

end Validated

end ParameterBlock

/-! ## The `Daidalus` object -/

/-- A state-based detector as the `Daidalus` object uses it: the query
`conflictDetection(so,vo,si,vi,B,T)` on the projected vectors of an ownship/intruder pair. -/
abbrev StateDetector := OwnshipState → TrafficState → ℚ → ℚ → LossData

/-- The virtual function `UrgencyStrategy::mostUrgentAircraft(detector, ownship, traffic, T)`;
`none` stands for `TrafficState::INVALID`. -/
abbrev UrgencyStrategy := StateDetector → OwnshipState → List TrafficState → ℚ → Option TrafficState

/-- State of the class `Daidalus`. -/
structure Daidalus where
  acs : List TrafficState
  times : List ℚ
  wind_vector : Velocity
  alertor : List (AlertThresholds (OwnshipState × TrafficState))
  info : AlertInfo (OwnshipState × TrafficState)
  detector : StateDetector
  urgency_strat : UrgencyStrategy
  parameters : ParameterBlock
  error : ErrorLog

namespace Daidalus

/-- The four tiers built by `Daidalus::MOPS()`: alerting times 60, 55, 40 and 20 seconds and the
default minimum duration 0; the four `WCV_TAUMOD` detectors (tables 1 to 4) are parameters. -/
def MOPS {S : Type} (d1 d2 d3 d4 : S → ℚ → ℚ → LossData) : List (AlertThresholds S) :=
  [⟨d1, 60, 0⟩, ⟨d2, 55, 0⟩, ⟨d3, 40, 0⟩, ⟨d4, 20, 0⟩]

/-- Translation of `Daidalus::getCurrentTime`. -/
def getCurrentTime (d : Daidalus) : ℚ :=
  match d.times with
  | [] => 0
  | t :: _ => t

/-- Translation of `Daidalus::getLookaheadTime`. -/
def getLookaheadTime (d : Daidalus) : ℚ := d.parameters.lookahead_time

/-- Translation of `Daidalus::reset`. -/
def reset (d : Daidalus) : Daidalus :=
  { d with acs := [], times := [], wind_vector := Vect3.ZERO }

/-- Translation of `Daidalus::setAircraftList`: after `reset()`, `acl` is inserted at the
beginning of `acs` and `acl.size()` copies of `time` at the beginning of `times`. -/
def setAircraftList (d : Daidalus) (acl : List TrafficState) (time : ℚ) : Daidalus :=
  { (reset d) with
    acs := acl ++ (reset d).acs
    times := List.replicate acl.length time ++ (reset d).times }

/-- The body of the loop of `setWindField` for the aircraft `ac` with timestamp `t`. -/
def rewind (gc : GreatCircleLinear) (old_wind wind : Velocity) (current : ℚ)
    (ac : TrafficState) (t : ℚ) : TrafficState :=
  ⟨ac.id,
    Position.linear gc (Position.linear gc ac.pos ac.vel (-(current - t)))
      (Vect3.Sub (Vect3.Add ac.vel old_wind) wind) (current - t),
    Vect3.Sub (Vect3.Add ac.vel old_wind) wind⟩

/-- The loop `for (int i=0; i < acs.size(); ++i)` of `setWindField` over `acs[i]` and
`times[i]`. Reading `times[i]` past the end of `times` is undefined in the source; it cannot
happen when `times.size() = acs.size()`, and the aircraft is then left as it is. -/
def rewind_all (gc : GreatCircleLinear) (old_wind wind : Velocity) (current : ℚ) :
    List TrafficState → List ℚ → List TrafficState
  | [], _ => []
  | ac :: acs, [] => ac :: rewind_all gc old_wind wind current acs []
  | ac :: acs, t :: ts =>
    rewind gc old_wind wind current ac t :: rewind_all gc old_wind wind current acs ts

/-- Translation of `Daidalus::setWindField`. -/
def setWindField (gc : GreatCircleLinear) (d : Daidalus) (wind : Velocity) : Daidalus :=
  { d with
    acs := rewind_all gc d.wind_vector wind (getCurrentTime d) d.acs d.times
    wind_vector := wind }

/-- Translation of `Daidalus::setOwnshipState(id, pos, vel, time)`. -/
def setOwnshipState (d : Daidalus) (id : String) (pos : Position) (vel : Velocity) (time : ℚ) :
    Daidalus :=
  { d with acs := [⟨id, pos, Vect3.Sub vel d.wind_vector⟩], times := [time] }

/-- Translation of `Daidalus::addTrafficState(id, pos, vel, time)`: the returned index and the
new state. -/
def addTrafficState (gc : GreatCircleLinear) (d : Daidalus) (id : String) (pos : Position)
    (vel : Velocity) (time : ℚ) : Int × Daidalus :=
  if d.acs.length = 0 then (0, setOwnshipState d id pos vel time)
  else
    (((d.acs ++ [(⟨id, Position.linear gc pos (Vect3.Sub vel d.wind_vector)
          (getCurrentTime d - time), Vect3.Sub vel d.wind_vector⟩ : TrafficState)]).length : Int)
        - 1,
      { d with
        acs := d.acs ++ [⟨id, Position.linear gc pos (Vect3.Sub vel d.wind_vector)
          (getCurrentTime d - time), Vect3.Sub vel d.wind_vector⟩]
        times := d.times ++ [time] })

/-- Translation of `Daidalus::getOwnshipStateAt`: the state (`none` for
`OwnshipState::INVALID`) and the object with its error log. -/
def getOwnshipStateAt (g : ErrorLogStatics) (gc : GreatCircleLinear) (d : Daidalus) (time : ℚ) :
    Option OwnshipState × Daidalus :=
  match d.acs with
  | [] => (none, { d with error := d.error.addError g "getOwnshipAt: no ownship state information" })
  | own :: _ =>
    if time - getCurrentTime d = 0 then (some ⟨own⟩, d)
    else (some ⟨own.linearProjection gc (time - getCurrentTime d)⟩, d)

/-- Translation of `Daidalus::getTrafficStateAt`. -/
def getTrafficStateAt (g : ErrorLogStatics) (gc : GreatCircleLinear) (d : Daidalus) (ac : Int)
    (time : ℚ) : Option TrafficState × Daidalus :=
  if ac < 0 ∨ ac ≥ (d.acs.length : Int) then
    (none, { d with error := d.error.addError g "getTrafficAt: no traffic state information" })
  else if ac = 0 then
    ((getOwnshipStateAt g gc d time).1.map OwnshipState.toTrafficState,
      (getOwnshipStateAt g gc d time).2)
  else
    match d.acs[ac.toNat]? with
    | some aci =>
      if time - getCurrentTime d = 0 then (some aci, d)
      else (some (aci.linearProjection gc (time - getCurrentTime d)), d)
    | none => (none, d)

/-- Translation of `Daidalus::mostUrgentAircraftAt`; every stored state is valid, so that the
tests `isValid()` of the source are true for the states found. -/
def mostUrgentAircraftAt (g : ErrorLogStatics) (gc : GreatCircleLinear) (d : Daidalus) (t : ℚ) :
    Option TrafficState × Daidalus :=
  if d.parameters.conflict_crit = true ∨ d.parameters.recovery_crit = true then
    match (getOwnshipStateAt g gc d t).1 with
    | some ownship =>
      (d.urgency_strat d.detector ownship
          (((List.range d.acs.length).drop 1).foldl
            (fun (acc : List TrafficState × Daidalus) i =>
              match (getTrafficStateAt g gc acc.2 (i : Int) t).1 with
              | some ac => (acc.1 ++ [ac], (getTrafficStateAt g gc acc.2 (i : Int) t).2)
              | none => (acc.1, (getTrafficStateAt g gc acc.2 (i : Int) t).2))
            ([], (getOwnshipStateAt g gc d t).2)).1
          (alerting_time d.parameters.toDaidalusParameters),
        (((List.range d.acs.length).drop 1).foldl
            (fun (acc : List TrafficState × Daidalus) i =>
              match (getTrafficStateAt g gc acc.2 (i : Int) t).1 with
              | some ac => (acc.1 ++ [ac], (getTrafficStateAt g gc acc.2 (i : Int) t).2)
              | none => (acc.1, (getTrafficStateAt g gc acc.2 (i : Int) t).2))
            ([], (getOwnshipStateAt g gc d t).2)).2)
    | none => (none, (getOwnshipStateAt g gc d t).2)
  else (none, d)

/-- What `bands_alerting(own, ac, repac)` reads from the bands that it builds for the pair:
taken as a parameter of the alerting functions. -/
abbrev AlertingViews := OwnshipState → TrafficState → Option TrafficState → AlertingView

/-- Translation of `Daidalus::alertingAt`: the alert level and the object (error log, alert
information). The `Fm0` renderings of the arguments are part of the error messages. -/
def alertingAt (g : ErrorLogStatics) (gc : GreatCircleLinear) (views : AlertingViews)
    (d : Daidalus) (ac : Int) (time : ℚ) : Int × Daidalus :=
  if ac ≤ 0 ∨ ac ≥ (d.acs.length : Int) then
    (-1, { d with error := (d.error.addError g
      ("alerting: aircraft index " ++ g.Fm0 (ac : ℚ) ++ " out of bounds")) })
  else if time < getCurrentTime d ∨ time > getCurrentTime d + getLookaheadTime d then
    (-1, { d with error := (d.error.addError g
      ("alerting: time " ++ g.Fm0 time ++ " not in time horizon for aircraft " ++
        g.Fm0 (ac : ℚ))) })
  else
    match d.acs[0]?, d.acs[ac.toNat]? with
    | some a0, some aci =>
      if d.parameters.bands_alerting = true then
        (bands_alerting d.parameters.toDaidalusParameters
            (views ⟨a0.linearProjection gc (time - getCurrentTime d)⟩
              (aci.linearProjection gc (time - getCurrentTime d))
              (mostUrgentAircraftAt g gc d time).1),
          (mostUrgentAircraftAt g gc d time).2)
      else
        ((thresholds_alerting d.alertor
            (⟨a0.linearProjection gc (time - getCurrentTime d)⟩,
              aci.linearProjection gc (time - getCurrentTime d))).1,
          { d with info := (thresholds_alerting d.alertor
            (⟨a0.linearProjection gc (time - getCurrentTime d)⟩,
              aci.linearProjection gc (time - getCurrentTime d))).2 })
    | _, _ => (-1, d)

/-- Translation of `Daidalus::alerting`. -/
def alerting (g : ErrorLogStatics) (gc : GreatCircleLinear) (views : AlertingViews)
    (d : Daidalus) (ac : Int) : Int × Daidalus :=
  if d.acs.isEmpty then
    (-1, { d with error := d.error.addError g "alerting: traffic list is empty" })
  else alertingAt g gc views d ac (getCurrentTime d)

end Daidalus

/-! ## The `KinematicBands` object -/

namespace KinematicRealBands

/-- Translation of `KinematicRealBands::setMin`. -/
def setMin (b : KinematicRealBands) (val : ℚ) : KinematicRealBands :=
  if val ≠ b.min then reset { b with min := val } else b

/-- Translation of `KinematicRealBands::setMax`. -/
def setMax (b : KinematicRealBands) (val : ℚ) : KinematicRealBands :=
  if val ≠ b.max then reset { b with max := val } else b

/-- Translation of `KinematicRealBands::setStep`. -/
def setStep (b : KinematicRealBands) (val : ℚ) : KinematicRealBands :=
  if val > 0 ∧ val ≠ b.step then reset { b with step := val } else b

/-- Translation of `KinematicRealBands::setRecovery`. -/
def setRecovery (b : KinematicRealBands) (flag : Bool) : KinematicRealBands :=
  if flag ≠ b.do_recovery then reset { b with do_recovery := flag } else b

/-- Translation of `KinematicRealBands::recoveryTime`: `recompute(core)`, then the stored
recovery time. -/
def recoveryTime {AC : Type} (cfg : ACCoRDConfig) (core : KinematicBandsCore AC) (axis : Axis AC)
    (b : KinematicRealBands) : ℚ × KinematicRealBands :=
  ((recompute cfg core axis b).recovery_time, recompute cfg core axis b)

/-- The cache of the band is invalidated: it is marked outdated, its interval and region lists
are empty and its recovery time is 0 (the state left by `reset`). -/
def Invalidated (b : KinematicRealBands) : Prop :=
  b.outdated = true ∧ b.intervals = [] ∧ b.regions = [] ∧ b.recovery_time = 0

end KinematicRealBands

/-- State of `KinematicTrkBands`. -/
structure KinematicTrkBands extends KinematicRealBands where
  turn_rate : ℚ
  bank_angle : ℚ

/-- State of `KinematicGsBands`. -/
structure KinematicGsBands extends KinematicRealBands where
  horizontal_accel : ℚ

/-- State of `KinematicVsBands`. -/
structure KinematicVsBands extends KinematicRealBands where
  vertical_accel : ℚ

namespace KinematicTrkBands

/-- Translation of `KinematicTrkBands::setTurnRate`. -/
def setTurnRate (b : KinematicTrkBands) (val : ℚ) : KinematicTrkBands :=
  if val ≥ 0 ∧ val ≠ b.turn_rate then
    { b with turn_rate := val, toKinematicRealBands := b.toKinematicRealBands.reset }
  else b

/-- Translation of `KinematicTrkBands::setBankAngle`. -/
def setBankAngle (b : KinematicTrkBands) (val : ℚ) : KinematicTrkBands :=
  if val ≥ 0 ∧ val ≠ b.bank_angle then
    { b with bank_angle := val, toKinematicRealBands := b.toKinematicRealBands.reset }
  else b

end KinematicTrkBands

namespace KinematicGsBands

/-- Translation of `KinematicGsBands::setHorizontalAcceleration`. -/
def setHorizontalAcceleration (b : KinematicGsBands) (val : ℚ) : KinematicGsBands :=
  if val ≥ 0 ∧ val ≠ b.horizontal_accel then
    { b with horizontal_accel := val, toKinematicRealBands := b.toKinematicRealBands.reset }
  else b

end KinematicGsBands

namespace KinematicVsBands

/-- Translation of `KinematicVsBands::setVerticalAcceleration`. -/
def setVerticalAcceleration (b : KinematicVsBands) (val : ℚ) : KinematicVsBands :=
  if val ≥ 0 ∧ val ≠ b.vertical_accel then
    { b with vertical_accel := val, toKinematicRealBands := b.toKinematicRealBands.reset }
  else b

end KinematicVsBands

namespace KinematicAltBands

/-- Translation of `KinematicAltBands::setVerticalRate`. -/
def setVerticalRate (b : KinematicAltBands) (val : ℚ) : KinematicAltBands :=
  if val ≥ 0 ∧ val ≠ b.vertical_rate then
    { b with vertical_rate := val, toKinematicRealBands := b.toKinematicRealBands.reset }
  else b

/-- Translation of `KinematicAltBands::setVerticalAcceleration`. -/
def setVerticalAcceleration (b : KinematicAltBands) (val : ℚ) : KinematicAltBands :=
  if val ≥ 0 ∧ val ≠ b.vertical_accel then
    { b with vertical_accel := val, toKinematicRealBands := b.toKinematicRealBands.reset }
  else b

end KinematicAltBands

/-- The data members of `KinematicBandsCore` as the `KinematicBands` object stores them
(`none` for `OwnshipState::INVALID`). The structure `KinematicBandsCore AC` above is the same
object as the band computation reads it, with the detector queries attached. -/
structure CoreState where
  ownship : Option OwnshipState
  traffic : List TrafficState
  detector : StateDetector
  implicit_bands : Bool
  lookahead : ℚ
  alerting_time : ℚ
  max_recovery_time : ℚ
  recovery_stability_time : ℚ
  criteria_ac : String
  conflict_crit : Bool
  recovery_crit : Bool
  min_horizontal_recovery : ℚ
  min_vertical_recovery : ℚ
  ca_bands : Bool

namespace CoreState

/-- Translation of `KinematicBandsCore::hasOwnship`. -/
def hasOwnship (c : CoreState) : Bool := c.ownship.isSome

/-- Translation of `KinematicBandsCore::hasTraffic`. -/
def hasTraffic (c : CoreState) : Bool := decide (c.traffic.length > 0)

/-- Translation of `KinematicBandsCore::alertingTime`. -/
def alertingTime (c : CoreState) : ℚ :=
  if c.alerting_time > 0 then c.alerting_time else c.lookahead

/-- Translation of `KinematicBandsCore::clear`. -/
def clear (c : CoreState) : CoreState := { c with ownship := none, traffic := [] }

/-- The core as the band computation reads it. `RA_HMD` and `RA_ZTHR` are the `TCASTable`
look-ups for the ownship; a detector query without ownship reports no conflict, as the spec says
of malformed queries. -/
def view (RA_HMD RA_ZTHR : Option OwnshipState → ℚ) (c : CoreState) :
    KinematicBandsCore TrafficState :=
  { hasOwnship := c.hasOwnship, traffic := c.traffic, implicit_bands := c.implicit_bands,
    lookahead := c.lookahead, alerting_time := c.alerting_time,
    max_recovery_time := c.max_recovery_time,
    recovery_stability_time := c.recovery_stability_time, criteria_ac := c.criteria_ac,
    conflict_crit := c.conflict_crit, recovery_crit := c.recovery_crit,
    min_horizontal_recovery := c.min_horizontal_recovery,
    min_vertical_recovery := c.min_vertical_recovery, ca_bands := c.ca_bands,
    getId := TrafficState.id,
    checkConflict := fun ac B T =>
      match c.ownship with
      | some own => c.detector own ac B T
      | none => ⟨1, 0⟩,
    RA_HMD := RA_HMD c.ownship, RA_ZTHR := RA_ZTHR c.ownship }

end CoreState

/-- State of the class `KinematicBands`. -/
structure KinematicBands where
  trk_band : KinematicTrkBands
  gs_band : KinematicGsBands
  vs_band : KinematicVsBands
  alt_band : KinematicAltBands
  core : CoreState
  error : ErrorLog

/-- What the constructors of `KinematicBands` read: the current content of the singleton
`DefaultDaidalusParameters`, the constant `2*Pi` of the track range and the default cylinder
detector `CDCylinder()`. -/
structure BandsDefaults where
  parameters : ParameterBlock
  twoPi : ℚ
  cylinder : StateDetector

namespace KinematicBands

/-- Translation of `KinematicBands::reset`. -/
def reset (b : KinematicBands) : KinematicBands :=
  { b with
    trk_band := { b.trk_band with toKinematicRealBands := b.trk_band.toKinematicRealBands.reset }
    gs_band := { b.gs_band with toKinematicRealBands := b.gs_band.toKinematicRealBands.reset }
    vs_band := { b.vs_band with toKinematicRealBands := b.vs_band.toKinematicRealBands.reset }
    alt_band := { b.alt_band with toKinematicRealBands := b.alt_band.toKinematicRealBands.reset } }

/-- All four per-axis band caches are invalidated. -/
def Invalidated (b : KinematicBands) : Prop :=
  b.trk_band.toKinematicRealBands.Invalidated ∧ b.gs_band.toKinematicRealBands.Invalidated ∧
  b.vs_band.toKinematicRealBands.Invalidated ∧ b.alt_band.toKinematicRealBands.Invalidated

/-- Translation of the constructor `KinematicBands(const Detection3D* det)`. -/
def create (g : ErrorLogStatics) (dflt : BandsDefaults) (det : StateDetector) : KinematicBands :=
  { core :=
      { ownship := none, traffic := [], detector := det,
        implicit_bands := dflt.parameters.implicit_bands,
        lookahead := dflt.parameters.lookahead_time,
        alerting_time := dflt.parameters.alerting_time,
        max_recovery_time := dflt.parameters.max_recovery_time,
        recovery_stability_time := dflt.parameters.recovery_stability_time,
        criteria_ac := "_NoAc_",
        conflict_crit := dflt.parameters.conflict_crit,
        recovery_crit := dflt.parameters.recovery_crit,
        min_horizontal_recovery := dflt.parameters.min_horizontal_recovery,
        min_vertical_recovery := dflt.parameters.min_vertical_recovery,
        ca_bands := dflt.parameters.ca_bands },
    trk_band :=
      { toKinematicRealBands := KinematicRealBands.setRecovery
          { outdated := true, intervals := [], regions := [], recovery_time := 0, min := 0,
            max := dflt.twoPi, step := dflt.parameters.trk_step,
            do_recovery := dflt.parameters.recovery_trk } false,
        turn_rate := dflt.parameters.turn_rate, bank_angle := dflt.parameters.bank_angle },
    gs_band :=
      { toKinematicRealBands := KinematicRealBands.setRecovery
          { outdated := true, intervals := [], regions := [], recovery_time := 0,
            min := dflt.parameters.min_gs, max := dflt.parameters.max_gs,
            step := dflt.parameters.gs_step, do_recovery := dflt.parameters.recovery_gs } false,
        horizontal_accel := dflt.parameters.horizontal_accel },
    vs_band :=
      { toKinematicRealBands := KinematicRealBands.setRecovery
          { outdated := true, intervals := [], regions := [], recovery_time := 0,
            min := dflt.parameters.min_vs, max := dflt.parameters.max_vs,
            step := dflt.parameters.vs_step, do_recovery := dflt.parameters.recovery_vs } false,
        vertical_accel := dflt.parameters.vertical_accel },
    alt_band :=
      { outdated := true, intervals := [], regions := [], recovery_time := 0,
        min := dflt.parameters.min_alt, max := dflt.parameters.max_alt,
        step := dflt.parameters.alt_step, do_recovery := false,
        vertical_rate := dflt.parameters.vertical_rate,
        vertical_accel := dflt.parameters.vertical_accel },
    error := ErrorLog.init g "KinematicBands" }

/-- Translation of the default constructor `KinematicBands()`. -/
def createDefault (g : ErrorLogStatics) (dflt : BandsDefaults) : KinematicBands :=
  create g dflt dflt.cylinder

/-- Translation of `KinematicBands::hasOwnship`. -/
def hasOwnship (b : KinematicBands) : Bool := b.core.hasOwnship

/-- Translation of `KinematicBands::isLatLon`. -/
def isLatLon (b : KinematicBands) : Bool :=
  match b.core.ownship with
  | some own => own.isLatLon
  | none => false

/-- Translation of `KinematicBands::setOwnship(OwnshipState)`. -/
def setOwnship (b : KinematicBands) (own : OwnshipState) : KinematicBands :=
  reset { b with core := { b.core with ownship := some own } }

/-- Translation of `KinematicBands::addTraffic(const TrafficState&)`. -/
def addTraffic (g : ErrorLogStatics) (b : KinematicBands) (ac : TrafficState) : KinematicBands :=
  if !b.hasOwnship then
    { b with error := b.error.addError g "addTraffic: setOwnship must be called before addTraffic." }
  else if ac.isLatLon ≠ b.isLatLon then
    { b with error := b.error.addError g "addTraffic: inconsistent use of lat/lon and Euclidean data." }
  else reset { b with core := { b.core with traffic := b.core.traffic ++ [ac] } }

/-- Translation of `KinematicBands::clear`. -/
def clear (b : KinematicBands) : KinematicBands := { b with core := b.core.clear }

/-- Translation of `KinematicBands::setCoreDetectionPtr`. -/
def setCoreDetectionPtr (b : KinematicBands) (det : StateDetector) : KinematicBands :=
  reset { b with core := { b.core with detector := det } }

/-- Translation of `KinematicBands::linearProjection`. -/
def linearProjection (gc : GreatCircleLinear) (b : KinematicBands) (offset : ℚ) :
    KinematicBands :=
  if offset ≠ 0 then
    reset { b with core := { b.core with
      ownship := b.core.ownship.map (fun own => own.linearProjectionOwn gc offset)
      traffic := b.core.traffic.map (fun ac => ac.linearProjection gc offset) } }
  else b

/-- Translation of `KinematicBands::mostUrgentAircraft`. -/
def mostUrgentAircraft (b : KinematicBands) (strat : UrgencyStrategy) : Option TrafficState :=
  match b.core.ownship with
  | some own =>
    if (b.core.conflict_crit || b.core.recovery_crit) && b.core.hasTraffic then
      strat b.core.detector own b.core.traffic b.core.alertingTime
    else none
  | none => none

/-- Translation of `KinematicBands::setCriteriaAircraft(const std::string&)`. -/
def setCriteriaAircraft (b : KinematicBands) (id : String) : KinematicBands :=
  reset { b with core := { b.core with criteria_ac := id } }

/-- Translation of `KinematicBands::setCriteriaAircraft(UrgencyStrategy*)`; the identifier of
`TrafficState::INVALID` is `_NoAc_`. -/
def setCriteriaAircraftStrat (b : KinematicBands) (strat : UrgencyStrategy) : KinematicBands :=
  setCriteriaAircraft b
    (match mostUrgentAircraft b strat with
      | some ac => ac.id
      | none => "_NoAc_")

end KinematicBands

namespace KinematicTrkBands

/-- The inherited `KinematicRealBands::setStep` on `KinematicTrkBands`. -/
def setStep (b : KinematicTrkBands) (val : ℚ) : KinematicTrkBands :=
  { b with toKinematicRealBands := b.toKinematicRealBands.setStep val }

/-- The inherited `KinematicRealBands::setRecovery` on `KinematicTrkBands`. -/
def setRecovery (b : KinematicTrkBands) (flag : Bool) : KinematicTrkBands :=
  { b with toKinematicRealBands := b.toKinematicRealBands.setRecovery flag }

end KinematicTrkBands

namespace KinematicGsBands

/-- The inherited `KinematicRealBands::setMin` on `KinematicGsBands`. -/
def setMin (b : KinematicGsBands) (val : ℚ) : KinematicGsBands :=
  { b with toKinematicRealBands := b.toKinematicRealBands.setMin val }

/-- The inherited `KinematicRealBands::setMax` on `KinematicGsBands`. -/
def setMax (b : KinematicGsBands) (val : ℚ) : KinematicGsBands :=
  { b with toKinematicRealBands := b.toKinematicRealBands.setMax val }

/-- The inherited `KinematicRealBands::setStep` on `KinematicGsBands`. -/
def setStep (b : KinematicGsBands) (val : ℚ) : KinematicGsBands :=
  { b with toKinematicRealBands := b.toKinematicRealBands.setStep val }

/-- The inherited `KinematicRealBands::setRecovery` on `KinematicGsBands`. -/
def setRecovery (b : KinematicGsBands) (flag : Bool) : KinematicGsBands :=
  { b with toKinematicRealBands := b.toKinematicRealBands.setRecovery flag }

end KinematicGsBands

namespace KinematicVsBands

/-- The inherited `KinematicRealBands::setMin` on `KinematicVsBands`. -/
def setMin (b : KinematicVsBands) (val : ℚ) : KinematicVsBands :=
  { b with toKinematicRealBands := b.toKinematicRealBands.setMin val }

/-- The inherited `KinematicRealBands::setMax` on `KinematicVsBands`. -/
def setMax (b : KinematicVsBands) (val : ℚ) : KinematicVsBands :=
  { b with toKinematicRealBands := b.toKinematicRealBands.setMax val }

/-- The inherited `KinematicRealBands::setStep` on `KinematicVsBands`. -/
def setStep (b : KinematicVsBands) (val : ℚ) : KinematicVsBands :=
  { b with toKinematicRealBands := b.toKinematicRealBands.setStep val }

/-- The inherited `KinematicRealBands::setRecovery` on `KinematicVsBands`. -/
def setRecovery (b : KinematicVsBands) (flag : Bool) : KinematicVsBands :=
  { b with toKinematicRealBands := b.toKinematicRealBands.setRecovery flag }

end KinematicVsBands

namespace KinematicAltBands

/-- The inherited `KinematicRealBands::setMin` on `KinematicAltBands`. -/
def setMin (b : KinematicAltBands) (val : ℚ) : KinematicAltBands :=
  { b with toKinematicRealBands := b.toKinematicRealBands.setMin val }

/-- The inherited `KinematicRealBands::setMax` on `KinematicAltBands`. -/
def setMax (b : KinematicAltBands) (val : ℚ) : KinematicAltBands :=
  { b with toKinematicRealBands := b.toKinematicRealBands.setMax val }

/-- The inherited `KinematicRealBands::setStep` on `KinematicAltBands`. -/
def setStep (b : KinematicAltBands) (val : ℚ) : KinematicAltBands :=
  { b with toKinematicRealBands := b.toKinematicRealBands.setStep val }

end KinematicAltBands

namespace KinematicBands

/-- Translation of `KinematicBands::setLookaheadTime(double)`. -/
def setLookaheadTime (g : ErrorLogStatics) (b : KinematicBands) (val : ℚ) : KinematicBands :=
  if (ErrorLog.isPositive g b.error "setLookaheadTime" val).1 = true ∧ val ≠ b.core.lookahead then
    reset { b with error := (ErrorLog.isPositive g b.error "setLookaheadTime" val).2,
                   core := { b.core with lookahead := val } }
  else { b with error := (ErrorLog.isPositive g b.error "setLookaheadTime" val).2 }

/-- Translation of `KinematicBands::setAlertingTime(double)`. -/
def setAlertingTime (g : ErrorLogStatics) (b : KinematicBands) (val : ℚ) : KinematicBands :=
  if (ErrorLog.isNonNegative g b.error "setAlertingTime" val).1 = true ∧ val ≠ b.core.alerting_time then
    reset { b with error := (ErrorLog.isNonNegative g b.error "setAlertingTime" val).2,
                   core := { b.core with alerting_time := val } }
  else { b with error := (ErrorLog.isNonNegative g b.error "setAlertingTime" val).2 }

/-- Translation of `KinematicBands::setMaxRecoveryTime(double)`. -/
def setMaxRecoveryTime (g : ErrorLogStatics) (b : KinematicBands) (val : ℚ) : KinematicBands :=
  if (ErrorLog.isNonNegative g b.error "setMaxRecoveryTime" val).1 = true ∧ val ≠ b.core.max_recovery_time then
    reset { b with error := (ErrorLog.isNonNegative g b.error "setMaxRecoveryTime" val).2,
                   core := { b.core with max_recovery_time := val } }
  else { b with error := (ErrorLog.isNonNegative g b.error "setMaxRecoveryTime" val).2 }

/-- Translation of `KinematicBands::setRecoveryStabilityTime(double)`. -/
def setRecoveryStabilityTime (g : ErrorLogStatics) (b : KinematicBands) (val : ℚ) : KinematicBands :=
  if (ErrorLog.isNonNegative g b.error "setRecoveryStabilityTime" val).1 = true ∧ val ≠ b.core.recovery_stability_time then
    reset { b with error := (ErrorLog.isNonNegative g b.error "setRecoveryStabilityTime" val).2,
                   core := { b.core with recovery_stability_time := val } }
  else { b with error := (ErrorLog.isNonNegative g b.error "setRecoveryStabilityTime" val).2 }

/-- Translation of `KinematicBands::setMinHorizontalRecovery(double)`. -/
def setMinHorizontalRecovery (g : ErrorLogStatics) (b : KinematicBands) (val : ℚ) : KinematicBands :=
  if (ErrorLog.isNonNegative g b.error "setMinHorizontalRecovery" val).1 = true ∧ val ≠ b.core.min_horizontal_recovery then
    reset { b with error := (ErrorLog.isNonNegative g b.error "setMinHorizontalRecovery" val).2,
                   core := { b.core with min_horizontal_recovery := val } }
  else { b with error := (ErrorLog.isNonNegative g b.error "setMinHorizontalRecovery" val).2 }

/-- Translation of `KinematicBands::setMinVerticalRecovery(double)`. -/
def setMinVerticalRecovery (g : ErrorLogStatics) (b : KinematicBands) (val : ℚ) : KinematicBands :=
  if (ErrorLog.isNonNegative g b.error "setMinVerticalRecovery" val).1 = true ∧ val ≠ b.core.min_vertical_recovery then
    reset { b with error := (ErrorLog.isNonNegative g b.error "setMinVerticalRecovery" val).2,
                   core := { b.core with min_vertical_recovery := val } }
  else { b with error := (ErrorLog.isNonNegative g b.error "setMinVerticalRecovery" val).2 }

/-- Translation of `KinematicBands::setImplicitBands`. -/
def setImplicitBands (b : KinematicBands) (flag : Bool) : KinematicBands :=
  if flag ≠ b.core.implicit_bands then reset { b with core := { b.core with implicit_bands := flag } } else b

/-- Translation of `KinematicBands::setCollisionAvoidanceBands`. -/
def setCollisionAvoidanceBands (b : KinematicBands) (flag : Bool) : KinematicBands :=
  if flag ≠ b.core.ca_bands then reset { b with core := { b.core with ca_bands := flag } } else b

/-- Translation of `KinematicBands::setConflictCriteria`. -/
def setConflictCriteria (b : KinematicBands) (flag : Bool) : KinematicBands :=
  reset { b with core := { b.core with conflict_crit := flag } }

/-- Translation of `KinematicBands::setRecoveryCriteria`. -/
def setRecoveryCriteria (b : KinematicBands) (flag : Bool) : KinematicBands :=
  reset { b with core := { b.core with recovery_crit := flag } }

/-- Translation of `KinematicBands::setRepulsiveCriteria`. -/
def setRepulsiveCriteria (b : KinematicBands) (flag : Bool) : KinematicBands :=
  setRecoveryCriteria (setConflictCriteria b flag) flag

/-- Translation of `KinematicBands::setRecoveryBands`. -/
def setRecoveryBands (b : KinematicBands) (flag : Bool) : KinematicBands :=
  reset { b with trk_band := b.trk_band.setRecovery flag, gs_band := b.gs_band.setRecovery flag,
                 vs_band := b.vs_band.setRecovery flag }

/-- Translation of `KinematicBands::setRecoveryTrackBands`. -/
def setRecoveryTrackBands (b : KinematicBands) (flag : Bool) : KinematicBands :=
  reset { b with trk_band := b.trk_band.setRecovery flag }

/-- Translation of `KinematicBands::setRecoveryGroundSpeedBands`. -/
def setRecoveryGroundSpeedBands (b : KinematicBands) (flag : Bool) : KinematicBands :=
  reset { b with gs_band := b.gs_band.setRecovery flag }

/-- Translation of `KinematicBands::setRecoveryVerticalSpeedBands`. -/
def setRecoveryVerticalSpeedBands (b : KinematicBands) (flag : Bool) : KinematicBands :=
  reset { b with vs_band := b.vs_band.setRecovery flag }

/-- Translation of `KinematicBands::setTrackStep(double)`. -/
def setTrackStep (g : ErrorLogStatics) (b : KinematicBands) (val : ℚ) : KinematicBands :=
  if (ErrorLog.isPositive g b.error "setTrackStep" val).1 = true then
    reset { b with error := (ErrorLog.isPositive g b.error "setTrackStep" val).2,
                   trk_band := b.trk_band.setStep val }
  else { b with error := (ErrorLog.isPositive g b.error "setTrackStep" val).2 }

/-- Translation of `KinematicBands::setBankAngle(double)`. -/
def setBankAngle (g : ErrorLogStatics) (b : KinematicBands) (val : ℚ) : KinematicBands :=
  if (ErrorLog.isNonNegative g b.error "setBankAngle" val).1 = true then
    reset { b with error := (ErrorLog.isNonNegative g b.error "setBankAngle" val).2,
                   trk_band := b.trk_band.setBankAngle val }
  else { b with error := (ErrorLog.isNonNegative g b.error "setBankAngle" val).2 }

/-- Translation of `KinematicBands::setTurnRate(double)`. -/
def setTurnRate (g : ErrorLogStatics) (b : KinematicBands) (val : ℚ) : KinematicBands :=
  if (ErrorLog.isNonNegative g b.error "setTurnRate" val).1 = true then
    reset { b with error := (ErrorLog.isNonNegative g b.error "setTurnRate" val).2,
                   trk_band := b.trk_band.setTurnRate val }
  else { b with error := (ErrorLog.isNonNegative g b.error "setTurnRate" val).2 }

/-- Translation of `KinematicBands::setMinGroundSpeed(double)`. -/
def setMinGroundSpeed (g : ErrorLogStatics) (b : KinematicBands) (val : ℚ) : KinematicBands :=
  if (ErrorLog.isNonNegative g b.error "setMinGroundSpeed" val).1 = true then
    reset { b with error := (ErrorLog.isNonNegative g b.error "setMinGroundSpeed" val).2,
                   gs_band := b.gs_band.setMin val }
  else { b with error := (ErrorLog.isNonNegative g b.error "setMinGroundSpeed" val).2 }

/-- Translation of `KinematicBands::setMaxGroundSpeed(double)`. -/
def setMaxGroundSpeed (g : ErrorLogStatics) (b : KinematicBands) (val : ℚ) : KinematicBands :=
  if (ErrorLog.isPositive g b.error "setMaxGroundSpeed" val).1 = true then
    reset { b with error := (ErrorLog.isPositive g b.error "setMaxGroundSpeed" val).2,
                   gs_band := b.gs_band.setMax val }
  else { b with error := (ErrorLog.isPositive g b.error "setMaxGroundSpeed" val).2 }

/-- Translation of `KinematicBands::setGroundSpeedStep(double)`. -/
def setGroundSpeedStep (g : ErrorLogStatics) (b : KinematicBands) (val : ℚ) : KinematicBands :=
  if (ErrorLog.isPositive g b.error "setGroundSpeedStep" val).1 = true then
    reset { b with error := (ErrorLog.isPositive g b.error "setGroundSpeedStep" val).2,
                   gs_band := b.gs_band.setStep val }
  else { b with error := (ErrorLog.isPositive g b.error "setGroundSpeedStep" val).2 }

/-- Translation of `KinematicBands::setHorizontalAcceleration(double)`. -/
def setHorizontalAcceleration (g : ErrorLogStatics) (b : KinematicBands) (val : ℚ) : KinematicBands :=
  if (ErrorLog.isNonNegative g b.error "setHorizontalAcceleration" val).1 = true then
    reset { b with error := (ErrorLog.isNonNegative g b.error "setHorizontalAcceleration" val).2,
                   gs_band := b.gs_band.setHorizontalAcceleration val }
  else { b with error := (ErrorLog.isNonNegative g b.error "setHorizontalAcceleration" val).2 }

/-- Translation of `KinematicBands::setVerticalSpeedStep(double)`. -/
def setVerticalSpeedStep (g : ErrorLogStatics) (b : KinematicBands) (val : ℚ) : KinematicBands :=
  if (ErrorLog.isPositive g b.error "setVerticalSpeedStep" val).1 = true then
    reset { b with error := (ErrorLog.isPositive g b.error "setVerticalSpeedStep" val).2,
                   vs_band := b.vs_band.setStep val }
  else { b with error := (ErrorLog.isPositive g b.error "setVerticalSpeedStep" val).2 }

/-- Translation of `KinematicBands::setMinAltitude(double)`. -/
def setMinAltitude (g : ErrorLogStatics) (b : KinematicBands) (val : ℚ) : KinematicBands :=
  if (ErrorLog.isNonNegative g b.error "setMinAltitude" val).1 = true then
    reset { b with error := (ErrorLog.isNonNegative g b.error "setMinAltitude" val).2,
                   alt_band := b.alt_band.setMin val }
  else { b with error := (ErrorLog.isNonNegative g b.error "setMinAltitude" val).2 }

/-- Translation of `KinematicBands::setMaxAltitude(double)`. -/
def setMaxAltitude (g : ErrorLogStatics) (b : KinematicBands) (val : ℚ) : KinematicBands :=
  if (ErrorLog.isPositive g b.error "setMaxAltitude" val).1 = true then
    reset { b with error := (ErrorLog.isPositive g b.error "setMaxAltitude" val).2,
                   alt_band := b.alt_band.setMax val }
  else { b with error := (ErrorLog.isPositive g b.error "setMaxAltitude" val).2 }

/-- Translation of `KinematicBands::setAltitudeStep(double)`. -/
def setAltitudeStep (g : ErrorLogStatics) (b : KinematicBands) (val : ℚ) : KinematicBands :=
  if (ErrorLog.isPositive g b.error "setAltitudeStep" val).1 = true then
    reset { b with error := (ErrorLog.isPositive g b.error "setAltitudeStep" val).2,
                   alt_band := b.alt_band.setStep val }
  else { b with error := (ErrorLog.isPositive g b.error "setAltitudeStep" val).2 }

/-- Translation of `KinematicBands::setVerticalRate(double)`. -/
def setVerticalRate (g : ErrorLogStatics) (b : KinematicBands) (val : ℚ) : KinematicBands :=
  if (ErrorLog.isNonNegative g b.error "setVerticalRate" val).1 = true then
    reset { b with error := (ErrorLog.isNonNegative g b.error "setVerticalRate" val).2,
                   alt_band := b.alt_band.setVerticalRate val }
  else { b with error := (ErrorLog.isNonNegative g b.error "setVerticalRate" val).2 }

/-- Translation of `KinematicBands::setMinVerticalSpeed(double)`. -/
def setMinVerticalSpeed (b : KinematicBands) (val : ℚ) : KinematicBands :=
  reset { b with vs_band := b.vs_band.setMin val }

/-- Translation of `KinematicBands::setMaxVerticalSpeed(double)`. -/
def setMaxVerticalSpeed (b : KinematicBands) (val : ℚ) : KinematicBands :=
  reset { b with vs_band := b.vs_band.setMax val }

/-- Translation of `KinematicBands::setVerticalAcceleration(double)`. -/
def setVerticalAcceleration (g : ErrorLogStatics) (b : KinematicBands) (val : ℚ) :
    KinematicBands :=
  if (ErrorLog.isNonNegative g b.error "setVerticalAcceleration" val).1 = true then
    reset { b with error := (ErrorLog.isNonNegative g b.error "setVerticalAcceleration" val).2,
                   vs_band := b.vs_band.setVerticalAcceleration val,
                   alt_band := b.alt_band.setVerticalAcceleration val }
  else { b with error := (ErrorLog.isNonNegative g b.error "setVerticalAcceleration" val).2 }

/-- The statements of `KinematicBands::setParameters` before the call of the façade setter
`setVerticalAcceleration`. -/
def setParameters_head (b : KinematicBands) (parameters : ParameterBlock) : KinematicBands :=
  { b with
    core := { b.core with alerting_time := parameters.alerting_time,
                          lookahead := parameters.lookahead_time,
                          implicit_bands := parameters.implicit_bands }
    gs_band := (((b.gs_band.setMin parameters.min_gs).setMax parameters.max_gs).setStep
      parameters.gs_step).setHorizontalAcceleration parameters.horizontal_accel
    vs_band := ((b.vs_band.setMin parameters.min_vs).setMax parameters.max_vs).setStep
      parameters.vs_step
    alt_band := ((b.alt_band.setMin parameters.min_alt).setMax parameters.max_alt).setStep
      parameters.alt_step
    trk_band := b.trk_band.setStep parameters.trk_step }

/-- The statements of `KinematicBands::setParameters` after the call of the façade setter
`setVerticalAcceleration`, the final `reset()` included. -/
def setParameters_tail (b : KinematicBands) (parameters : ParameterBlock) : KinematicBands :=
  reset { b with
    trk_band := ((b.trk_band.setTurnRate parameters.turn_rate).setBankAngle
      parameters.bank_angle).setRecovery parameters.recovery_trk
    alt_band := b.alt_band.setVerticalRate parameters.vertical_rate
    core := { b.core with recovery_stability_time := parameters.recovery_stability_time,
                          max_recovery_time := parameters.max_recovery_time,
                          min_horizontal_recovery := parameters.min_horizontal_recovery,
                          min_vertical_recovery := parameters.min_vertical_recovery,
                          ca_bands := parameters.ca_bands,
                          conflict_crit := parameters.conflict_crit,
                          recovery_crit := parameters.recovery_crit }
    gs_band := b.gs_band.setRecovery parameters.recovery_gs
    vs_band := b.vs_band.setRecovery parameters.recovery_vs }

/-- Translation of `KinematicBands::setParameters`. The four band objects and the core are
separate members, so that statements on different members commute. -/
def setParameters (g : ErrorLogStatics) (b : KinematicBands) (parameters : ParameterBlock) :
    KinematicBands :=
  setParameters_tail
    (setVerticalAcceleration g (setParameters_head b parameters) parameters.vertical_accel)
    parameters

/-- Translation of `KinematicBands::trackRecoveryTime`; `axis` stands for the virtual functions
of the track bands on the current ownship, and `RA_HMD`, `RA_ZTHR` for the `TCASTable`
look-ups. -/
def trackRecoveryTime (cfg : ACCoRDConfig) (RA_HMD RA_ZTHR : Option OwnshipState → ℚ)
    (axis : Axis TrafficState) (b : KinematicBands) : ℚ × KinematicBands :=
  ((KinematicRealBands.recoveryTime cfg (b.core.view RA_HMD RA_ZTHR) axis
      b.trk_band.toKinematicRealBands).1,
    { b with trk_band := { b.trk_band with
      toKinematicRealBands := (KinematicRealBands.recoveryTime cfg (b.core.view RA_HMD RA_ZTHR)
        axis b.trk_band.toKinematicRealBands).2 } })

/-- The operations of `KinematicBands` that write a parameter, the detector, the ownship or the
traffic list. -/
inductive Op where
  | setOwnship (own : OwnshipState)
  | addTraffic (ac : TrafficState)
  | setParameters (parameters : ParameterBlock)
  | setCoreDetectionPtr (det : StateDetector)
  | linearProjection (offset : ℚ)
  | clear
  | setCriteriaAircraft (id : String)
  | setCriteriaAircraftStrat (strat : UrgencyStrategy)
  | setLookaheadTime (val : ℚ)
  | setAlertingTime (val : ℚ)
  | setMaxRecoveryTime (val : ℚ)
  | setRecoveryStabilityTime (val : ℚ)
  | setMinHorizontalRecovery (val : ℚ)
  | setMinVerticalRecovery (val : ℚ)
  | setTrackStep (val : ℚ)
  | setBankAngle (val : ℚ)
  | setTurnRate (val : ℚ)
  | setMinGroundSpeed (val : ℚ)
  | setMaxGroundSpeed (val : ℚ)
  | setGroundSpeedStep (val : ℚ)
  | setHorizontalAcceleration (val : ℚ)
  | setVerticalSpeedStep (val : ℚ)
  | setMinAltitude (val : ℚ)
  | setMaxAltitude (val : ℚ)
  | setAltitudeStep (val : ℚ)
  | setVerticalRate (val : ℚ)
  | setVerticalAcceleration (val : ℚ)
  | setMinVerticalSpeed (val : ℚ)
  | setMaxVerticalSpeed (val : ℚ)
  | setImplicitBands (flag : Bool)
  | setCollisionAvoidanceBands (flag : Bool)
  | setConflictCriteria (flag : Bool)
  | setRecoveryCriteria (flag : Bool)
  | setRepulsiveCriteria (flag : Bool)
  | setRecoveryBands (flag : Bool)
  | setRecoveryTrackBands (flag : Bool)
  | setRecoveryGroundSpeedBands (flag : Bool)
  | setRecoveryVerticalSpeedBands (flag : Bool)

/-- The effect of an operation on the object. -/
def Op.apply (g : ErrorLogStatics) (gc : GreatCircleLinear) (b : KinematicBands) :
    Op → KinematicBands
  | Op.setOwnship own => b.setOwnship own
  | Op.addTraffic ac => b.addTraffic g ac
  | Op.setParameters parameters => b.setParameters g parameters
  | Op.setCoreDetectionPtr det => b.setCoreDetectionPtr det
  | Op.linearProjection offset => b.linearProjection gc offset
  | Op.clear => b.clear
  | Op.setCriteriaAircraft id => b.setCriteriaAircraft id
  | Op.setCriteriaAircraftStrat strat => b.setCriteriaAircraftStrat strat
  | Op.setLookaheadTime val => b.setLookaheadTime g val
  | Op.setAlertingTime val => b.setAlertingTime g val
  | Op.setMaxRecoveryTime val => b.setMaxRecoveryTime g val
  | Op.setRecoveryStabilityTime val => b.setRecoveryStabilityTime g val
  | Op.setMinHorizontalRecovery val => b.setMinHorizontalRecovery g val
  | Op.setMinVerticalRecovery val => b.setMinVerticalRecovery g val
  | Op.setTrackStep val => b.setTrackStep g val
  | Op.setBankAngle val => b.setBankAngle g val
  | Op.setTurnRate val => b.setTurnRate g val
  | Op.setMinGroundSpeed val => b.setMinGroundSpeed g val
  | Op.setMaxGroundSpeed val => b.setMaxGroundSpeed g val
  | Op.setGroundSpeedStep val => b.setGroundSpeedStep g val
  | Op.setHorizontalAcceleration val => b.setHorizontalAcceleration g val
  | Op.setVerticalSpeedStep val => b.setVerticalSpeedStep g val
  | Op.setMinAltitude val => b.setMinAltitude g val
  | Op.setMaxAltitude val => b.setMaxAltitude g val
  | Op.setAltitudeStep val => b.setAltitudeStep g val
  | Op.setVerticalRate val => b.setVerticalRate g val
  | Op.setVerticalAcceleration val => b.setVerticalAcceleration g val
  | Op.setMinVerticalSpeed val => b.setMinVerticalSpeed val
  | Op.setMaxVerticalSpeed val => b.setMaxVerticalSpeed val
  | Op.setImplicitBands flag => b.setImplicitBands flag
  | Op.setCollisionAvoidanceBands flag => b.setCollisionAvoidanceBands flag
  | Op.setConflictCriteria flag => b.setConflictCriteria flag
  | Op.setRecoveryCriteria flag => b.setRecoveryCriteria flag
  | Op.setRepulsiveCriteria flag => b.setRepulsiveCriteria flag
  | Op.setRecoveryBands flag => b.setRecoveryBands flag
  | Op.setRecoveryTrackBands flag => b.setRecoveryTrackBands flag
  | Op.setRecoveryGroundSpeedBands flag => b.setRecoveryGroundSpeedBands flag
  | Op.setRecoveryVerticalSpeedBands flag => b.setRecoveryVerticalSpeedBands flag

end KinematicBands

namespace Daidalus

/-- Translation of `Daidalus::getKinematicBandsAt`: the bands object and the `Daidalus` object
with its error log. -/
def getKinematicBandsAt (g : ErrorLogStatics) (gc : GreatCircleLinear) (dflt : BandsDefaults)
    (d : Daidalus) (time : ℚ) : KinematicBands × Daidalus :=
  match d.acs with
  | [] =>
    (KinematicBands.createDefault g dflt, { d with error := (d.error.addError g
      "getKinematicBandsAt: no aircraft information has been loaded") })
  | own :: traffic =>
    if time < getCurrentTime d ∨ time > getCurrentTime d + getLookaheadTime d then
      (KinematicBands.createDefault g dflt, { d with error := (d.error.addError g
        ("getKinematicBandsAt: time " ++ g.Fm0 time ++ " not within ownship plan limits")) })
    else
      (KinematicBands.setCriteriaAircraftStrat
        (traffic.foldl
          (fun bands ac =>
            KinematicBands.addTraffic g bands (ac.linearProjection gc (time - getCurrentTime d)))
          (KinematicBands.setOwnship
            (KinematicBands.setParameters g (KinematicBands.create g dflt d.detector)
              d.parameters)
            ⟨own.linearProjection gc (time - getCurrentTime d)⟩))
        d.urgency_strat, d)

end Daidalus

namespace Daidalus

/-- The detector `det` sees the states `st` enter violation at the time `e`: over a window
`[0, A]` with `e < A` it reports a loss interval that starts at `e`, and over a window with
`A ≤ e` it reports no conflict. -/
def EntersAt {S : Type} (det : S → ℚ → ℚ → LossData) (st : S) (e : ℚ) : Prop :=
  ∀ A, (e < A → (det st 0 A).time_in = e ∧ e < (det st 0 A).time_out) ∧
    (A ≤ e → (det st 0 A).conflict = false)

end Daidalus

namespace Daidalus

/-- The arguments of `alertingAt(ac, time)` are not valid: the index is not that of a traffic
aircraft or the time is outside `[current_time, current_time + lookahead]`. -/
def InvalidQuery (d : Daidalus) (ac : Int) (time : ℚ) : Prop :=
  ac ≤ 0 ∨ ac ≥ (d.acs.length : Int) ∨ time < getCurrentTime d ∨
    time > getCurrentTime d + getLookaheadTime d

end Daidalus

/-! ## Units, parameter store and bulk operations of the parameter block -/

/-- The conversions `Units::from(unit, value)` (to internal units) and `Units::to(unit, value)`
(from internal units); `Units.h` is not among the sources and both are taken as parameters. -/
structure Units where
  from_ : String → ℚ → ℚ
  to_ : String → ℚ → ℚ

/-- Modelled from the spec: an entry of `ParameterData`, a value in internal units or a
boolean. -/
inductive ParameterEntry where
  | value (v : ℚ)
  | bool (b : Bool)
deriving DecidableEq, Repr

/-- Modelled from the spec: `ParameterData` (not among the sources), the store behind the
"key = value" configuration format, as "a store that returns exactly the internal value or
boolean written under a key". The entries are listed with the last written first; a key is
looked up by its exact spelling. -/
structure ParameterData where
  entries : List (String × ParameterEntry)
deriving DecidableEq, Repr

namespace ParameterData

/-- The store built by the constructor `ParameterData()`. -/
def empty : ParameterData := ⟨[]⟩

/-- The entry that the store holds under `key`, if any. -/
def lookup (p : ParameterData) (key : String) : Option ParameterEntry :=
  (p.entries.find? (fun e => e.1 == key)).map Prod.snd

/-- Modelled from the spec: `ParameterData::contains`. -/
def contains (p : ParameterData) (key : String) : Bool := (p.lookup key).isSome

/-- Modelled from the spec: `ParameterData::getValue`, the value in internal units (0 when the
key holds no number). -/
def getValue (p : ParameterData) (key : String) : ℚ :=
  match p.lookup key with
  | some (ParameterEntry.value v) => v
  | _ => 0

/-- Modelled from the spec: `ParameterData::getBool` (false when the key holds no boolean). -/
def getBool (p : ParameterData) (key : String) : Bool :=
  match p.lookup key with
  | some (ParameterEntry.bool b) => b
  | _ => false

/-- Modelled from the spec: `ParameterData::setInternal(key, value, unit)`; the display unit
does not change the internal value. -/
def setInternal (p : ParameterData) (key : String) (val : ℚ) (_unit : String) : ParameterData :=
  ⟨(key, ParameterEntry.value val) :: p.entries⟩

/-- Modelled from the spec: `ParameterData::setBool(key, value)`. -/
def setBool (p : ParameterData) (key : String) (b : Bool) : ParameterData :=
  ⟨(key, ParameterEntry.bool b) :: p.entries⟩

end ParameterData

namespace ParameterBlock

/-- Translation of the constructor `DaidalusParameters()`. -/
def create (U : Units) (g : ErrorLogStatics) : ParameterBlock :=
  { DTHR := U.from_ "ft" 4000, ZTHR := U.from_ "ft" 450, TTHR := 35, TCOA := 0,
    D := U.from_ "nmi" 5, H := U.from_ "ft" 1000,
    alerting_time := 0, lookahead_time := 180, min_gs := 0, max_gs := U.from_ "knot" 700,
    min_vs := U.from_ "fpm" (-5000), max_vs := U.from_ "fpm" 5000,
    min_alt := U.from_ "ft" 500, max_alt := U.from_ "ft" 50000, implicit_bands := false,
    trk_step := U.from_ "deg" 1, gs_step := U.from_ "knot" 1, vs_step := U.from_ "fpm" 10,
    alt_step := U.from_ "ft" 500, horizontal_accel := U.from_ "m/s^2" 2,
    vertical_accel := U.from_ "m/s^2" 2, turn_rate := U.from_ "deg/s" 3,
    bank_angle := U.from_ "deg" 30, vertical_rate := 0,
    recovery_stability_time := 2, max_recovery_time := 0, min_horizontal_recovery := 0,
    min_vertical_recovery := 0, conflict_crit := false, recovery_crit := false,
    recovery_trk := true, recovery_gs := true, recovery_vs := true,
    bands_alerting := true, trk_alerting := true, gs_alerting := false, vs_alerting := true,
    preventive_alt := U.from_ "ft" 700, preventive_trk := U.from_ "deg" 10,
    preventive_gs := U.from_ "knot" 100, preventive_vs := U.from_ "fpm" 500,
    time_to_warning := 15, warning_when_recovery := false, ca_bands := false,
    error := ErrorLog.init g "Parameters" }

/-- Translation of `DaidalusParameters::setMinVerticalSpeed(double)`. -/
def setMinVerticalSpeed (p : ParameterBlock) (val : ℚ) : ParameterBlock := { p with min_vs := val }

/-- Translation of `DaidalusParameters::setMaxVerticalSpeed(double)`. -/
def setMaxVerticalSpeed (p : ParameterBlock) (val : ℚ) : ParameterBlock := { p with max_vs := val }

/-- Translation of `DaidalusParameters::setPreventiveAltitudeThreshold(double)`. -/
def setPreventiveAltitudeThreshold (p : ParameterBlock) (val : ℚ) : ParameterBlock := { p with preventive_alt := val }

/-- Translation of `DaidalusParameters::setPreventiveTrackThreshold(double)`. -/
def setPreventiveTrackThreshold (p : ParameterBlock) (val : ℚ) : ParameterBlock := { p with preventive_trk := val }

/-- Translation of `DaidalusParameters::setPreventiveGroundSpeedThreshold(double)`. -/
def setPreventiveGroundSpeedThreshold (p : ParameterBlock) (val : ℚ) : ParameterBlock := { p with preventive_gs := val }

/-- Translation of `DaidalusParameters::setPreventiveVerticalSpeedThreshold(double)`. -/
def setPreventiveVerticalSpeedThreshold (p : ParameterBlock) (val : ℚ) : ParameterBlock := { p with preventive_vs := val }

/-- Translation of `DaidalusParameters::setImplicitBands`. -/
def setImplicitBands (p : ParameterBlock) (flag : Bool) : ParameterBlock := { p with implicit_bands := flag }

/-- Translation of `DaidalusParameters::setWarningWhenRecovery`. -/
def setWarningWhenRecovery (p : ParameterBlock) (flag : Bool) : ParameterBlock := { p with warning_when_recovery := flag }

/-- Translation of `DaidalusParameters::setConflictCriteria`. -/
def setConflictCriteria (p : ParameterBlock) (flag : Bool) : ParameterBlock := { p with conflict_crit := flag }

/-- Translation of `DaidalusParameters::setRecoveryCriteria`. -/
def setRecoveryCriteria (p : ParameterBlock) (flag : Bool) : ParameterBlock := { p with recovery_crit := flag }

/-- Translation of `DaidalusParameters::setRecoveryTrackBands`. -/
def setRecoveryTrackBands (p : ParameterBlock) (flag : Bool) : ParameterBlock := { p with recovery_trk := flag }

/-- Translation of `DaidalusParameters::setRecoveryGroundSpeedBands`. -/
def setRecoveryGroundSpeedBands (p : ParameterBlock) (flag : Bool) : ParameterBlock := { p with recovery_gs := flag }

/-- Translation of `DaidalusParameters::setRecoveryVerticalSpeedBands`. -/
def setRecoveryVerticalSpeedBands (p : ParameterBlock) (flag : Bool) : ParameterBlock := { p with recovery_vs := flag }

/-- Translation of `DaidalusParameters::setCollisionAvoidanceBands`. -/
def setCollisionAvoidanceBands (p : ParameterBlock) (flag : Bool) : ParameterBlock := { p with ca_bands := flag }

/-- Translation of `DaidalusParameters::setBandsAlerting`. -/
def setBandsAlerting (p : ParameterBlock) (flag : Bool) : ParameterBlock := { p with bands_alerting := flag }

/-- Translation of `DaidalusParameters::setTrackAlerting`. -/
def setTrackAlerting (p : ParameterBlock) (flag : Bool) : ParameterBlock := { p with trk_alerting := flag }

/-- Translation of `DaidalusParameters::setGroundSpeedAlerting`. -/
def setGroundSpeedAlerting (p : ParameterBlock) (flag : Bool) : ParameterBlock := { p with gs_alerting := flag }

/-- Translation of `DaidalusParameters::setVerticalSpeedAlerting`. -/
def setVerticalSpeedAlerting (p : ParameterBlock) (flag : Bool) : ParameterBlock := { p with vs_alerting := flag }

/-- Translation of `DaidalusParameters::setRecoveryBands`. -/
def setRecoveryBands (p : ParameterBlock) (flag : Bool) : ParameterBlock :=
  { p with recovery_trk := flag, recovery_gs := flag, recovery_vs := flag }

/-- Translation of `DaidalusParameters::enableConflictCriteria`. -/
def enableConflictCriteria (p : ParameterBlock) : ParameterBlock := setConflictCriteria p true

/-- Translation of `DaidalusParameters::disableConflictCriteria`. -/
def disableConflictCriteria (p : ParameterBlock) : ParameterBlock := setConflictCriteria p false

/-- Translation of `DaidalusParameters::enableRecoveryCriteria`. -/
def enableRecoveryCriteria (p : ParameterBlock) : ParameterBlock := setRecoveryCriteria p true

/-- Translation of `DaidalusParameters::disableRecoveryCriteria`. -/
def disableRecoveryCriteria (p : ParameterBlock) : ParameterBlock := setRecoveryCriteria p false

/-- Translation of `DaidalusParameters::setRepulsiveCriteria`. -/
def setRepulsiveCriteria (p : ParameterBlock) (flag : Bool) : ParameterBlock :=
  setRecoveryCriteria (setConflictCriteria p flag) flag

/-- Translation of `DaidalusParameters::enableRepulsiveCriteria`. -/
def enableRepulsiveCriteria (p : ParameterBlock) : ParameterBlock := setRepulsiveCriteria p true

/-- Translation of `DaidalusParameters::disableRepulsiveCriteria`. -/
def disableRepulsiveCriteria (p : ParameterBlock) : ParameterBlock :=
  setRepulsiveCriteria p false

/-- Translation of `DaidalusParameters::isEnabledConflictCriteria`. -/
def isEnabledConflictCriteria (p : ParameterBlock) : Bool := p.conflict_crit

/-- Translation of `DaidalusParameters::isEnabledRecoveryCriteria`. -/
def isEnabledRecoveryCriteria (p : ParameterBlock) : Bool := p.recovery_crit

/-- Translation of `DaidalusParameters::updateParameterData`. -/
def updateParameterData (P : ParameterBlock) (p : ParameterData) : ParameterData :=
  p
    |>.setInternal "DTHR" P.DTHR "ft"
    |>.setInternal "ZTHR" P.ZTHR "ft"
    |>.setInternal "TTHR" P.TTHR "s"
    |>.setInternal "TCOA" P.TCOA "s"
    |>.setInternal "D" P.D "nmi"
    |>.setInternal "H" P.H "ft"
    |>.setInternal "alerting_time" P.alerting_time "s"
    |>.setInternal "lookahead_time" P.lookahead_time "s"
    |>.setInternal "min_gs" P.min_gs "kts"
    |>.setInternal "max_gs" P.max_gs "kts"
    |>.setInternal "min_vs" P.min_vs "fpm"
    |>.setInternal "max_vs" P.max_vs "fpm"
    |>.setInternal "min_alt" P.min_alt "ft"
    |>.setInternal "max_alt" P.max_alt "ft"
    |>.setBool "implicit_bands" P.implicit_bands
    |>.setInternal "trk_step" P.trk_step "deg"
    |>.setInternal "gs_step" P.gs_step "kts"
    |>.setInternal "vs_step" P.vs_step "fpm"
    |>.setInternal "alt_step" P.alt_step "ft"
    |>.setInternal "horizontal_accel" P.horizontal_accel "m/s^2"
    |>.setInternal "vertical_accel" P.vertical_accel "m/s^2"
    |>.setInternal "turn_rate" P.turn_rate "deg/s"
    |>.setInternal "bank_angle" P.bank_angle "deg"
    |>.setInternal "vertical_rate" P.vertical_rate "fpm"
    |>.setInternal "recovery_stability_time" P.recovery_stability_time "s"
    |>.setInternal "max_recovery_time" P.max_recovery_time "s"
    |>.setInternal "min_horizontal_recovery" P.min_horizontal_recovery "nmi"
    |>.setInternal "min_vertical_recovery" P.min_vertical_recovery "ft"
    |>.setBool "conflict_crit" P.conflict_crit
    |>.setBool "recovery_crit" P.recovery_crit
    |>.setBool "recovery_trk" P.recovery_trk
    |>.setBool "recovery_gs" P.recovery_gs
    |>.setBool "recovery_vs" P.recovery_vs
    |>.setBool "bands_alerting" P.bands_alerting
    |>.setBool "trk_alerting" P.trk_alerting
    |>.setBool "gs_alerting" P.gs_alerting
    |>.setBool "vs_alerting" P.vs_alerting
    |>.setInternal "preventive_alt" P.preventive_alt "ft"
    |>.setInternal "preventive_trk" P.preventive_trk "deg"
    |>.setInternal "preventive_gs" P.preventive_gs "knot"
    |>.setInternal "preventive_vs" P.preventive_vs "fpm"
    |>.setInternal "time_to_warning" P.time_to_warning "s"
    |>.setBool "warning_when_recovery" P.warning_when_recovery
    |>.setBool "ca_bands" P.ca_bands

/-- Translation of `DaidalusParameters::getParameters`. -/
def getParameters (P : ParameterBlock) : ParameterData :=
  updateParameterData P ParameterData.empty

/-- Translation of `DaidalusParameters::setParameters(const ParameterData&)`. Every statement
of the source is `if (p.contains(key)) field = p.getValue(key)` (or `getBool`) on one field, so
the result is given field by field; the thresholds `DTHR`, `ZTHR`, `TTHR`, `TCOA`, `D`, `H` are
read a second time under their lower-case keys, which take precedence. -/
def setParameters (P : ParameterBlock) (p : ParameterData) : ParameterBlock :=
  { P with
    DTHR := (if p.contains "dthr" then p.getValue "dthr"
      else if p.contains "DTHR" then p.getValue "DTHR" else P.DTHR)
    ZTHR := (if p.contains "zthr" then p.getValue "zthr"
      else if p.contains "ZTHR" then p.getValue "ZTHR" else P.ZTHR)
    TTHR := (if p.contains "tthr" then p.getValue "tthr"
      else if p.contains "TTHR" then p.getValue "TTHR" else P.TTHR)
    TCOA := (if p.contains "tcoa" then p.getValue "tcoa"
      else if p.contains "TCOA" then p.getValue "TCOA" else P.TCOA)
    D := (if p.contains "d" then p.getValue "d"
      else if p.contains "D" then p.getValue "D" else P.D)
    H := (if p.contains "h" then p.getValue "h"
      else if p.contains "H" then p.getValue "H" else P.H)
    alerting_time := (if p.contains "alerting_time" then p.getValue "alerting_time" else P.alerting_time)
    lookahead_time := (if p.contains "lookahead_time" then p.getValue "lookahead_time" else P.lookahead_time)
    min_gs := (if p.contains "min_gs" then p.getValue "min_gs" else P.min_gs)
    max_gs := (if p.contains "max_gs" then p.getValue "max_gs" else P.max_gs)
    min_vs := (if p.contains "min_vs" then p.getValue "min_vs" else P.min_vs)
    max_vs := (if p.contains "max_vs" then p.getValue "max_vs" else P.max_vs)
    min_alt := (if p.contains "min_alt" then p.getValue "min_alt" else P.min_alt)
    max_alt := (if p.contains "max_alt" then p.getValue "max_alt" else P.max_alt)
    implicit_bands := (if p.contains "implicit_bands" then p.getBool "implicit_bands" else P.implicit_bands)
    trk_step := (if p.contains "trk_step" then p.getValue "trk_step" else P.trk_step)
    gs_step := (if p.contains "gs_step" then p.getValue "gs_step" else P.gs_step)
    vs_step := (if p.contains "vs_step" then p.getValue "vs_step" else P.vs_step)
    alt_step := (if p.contains "alt_step" then p.getValue "alt_step" else P.alt_step)
    horizontal_accel := (if p.contains "horizontal_accel" then p.getValue "horizontal_accel" else P.horizontal_accel)
    vertical_accel := (if p.contains "vertical_accel" then p.getValue "vertical_accel" else P.vertical_accel)
    turn_rate := (if p.contains "turn_rate" then p.getValue "turn_rate" else P.turn_rate)
    bank_angle := (if p.contains "bank_angle" then p.getValue "bank_angle" else P.bank_angle)
    vertical_rate := (if p.contains "vertical_rate" then p.getValue "vertical_rate" else P.vertical_rate)
    recovery_stability_time := (if p.contains "recovery_stability_time" then p.getValue "recovery_stability_time" else P.recovery_stability_time)
    max_recovery_time := (if p.contains "max_recovery_time" then p.getValue "max_recovery_time" else P.max_recovery_time)
    min_horizontal_recovery := (if p.contains "min_horizontal_recovery" then p.getValue "min_horizontal_recovery" else P.min_horizontal_recovery)
    min_vertical_recovery := (if p.contains "min_vertical_recovery" then p.getValue "min_vertical_recovery" else P.min_vertical_recovery)
    conflict_crit := (if p.contains "conflict_crit" then p.getBool "conflict_crit" else P.conflict_crit)
    recovery_crit := (if p.contains "recovery_crit" then p.getBool "recovery_crit" else P.recovery_crit)
    recovery_trk := (if p.contains "recovery_trk" then p.getBool "recovery_trk" else P.recovery_trk)
    recovery_gs := (if p.contains "recovery_gs" then p.getBool "recovery_gs" else P.recovery_gs)
    recovery_vs := (if p.contains "recovery_vs" then p.getBool "recovery_vs" else P.recovery_vs)
    bands_alerting := (if p.contains "bands_alerting" then p.getBool "bands_alerting" else P.bands_alerting)
    trk_alerting := (if p.contains "trk_alerting" then p.getBool "trk_alerting" else P.trk_alerting)
    gs_alerting := (if p.contains "gs_alerting" then p.getBool "gs_alerting" else P.gs_alerting)
    vs_alerting := (if p.contains "vs_alerting" then p.getBool "vs_alerting" else P.vs_alerting)
    preventive_alt := (if p.contains "preventive_alt" then p.getValue "preventive_alt" else P.preventive_alt)
    preventive_trk := (if p.contains "preventive_trk" then p.getValue "preventive_trk" else P.preventive_trk)
    preventive_gs := (if p.contains "preventive_gs" then p.getValue "preventive_gs" else P.preventive_gs)
    preventive_vs := (if p.contains "preventive_vs" then p.getValue "preventive_vs" else P.preventive_vs)
    time_to_warning := (if p.contains "time_to_warning" then p.getValue "time_to_warning" else P.time_to_warning)
    warning_when_recovery := (if p.contains "warning_when_recovery" then p.getBool "warning_when_recovery" else P.warning_when_recovery)
    ca_bands := (if p.contains "ca_bands" then p.getBool "ca_bands" else P.ca_bands) }

/-- Translation of `DaidalusParameters::loadFromParameterData`. -/
def loadFromParameterData (P : ParameterBlock) (p : ParameterData) : ParameterBlock :=
  setParameters P p

/-- Translation of `DaidalusParameters::loadFromFile`, for the parameters `p` that the
`StateReader` found in the file. -/
def loadFromFile (P : ParameterBlock) (p : ParameterData) : ParameterBlock :=
  setParameters P p

/-- Translation of `Fmb` of `format.cpp`. -/
def Fmb (b : Bool) : String := if b then "true" else "false"

/-- Translation of `DaidalusParameters::val_unit`. -/
def val_unit (U : Units) (g : ErrorLogStatics) (val : ℚ) (u : String) : String :=
  g.Fm4 (U.to_ u val) ++ " [" ++ u ++ "] # " ++ g.Fm4 val ++ " [internal]"

/-- Translation of `DaidalusParameters::toString`. -/
def toString (U : Units) (g : ErrorLogStatics) (P : ParameterBlock) : String :=
  ""
    ++ "# WC Thresholds" ++ ErrorLog.newline
    ++ "DTHR = " ++ val_unit U g P.DTHR "ft" ++ ErrorLog.newline
    ++ "ZTHR = " ++ val_unit U g P.ZTHR "ft" ++ ErrorLog.newline
    ++ "TTHR = " ++ val_unit U g P.TTHR "s" ++ ErrorLog.newline
    ++ "TCOA = " ++ val_unit U g P.TCOA "s" ++ ErrorLog.newline
    ++ "# CD3D Thresholds" ++ ErrorLog.newline
    ++ "D = " ++ val_unit U g P.D "nmi" ++ ErrorLog.newline
    ++ "H = " ++ val_unit U g P.H "ft" ++ ErrorLog.newline
    ++ "# Conflict Bands Parameters" ++ ErrorLog.newline
    ++ "alerting_time = " ++ val_unit U g P.alerting_time "s" ++
      ". If set to 0, lookahead_time is used instead" ++ ErrorLog.newline
    ++ "lookahead_time = " ++ val_unit U g P.lookahead_time "s" ++ ErrorLog.newline
    ++ "min_gs = " ++ val_unit U g P.min_gs "knot" ++ ErrorLog.newline
    ++ "max_gs = " ++ val_unit U g P.max_gs "knot" ++ ErrorLog.newline
    ++ "min_vs = " ++ val_unit U g P.min_vs "fpm" ++ ErrorLog.newline
    ++ "max_vs = " ++ val_unit U g P.max_vs "fpm" ++ ErrorLog.newline
    ++ "min_alt = " ++ val_unit U g P.min_alt "ft" ++ ErrorLog.newline
    ++ "max_alt = " ++ val_unit U g P.max_alt "ft" ++ ErrorLog.newline
    ++ "implicit_bands = " ++ Fmb P.implicit_bands ++ ErrorLog.newline
    ++ "# Kinematic Bands Parameters" ++ ErrorLog.newline
    ++ "trk_step = " ++ val_unit U g P.trk_step "deg" ++ ErrorLog.newline
    ++ "gs_step = " ++ val_unit U g P.gs_step "knot" ++ ErrorLog.newline
    ++ "vs_step = " ++ val_unit U g P.vs_step "fpm" ++ ErrorLog.newline
    ++ "alt_step = " ++ val_unit U g P.alt_step "ft" ++ ErrorLog.newline
    ++ "horizontal_accel = " ++ val_unit U g P.horizontal_accel "m/s^2" ++ ErrorLog.newline
    ++ "vertical_accel = " ++ val_unit U g P.vertical_accel "m/s^2" ++ ErrorLog.newline
    ++ "turn_rate = " ++ val_unit U g P.turn_rate "deg/s" ++ ErrorLog.newline
    ++ "bank_angle = " ++ val_unit U g P.bank_angle "deg" ++
      ". Only used when turn_rate is set to 0" ++ ErrorLog.newline
    ++ "vertical_rate = " ++ val_unit U g P.vertical_rate "fpm" ++ ErrorLog.newline
    ++ "# Recovery Bands Parameters" ++ ErrorLog.newline
    ++ "recovery_stability_time = " ++ val_unit U g P.recovery_stability_time "s" ++ ErrorLog.newline
    ++ "max_recovery_time = " ++ val_unit U g P.max_recovery_time "s" ++
      ". If set to 0, lookahead time is used instead" ++ ErrorLog.newline
    ++ "min_horizontal_recovery = " ++ val_unit U g P.min_horizontal_recovery "nmi" ++
      ". If set to 0, TCAS RA HMD is used instead" ++ ErrorLog.newline
    ++ "min_vertical_recovery = " ++ val_unit U g P.min_vertical_recovery "ft" ++
      ". If set to 0, TCAS RA ZTHR is used instead" ++ ErrorLog.newline
    ++ "conflict_crit = " ++ Fmb P.conflict_crit ++ ErrorLog.newline
    ++ "recovery_crit = " ++ Fmb P.recovery_crit ++ ErrorLog.newline
    ++ "recovery_trk = " ++ Fmb P.recovery_trk ++ ErrorLog.newline
    ++ "recovery_gs = " ++ Fmb P.recovery_gs ++ ErrorLog.newline
    ++ "recovery_vs = " ++ Fmb P.recovery_vs ++ ErrorLog.newline
    ++ "# Alerting" ++ ErrorLog.newline
    ++ "bands_alerting = " ++ Fmb P.bands_alerting ++ ErrorLog.newline
    ++ "trk_alerting = " ++ Fmb P.trk_alerting ++ ErrorLog.newline
    ++ "gs_alerting = " ++ Fmb P.gs_alerting ++ ErrorLog.newline
    ++ "vs_alerting = " ++ Fmb P.vs_alerting ++ ErrorLog.newline
    ++ "preventive_alt = " ++ val_unit U g P.preventive_alt "ft" ++ ErrorLog.newline
    ++ "preventive_trk = " ++ val_unit U g P.preventive_trk "deg" ++
      ". If equal to 0, no tracks are preventive. If less than 0, all tracks are preventive" ++ ErrorLog.newline
    ++ "preventive_gs = " ++ val_unit U g P.preventive_gs "knot" ++
      ". If equal to 0, no grounds speeds are preventive. If less than 0, all ground speeds are preventive" ++ ErrorLog.newline
    ++ "preventive_vs = " ++ val_unit U g P.preventive_vs "fpm" ++
      ". If equal to 0, no vertical speeds are preventive. If less than 0, all vertical speeds are preventive" ++ ErrorLog.newline
    ++ "time_to_warning = " ++ val_unit U g P.time_to_warning "s" ++ ErrorLog.newline
    ++ "warning_when_recovery = " ++ Fmb P.warning_when_recovery ++ ErrorLog.newline
    ++ "# Other Parameters" ++ ErrorLog.newline
    ++ "ca_bands = " ++ Fmb P.ca_bands ++ ErrorLog.newline

/-- The mutating operations of `DaidalusParameters`: the validating setters, the plain setters
and the bulk load `setParameters` (`loadFromParameterData` and `loadFromFile` call it). The
`enable...`/`disable...` functions are calls of the boolean setters. -/
inductive Mutation where
  | validated (f : Validated) (val : ℚ)
  | setMinVerticalSpeed (val : ℚ)
  | setMaxVerticalSpeed (val : ℚ)
  | setPreventiveAltitudeThreshold (val : ℚ)
  | setPreventiveTrackThreshold (val : ℚ)
  | setPreventiveGroundSpeedThreshold (val : ℚ)
  | setPreventiveVerticalSpeedThreshold (val : ℚ)
  | setImplicitBands (flag : Bool)
  | setWarningWhenRecovery (flag : Bool)
  | setConflictCriteria (flag : Bool)
  | setRecoveryCriteria (flag : Bool)
  | setRecoveryTrackBands (flag : Bool)
  | setRecoveryGroundSpeedBands (flag : Bool)
  | setRecoveryVerticalSpeedBands (flag : Bool)
  | setCollisionAvoidanceBands (flag : Bool)
  | setBandsAlerting (flag : Bool)
  | setTrackAlerting (flag : Bool)
  | setGroundSpeedAlerting (flag : Bool)
  | setVerticalSpeedAlerting (flag : Bool)
  | setRecoveryBands (flag : Bool)
  | setRepulsiveCriteria (flag : Bool)
  | setParameters (p : ParameterData)

namespace Mutation

/-- The operation is the bulk load. -/
def isBulk : Mutation → Bool
  | setParameters _ => true
  | _ => false

/-- The effect of an operation on the block. -/
def apply (g : ErrorLogStatics) (P : ParameterBlock) : Mutation → ParameterBlock
  | validated f val => f.setter g P val
  | setMinVerticalSpeed val => P.setMinVerticalSpeed val
  | setMaxVerticalSpeed val => P.setMaxVerticalSpeed val
  | setPreventiveAltitudeThreshold val => P.setPreventiveAltitudeThreshold val
  | setPreventiveTrackThreshold val => P.setPreventiveTrackThreshold val
  | setPreventiveGroundSpeedThreshold val => P.setPreventiveGroundSpeedThreshold val
  | setPreventiveVerticalSpeedThreshold val => P.setPreventiveVerticalSpeedThreshold val
  | setImplicitBands flag => P.setImplicitBands flag
  | setWarningWhenRecovery flag => P.setWarningWhenRecovery flag
  | setConflictCriteria flag => P.setConflictCriteria flag
  | setRecoveryCriteria flag => P.setRecoveryCriteria flag
  | setRecoveryTrackBands flag => P.setRecoveryTrackBands flag
  | setRecoveryGroundSpeedBands flag => P.setRecoveryGroundSpeedBands flag
  | setRecoveryVerticalSpeedBands flag => P.setRecoveryVerticalSpeedBands flag
  | setCollisionAvoidanceBands flag => P.setCollisionAvoidanceBands flag
  | setBandsAlerting flag => P.setBandsAlerting flag
  | setTrackAlerting flag => P.setTrackAlerting flag
  | setGroundSpeedAlerting flag => P.setGroundSpeedAlerting flag
  | setVerticalSpeedAlerting flag => P.setVerticalSpeedAlerting flag
  | setRecoveryBands flag => P.setRecoveryBands flag
  | setRepulsiveCriteria flag => P.setRepulsiveCriteria flag
  | setParameters p => P.setParameters p

/-- The block after a sequence of operations. -/
def run (g : ErrorLogStatics) (P : ParameterBlock) (ms : List Mutation) : ParameterBlock :=
  ms.foldl (apply g) P

end Mutation

end ParameterBlock

/-! ## The singleton `DefaultDaidalusParameters` -/

namespace DefaultDaidalusParameters

/-- Translation of `DefaultDaidalusParameters::setRepulsiveCriteria` on the static member
`parameters`. -/
def setRepulsiveCriteria (parameters : ParameterBlock) (flag : Bool) : ParameterBlock :=
  parameters.setRepulsiveCriteria flag

/-- Translation of `DefaultDaidalusParameters::enableRepulsiveCriteria`. -/
def enableRepulsiveCriteria (parameters : ParameterBlock) : ParameterBlock :=
  parameters.enableRepulsiveCriteria

/-- Translation of `DefaultDaidalusParameters::disableRepulsiveCriteria`. -/
def disableRepulsiveCriteria (parameters : ParameterBlock) : ParameterBlock :=
  parameters.disableRecoveryCriteria

/-- Translation of `DefaultDaidalusParameters::isEnabledConflictCriteria`. -/
def isEnabledConflictCriteria (parameters : ParameterBlock) : Bool :=
  parameters.isEnabledConflictCriteria

/-- Translation of `DefaultDaidalusParameters::isEnabledRecoveryCriteria`. -/
def isEnabledRecoveryCriteria (parameters : ParameterBlock) : Bool :=
  parameters.isEnabledRecoveryCriteria

end DefaultDaidalusParameters

namespace ParameterBlock

/-- The sign conditions that the validating setters of the ground speed and altitude bounds
maintain. -/
def Signs (P : ParameterBlock) : Prop :=
  0 ≤ P.min_gs ∧ 0 < P.max_gs ∧ 0 ≤ P.min_alt ∧ 0 < P.max_alt

/-- The four steps are positive. -/
def StepsPositive (P : ParameterBlock) : Prop :=
  0 < P.trk_step ∧ 0 < P.gs_step ∧ 0 < P.vs_step ∧ 0 < P.alt_step

end ParameterBlock

/-! ## Threshold accessors of the `Daidalus` object -/

namespace ErrorLog

/-- Translation of `ErrorLog::hasMessage`. -/
def hasMessage (e : ErrorLog) : Bool := decide (e.message.length > 0)

end ErrorLog

/-- Modelled from the spec: the detector object `*detector` of `Daidalus` as the threshold
accessors see it (`Detection3D`, `WCV_tvar` and `CDCylinder` are not among the sources): its
canonical class names, the thresholds `DTHR`, `ZTHR`, `TTHR`, `TCOA` of the table of a
well-clear detector and the thresholds `D`, `H` of a cylinder. The field `Daidalus.detector` is
the conflict query of the same object. -/
structure DetectorObject where
  canonicalSuperClassName : String
  canonicalClassName : String
  DTHR : ℚ
  ZTHR : ℚ
  TTHR : ℚ
  TCOA : ℚ
  D : ℚ
  H : ℚ
deriving DecidableEq, Repr

namespace Daidalus

/-- Translation of `Daidalus::getDTHR()`: the value and the object with its error log. -/
def getDTHR (g : ErrorLogStatics) (d : Daidalus) (det : DetectorObject) : ℚ × Daidalus :=
  if det.canonicalSuperClassName ≠ "gov.nasa.larcfm.ACCoRD.WCV_tvar" then
    (d.parameters.DTHR, { d with error := (d.error.addWarning g
      ("[getDTHR] Detector " ++ det.canonicalClassName ++
        " is not an instance of WCV detector")) })
  else (d.parameters.DTHR, d)

/-- Translation of `Daidalus::getZTHR()`: the value and the object with its error log. -/
def getZTHR (g : ErrorLogStatics) (d : Daidalus) (det : DetectorObject) : ℚ × Daidalus :=
  if det.canonicalSuperClassName ≠ "gov.nasa.larcfm.ACCoRD.WCV_tvar" then
    (d.parameters.ZTHR, { d with error := (d.error.addWarning g
      ("[getZTHR] Detector " ++ det.canonicalClassName ++
        " is not an instance of WCV detector")) })
  else (d.parameters.ZTHR, d)

/-- Translation of `Daidalus::getTTHR()`: the value and the object with its error log. -/
def getTTHR (g : ErrorLogStatics) (d : Daidalus) (det : DetectorObject) : ℚ × Daidalus :=
  if det.canonicalSuperClassName ≠ "gov.nasa.larcfm.ACCoRD.WCV_tvar" then
    (d.parameters.TTHR, { d with error := (d.error.addWarning g
      ("[getTTHR] Detector " ++ det.canonicalClassName ++
        " is not an instance of WCV detector")) })
  else (d.parameters.TTHR, d)

/-- Translation of `Daidalus::getTCOA()`: the value and the object with its error log. -/
def getTCOA (g : ErrorLogStatics) (d : Daidalus) (det : DetectorObject) : ℚ × Daidalus :=
  if det.canonicalSuperClassName ≠ "gov.nasa.larcfm.ACCoRD.WCV_tvar" then
    (d.parameters.TCOA, { d with error := (d.error.addWarning g
      ("[getTCOA] Detector " ++ det.canonicalClassName ++
        " is not an instance of WCV detector")) })
  else (d.parameters.TCOA, d)

/-- Translation of `Daidalus::getD()`: the value and the object with its error log. -/
def getD (g : ErrorLogStatics) (d : Daidalus) (det : DetectorObject) : ℚ × Daidalus :=
  if det.canonicalSuperClassName ≠ "gov.nasa.larcfm.ACCoRD.CDCylinder" then
    (d.parameters.D, { d with error := (d.error.addWarning g
      ("[getD] Detector " ++ det.canonicalClassName ++
        " is not an instance of CD3D detector")) })
  else (d.parameters.D, d)

/-- Translation of `Daidalus::getH()`: the value and the object with its error log. -/
def getH (g : ErrorLogStatics) (d : Daidalus) (det : DetectorObject) : ℚ × Daidalus :=
  if det.canonicalSuperClassName ≠ "gov.nasa.larcfm.ACCoRD.CDCylinder" then
    (d.parameters.H, { d with error := (d.error.addWarning g
      ("[getH] Detector " ++ det.canonicalClassName ++
        " is not an instance of CD3D detector")) })
  else (d.parameters.H, d)

/-- Translation of `Daidalus::setDTHR(double)`: the object and its detector; a matching
detector stores the value (the table in `WCV_tvar::setDTHR`). -/
def setDTHR (g : ErrorLogStatics) (d : Daidalus) (det : DetectorObject) (val : ℚ) :
    Daidalus × DetectorObject :=
  if (ErrorLog.isPositive g d.error "setD" val).1 = true then
    if det.canonicalSuperClassName ≠ "gov.nasa.larcfm.ACCoRD.WCV_tvar" then
      ({ d with
          error := ((ErrorLog.isPositive g d.error "setD" val).2.addWarning g
            ("[setDTHR] Detector " ++ det.canonicalClassName ++
              " is not an instance of WCV detector"))
          parameters := d.parameters.setDTHR g val }, det)
    else
      ({ d with
          error := (ErrorLog.isPositive g d.error "setD" val).2
          parameters := d.parameters.setDTHR g val }, { det with DTHR := val })
  else ({ d with error := (ErrorLog.isPositive g d.error "setD" val).2 }, det)

/-- Translation of `Daidalus::setZTHR(double)`: the object and its detector; a matching
detector stores the value (the table in `WCV_tvar::setZTHR`). -/
def setZTHR (g : ErrorLogStatics) (d : Daidalus) (det : DetectorObject) (val : ℚ) :
    Daidalus × DetectorObject :=
  if (ErrorLog.isPositive g d.error "setZTHR" val).1 = true then
    if det.canonicalSuperClassName ≠ "gov.nasa.larcfm.ACCoRD.WCV_tvar" then
      ({ d with
          error := ((ErrorLog.isPositive g d.error "setZTHR" val).2.addWarning g
            ("[setZTHR] Detector " ++ det.canonicalClassName ++
              " is not an instance of WCV detector"))
          parameters := d.parameters.setZTHR g val }, det)
    else
      ({ d with
          error := (ErrorLog.isPositive g d.error "setZTHR" val).2
          parameters := d.parameters.setZTHR g val }, { det with ZTHR := val })
  else ({ d with error := (ErrorLog.isPositive g d.error "setZTHR" val).2 }, det)

/-- Translation of `Daidalus::setTTHR(double)`: the object and its detector; a matching
detector stores the value (the table in `WCV_tvar::setTTHR`). -/
def setTTHR (g : ErrorLogStatics) (d : Daidalus) (det : DetectorObject) (val : ℚ) :
    Daidalus × DetectorObject :=
  if (ErrorLog.isNonNegative g d.error "setTTHR" val).1 = true then
    if det.canonicalSuperClassName ≠ "gov.nasa.larcfm.ACCoRD.WCV_tvar" then
      ({ d with
          error := ((ErrorLog.isNonNegative g d.error "setTTHR" val).2.addWarning g
            ("[setTTHR] Detector " ++ det.canonicalClassName ++
              " is not an instance of WCV detector"))
          parameters := d.parameters.setTTHR g val }, det)
    else
      ({ d with
          error := (ErrorLog.isNonNegative g d.error "setTTHR" val).2
          parameters := d.parameters.setTTHR g val }, { det with TTHR := val })
  else ({ d with error := (ErrorLog.isNonNegative g d.error "setTTHR" val).2 }, det)

/-- Translation of `Daidalus::setTCOA(double)`: the object and its detector; a matching
detector stores the value (the table in `WCV_tvar::setTCOA`). -/
def setTCOA (g : ErrorLogStatics) (d : Daidalus) (det : DetectorObject) (val : ℚ) :
    Daidalus × DetectorObject :=
  if (ErrorLog.isNonNegative g d.error "setTCOA" val).1 = true then
    if det.canonicalSuperClassName ≠ "gov.nasa.larcfm.ACCoRD.WCV_tvar" then
      ({ d with
          error := ((ErrorLog.isNonNegative g d.error "setTCOA" val).2.addWarning g
            ("[setTCOA] Detector " ++ det.canonicalClassName ++
              " is not an instance of WCV detector"))
          parameters := d.parameters.setTCOA g val }, det)
    else
      ({ d with
          error := (ErrorLog.isNonNegative g d.error "setTCOA" val).2
          parameters := d.parameters.setTCOA g val }, { det with TCOA := val })
  else ({ d with error := (ErrorLog.isNonNegative g d.error "setTCOA" val).2 }, det)

/-- Translation of `Daidalus::setD(double)`: the object and its detector; a matching
detector stores the value (`CDCylinder::setHorizontalSeparation`). -/
def setD (g : ErrorLogStatics) (d : Daidalus) (det : DetectorObject) (val : ℚ) :
    Daidalus × DetectorObject :=
  if (ErrorLog.isPositive g d.error "setD" val).1 = true then
    if det.canonicalSuperClassName ≠ "gov.nasa.larcfm.ACCoRD.CDCylinder" then
      ({ d with
          error := ((ErrorLog.isPositive g d.error "setD" val).2.addWarning g
            ("[setD] Detector " ++ det.canonicalClassName ++
              " is not an instance of CD3D detector"))
          parameters := d.parameters.setD g val }, det)
    else
      ({ d with
          error := (ErrorLog.isPositive g d.error "setD" val).2
          parameters := d.parameters.setD g val }, { det with D := val })
  else ({ d with error := (ErrorLog.isPositive g d.error "setD" val).2 }, det)

/-- Translation of `Daidalus::setH(double)`: the object and its detector; a matching
detector stores the value (`CDCylinder::setVerticalSeparation`). -/
def setH (g : ErrorLogStatics) (d : Daidalus) (det : DetectorObject) (val : ℚ) :
    Daidalus × DetectorObject :=
  if (ErrorLog.isPositive g d.error "setH" val).1 = true then
    if det.canonicalSuperClassName ≠ "gov.nasa.larcfm.ACCoRD.CDCylinder" then
      ({ d with
          error := ((ErrorLog.isPositive g d.error "setH" val).2.addWarning g
            ("[setH] Detector " ++ det.canonicalClassName ++
              " is not an instance of CD3D detector"))
          parameters := d.parameters.setH g val }, det)
    else
      ({ d with
          error := (ErrorLog.isPositive g d.error "setH" val).2
          parameters := d.parameters.setH g val }, { det with H := val })
  else ({ d with error := (ErrorLog.isPositive g d.error "setH" val).2 }, det)

/-- The six thresholds with an accessor pair in `Daidalus`. -/
inductive Threshold where
  | DTHR | ZTHR | TTHR | TCOA | D | H
deriving DecidableEq, Repr

namespace Threshold

/-- The super class that the accessors of the threshold expect of the detector. -/
def expected : Threshold → String
  | D => "gov.nasa.larcfm.ACCoRD.CDCylinder"
  | H => "gov.nasa.larcfm.ACCoRD.CDCylinder"
  | _ => "gov.nasa.larcfm.ACCoRD.WCV_tvar"

/-- The detector is of the kind that the threshold belongs to. -/
def Matches (t : Threshold) (det : DetectorObject) : Prop :=
  det.canonicalSuperClassName = t.expected

/-- The value is valid for the setter: non-negative for `TTHR` and `TCOA`, positive for the
others. -/
def Valid : Threshold → ℚ → Prop
  | TTHR, val => 0 ≤ val
  | TCOA, val => 0 ≤ val
  | _, val => 0 < val

/-- The value of the threshold stored in a parameter block. -/
def stored : Threshold → ParameterBlock → ℚ
  | DTHR, P => P.DTHR
  | ZTHR, P => P.ZTHR
  | TTHR, P => P.TTHR
  | TCOA, P => P.TCOA
  | D, P => P.D
  | H, P => P.H

/-- The getter of the threshold. -/
def getter : Threshold → ErrorLogStatics → Daidalus → DetectorObject → ℚ × Daidalus
  | DTHR => getDTHR
  | ZTHR => getZTHR
  | TTHR => getTTHR
  | TCOA => getTCOA
  | D => getD
  | H => getH

/-- The setter of the threshold. -/
def setter : Threshold → ErrorLogStatics → Daidalus → DetectorObject → ℚ →
    Daidalus × DetectorObject
  | DTHR => setDTHR
  | ZTHR => setZTHR
  | TTHR => setTTHR
  | TCOA => setTCOA
  | D => setD
  | H => setH

end Threshold

end Daidalus

/-! ## Ownship frame, traffic look-up and urgency strategies -/

/-- The Euclidean projection `eprj` of an ownship (`Projection.h` is not among the sources):
`project own_pos p` and `projectVelocity own_pos p v` stand for `eprj.project(p)` and
`eprj.projectVelocity(p, v)` of the projection created at the ownship position. -/
structure EuclideanProjection where
  project : Position → Position → Vect3
  projectVelocity : Position → Position → Velocity → Velocity

namespace OwnshipState

/-- Translation of `OwnshipState::pos_to_s`; `none` stands for `Vect3::INVALID()` and the
point of a Euclidean position is its coordinate vector. -/
def pos_to_s (prj : EuclideanProjection) (own : OwnshipState) (p : Position) : Option Vect3 :=
  if p.latlon then
    if !own.pos.latlon then none
    else some (prj.project own.pos p)
  else some p.coords

/-- Translation of `OwnshipState::vel_to_v`; `none` stands for `Velocity::INVALIDV()`. -/
def vel_to_v (prj : EuclideanProjection) (own : OwnshipState) (p : Position) (v : Velocity) :
    Option Velocity :=
  if p.latlon then
    if !own.pos.latlon then none
    else some (prj.projectVelocity own.pos p v)
  else some v

end OwnshipState

namespace TrafficState

/-- Translation of `TrafficState::getTraffic(traffic, id)`; `none` stands for
`TrafficState::INVALID`, whose identifier is `_NoAc_`. -/
def getTraffic (traffic : List TrafficState) (id : String) : Option TrafficState :=
  if id ≠ "_NoAc_" then traffic.find? (fun ac => decide (id = ac.id)) else none

end TrafficState

namespace CoreState

/-- Translation of `KinematicBandsCore::getTraffic(const std::string&)`. -/
def getTraffic (c : CoreState) (id : String) : Option TrafficState :=
  TrafficState.getTraffic c.traffic id

end CoreState

namespace FixedAircraftUrgencyStrategy

/-- Translation of `FixedAircraftUrgencyStrategy::mostUrgentAircraft` for the strategy built
with the identifier `ac`. -/
def mostUrgentAircraft (ac : String) : UrgencyStrategy :=
  fun _ _ traffic _ => TrafficState.getTraffic traffic ac

end FixedAircraftUrgencyStrategy

namespace NoneUrgencyStrategy

/-- Translation of `NoneUrgencyStrategy::mostUrgentAircraft`. -/
def mostUrgentAircraft : UrgencyStrategy := fun _ _ _ _ => none

end NoneUrgencyStrategy

namespace KinematicBandsCore

/-- The local variable `epsh` (track and ground speed bands) or `epsv` (vertical speed bands)
of `none_bands`, `any_red` and `all_red`: 0, replaced by the coordination sign
`epsilonH(ownship, repac)` (respectively `epsilonV`) when the criterion aircraft is valid. The
sign is computed by `CriteriaCore`, not among the sources, and is a parameter. -/
def coordination (epsilon : OwnshipState → TrafficState → Int) (ownship : OwnshipState)
    (repac : Option TrafficState) : Int :=
  match repac with
  | some ac => epsilon ownship ac
  | none => 0

end KinematicBandsCore

/-! ## Band queries -/

namespace KinematicRealBands

/-- Translation of `KinematicRealBands::bandsLength`; `recomp` is the inherited `recompute(core)`
of the band class at hand, with its own `compute`. -/
def bandsLength {AC : Type} (core : KinematicBandsCore AC)
    (recomp : KinematicRealBands → KinematicRealBands) (b : KinematicRealBands) :
    Int × KinematicRealBands :=
  if !core.hasOwnship then (-1, b)
  else (((recomp b).intervals.length : Int), recomp b)

/-- Translation of `KinematicRealBands::interval`. -/
def interval {AC : Type} (core : KinematicBandsCore AC)
    (recomp : KinematicRealBands → KinematicRealBands) (b : KinematicRealBands) (i : Int) :
    Interval × KinematicRealBands :=
  if core.hasOwnship = false ∨ i < 0 then (Interval.EMPTY, b)
  else if i ≥ (bandsLength core recomp b).1 then (Interval.EMPTY, (bandsLength core recomp b).2)
  else ((bandsLength core recomp b).2.intervals.getD i.toNat Interval.EMPTY,
    (bandsLength core recomp b).2)

/-- Translation of `KinematicRealBands::region`. -/
def region {AC : Type} (core : KinematicBandsCore AC)
    (recomp : KinematicRealBands → KinematicRealBands) (b : KinematicRealBands) (i : Int) :
    Region × KinematicRealBands :=
  if core.hasOwnship = false ∨ i < 0 then (Region.UNKNOWN, b)
  else if i ≥ (bandsLength core recomp b).1 then (Region.UNKNOWN, (bandsLength core recomp b).2)
  else ((bandsLength core recomp b).2.regions.getD i.toNat Region.UNKNOWN,
    (bandsLength core recomp b).2)

/-- Translation of `KinematicRealBands::regionOf`: the loop returns the region of the first
interval that contains `val`. -/
def regionOf {AC : Type} (core : KinematicBandsCore AC)
    (recomp : KinematicRealBands → KinematicRealBands) (b : KinematicRealBands) (val : ℚ) :
    Region × KinematicRealBands :=
  if core.hasOwnship = false ∨ val < b.min ∨ val > b.max then (Region.UNKNOWN, b)
  else
    ((match (List.zip (recomp b).intervals (recomp b).regions).find?
          (fun e => e.1.inCC val) with
      | some e => e.2
      | none =>
        if core.implicit_bands then
          (if (recomp b).recovery_time > 0 then Region.RECOVERY else Region.NONE)
        else Region.UNKNOWN),
      recomp b)

/-- The test of the loop of `KinematicRealBands::almostNear` on the interval `ii` with its
region. -/
def near_test (val thr : ℚ) (e : Interval × Region) : Bool :=
  decide (e.2 = Region.NEAR) &&
    (decide (e.1.low - thr < val ∧ val ≤ e.1.low) || decide (e.1.up ≤ val ∧ val < e.1.up + thr))

/-- Translation of `KinematicRealBands::almostNear`. -/
def almostNear {AC : Type} (core : KinematicBandsCore AC)
    (recomp : KinematicRealBands → KinematicRealBands) (b : KinematicRealBands) (val thr : ℚ) :
    Bool × KinematicRealBands :=
  if core.hasOwnship = false ∨ val < b.min ∨ val > b.max then (false, b)
  else
    ((List.zip (recomp b).intervals (recomp b).regions).any (near_test val thr), recomp b)

end KinematicRealBands

namespace KinematicAltBands

/-- The inherited `KinematicRealBands::recompute` on `KinematicAltBands`, which calls
`KinematicAltBands::compute`. -/
def recompute {AC : Type} (core : KinematicBandsCore AC) (env : AltKinematics AC)
    (b : KinematicAltBands) : KinematicAltBands :=
  if core.hasOwnship && b.outdated then
    { b with toKinematicRealBands :=
        { (compute core env b).toKinematicRealBands with outdated := false } }
  else b

end KinematicAltBands

/-- What the band queries of `KinematicBands` take from outside the sources: the NMAC
configuration, the `TCASTable` look-ups, the virtual functions of the track, ground speed and
vertical speed bands on the current ownship, the level-off kinematics of the altitude bands and
the normalisation `Util::to_2pi`. -/
structure BandsEnv where
  cfg : ACCoRDConfig
  RA_HMD : Option OwnshipState → ℚ
  RA_ZTHR : Option OwnshipState → ℚ
  trk : Axis TrafficState
  gs : Axis TrafficState
  vs : Axis TrafficState
  alt : AltKinematics TrafficState
  to_2pi : ℚ → ℚ

namespace KinematicBands

/-- The core as the band computation reads it. -/
def coreView (E : BandsEnv) (b : KinematicBands) : KinematicBandsCore TrafficState :=
  b.core.view E.RA_HMD E.RA_ZTHR

/-- The `recompute(core)` of the track bands. -/
def trk_recomp (E : BandsEnv) (b : KinematicBands) : KinematicRealBands → KinematicRealBands :=
  KinematicRealBands.recompute E.cfg (coreView E b) E.trk

/-- The `recompute(core)` of the ground speed bands. -/
def gs_recomp (E : BandsEnv) (b : KinematicBands) : KinematicRealBands → KinematicRealBands :=
  KinematicRealBands.recompute E.cfg (coreView E b) E.gs

/-- The `recompute(core)` of the vertical speed bands. -/
def vs_recomp (E : BandsEnv) (b : KinematicBands) : KinematicRealBands → KinematicRealBands :=
  KinematicRealBands.recompute E.cfg (coreView E b) E.vs

/-- The `recompute(core)` of the altitude bands. -/
def alt_recomp (E : BandsEnv) (b : KinematicBands) : KinematicRealBands → KinematicRealBands :=
  fun r => (KinematicAltBands.recompute (coreView E b) E.alt
    { b.alt_band with toKinematicRealBands := r }).toKinematicRealBands

/-- The conversion at the end of `track(i, u)`, `groundSpeed(i, u)`, `verticalSpeed(i, u)` and
`altitude(i, u)`: an empty interval is returned as it is. -/
def to_units (U : Units) (u : String) (ia : Interval) : Interval :=
  if ia.isEmpty then ia else ⟨U.to_ u ia.low, U.to_ u ia.up⟩

/-- Translation of `KinematicBands::trackLength`. -/
def trackLength (E : BandsEnv) (b : KinematicBands) : Int × KinematicBands :=
  ((KinematicRealBands.bandsLength (coreView E b) (trk_recomp E b)
      b.trk_band.toKinematicRealBands).1,
    { b with trk_band := { b.trk_band with toKinematicRealBands :=
      (KinematicRealBands.bandsLength (coreView E b) (trk_recomp E b)
      b.trk_band.toKinematicRealBands).2 } })

/-- Translation of `KinematicBands::track(int, const std::string&)`. -/
def track (E : BandsEnv) (U : Units) (b : KinematicBands) (i : Int) (u : String) :
    Interval × KinematicBands :=
  (to_units U u (KinematicRealBands.interval (coreView E b) (trk_recomp E b)
      b.trk_band.toKinematicRealBands i).1,
    { b with trk_band := { b.trk_band with toKinematicRealBands :=
      (KinematicRealBands.interval (coreView E b) (trk_recomp E b)
      b.trk_band.toKinematicRealBands i).2 } })

/-- Translation of `KinematicBands::trackRegion`. -/
def trackRegion (E : BandsEnv) (b : KinematicBands) (i : Int) : Region × KinematicBands :=
  ((KinematicRealBands.region (coreView E b) (trk_recomp E b)
      b.trk_band.toKinematicRealBands i).1,
    { b with trk_band := { b.trk_band with toKinematicRealBands :=
      (KinematicRealBands.region (coreView E b) (trk_recomp E b)
      b.trk_band.toKinematicRealBands i).2 } })

/-- Translation of `KinematicBands::trackRegionOf`. -/
def trackRegionOf (E : BandsEnv) (U : Units) (b : KinematicBands) (val : ℚ) (u : String) :
    Region × KinematicBands :=
  ((KinematicRealBands.regionOf (coreView E b) (trk_recomp E b)
      b.trk_band.toKinematicRealBands (E.to_2pi (U.from_ u val))).1,
    { b with trk_band := { b.trk_band with toKinematicRealBands :=
      (KinematicRealBands.regionOf (coreView E b) (trk_recomp E b)
      b.trk_band.toKinematicRealBands (E.to_2pi (U.from_ u val))).2 } })

/-- Translation of `KinematicBands::groundSpeedLength`. -/
def groundSpeedLength (E : BandsEnv) (b : KinematicBands) : Int × KinematicBands :=
  ((KinematicRealBands.bandsLength (coreView E b) (gs_recomp E b)
      b.gs_band.toKinematicRealBands).1,
    { b with gs_band := { b.gs_band with toKinematicRealBands :=
      (KinematicRealBands.bandsLength (coreView E b) (gs_recomp E b)
      b.gs_band.toKinematicRealBands).2 } })

/-- Translation of `KinematicBands::groundSpeed(int, const std::string&)`. -/
def groundSpeed (E : BandsEnv) (U : Units) (b : KinematicBands) (i : Int) (u : String) :
    Interval × KinematicBands :=
  (to_units U u (KinematicRealBands.interval (coreView E b) (gs_recomp E b)
      b.gs_band.toKinematicRealBands i).1,
    { b with gs_band := { b.gs_band with toKinematicRealBands :=
      (KinematicRealBands.interval (coreView E b) (gs_recomp E b)
      b.gs_band.toKinematicRealBands i).2 } })

/-- Translation of `KinematicBands::groundSpeedRegion`. -/
def groundSpeedRegion (E : BandsEnv) (b : KinematicBands) (i : Int) : Region × KinematicBands :=
  ((KinematicRealBands.region (coreView E b) (gs_recomp E b)
      b.gs_band.toKinematicRealBands i).1,
    { b with gs_band := { b.gs_band with toKinematicRealBands :=
      (KinematicRealBands.region (coreView E b) (gs_recomp E b)
      b.gs_band.toKinematicRealBands i).2 } })

/-- Translation of `KinematicBands::groundSpeedRegionOf`. -/
def groundSpeedRegionOf (E : BandsEnv) (U : Units) (b : KinematicBands) (val : ℚ) (u : String) :
    Region × KinematicBands :=
  ((KinematicRealBands.regionOf (coreView E b) (gs_recomp E b)
      b.gs_band.toKinematicRealBands (U.from_ u val)).1,
    { b with gs_band := { b.gs_band with toKinematicRealBands :=
      (KinematicRealBands.regionOf (coreView E b) (gs_recomp E b)
      b.gs_band.toKinematicRealBands (U.from_ u val)).2 } })

/-- Translation of `KinematicBands::verticalSpeedLength`. -/
def verticalSpeedLength (E : BandsEnv) (b : KinematicBands) : Int × KinematicBands :=
  ((KinematicRealBands.bandsLength (coreView E b) (vs_recomp E b)
      b.vs_band.toKinematicRealBands).1,
    { b with vs_band := { b.vs_band with toKinematicRealBands :=
      (KinematicRealBands.bandsLength (coreView E b) (vs_recomp E b)
      b.vs_band.toKinematicRealBands).2 } })

/-- Translation of `KinematicBands::verticalSpeed(int, const std::string&)`. -/
def verticalSpeed (E : BandsEnv) (U : Units) (b : KinematicBands) (i : Int) (u : String) :
    Interval × KinematicBands :=
  (to_units U u (KinematicRealBands.interval (coreView E b) (vs_recomp E b)
      b.vs_band.toKinematicRealBands i).1,
    { b with vs_band := { b.vs_band with toKinematicRealBands :=
      (KinematicRealBands.interval (coreView E b) (vs_recomp E b)
      b.vs_band.toKinematicRealBands i).2 } })

/-- Translation of `KinematicBands::verticalSpeedRegion`. -/
def verticalSpeedRegion (E : BandsEnv) (b : KinematicBands) (i : Int) : Region × KinematicBands :=
  ((KinematicRealBands.region (coreView E b) (vs_recomp E b)
      b.vs_band.toKinematicRealBands i).1,
    { b with vs_band := { b.vs_band with toKinematicRealBands :=
      (KinematicRealBands.region (coreView E b) (vs_recomp E b)
      b.vs_band.toKinematicRealBands i).2 } })

/-- Translation of `KinematicBands::verticalSpeedRegionOf`. -/
def verticalSpeedRegionOf (E : BandsEnv) (U : Units) (b : KinematicBands) (val : ℚ) (u : String) :
    Region × KinematicBands :=
  ((KinematicRealBands.regionOf (coreView E b) (vs_recomp E b)
      b.vs_band.toKinematicRealBands (U.from_ u val)).1,
    { b with vs_band := { b.vs_band with toKinematicRealBands :=
      (KinematicRealBands.regionOf (coreView E b) (vs_recomp E b)
      b.vs_band.toKinematicRealBands (U.from_ u val)).2 } })

/-- Translation of `KinematicBands::altitudeLength`. -/
def altitudeLength (E : BandsEnv) (b : KinematicBands) : Int × KinematicBands :=
  ((KinematicRealBands.bandsLength (coreView E b) (alt_recomp E b)
      b.alt_band.toKinematicRealBands).1,
    { b with alt_band := { b.alt_band with toKinematicRealBands :=
      (KinematicRealBands.bandsLength (coreView E b) (alt_recomp E b)
      b.alt_band.toKinematicRealBands).2 } })

/-- Translation of `KinematicBands::altitude(int, const std::string&)`. -/
def altitude (E : BandsEnv) (U : Units) (b : KinematicBands) (i : Int) (u : String) :
    Interval × KinematicBands :=
  (to_units U u (KinematicRealBands.interval (coreView E b) (alt_recomp E b)
      b.alt_band.toKinematicRealBands i).1,
    { b with alt_band := { b.alt_band with toKinematicRealBands :=
      (KinematicRealBands.interval (coreView E b) (alt_recomp E b)
      b.alt_band.toKinematicRealBands i).2 } })

/-- Translation of `KinematicBands::altitudeRegion`. -/
def altitudeRegion (E : BandsEnv) (b : KinematicBands) (i : Int) : Region × KinematicBands :=
  ((KinematicRealBands.region (coreView E b) (alt_recomp E b)
      b.alt_band.toKinematicRealBands i).1,
    { b with alt_band := { b.alt_band with toKinematicRealBands :=
      (KinematicRealBands.region (coreView E b) (alt_recomp E b)
      b.alt_band.toKinematicRealBands i).2 } })

/-- Translation of `KinematicBands::altitudeRegionOf`. -/
def altitudeRegionOf (E : BandsEnv) (U : Units) (b : KinematicBands) (val : ℚ) (u : String) :
    Region × KinematicBands :=
  ((KinematicRealBands.regionOf (coreView E b) (alt_recomp E b)
      b.alt_band.toKinematicRealBands (U.from_ u val)).1,
    { b with alt_band := { b.alt_band with toKinematicRealBands :=
      (KinematicRealBands.regionOf (coreView E b) (alt_recomp E b)
      b.alt_band.toKinematicRealBands (U.from_ u val)).2 } })

/-- Translation of `KinematicBands::nearGroundSpeedConflict(double, double)`. -/
def nearGroundSpeedConflict (E : BandsEnv) (b : KinematicBands) (val thr : ℚ) : Bool × KinematicBands :=
  ((KinematicRealBands.almostNear (coreView E b) (gs_recomp E b)
      b.gs_band.toKinematicRealBands val thr).1,
    { b with gs_band := { b.gs_band with toKinematicRealBands :=
      (KinematicRealBands.almostNear (coreView E b) (gs_recomp E b)
        b.gs_band.toKinematicRealBands val thr).2 } })

/-- Translation of `KinematicBands::nearVerticalSpeedConflict(double, double)`. -/
def nearVerticalSpeedConflict (E : BandsEnv) (b : KinematicBands) (val thr : ℚ) : Bool × KinematicBands :=
  ((KinematicRealBands.almostNear (coreView E b) (vs_recomp E b)
      b.vs_band.toKinematicRealBands val thr).1,
    { b with vs_band := { b.vs_band with toKinematicRealBands :=
      (KinematicRealBands.almostNear (coreView E b) (vs_recomp E b)
        b.vs_band.toKinematicRealBands val thr).2 } })

end KinematicBands

/-! ## Call sequences on the error log -/

namespace ErrorLog

/-- A call of `addError` or of `addWarning` with its message. -/
inductive Call where
  | error (msg : String)
  | warning (msg : String)
deriving DecidableEq, Repr

/-- The effect of one call on the log. -/
def record (g : ErrorLogStatics) (e : ErrorLog) : Call → ErrorLog
  | Call.error msg => e.addError g msg
  | Call.warning msg => e.addWarning g msg

/-- The log after a sequence of calls. -/
def recordAll (g : ErrorLogStatics) (e : ErrorLog) (calls : List Call) : ErrorLog :=
  calls.foldl (record g) e

/-- The message of a call. -/
def Call.msg : Call → String
  | Call.error msg => msg
  | Call.warning msg => msg

/-- Number of line feeds in a text. -/
def feeds (s : String) : Nat := s.data.count (Char.ofNat 10)

/-- The marker line that `addError` and `addWarning` put in front of a trimmed message. -/
def marker : String := "[...] " ++ newline

/-- Number of entries of the accumulated message: every entry ends with a line feed, and the
first line is not an entry when it is the marker `[...] `. -/
def entryCount (e : ErrorLog) : Nat :=
  if e.message.data.take marker.data.length = marker.data then feeds e.message - 1
  else feeds e.message

end ErrorLog

namespace ErrorLog

/-- The entry that a call appends to the message of a log with the given name. -/
def entry (name : String) : Call → String
  | Call.error msg => "ERROR in " ++ name ++ ": " ++ msg ++ newline
  | Call.warning msg => "Warning in " ++ name ++ ": " ++ msg ++ newline

/-- The entries of a sequence of calls, one after the other. -/
def entriesText (name : String) : List Call → String
  | [] => ""
  | c :: cs => entry name c ++ entriesText name cs

/-- The message and the counter of a log built from the empty log by the calls `done`, for
the limit `L`. -/
def Grown (g : ErrorLogStatics) (name : String) (L : Nat) (done : List Call) (e : ErrorLog) :
    Prop :=
  e.name = name ∧ e.local_purge_flag = g.global_purge_flag ∧
  e.size = ((Min.min done.length L : Nat) : Int) ∧
  (done.length ≤ L → e.message = entriesText name done) ∧
  (L < done.length → e.message = marker ++ entriesText name done.tail)

end ErrorLog

/-! ## Loss intervals with infinite times -/

/-- A time as a `double` may hold it: a number, `PINFINITY` or `NINFINITY`. -/
inductive Time where
  | NINFINITY
  | finite (t : ℚ)
  | PINFINITY
deriving DecidableEq, Repr

namespace Time

/-- The comparison `a < b` of doubles. -/
def lt : Time → Time → Bool
  | NINFINITY, NINFINITY => false
  | NINFINITY, _ => true
  | finite _, NINFINITY => false
  | finite a, finite b => decide (a < b)
  | finite _, PINFINITY => true
  | PINFINITY, _ => false

/-- The comparison `a <= b` of doubles. -/
def le : Time → Time → Bool
  | NINFINITY, _ => true
  | finite _, NINFINITY => false
  | finite a, finite b => decide (a ≤ b)
  | finite _, PINFINITY => true
  | PINFINITY, PINFINITY => true
  | PINFINITY, _ => false

end Time

/-- The class `LossData` with the infinite times of its default constructor; the structure
`LossData` above holds the pairs of finite times. -/
structure ExtLossData where
  time_in : Time
  time_out : Time
deriving DecidableEq, Repr

namespace ExtLossData

/-- Translation of the default constructor `LossData()`. -/
def EMPTY : ExtLossData := ⟨Time.PINFINITY, Time.NINFINITY⟩

/-- Translation of `LossData::conflict()`. -/
def conflict (d : ExtLossData) : Bool := Time.lt d.time_in d.time_out

/-- A pair of finite times. -/
def ofLossData (d : LossData) : ExtLossData := ⟨Time.finite d.time_in, Time.finite d.time_out⟩

end ExtLossData

/-! ## Searches with explicit exit -/

namespace Daidalus

/-- The loop of `last_time_to_maneuver` with its exit made explicit and its probes recorded:
`none` when `fuel` iterations do not reach the exit test `pivot_red - pivot_green ≤ 1`,
otherwise the final `(pivot_green, pivot_red)` and the pivots at which the all-red test was
evaluated, in order. -/
def maneuver_run (p : DaidalusParameters) (q : AlertingView) :
    Nat → ℚ → ℚ → ℚ → List ℚ → Option (ℚ × ℚ × List ℚ)
  | 0, pivot_green, pivot_red, _, probes =>
    if pivot_red - pivot_green > 1 then none else some (pivot_green, pivot_red, probes)
  | fuel + 1, pivot_green, pivot_red, pivot, probes =>
    if pivot_red - pivot_green > 1 then
      if all_axes_red p q pivot = true then
        maneuver_run p q fuel pivot_green pivot ((pivot + pivot_green) / 2) (probes ++ [pivot])
      else
        maneuver_run p q fuel pivot pivot_red ((pivot_red + pivot) / 2) (probes ++ [pivot])
    else some (pivot_green, pivot_red, probes)

/-- The state of the search of `last_time_to_maneuver` on `[0, t2v]`: `pivot_green` is between 0
and `pivot_red`, `pivot_red` is at most `t2v`; `pivot_red` is `t2v` or a probed time at which
all enabled axes are red, and `pivot_green` is 0 or a probed time at which they are not. -/
def SearchState (p : DaidalusParameters) (q : AlertingView) (t2v pivot_green pivot_red : ℚ)
    (probes : List ℚ) : Prop :=
  pivot_green ≤ pivot_red ∧ 0 ≤ pivot_green ∧ pivot_red ≤ t2v ∧
  (pivot_red = t2v ∨ (pivot_red ∈ probes ∧ all_axes_red p q pivot_red = true)) ∧
  (pivot_green = 0 ∨ (pivot_green ∈ probes ∧ all_axes_red p q pivot_green = false))

end Daidalus

namespace KinematicRealBands

/-- The inner loop of `compute_recovery_bands` with its exit made explicit and its probes
counted: `none` when `fuel` iterations do not reach the exit test
`pivot_green - pivot_red ≤ 1`, otherwise the final `(noneset, pivot_red, pivot_green)` and the
number of `none_bands` probes. -/
def recovery_pivot_run (query : ℚ → IntervalSet → IntervalSet) :
    Nat → IntervalSet → ℚ → ℚ → ℚ → Nat → Option ((IntervalSet × ℚ × ℚ) × Nat)
  | 0, noneset, pivot_red, pivot_green, _, n =>
    if pivot_green - pivot_red > 1 then none else some ((noneset, pivot_red, pivot_green), n)
  | fuel + 1, noneset, pivot_red, pivot_green, pivot, n =>
    if pivot_green - pivot_red > 1 then
      if (query pivot noneset).isEmpty then
        recovery_pivot_run query fuel (query pivot noneset) pivot pivot_green
          ((pivot + pivot_green) / 2) (n + 1)
      else
        recovery_pivot_run query fuel (query pivot noneset) pivot_red pivot
          ((pivot_red + pivot) / 2) (n + 1)
    else some ((noneset, pivot_red, pivot_green), n)

/-- The outer loop of `compute_recovery_bands` with its exit made explicit and its iterations
counted: `none` when `fuel` iterations reach neither a `return` nor the exit test of the
`while`, or when the pivot search of an iteration does not reach its exit with the fuel
`search_fuel T`; otherwise the state, the `noneset` and the number of times the cylinder was
shrunk. -/
def recovery_run {AC : Type} (cfg : ACCoRDConfig) (core : KinematicBandsCore AC) (axis : Axis AC)
    (alerting_set : List AC) (repac : Option AC) (T : ℚ) :
    Nat → KinematicRealBands → IntervalSet → ℚ → ℚ → Nat →
      Option ((KinematicRealBands × IntervalSet) × Nat)
  | 0, b, noneset, h, v, n =>
    if h > cfg.NMAC_D ∨ v > cfg.NMAC_H then none else some ((b, noneset), n)
  | fuel + 1, b, noneset, h, v, n =>
    if h > cfg.NMAC_D ∨ v > cfg.NMAC_H then
      let ns1 := axis.none_bands noneset (Detection3D.cylinder h v) none repac 0 T alerting_set
      if ns1.isEmpty && !core.ca_bands then some ((b, ns1), n)
      else if !ns1.isEmpty then
        match recovery_pivot_run
            (fun p ns => axis.none_bands ns Detection3D.core (some (Detection3D.cylinder h v))
              repac p T alerting_set)
            (search_fuel T) ns1 0 (T + 1) (T + 1 - 1) 0 with
        | none => none
        | some (found, _) =>
          let rt := recovery_time_of T core.recovery_stability_time found.2.1 found.2.2
          let ns2 := axis.none_bands found.1 Detection3D.core (some (Detection3D.cylinder h v))
            repac rt T alerting_set
          if !ns2.isEmpty || !core.ca_bands then
            some (({ b with recovery_time := if ns2.isEmpty then -1 else rt }, ns2), n)
          else
            recovery_run cfg core axis alerting_set repac T fuel
              { b with recovery_time := if ns2.isEmpty then -1 else rt } ns2
              (h * (4 / 5)) (v * (4 / 5)) (n + 1)
      else
        recovery_run cfg core axis alerting_set repac T fuel b ns1 (h * (4 / 5)) (v * (4 / 5))
          (n + 1)
    else some ((b, noneset), n)

/-- The function `compute_recovery_bands` with the exits of its loops made explicit: `none`
when a loop does not reach its exit with the computed fuel, otherwise the result and the
number of times the cylinder was shrunk. -/
def compute_recovery_run {AC : Type} (cfg : ACCoRDConfig) (core : KinematicBandsCore AC)
    (axis : Axis AC) (b : KinematicRealBands) (noneset : IntervalSet) (alerting_set : List AC) :
    Option ((KinematicRealBands × IntervalSet) × Nat) :=
  let T := core.maxRecoveryTime
  let repac := if core.recovery_crit then core.getTraffic core.criteria_ac else none
  let ns0 := axis.none_bands noneset (Detection3D.cylinder cfg.NMAC_D cfg.NMAC_H) none repac 0 T
    alerting_set
  if !ns0.isEmpty then
    recovery_run cfg core axis alerting_set repac T
      (shrink_fuel cfg core.minHorizontalRecovery core.minVerticalRecovery) b ns0
      core.minHorizontalRecovery core.minVerticalRecovery 0
  else some ((b, ns0), 0)

end KinematicRealBands

namespace ExtLossData

/-- Translation of the constructor `LossData(tin, tout)`; `almost_equals` stands for
`Util::almost_equals`, which is not among the sources. -/
def make (almost_equals : Time → Time → Bool) (tin tout : Time) : ExtLossData :=
  if almost_equals tin tout then ⟨tout, tout⟩ else ⟨tin, tout⟩

end ExtLossData

/-! ## Discretisation of the speed and track axes -/

/-- The largest value of the type `int`. -/
def INT_MAX : Int := 2147483647

/-- The smallest value of the type `int`. -/
def INT_MIN : Int := -2147483648

/-- The value of an integral number as an `int`: a conversion `(int)x` or an `int` operation
whose result is outside the range of `int` is undefined, `none` here. -/
def to_int (n : Int) : Option Int :=
  if INT_MIN ≤ n ∧ n ≤ INT_MAX then some n else none

/-- The quotient `a / b` of doubles when it is a number: for `b = 0` the quotient is an
infinity or not a number, `none` here. -/
def fdiv (a b : ℚ) : Option ℚ :=
  if b = 0 then none else some (a / b)

/-- The function `round` of the C library: the nearest integral value, halfway cases away from
zero (`v < 0.0 ? std::ceil(v - 0.5) : std::floor(v + 0.5)` in the comment of
`KinematicTrkBands.cpp`). -/
def c_round (v : ℚ) : Int :=
  if v < 0 then ⌈v - 1 / 2⌉ else ⌊v + 1 / 2⌋

/-- The expression `(int)std::max(std::ceil(x),0.0)+1` of the ground speed and vertical speed
bands, for a quotient `x` that is a number. -/
def cell_extent (x : ℚ) : Option Int :=
  (to_int (Max.max ⌈x⌉ 0)).bind (fun n => to_int (n + 1))

/-- What the axis functions read of their environment: `Velocity::gs()` and `Velocity::vs()`,
`Units::from`, the constant `Pi`, `Kinematics::turnRate` and the coordination signs
`KinematicBandsCore::epsilonH` and `epsilonV`; none of them is among the sources. -/
structure AxisEnv where
  gs : Velocity → ℚ
  vs : Velocity → ℚ
  U : Units
  Pi : ℚ
  turnRate : ℚ → ℚ → ℚ
  epsilonH : OwnshipState → TrafficState → Int
  epsilonV : OwnshipState → TrafficState → Int

/-- The arguments that an axis hands to `KinematicIntegerBands::any_int_red`, `all_int_red`
(`tstep, B, T, B2, T2, maxl, maxr, ..., epsh, epsv, dir`) or `kinematic_bands_combine` (the
same without `dir`, `none` here). A time step or a cell count that is not defined is `none`. -/
structure EngineCall where
  tstep : Option ℚ
  B : ℚ
  T : ℚ
  B2 : ℚ
  T2 : ℚ
  maxl : Option Int
  maxr : Option Int
  epsh : Int
  epsv : Int
  dir : Option Int
deriving DecidableEq, Repr

namespace KinematicGsBands

/-- The local variable `maxdown` of `any_red`, `all_red` and `none_bands` for the ownship ground
speed `gso`. -/
def maxdown (b : KinematicGsBands) (gso : ℚ) : Option Int :=
  (fdiv (gso - b.min) b.step).bind cell_extent

/-- The local variable `maxup` of `any_red`, `all_red` and `none_bands`. -/
def maxup (b : KinematicGsBands) (gso : ℚ) : Option Int :=
  (fdiv (b.max - gso) b.step).bind cell_extent

/-- The local variable `tstep = step/horizontal_accel`. -/
def tstep (b : KinematicGsBands) : Option ℚ := fdiv b.step b.horizontal_accel

/-- The call of `any_int_red` in `KinematicGsBands::any_red`. -/
def any_red_call (E : AxisEnv) (b : KinematicGsBands) (repac : Option TrafficState) (B T : ℚ)
    (ownship : OwnshipState) : EngineCall :=
  { tstep := tstep b, B := B, T := T, B2 := 0, T2 := B,
    maxl := maxdown b (E.gs ownship.vel), maxr := maxup b (E.gs ownship.vel),
    epsh := KinematicBandsCore.coordination E.epsilonH ownship repac, epsv := 0, dir := some 0 }

/-- The call of `all_int_red` in `KinematicGsBands::all_red`. -/
def all_red_call (E : AxisEnv) (b : KinematicGsBands) (repac : Option TrafficState) (B T : ℚ)
    (ownship : OwnshipState) : EngineCall :=
  { tstep := tstep b, B := B, T := T, B2 := 0, T2 := B,
    maxl := maxdown b (E.gs ownship.vel), maxr := maxup b (E.gs ownship.vel),
    epsh := KinematicBandsCore.coordination E.epsilonH ownship repac, epsv := 0, dir := some 0 }

/-- The call of `kinematic_bands_combine` in `KinematicGsBands::none_bands`. -/
def none_bands_call (E : AxisEnv) (b : KinematicGsBands) (repac : Option TrafficState) (B T : ℚ)
    (ownship : OwnshipState) : EngineCall :=
  { tstep := tstep b, B := B, T := T, B2 := 0, T2 := B,
    maxl := maxdown b (E.gs ownship.vel), maxr := maxup b (E.gs ownship.vel),
    epsh := KinematicBandsCore.coordination E.epsilonH ownship repac, epsv := 0, dir := none }

end KinematicGsBands

namespace KinematicVsBands

/-- The local variable `maxdown` of `any_red`, `all_red` and `none_bands` for the ownship
vertical speed `vso`. -/
def maxdown (b : KinematicVsBands) (vso : ℚ) : Option Int :=
  (fdiv (vso - b.min) b.step).bind cell_extent

/-- The local variable `maxup` of `any_red`, `all_red` and `none_bands`. -/
def maxup (b : KinematicVsBands) (vso : ℚ) : Option Int :=
  (fdiv (b.max - vso) b.step).bind cell_extent

/-- The local variable `tstep = step/vertical_accel`. -/
def tstep (b : KinematicVsBands) : Option ℚ := fdiv b.step b.vertical_accel

/-- The call of `any_int_red` in `KinematicVsBands::any_red`. -/
def any_red_call (E : AxisEnv) (b : KinematicVsBands) (repac : Option TrafficState) (B T : ℚ)
    (ownship : OwnshipState) : EngineCall :=
  { tstep := tstep b, B := B, T := T, B2 := 0, T2 := B,
    maxl := maxdown b (E.vs ownship.vel), maxr := maxup b (E.vs ownship.vel),
    epsh := 0, epsv := KinematicBandsCore.coordination E.epsilonV ownship repac, dir := some 0 }

/-- The call of `all_int_red` in `KinematicVsBands::all_red`. -/
def all_red_call (E : AxisEnv) (b : KinematicVsBands) (repac : Option TrafficState) (B T : ℚ)
    (ownship : OwnshipState) : EngineCall :=
  { tstep := tstep b, B := B, T := T, B2 := 0, T2 := B,
    maxl := maxdown b (E.vs ownship.vel), maxr := maxup b (E.vs ownship.vel),
    epsh := 0, epsv := KinematicBandsCore.coordination E.epsilonV ownship repac, dir := some 0 }

/-- The call of `kinematic_bands_combine` in `KinematicVsBands::none_bands`. -/
def none_bands_call (E : AxisEnv) (b : KinematicVsBands) (repac : Option TrafficState) (B T : ℚ)
    (ownship : OwnshipState) : EngineCall :=
  { tstep := tstep b, B := B, T := T, B2 := 0, T2 := B,
    maxl := maxdown b (E.vs ownship.vel), maxr := maxup b (E.vs ownship.vel),
    epsh := 0, epsv := KinematicBandsCore.coordination E.epsilonV ownship repac, dir := none }

end KinematicVsBands

namespace KinematicTrkBands

/-- The local variable `omega` of `any_red`, `all_red` and `none_bands` for the ownship ground
speed `gso`. -/
def omega (E : AxisEnv) (b : KinematicTrkBands) (gso : ℚ) : ℚ :=
  if b.turn_rate = 0 ∨ gso ≤ E.U.from_ "kn" 1 then E.turnRate gso b.bank_angle else b.turn_rate

/-- The local variable `maxn = (int)round(Pi/step)`. -/
def maxn (E : AxisEnv) (b : KinematicTrkBands) : Option Int :=
  (fdiv E.Pi b.step).bind (fun q => to_int (c_round q))

/-- The local variable `tstep = step/omega`. -/
def tstep (E : AxisEnv) (b : KinematicTrkBands) (gso : ℚ) : Option ℚ :=
  fdiv b.step (omega E b gso)

/-- The cell width `Pi/maxn` that `none_bands` hands to `toIntervalSet_0_2PI`. -/
def cell_width (E : AxisEnv) (b : KinematicTrkBands) : Option ℚ :=
  (maxn E b).bind (fun n => fdiv E.Pi (n : ℚ))

/-- The call of `any_int_red` in `KinematicTrkBands::any_red`. -/
def any_red_call (E : AxisEnv) (b : KinematicTrkBands) (repac : Option TrafficState) (B T : ℚ)
    (ownship : OwnshipState) : EngineCall :=
  { tstep := tstep E b (E.gs ownship.vel), B := B, T := T, B2 := 0, T2 := B,
    maxl := maxn E b, maxr := maxn E b,
    epsh := 0, epsv := KinematicBandsCore.coordination E.epsilonH ownship repac, dir := some 0 }

/-- The call of `all_int_red` in `KinematicTrkBands::all_red`. -/
def all_red_call (E : AxisEnv) (b : KinematicTrkBands) (repac : Option TrafficState) (B T : ℚ)
    (ownship : OwnshipState) : EngineCall :=
  { tstep := tstep E b (E.gs ownship.vel), B := B, T := T, B2 := 0, T2 := B,
    maxl := maxn E b, maxr := maxn E b,
    epsh := KinematicBandsCore.coordination E.epsilonH ownship repac, epsv := 0, dir := some 0 }

/-- The call of `kinematic_bands_combine` in `KinematicTrkBands::none_bands`. -/
def none_bands_call (E : AxisEnv) (b : KinematicTrkBands) (repac : Option TrafficState) (B T : ℚ)
    (ownship : OwnshipState) : EngineCall :=
  { tstep := tstep E b (E.gs ownship.vel), B := B, T := T, B2 := 0, T2 := B,
    maxl := maxn E b, maxr := maxn E b,
    epsh := KinematicBandsCore.coordination E.epsilonH ownship repac, epsv := 0, dir := none }

end KinematicTrkBands

/-! ## The file walker -/

/-- State of `DaidalusFileWalker`: the time steps `times` of the sequence, the current `index`
and the time that `sr.setActive` made current in the reader (`none` before any call). -/
structure DaidalusFileWalker where
  times : List ℚ
  index : Int
  active : Option ℚ
deriving DecidableEq, Repr

namespace DaidalusFileWalker

/-- Translation of `DaidalusFileWalker::init` for a reader with the sequence keys `keys`. -/
def init (keys : List ℚ) : DaidalusFileWalker :=
  { times := keys, index := 0, active := keys.head? }

/-- Translation of `DaidalusFileWalker::getIndex`. -/
def getIndex (w : DaidalusFileWalker) : Int := w.index

/-- Translation of `DaidalusFileWalker::atBeginning`. -/
def atBeginning (w : DaidalusFileWalker) : Bool := decide (w.index = 0)

/-- Translation of `DaidalusFileWalker::atEnd`. -/
def atEnd (w : DaidalusFileWalker) : Bool := decide (w.index = (w.times.length : Int))

/-- Translation of `DaidalusFileWalker::goToTimeStep`: the answer and the walker. -/
def goToTimeStep (w : DaidalusFileWalker) (i : Int) : Bool × DaidalusFileWalker :=
  if 0 ≤ i ∧ i < (w.times.length : Int) then
    (true, { w with index := i, active := w.times[i.toNat]? })
  else (false, w)

/-- Translation of `DaidalusFileWalker::goToBeginning`. -/
def goToBeginning (w : DaidalusFileWalker) : DaidalusFileWalker := (goToTimeStep w 0).2

/-- Translation of `DaidalusFileWalker::goToEnd`. -/
def goToEnd (w : DaidalusFileWalker) : DaidalusFileWalker :=
  (goToTimeStep w (w.times.length : Int)).2

/-- Translation of `DaidalusFileWalker::goNext`. -/
def goNext (w : DaidalusFileWalker) : DaidalusFileWalker :=
  if (goToTimeStep w (w.index + 1)).1 = true then (goToTimeStep w (w.index + 1)).2
  else { (goToTimeStep w (w.index + 1)).2 with index := (w.times.length : Int) }

/-- Translation of `DaidalusFileWalker::goPrev`. -/
def goPrev (w : DaidalusFileWalker) : DaidalusFileWalker :=
  if !atBeginning w then (goToTimeStep w (w.index - 1)).2 else w

/-- The walker after `k` calls of `goNext`. -/
def goNextTimes : Nat → DaidalusFileWalker → DaidalusFileWalker
  | 0, w => w
  | k + 1, w => goNextTimes k (goNext w)

end DaidalusFileWalker

/-! ## Copies of the core -/

namespace CoreState

/-- Translation of the copy constructor `KinematicBandsCore(const KinematicBandsCore& core)`:
the traffic of `core` is pushed onto the empty list of the new object. -/
def copy (core : CoreState) : CoreState :=
  { core with traffic := [] ++ core.traffic }

/-- Translation of `KinematicBandsCore::operator=`, the assignment `a = core`: every member of
`a` is overwritten, except that the traffic of `core` is pushed onto the list that `a` holds. -/
def assign (a core : CoreState) : CoreState :=
  { core with traffic := a.traffic ++ core.traffic }

end CoreState

/-! ## Loading aircraft -/

/-- An aircraft state as it is handed to `setOwnshipState` and `addTrafficState`: identifier,
position, ground velocity and timestamp. -/
structure TimedState where
  id : String
  pos : Position
  vel : Velocity
  time : ℚ
deriving DecidableEq, Repr

namespace Daidalus

/-- The object after `setOwnshipState(own...)` followed by `addTrafficState(ac...)` for the
traffic aircraft in order. -/
def load (gc : GreatCircleLinear) (d : Daidalus) (own : TimedState) (traffic : List TimedState) :
    Daidalus :=
  traffic.foldl (fun acc ac => (addTrafficState gc acc ac.id ac.pos ac.vel ac.time).2)
    (setOwnshipState d own.id own.pos own.vel own.time)

end Daidalus

/-! ## Example configurations -/

namespace Examples

/-- NMAC cylinder of 500 ft by 100 ft, in metres. -/
def cfgEx : ACCoRDConfig := ⟨762 / 5, 762 / 25⟩

/-- A core with one traffic aircraft that is in conflict on the current trajectory; lookahead
8 s, default recovery cylinder taken from the table values. -/
def coreEx : KinematicBandsCore Nat :=
  { hasOwnship := true, traffic := [1], implicit_bands := false, lookahead := 8,
    alerting_time := 0, max_recovery_time := 0, recovery_stability_time := 2,
    criteria_ac := "_NoAc_", conflict_crit := false, recovery_crit := false,
    min_horizontal_recovery := 0, min_vertical_recovery := 0, ca_bands := false,
    getId := fun _ => "ac1", checkConflict := fun _ _ _ => ⟨0, 5⟩,
    RA_HMD := 700, RA_ZTHR := 200 }

/-- The same core with collision-avoidance bands enabled. -/
def coreCA : KinematicBandsCore Nat := { coreEx with ca_bands := true }

/-- The same core with a recovery cylinder configured inside the NMAC cylinder. -/
def coreSmall : KinematicBandsCore Nat :=
  { coreEx with min_horizontal_recovery := 100, min_vertical_recovery := 20 }

/-- The same core with an aircraft that is not in conflict. -/
def coreQuiet : KinematicBandsCore Nat := { coreEx with checkConflict := fun _ _ _ => ⟨1, 0⟩ }

/-- An axis on which every manoeuvre is red for every detector. -/
def axisRed : Axis Nat :=
  { none_bands := fun _ _ _ _ _ _ _ => [],
    any_red := fun _ _ _ _ _ _ => true, all_red := fun _ _ _ _ _ _ => true }

/-- An axis that is solid red for the core detector and has the green interval `[2,4]` for a
cylinder used as conflict detector. -/
def axisNmacGreen : Axis Nat :=
  { none_bands := fun _ cd _ _ _ _ _ =>
      match cd with
      | Detection3D.core => []
      | Detection3D.cylinder _ _ => [⟨2, 4⟩],
    any_red := fun _ _ _ _ _ _ => true, all_red := fun _ _ _ _ _ _ => true }

/-- An axis that is solid red for the nominal query and, with a recovery cylinder, has the green
interval `[2,4]` from time 3 on. -/
def axisRecover : Axis Nat :=
  { none_bands := fun _ cd rd _ B _ _ =>
      match cd, rd with
      | Detection3D.core, none => []
      | Detection3D.core, some _ => if B < 3 then [] else [⟨2, 4⟩]
      | Detection3D.cylinder _ _, _ => [⟨2, 4⟩],
    any_red := fun _ _ _ _ _ _ => true, all_red := fun _ _ _ _ _ _ => true }

/-- An axis without any red manoeuvre. -/
def axisGreen : Axis Nat :=
  { none_bands := fun _ _ _ _ _ _ _ => [⟨0, 10⟩],
    any_red := fun _ _ _ _ _ _ => false, all_red := fun _ _ _ _ _ _ => false }

/-- Bands over `[0, 10]` with step 1 and recovery enabled. -/
def bandsEx : KinematicRealBands :=
  { outdated := true, intervals := [], regions := [], recovery_time := 0, min := 0, max := 10,
    step := 1, do_recovery := true }

/-- The same bands with recovery disabled. -/
def bandsNoRec : KinematicRealBands := { bandsEx with do_recovery := false }

/-- Bands-based alerting on the track axis only, warning at 5 s, warnings taken from the time
of violation (`warning_when_recovery` disabled). -/
def paramsEx : DaidalusParameters :=
  { alerting_time := 60, lookahead_time := 90, bands_alerting := true, trk_alerting := true,
    gs_alerting := false, vs_alerting := false, preventive_alt := -1, preventive_trk := -1,
    preventive_gs := -1, preventive_vs := -1, time_to_warning := 5,
    warning_when_recovery := false }

/-- The same parameters with `warning_when_recovery` enabled. -/
def paramsRec : DaidalusParameters := { paramsEx with warning_when_recovery := true }

/-- A pair whose current trajectory loses separation during `[10, 20]`, with one track band,
and for which the track axis is entirely red at every pivot time. -/
def viewEx : AlertingView :=
  { trackLength := 1, groundSpeedLength := 0, verticalSpeedLength := 0,
    conflictDetection := fun _ _ => ⟨10, 20⟩, so_z := 0, si_z := 0, trk := 0, gs := 100,
    vs := 0, nearTrackConflict := fun _ _ => true, nearGroundSpeedConflict := fun _ _ => false,
    nearVerticalSpeedConflict := fun _ _ => false, trk_all_red := fun _ _ => true,
    gs_all_red := fun _ _ => true, vs_all_red := fun _ _ => true }

/-- Altitude bands over `[1000, 3000]` with step 500 and instantaneous level-off
(`vertical_rate = 0`). -/
def altEx : KinematicAltBands :=
  { outdated := true, intervals := [], regions := [], recovery_time := 0, min := 1000,
    max := 3000, step := 500, do_recovery := false, vertical_rate := 0, vertical_accel := 0 }

/-- Level-off kinematics in which every target altitude is reached at once and the single
traffic aircraft is in conflict with the ownship levelled at the lowest target altitude 1000
only. -/
def altKinEx : AltKinematics Nat :=
  { levelOutFinalTime := fun _ => 0,
    finalConflict := fun _ a _ _ => if a = 1000 then ⟨0, 5⟩ else ⟨1, 0⟩,
    own_z := 2000, levelOutTime := fun _ => 0, levelOutVs := fun _ _ => 0,
    violationAt := fun _ _ _ => false }

/-- Parameters of bands-based alerting on the track axis with preventive thresholds: altitude
threshold 200 and track threshold 10. -/
def paramsPrev : DaidalusParameters :=
  { paramsEx with preventive_alt := 200, preventive_trk := 10 }

/-- A pair without conflict on the current trajectory, with one track band near the ownship
track and a vertical separation of 100. -/
def viewPrev : AlertingView :=
  { viewEx with conflictDetection := fun _ _ => ⟨1, 0⟩, so_z := 1000, si_z := 1100 }

/-- A detector for an intruder that enters violation at the time `e` and stays in violation:
over a window `[B, T]` with `e < T` it reports the loss interval `[e, T]`, otherwise no
conflict. -/
def detEntry (e : ℚ) : Unit → ℚ → ℚ → LossData :=
  fun _ _ T => if e < T then ⟨e, T⟩ else ⟨1, 0⟩

/-- A detector for a pair that is in violation now and until the time 30: the loss interval
`[0, 30]` clipped to the query window `[B, T]`. -/
def detClip : Unit → ℚ → ℚ → LossData :=
  fun _ B T => if Max.max B 0 ≤ Min.min T 30 then ⟨Max.max B 0, Min.min T 30⟩ else ⟨1, 0⟩

/-- The violation test of the same detector: the current time 0 lies in the loss interval
`[0, 30]`. -/
def violationClip : Unit → Bool := fun _ => decide ((0 : ℚ) ≤ 0 ∧ (0 : ℚ) ≤ 30)

/-- A flat-Earth stand-in for the great-circle projection. -/
def gcEx : GreatCircleLinear := fun p v t => Vect3.linear p v t

/-- Renderings of numbers in messages, and the default log limits. -/
def logEx : ErrorLogStatics :=
  { global_purge_flag := 0, limit := 25, Fm4 := fun _ => "#", Fm0 := fun _ => "#" }

/-- An ownship in Euclidean coordinates. -/
def ownEx : TrafficState := ⟨"own", ⟨false, ⟨0, 0, 1000⟩⟩, ⟨100, 0, 0⟩⟩

/-- An intruder in Euclidean coordinates. -/
def intruderEx : TrafficState := ⟨"ac1", ⟨false, ⟨5000, 0, 1000⟩⟩, ⟨-100, 0, 0⟩⟩

/-- A parameter block with the alerting parameters of `paramsEx`. -/
def blockEx : ParameterBlock :=
  { toDaidalusParameters := paramsEx, error := ErrorLog.init logEx "DaidalusParameters",
    DTHR := 1222, ZTHR := 137, TTHR := 35, TCOA := 0, D := 9260, H := 305, min_gs := 0,
    max_gs := 360, min_vs := -25, max_vs := 25, min_alt := 150, max_alt := 15000,
    implicit_bands := false, trk_step := 1 / 60, gs_step := 1 / 2, vs_step := 1 / 20,
    alt_step := 150, horizontal_accel := 2, vertical_accel := 2, turn_rate := 1 / 20,
    bank_angle := 1 / 2, vertical_rate := 0, recovery_stability_time := 2,
    max_recovery_time := 0, min_horizontal_recovery := 0, min_vertical_recovery := 0,
    conflict_crit := false, recovery_crit := false, recovery_trk := true, recovery_gs := true,
    recovery_vs := true, ca_bands := false }

/-- A `Daidalus` object with the ownship and one intruder at the time 10, wind `(5, 0, 0)`,
thresholds-based alerting on the four `MOPS` tiers of an intruder entering violation at 38 s. -/
def daaEx : Daidalus :=
  { acs := [ownEx, intruderEx], times := [10, 10], wind_vector := ⟨5, 0, 0⟩,
    alertor := Daidalus.MOPS (fun _ => detEntry 38 ()) (fun _ => detEntry 38 ())
      (fun _ => detEntry 38 ()) (fun _ => detEntry 38 ()),
    info := ⟨-1, none, none⟩, detector := fun _ _ => detEntry 38 (),
    urgency_strat := fun _ _ _ _ => none,
    parameters := { blockEx with bands_alerting := false },
    error := ErrorLog.init logEx "Daidalus" }

/-- The defaults read by the constructors of `KinematicBands`: the parameters of `blockEx`, a
rational stand-in for `2*Pi` and a default detector without conflict. -/
def dfltEx : BandsDefaults :=
  { parameters := blockEx, twoPi := 710 / 113, cylinder := fun _ _ _ _ => ⟨1, 0⟩ }

/-- A detector for which every traffic aircraft is in conflict during `[0, 5]`. -/
def detConflict : StateDetector := fun _ _ _ _ => ⟨0, 5⟩

/-- Track-axis functions on traffic states: solid red for the nominal query and, with a
recovery cylinder, the green interval `[2, 4]` from the time 3 on. -/
def axisTrk : Axis TrafficState :=
  { none_bands := fun _ cd rd _ B _ _ =>
      match cd, rd with
      | Detection3D.core, none => []
      | Detection3D.core, some _ => if B < 3 then [] else [⟨2, 4⟩]
      | Detection3D.cylinder _ _, _ => [⟨2, 4⟩],
    any_red := fun _ _ _ _ _ _ => true, all_red := fun _ _ _ _ _ _ => true }

/-- A bands object built as `getKinematicBandsAt` builds it, with the ownship `ownEx` and the
intruder `intruderEx`, lookahead time 8 s and maximum recovery time 8 s. -/
def bandsObjEx : KinematicBands :=
  KinematicBands.addTraffic logEx
    (KinematicBands.setOwnship
      (KinematicBands.setParameters logEx (KinematicBands.create logEx dfltEx detConflict)
        { blockEx with lookahead_time := 8, alerting_time := 0 })
      ⟨ownEx⟩)
    intruderEx

/-- The same object after a query of the track recovery time, which computes the track
bands. -/
def bandsObjQueried : KinematicBands :=
  (KinematicBands.trackRecoveryTime cfgEx (fun _ => 700) (fun _ => 200) axisTrk bandsObjEx).2

/-- Conversion factors to internal units: 0.3048 m per foot, 1852 m per nautical mile,
1852/3600 m/s per knot, 0.00508 m/s per foot per minute and the rational stand-in
355/(113*180) for pi/180 radians per degree. -/
def factorEx (u : String) : ℚ :=
  if u = "ft" then 381 / 1250
  else if u = "nmi" then 1852
  else if u = "knot" ∨ u = "kts" then 463 / 900
  else if u = "fpm" then 127 / 25000
  else if u = "deg" ∨ u = "deg/s" then 355 / 20340
  else 1

/-- Units with these factors. -/
def unitsEx : Units :=
  { from_ := fun u v => v * factorEx u, to_ := fun u v => v / factorEx u }

/-- A parameter store with non-positive steps. -/
def storeBadSteps : ParameterData :=
  ParameterData.empty
    |>.setInternal "trk_step" 0 "deg"
    |>.setInternal "gs_step" (-1) "kts"
    |>.setInternal "vs_step" 0 "fpm"
    |>.setInternal "alt_step" (-150) "ft"

/-- A lat/lon ownship. -/
def ownLL : OwnshipState := ⟨⟨"own", ⟨true, ⟨1 / 2, -1, 1000⟩⟩, ⟨100, 0, 0⟩⟩⟩

/-- A projection that answers the zero vector, to tell projected from unprojected results. -/
def prjEx : EuclideanProjection :=
  { project := fun _ _ => Vect3.ZERO, projectVelocity := fun _ _ _ => Vect3.ZERO }

/-- Ground speed axis functions on traffic states: the manoeuvres in `[100, 200]` are free of
conflict for every detector. -/
def axisGs : Axis TrafficState :=
  { none_bands := fun _ _ _ _ _ _ _ => [⟨100, 200⟩],
    any_red := fun _ _ _ _ _ _ => true, all_red := fun _ _ _ _ _ _ => false }

/-- Level-off kinematics on traffic states in which every target altitude is reached at once
without conflict. -/
def altKinT : AltKinematics TrafficState :=
  { levelOutFinalTime := fun _ => 0, finalConflict := fun _ _ _ _ => ⟨1, 0⟩, own_z := 1000,
    levelOutTime := fun _ => 0, levelOutVs := fun _ _ => 0, violationAt := fun _ _ _ => false }

/-- The environment of the band queries in the examples. -/
def envEx : BandsEnv :=
  { cfg := cfgEx, RA_HMD := fun _ => 700, RA_ZTHR := fun _ => 200, trk := axisTrk,
    gs := axisGs, vs := axisGs, alt := altKinT, to_2pi := fun x => x }

/-- A detector object of the cylinder kind. -/
def cylinderEx : DetectorObject :=
  { canonicalSuperClassName := "gov.nasa.larcfm.ACCoRD.CDCylinder",
    canonicalClassName := "gov.nasa.larcfm.ACCoRD.CDCylinder",
    DTHR := 0, ZTHR := 0, TTHR := 0, TCOA := 0, D := 9260, H := 305 }

/-- Twenty-seven calls with single-line messages, errors and warnings in turn. -/
def callsEx : List ErrorLog.Call :=
  (List.range 27).map (fun i =>
    if i % 2 = 0 then ErrorLog.Call.error "bad value" else ErrorLog.Call.warning "check value")

/-- A loss interval with equal times. -/
def lossPoint : ExtLossData := ⟨Time.finite 5, Time.finite 5⟩

/-- A loss interval from 2 s to 7 s. -/
def lossEx : ExtLossData := ⟨Time.finite 2, Time.finite 7⟩

/-- Ground speed bands on `[0, 360]` m/s with the step 0.5 m/s and the acceleration 2 m/s². -/
def gsEx : KinematicGsBands :=
  { toKinematicRealBands := { bandsEx with min := 0, max := 360, step := 1 / 2 },
    horizontal_accel := 2 }

/-- Vertical speed bands on `[-25, 25]` m/s with the step 0.05 m/s and the acceleration
2 m/s². -/
def vsEx : KinematicVsBands :=
  { toKinematicRealBands := { bandsEx with min := -25, max := 25, step := 1 / 20 },
    vertical_accel := 2 }

/-- Ground speed bands on `[0, 1000]` m/s with the step `10^-7` m/s. -/
def gsTiny : KinematicGsBands :=
  { toKinematicRealBands := { bandsEx with min := 0, max := 1000, step := 1 / 10000000 },
    horizontal_accel := 2 }

/-- An environment of the axis functions for velocities along the x axis: the ground speed is
the absolute value of the first component, the vertical speed the third component; a rational
stand-in for `Pi`, a constant turn rate and the coordination signs 1 and -1. -/
def axisEnvEx : AxisEnv :=
  { gs := fun v => |v.x|, vs := fun v => v.z, U := unitsEx, Pi := 355 / 113,
    turnRate := fun _ _ => 1 / 20, epsilonH := fun _ _ => 1, epsilonV := fun _ _ => -1 }

/-- Track bands with the step 1 degree, built by `KinematicBands::setParameters`. -/
def trkEx : KinematicTrkBands := bandsObjEx.trk_band

/-- A walker at the beginning of a file with three time steps. -/
def walkerEx : DaidalusFileWalker := DaidalusFileWalker.init [0, 1, 2]

/-- The ownship `ownEx` with its ground velocity at the time 10. -/
def ownTimed : TimedState := ⟨"own", ⟨false, ⟨0, 0, 1000⟩⟩, ⟨100, 0, 0⟩, 10⟩

/-- The intruder `intruderEx` with its ground velocity at the time 8. -/
def intruderTimed : TimedState := ⟨"ac1", ⟨false, ⟨5000, 0, 1000⟩⟩, ⟨-100, 0, 0⟩, 8⟩

end Examples

/-! ## Theorems -/

namespace KinematicRealBands

/-! ### The colouring loop on a well-formed green set -/

theorem clip_up_eq {x hi : ℚ} (h : x ≤ hi) : (if x < hi then x else hi) = x := by
  split_ifs with hx
  · rfl
  · exact le_antisymm (not_lt.mp hx) h

theorem color_loop_green_nil (hi l : ℚ) (rec : Bool) :
    color_loop hi true false rec l [] =
      if l < hi then [(⟨l, hi⟩, Region.NEAR)] else [] := by
  simp [color_loop, gap_region]

theorem color_loop_green_cons (hi l : ℚ) (rec : Bool) (ii : Interval) (rest : List Interval) :
    color_loop hi true false rec l (ii :: rest) =
      (if l < ii.low then [(⟨l, ii.low⟩, Region.NEAR)] else []) ++
      ((⟨ii.low, if ii.up < hi then ii.up else hi⟩, band_region true rec) ::
        color_loop hi true false rec (if ii.up < hi then ii.up else hi) rest) := by
  simp [color_loop, gap_region]

theorem color_loop_green_ne_nil (hi l : ℚ) (rec : Bool) (ii : Interval) (rest : List Interval) :
    color_loop hi true false rec l (ii :: rest) ≠ [] := by
  rw [color_loop_green_cons]
  split_ifs <;> simp

/-- Every pushed interval lies in `[l, hi]` and is well-formed. -/
theorem color_loop_green_inside (hi : ℚ) (rec : Bool) :
    ∀ (s : List Interval) (l : ℚ), l ≤ hi →
      (∀ i ∈ s, l ≤ i.low ∧ i.low ≤ i.up ∧ i.up ≤ hi) →
      s.Pairwise (fun a b => a.up < b.low) →
      ∀ e ∈ color_loop hi true false rec l s, l ≤ e.1.low ∧ e.1.low ≤ e.1.up ∧ e.1.up ≤ hi := by
  intro s
  induction s with
  | nil =>
    intro l hl _ _ e he
    rw [color_loop_green_nil] at he
    split_ifs at he with h
    · simp only [List.mem_singleton] at he
      subst he
      exact ⟨le_refl _, hl, le_refl _⟩
    · simp at he
  | cons ii rest ih =>
    intro l hl hin hpw e he
    obtain ⟨h1, h2, h3⟩ := hin ii (List.mem_cons_self _ _)
    rw [color_loop_green_cons, clip_up_eq h3] at he
    rw [List.pairwise_cons] at hpw
    rcases List.mem_append.mp he with hg | hb
    · split_ifs at hg with h
      · simp only [List.mem_singleton] at hg
        subst hg
        exact ⟨le_refl _, h1, le_trans h2 h3⟩
      · simp at hg
    · rcases List.mem_cons.mp hb with hb | hb
      · subst hb
        exact ⟨h1, h2, h3⟩
      · have hrest : ∀ i ∈ rest, ii.up ≤ i.low ∧ i.low ≤ i.up ∧ i.up ≤ hi := by
          intro i hi2
          exact ⟨le_of_lt (hpw.1 i hi2), (hin i (List.mem_cons_of_mem _ hi2)).2⟩
        obtain ⟨a, b, c⟩ := ih ii.up h3 hrest hpw.2 e hb
        exact ⟨le_trans (le_trans h1 h2) a, b, c⟩

/-- The first pushed interval starts at the running lower end `l`. -/
theorem color_loop_green_head (hi : ℚ) (rec : Bool) (s : List Interval) (l : ℚ)
    (hin : ∀ i ∈ s, l ≤ i.low) :
    ∀ e, (color_loop hi true false rec l s).head? = some e → e.1.low = l := by
  intro e he
  cases s with
  | nil =>
    rw [color_loop_green_nil] at he
    split_ifs at he
    · simp only [List.head?_cons, Option.some.injEq] at he
      subst he; rfl
    · simp at he
  | cons ii rest =>
    rw [color_loop_green_cons] at he
    by_cases h : l < ii.low
    · simp only [h, if_true, List.singleton_append, List.head?_cons, Option.some.injEq] at he
      subst he; rfl
    · simp only [h, if_false, List.nil_append, List.head?_cons, Option.some.injEq] at he
      subst he
      exact le_antisymm (not_lt.mp h) (hin ii (List.mem_cons_self _ _))

/-- The last pushed interval ends at `hi`. -/
theorem color_loop_green_last (hi : ℚ) (rec : Bool) :
    ∀ (s : List Interval) (l : ℚ), (∀ i ∈ s, i.up ≤ hi) →
      ∀ e, (color_loop hi true false rec l s).getLast? = some e → e.1.up = hi := by
  intro s
  induction s with
  | nil =>
    intro l _ e he
    rw [color_loop_green_nil] at he
    split_ifs at he
    · simp only [List.getLast?_singleton, Option.some.injEq] at he
      subst he; rfl
    · simp at he
  | cons ii rest ih =>
    intro l hin e he
    have h3 := hin ii (List.mem_cons_self _ _)
    rw [color_loop_green_cons, clip_up_eq h3] at he
    have hrest : ∀ i ∈ rest, i.up ≤ hi := fun i hi2 => hin i (List.mem_cons_of_mem _ hi2)
    rw [List.getLast?_append_of_ne_nil _ (List.cons_ne_nil _ _)] at he
    cases hr : color_loop hi true false rec ii.up rest with
    | nil =>
      rw [hr] at he
      simp only [List.getLast?_singleton, Option.some.injEq] at he
      subst he
      cases rest with
      | nil =>
        rw [color_loop_green_nil] at hr
        split_ifs at hr with h
        exact le_antisymm h3 (not_lt.mp h)
      | cons j rest2 => exact absurd hr (color_loop_green_ne_nil _ _ _ _ _)
    | cons x xs =>
      rw [hr, List.getLast?_cons_cons] at he
      rw [← hr] at he
      exact ih ii.up hrest e he

/-- Consecutive pushed intervals meet at a shared endpoint. -/
theorem color_loop_green_meet (hi : ℚ) (rec : Bool) :
    ∀ (s : List Interval) (l : ℚ),
      (∀ i ∈ s, l ≤ i.low ∧ i.low ≤ i.up ∧ i.up ≤ hi) →
      s.Pairwise (fun a b => a.up < b.low) →
      (color_loop hi true false rec l s).Chain' (fun a b => a.1.up = b.1.low) := by
  intro s
  induction s with
  | nil =>
    intro l _ _
    rw [color_loop_green_nil]
    split_ifs <;> simp
  | cons ii rest ih =>
    intro l hin hpw
    obtain ⟨_, h2, h3⟩ := hin ii (List.mem_cons_self _ _)
    rw [List.pairwise_cons] at hpw
    have hrest : ∀ i ∈ rest, ii.up ≤ i.low ∧ i.low ≤ i.up ∧ i.up ≤ hi := by
      intro i hi2
      exact ⟨le_of_lt (hpw.1 i hi2), (hin i (List.mem_cons_of_mem _ hi2)).2⟩
    have hband : ((⟨ii.low, ii.up⟩, band_region true rec) ::
        color_loop hi true false rec ii.up rest).Chain' (fun a b => a.1.up = b.1.low) := by
      rw [List.chain'_cons']
      refine ⟨?_, ih ii.up hrest hpw.2⟩
      intro y hy
      exact (color_loop_green_head hi rec rest ii.up (fun i hi2 => (hrest i hi2).1) y
        (Option.mem_def.mp hy)).symm
    rw [color_loop_green_cons, clip_up_eq h3]
    by_cases h : l < ii.low
    · simp only [h, if_true, List.singleton_append]
      exact List.Chain'.cons rfl hband
    · simp only [h, if_false, List.nil_append]
      exact hband

/-- Every value of `(l, hi]` lies in a pushed interval. -/
theorem color_loop_green_cover (hi : ℚ) (rec : Bool) :
    ∀ (s : List Interval) (l : ℚ), (∀ i ∈ s, i.up ≤ hi) →
      ∀ x, l < x → x ≤ hi →
        ∃ e ∈ color_loop hi true false rec l s, e.1.low ≤ x ∧ x ≤ e.1.up := by
  intro s
  induction s with
  | nil =>
    intro l _ x hx1 hx2
    rw [color_loop_green_nil, if_pos (lt_of_lt_of_le hx1 hx2)]
    exact ⟨_, List.mem_singleton_self _, le_of_lt hx1, hx2⟩
  | cons ii rest ih =>
    intro l hin x hx1 hx2
    have h3 := hin ii (List.mem_cons_self _ _)
    rw [color_loop_green_cons, clip_up_eq h3]
    by_cases hA : x ≤ ii.low
    · rw [if_pos (lt_of_lt_of_le hx1 hA)]
      exact ⟨(⟨l, ii.low⟩, Region.NEAR), by simp, le_of_lt hx1, hA⟩
    · by_cases hB : x ≤ ii.up
      · exact ⟨(⟨ii.low, ii.up⟩, band_region true rec), by simp, le_of_lt (not_le.mp hA), hB⟩
      · obtain ⟨e, he, h1, h2⟩ := ih ii.up (fun i hi2 => hin i (List.mem_cons_of_mem _ hi2)) x
          (not_le.mp hB) hx2
        exact ⟨e, by simp [he], h1, h2⟩

/-- Labels pushed by the loop when it colours a green set. -/
theorem color_loop_green_regions (hi : ℚ) (rec : Bool) :
    ∀ (s : List Interval) (l : ℚ), ∀ e ∈ color_loop hi true false rec l s,
      e.2 = Region.NEAR ∨ e.2 = band_region true rec := by
  intro s
  induction s with
  | nil =>
    intro l e he
    rw [color_loop_green_nil] at he
    split_ifs at he
    · simp only [List.mem_singleton] at he
      subst he; exact Or.inl rfl
    · simp at he
  | cons ii rest ih =>
    intro l e he
    rw [color_loop_green_cons] at he
    rcases List.mem_append.mp he with hg | hb
    · split_ifs at hg
      · simp only [List.mem_singleton] at hg
        subst hg; exact Or.inl rfl
      · simp at hg
    · rcases List.mem_cons.mp hb with hb | hb
      · subst hb; exact Or.inr rfl
      · exact ih _ e hb

/-- Intervals that meet end to start are pairwise ordered. -/
theorem pairwise_of_meet (L : List Interval) (hwf : ∀ i ∈ L, i.low ≤ i.up)
    (hc : L.Chain' (fun a b => a.up = b.low)) : L.Pairwise (fun a b => a.up ≤ b.low) := by
  induction L with
  | nil => exact List.Pairwise.nil
  | cons x L ih =>
    have hL := ih (fun i hi => hwf i (List.mem_cons_of_mem _ hi)) hc.tail
    rw [List.pairwise_cons]
    refine ⟨?_, hL⟩
    cases L with
    | nil => intro y hy; simp at hy
    | cons z L2 =>
      intro y hy
      have hxz : x.up = z.low := (List.chain'_cons.mp hc).1
      have hz : z.low ≤ z.up := hwf z (by simp)
      rcases List.mem_cons.mp hy with hy | hy
      · subst hy; exact le_of_eq hxz
      · exact le_trans (hxz ▸ hz) ((List.pairwise_cons.mp hL).1 y hy)

theorem zip_map_fst_snd {α β : Type} (l : List (α × β)) :
    List.zip (l.map Prod.fst) (l.map Prod.snd) = l := by
  induction l with
  | nil => rfl
  | cons x l ih => simp [List.zip_cons_cons, ih]

theorem bands_color_bands (b : KinematicRealBands) (s : IntervalSet) (g n r : Bool) :
    (color_bands b s g n r).bands = color_list b.min b.max s g n r := by
  simp [bands, color_bands, zip_map_fst_snd]

/-- On a non-empty well-formed green set, `color_list` is the loop started at `min`. -/
theorem color_list_green_eq (lo hi : ℚ) (s : IntervalSet) (rec : Bool) (hlt : lo < hi) :
    color_list lo hi s true false rec = color_loop hi true false rec lo s := by
  cases s with
  | nil => simp [color_list, color_loop, hlt]
  | cons ii rest => simp [color_list]

/-- C1. With implicit bands disabled (`nearonly = false`), colouring a green set that is a
sorted list of disjoint closed intervals inside `[min, max]`, `min < max`, yields an interval
list that is sorted by `low`, starts at `min`, ends at `max`, lies inside `[min, max]`, whose
consecutive intervals meet at a shared endpoint (so that an earlier interval ends no later than
a later one starts), whose labels are NEAR, NONE or RECOVERY, and whose union is exactly
`[min, max]`. -/
theorem C1_color_bands_partition (b : KinematicRealBands) (s : IntervalSet) (recovery : Bool)
    (hlt : b.min < b.max) (hs : SortedDisjointIn b.min b.max s) :
    (color_bands b s true false recovery).regions.length =
        (color_bands b s true false recovery).intervals.length ∧
    (color_bands b s true false recovery).intervals.Pairwise (fun i j => i.low ≤ j.low) ∧
    (color_bands b s true false recovery).intervals.head?.map Interval.low = some b.min ∧
    (color_bands b s true false recovery).intervals.getLast?.map Interval.up = some b.max ∧
    (∀ i ∈ (color_bands b s true false recovery).intervals,
        b.min ≤ i.low ∧ i.low ≤ i.up ∧ i.up ≤ b.max) ∧
    (color_bands b s true false recovery).intervals.Chain' (fun i j => i.up = j.low) ∧
    (color_bands b s true false recovery).intervals.Pairwise (fun i j => i.up ≤ j.low) ∧
    (∀ e ∈ (color_bands b s true false recovery).bands,
        e.2 = Region.NEAR ∨ e.2 = Region.NONE ∨ e.2 = Region.RECOVERY) ∧
    (∀ x : ℚ, (b.min ≤ x ∧ x ≤ b.max) ↔
        ∃ e ∈ (color_bands b s true false recovery).bands,
          (e.2 = Region.NEAR ∨ e.2 = Region.NONE ∨ e.2 = Region.RECOVERY) ∧
          e.1.low ≤ x ∧ x ≤ e.1.up) := by
  obtain ⟨hin, hpw⟩ := hs
  have hI : (color_bands b s true false recovery).intervals =
      (color_loop b.max true false recovery b.min s).map Prod.fst := by
    simp [color_bands, color_list_green_eq _ _ _ _ hlt]
  have hB : (color_bands b s true false recovery).bands =
      color_loop b.max true false recovery b.min s := by
    rw [bands_color_bands, color_list_green_eq _ _ _ _ hlt]
  have hinside := color_loop_green_inside b.max recovery s b.min (le_of_lt hlt) hin hpw
  have hhead := color_loop_green_head b.max recovery s b.min (fun i hi => (hin i hi).1)
  have hlast := color_loop_green_last b.max recovery s b.min (fun i hi => (hin i hi).2.2)
  have hmeet := color_loop_green_meet b.max recovery s b.min hin hpw
  have hcover := color_loop_green_cover b.max recovery s b.min (fun i hi => (hin i hi).2.2)
  have hreg : ∀ e ∈ color_loop b.max true false recovery b.min s,
      e.2 = Region.NEAR ∨ e.2 = Region.NONE ∨ e.2 = Region.RECOVERY := by
    intro e he
    rcases color_loop_green_regions b.max recovery s b.min e he with h | h
    · exact Or.inl h
    · cases recovery
      · exact Or.inr (Or.inl h)
      · exact Or.inr (Or.inr h)
  have hne : color_loop b.max true false recovery b.min s ≠ [] := by
    cases s with
    | nil => simp [color_loop, hlt]
    | cons ii rest => exact color_loop_green_ne_nil _ _ _ _ _
  have hwfI : ∀ i ∈ (color_loop b.max true false recovery b.min s).map Prod.fst,
      b.min ≤ i.low ∧ i.low ≤ i.up ∧ i.up ≤ b.max := by
    intro i hi
    obtain ⟨e, he, rfl⟩ := List.mem_map.mp hi
    exact hinside e he
  have hchI : ((color_loop b.max true false recovery b.min s).map Prod.fst).Chain'
      (fun i j => i.up = j.low) := by
    rw [List.chain'_map]
    exact hmeet
  have hpwI := pairwise_of_meet _ (fun i hi => (hwfI i hi).2.1) hchI
  rw [hI, hB]
  refine ⟨by rw [← hI]; simp [color_bands], ?_, ?_, ?_, hwfI, hchI, hpwI, hreg, ?_⟩
  · exact hpwI.imp_of_mem (fun {i j} hi _ hij => le_trans (hwfI i hi).2.1 hij)
  · cases hc : color_loop b.max true false recovery b.min s with
    | nil => exact absurd hc hne
    | cons e es =>
      have := hhead e (by rw [hc]; rfl)
      simp [this]
  · rw [List.getLast?_map]
    cases hc : (color_loop b.max true false recovery b.min s).getLast? with
    | none => exact absurd (List.getLast?_eq_none_iff.mp hc) hne
    | some e =>
      have := hlast e hc
      simp [this]
  · intro x
    constructor
    · rintro ⟨hx1, hx2⟩
      rcases eq_or_lt_of_le hx1 with hx | hx
      · cases hc : color_loop b.max true false recovery b.min s with
        | nil => exact absurd hc hne
        | cons e es =>
          have h1 := hhead e (by rw [hc]; rfl)
          have h2 := hinside e (by rw [hc]; simp)
          have h3 := hreg e (by rw [hc]; simp)
          refine ⟨e, by simp, h3, ?_, ?_⟩
          · rw [h1, hx]
          · rw [← hx, ← h1]; exact h2.2.1
      · obtain ⟨e, he, h1, h2⟩ := hcover x hx hx2
        exact ⟨e, he, hreg e he, h1, h2⟩
    · rintro ⟨e, he, _, h1, h2⟩
      obtain ⟨a, b2, c⟩ := hinside e he
      exact ⟨le_trans a h1, le_trans h2 c⟩

/-! ### Partition of the traffic into preventive and corrective aircraft -/

theorem alertingAircraft_foldl {AC : Type} (core : KinematicBandsCore AC) (axis : Axis AC) :
    ∀ (l : List AC) (p c : List AC),
      l.foldl (fun (acc : List AC × List AC) ac =>
        if (core.checkConflict ac 0 core.alertingTime).conflict then (acc.1, acc.2 ++ [ac])
        else if kinematicConflict axis none core.alertingTime ac then (acc.1 ++ [ac], acc.2)
        else acc) (p, c) =
      (p ++ l.filter (fun ac => !(core.checkConflict ac 0 core.alertingTime).conflict &&
          kinematicConflict axis none core.alertingTime ac),
       c ++ l.filter (fun ac => (core.checkConflict ac 0 core.alertingTime).conflict)) := by
  intro l
  induction l with
  | nil => intro p c; simp
  | cons a l ih =>
    intro p c
    rw [List.foldl_cons]
    by_cases h1 : (core.checkConflict a 0 core.alertingTime).conflict = true
    · simp [h1, ih]
    · by_cases h2 : kinematicConflict axis none core.alertingTime a = true
      · simp [h1, h2, ih]
      · simp [h1, h2, ih]

/-- The two lists returned by `alertingAircraft` are filters of the traffic list. -/
theorem alertingAircraft_eq {AC : Type} (core : KinematicBandsCore AC) (axis : Axis AC) :
    alertingAircraft core axis =
      (core.traffic.filter (fun ac => !(core.checkConflict ac 0 core.alertingTime).conflict &&
          kinematicConflict axis none core.alertingTime ac),
       core.traffic.filter (fun ac => (core.checkConflict ac 0 core.alertingTime).conflict)) := by
  unfold alertingAircraft
  rw [alertingAircraft_foldl]
  simp

/-- C7. `alertingAircraft` returns (preventive, corrective): the corrective list is the traffic
list filtered by "conflict detection over `[0, alertingTime()]` reports a conflict", the
preventive list is the traffic list filtered by "not corrective and the single-aircraft red-test
without criterion aircraft is true"; both are subsequences of the traffic list in insertion
order, they are disjoint, and every other aircraft is in neither. -/
theorem C7_alertingAircraft_partition {AC : Type} (core : KinematicBandsCore AC)
    (axis : Axis AC) :
    List.Disjoint (alertingAircraft core axis).1 (alertingAircraft core axis).2 ∧
    (alertingAircraft core axis).1.Sublist core.traffic ∧
    (alertingAircraft core axis).2.Sublist core.traffic ∧
    (∀ ac, ac ∈ (alertingAircraft core axis).2 ↔
      ac ∈ core.traffic ∧ (core.checkConflict ac 0 core.alertingTime).conflict = true) ∧
    (∀ ac, ac ∈ (alertingAircraft core axis).1 ↔
      ac ∈ core.traffic ∧ ac ∉ (alertingAircraft core axis).2 ∧
        axis.any_red Detection3D.core none none 0 core.alertingTime [ac] = true) ∧
    (∀ ac, (core.checkConflict ac 0 core.alertingTime).conflict = false →
      axis.any_red Detection3D.core none none 0 core.alertingTime [ac] = false →
      ac ∉ (alertingAircraft core axis).1 ∧ ac ∉ (alertingAircraft core axis).2) ∧
    (alertingAircraft core axis).2 =
      core.traffic.filter (fun ac => (core.checkConflict ac 0 core.alertingTime).conflict) ∧
    (alertingAircraft core axis).1 =
      core.traffic.filter (fun ac => !(core.checkConflict ac 0 core.alertingTime).conflict &&
        axis.any_red Detection3D.core none none 0 core.alertingTime [ac]) := by
  rw [alertingAircraft_eq]
  refine ⟨?_, List.filter_sublist _, List.filter_sublist _, ?_, ?_, ?_, rfl, rfl⟩
  · intro ac h1 h2
    simp only [List.mem_filter, Bool.and_eq_true, Bool.not_eq_true'] at h1 h2
    rw [h2.2] at h1
    exact Bool.noConfusion h1.2.1
  · intro ac
    simp [List.mem_filter]
  · intro ac
    simp only [List.mem_filter, Bool.and_eq_true, Bool.not_eq_true', kinematicConflict]
    constructor
    · rintro ⟨h1, h2, h3⟩
      exact ⟨h1, fun h => by rw [h.2] at h2; exact Bool.noConfusion h2, h3⟩
    · rintro ⟨h1, h2, h3⟩
      refine ⟨h1, ?_, h3⟩
      cases hc : (core.checkConflict ac 0 core.alertingTime).conflict
      · rfl
      · exact absurd ⟨h1, hc⟩ h2
  · intro ac h1 h2
    simp [List.mem_filter, kinematicConflict, h1, h2]

/-! ### Labels and recovery time left by `compute` -/

theorem compute_recovery_time {AC : Type} (cfg : ACCoRDConfig) (core : KinematicBandsCore AC)
    (axis : Axis AC) (b : KinematicRealBands) :
    (compute cfg core axis b).recovery_time = (compute_noneset cfg core axis b).1.recovery_time :=
  rfl

theorem compute_bands {AC : Type} (cfg : ACCoRDConfig) (core : KinematicBandsCore AC)
    (axis : Axis AC) (b : KinematicRealBands) :
    (compute cfg core axis b).bands =
      color_list (compute_noneset cfg core axis b).1.min (compute_noneset cfg core axis b).1.max
        (compute_noneset cfg core axis b).2 true core.implicit_bands
        (decide ((compute_noneset cfg core axis b).1.recovery_time > 0)) := by
  unfold compute
  rw [bands_color_bands]

theorem mem_ite_singleton {α : Type} {c : Prop} [Decidable c] {x e : α}
    (h : e ∈ (if c then [x] else [])) : e = x := by
  by_cases hc : c
  · rw [if_pos hc] at h
    exact List.mem_singleton.mp h
  · rw [if_neg hc] at h
    exact absurd h (List.not_mem_nil _)

/-- Every pair pushed by the loop for a green set is a NEAR gap or the clipped copy of an
interval of the set with the label of line 243. -/
theorem color_loop_green_origin (hi : ℚ) (n rec : Bool) :
    ∀ (s : List Interval) (l : ℚ), ∀ e ∈ color_loop hi true n rec l s,
      e.2 = Region.NEAR ∨
      (e.2 = band_region true rec ∧
        ∃ ii ∈ s, e.1 = ⟨ii.low, if ii.up < hi then ii.up else hi⟩) := by
  intro s
  induction s with
  | nil =>
    intro l e he
    unfold color_loop at he
    rw [mem_ite_singleton he]
    exact Or.inl rfl
  | cons ii rest ih =>
    intro l e he
    unfold color_loop at he
    rcases List.mem_append.mp he with hg | hb
    · rw [mem_ite_singleton hg]
      exact Or.inl rfl
    · rcases List.mem_append.mp hb with hb | hb
      · rw [mem_ite_singleton hb]
        exact Or.inr ⟨rfl, ii, List.mem_cons_self _ _, rfl⟩
      · rcases ih _ e hb with h | ⟨h1, jj, hj, h2⟩
        · exact Or.inl h
        · exact Or.inr ⟨h1, jj, List.mem_cons_of_mem _ hj, h2⟩

/-- With implicit bands disabled, every interval of the green set is pushed, clipped at `hi`,
with the label of line 243. -/
theorem color_loop_green_pushed (hi : ℚ) (rec : Bool) :
    ∀ (s : List Interval) (l : ℚ), ∀ ii ∈ s,
      ((⟨ii.low, if ii.up < hi then ii.up else hi⟩ : Interval), band_region true rec) ∈
        color_loop hi true false rec l s := by
  intro s
  induction s with
  | nil => intro l ii hii; simp at hii
  | cons jj rest ih =>
    intro l ii hii
    rw [color_loop_green_cons]
    rcases List.mem_cons.mp hii with h | h
    · subst h
      exact List.mem_append_right _ (List.mem_cons_self _ _)
    · exact List.mem_append_right _ (List.mem_cons_of_mem _ (ih _ ii h))

theorem color_list_green_origin (lo hi : ℚ) (n rec : Bool) (s : IntervalSet) :
    ∀ e ∈ color_list lo hi s true n rec,
      e.2 = Region.NEAR ∨
      (e.2 = band_region true rec ∧
        ∃ ii ∈ s, e.1 = ⟨ii.low, if ii.up < hi then ii.up else hi⟩) := by
  intro e he
  unfold color_list at he
  by_cases h1 : s.isEmpty = true
  · rw [if_pos h1] at he
    rw [mem_ite_singleton he]
    exact Or.inl rfl
  · rw [if_neg h1] at he
    exact color_loop_green_origin hi n rec s lo e he

theorem color_list_green_pushed (lo hi : ℚ) (rec : Bool) (s : IntervalSet) :
    ∀ ii ∈ s, ((⟨ii.low, if ii.up < hi then ii.up else hi⟩ : Interval), band_region true rec) ∈
        color_list lo hi s true false rec := by
  intro ii hii
  unfold color_list
  cases s with
  | nil => simp at hii
  | cons jj rest =>
    simp only [List.isEmpty_cons, Bool.false_eq_true, if_false]
    exact color_loop_green_pushed hi rec _ lo ii hii

/-- C3. In the band list produced by `compute`, green and recovery labels never mix: when the
recovery time is positive every label is NEAR or RECOVERY, otherwise every label is NEAR or
NONE; every pair that is not labelled NEAR is the (clipped) copy of an interval of the non-red
set, and with implicit bands disabled every interval of the non-red set is pushed with the label
RECOVERY (positive recovery time) or NONE, never NEAR. -/
theorem C3_labels_never_mix {AC : Type} (cfg : ACCoRDConfig) (core : KinematicBandsCore AC)
    (axis : Axis AC) (b : KinematicRealBands) :
    ((compute cfg core axis b).recovery_time > 0 →
      ∀ e ∈ (compute cfg core axis b).bands, e.2 = Region.NEAR ∨ e.2 = Region.RECOVERY) ∧
    ((compute cfg core axis b).recovery_time ≤ 0 →
      ∀ e ∈ (compute cfg core axis b).bands, e.2 = Region.NEAR ∨ e.2 = Region.NONE) ∧
    (∀ e ∈ (compute cfg core axis b).bands, e.2 ≠ Region.NEAR →
      ∃ ii ∈ (compute_noneset cfg core axis b).2,
        e.1 = ⟨ii.low, if ii.up < (compute cfg core axis b).max then ii.up
          else (compute cfg core axis b).max⟩) ∧
    (core.implicit_bands = false → ∀ ii ∈ (compute_noneset cfg core axis b).2,
      ∃ r, r ≠ Region.NEAR ∧
        r = (if (compute cfg core axis b).recovery_time > 0 then Region.RECOVERY
          else Region.NONE) ∧
        ((⟨ii.low, if ii.up < (compute cfg core axis b).max then ii.up
          else (compute cfg core axis b).max⟩ : Interval), r) ∈
          (compute cfg core axis b).bands) ∧
    (compute cfg core axis b).regions.length = (compute cfg core axis b).intervals.length := by
  have hmax : (compute cfg core axis b).max = (compute_noneset cfg core axis b).1.max := rfl
  rw [compute_bands, compute_recovery_time, hmax]
  refine ⟨?_, ?_, ?_, ?_, ?_⟩
  · intro hrt e he
    rcases color_list_green_origin _ _ _ _ _ e he with h | ⟨h, _⟩
    · exact Or.inl h
    · right; rw [h]; simp [band_region, hrt]
  · intro hrt e he
    rcases color_list_green_origin _ _ _ _ _ e he with h | ⟨h, _⟩
    · exact Or.inl h
    · right; rw [h]; simp [band_region, not_lt.mpr hrt]
  · intro e he hne
    rcases color_list_green_origin _ _ _ _ _ e he with h | ⟨_, h⟩
    · exact absurd h hne
    · exact h
  · intro himp ii hii
    rw [himp]
    refine ⟨band_region true (decide ((compute_noneset cfg core axis b).1.recovery_time > 0)),
      ?_, ?_, color_list_green_pushed _ _ _ _ ii hii⟩
    · by_cases h : (compute_noneset cfg core axis b).1.recovery_time > 0 <;>
        simp [band_region, h]
    · by_cases h : (compute_noneset cfg core axis b).1.recovery_time > 0 <;>
        simp [band_region, h]
  · simp [compute, color_bands]

/-! ### No alerting aircraft: all green -/

/-- A traffic list without conflict and without red aircraft (in particular an empty one) has
no preventive and no corrective aircraft. -/
theorem alertingAircraft_none {AC : Type} (core : KinematicBandsCore AC) (axis : Axis AC)
    (hnone : ∀ ac ∈ core.traffic,
      (core.checkConflict ac 0 core.alertingTime).conflict = false ∧
      axis.any_red Detection3D.core none none 0 core.alertingTime [ac] = false) :
    alertingAircraft core axis = ([], []) := by
  rw [alertingAircraft_eq]
  have h1 : core.traffic.filter
      (fun ac => (core.checkConflict ac 0 core.alertingTime).conflict) = [] := by
    rw [List.filter_eq_nil_iff]
    intro a ha
    simp [(hnone a ha).1]
  have h2 : core.traffic.filter
      (fun ac => !(core.checkConflict ac 0 core.alertingTime).conflict &&
        kinematicConflict axis none core.alertingTime ac) = [] := by
    rw [List.filter_eq_nil_iff]
    intro a ha
    simp [kinematicConflict, (hnone a ha).2]
  rw [h1, h2]

theorem compute_noneset_none {AC : Type} (cfg : ACCoRDConfig) (core : KinematicBandsCore AC)
    (axis : Axis AC) (b : KinematicRealBands)
    (hnone : (alertingAircraft core axis).1 = [] ∧ (alertingAircraft core axis).2 = []) :
    compute_noneset cfg core axis b = (b, IntervalSet.almost_add [] b.min b.max) := by
  unfold compute_noneset
  simp only []
  rw [hnone.1, hnone.2]
  rfl

/-- C2. When no aircraft is corrective or preventive for the axis (both lists of
`alertingAircraft` are empty, in particular when the traffic list is empty or no aircraft is in
conflict or red), a forced computation of the bands on an axis with `min < max` leaves recovery
time 0; with implicit bands disabled the result is the single interval `[min, max]` labelled
NONE, with implicit bands enabled the interval list is empty. -/
theorem C2_no_alerting_all_green {AC : Type} (cfg : ACCoRDConfig) (core : KinematicBandsCore AC)
    (axis : Axis AC) (b : KinematicRealBands) (hown : core.hasOwnship = true)
    (hlt : b.min < b.max)
    (hnone : (alertingAircraft core axis).1 = [] ∧ (alertingAircraft core axis).2 = []) :
    (force_compute cfg core axis b).recovery_time = 0 ∧
    (core.implicit_bands = false →
      (force_compute cfg core axis b).intervals = [⟨b.min, b.max⟩] ∧
      (force_compute cfg core axis b).regions = [Region.NONE]) ∧
    (core.implicit_bands = true →
      (force_compute cfg core axis b).intervals = [] ∧
      (force_compute cfg core axis b).regions = []) := by
  have hlt2 : (reset b).min < (reset b).max := hlt
  have hns := compute_noneset_none cfg core axis (reset b) hnone
  have hfc : force_compute cfg core axis b =
      { compute cfg core axis (reset b) with outdated := false } := by
    simp [force_compute, recompute, hown, reset]
  have hadd : IntervalSet.almost_add [] (reset b).min (reset b).max =
      [⟨b.min, b.max⟩] := by
    have : ¬ b.max < b.min := not_lt.mpr (le_of_lt hlt)
    simp [IntervalSet.almost_add, IntervalSet.unions, reset, hlt, this]
  rw [hfc]
  unfold compute
  rw [hns, hadd]
  refine ⟨rfl, ?_, ?_⟩
  · intro himp
    simp [color_bands, color_list, color_loop, himp, reset, band_region]
  · intro himp
    simp [color_bands, color_list, color_loop, himp, reset]

/-! ### Bounds of the recovery time -/

/-- Invariant of the pivot search started with `pivot_red = 0`, `pivot_green = T+1`,
`pivot = T`. -/
theorem recovery_pivot_loop_bounds (query : ℚ → IntervalSet → IntervalSet) (T : ℚ) (hT : 0 ≤ T) :
    ∀ (fuel : Nat) (ns : IntervalSet) (pr pg pivot : ℚ),
      ((pr = 0 ∧ pg = T + 1 ∧ pivot = T) ∨ (pr = T ∧ pg = T + 1) ∨
        (0 ≤ pr ∧ pr ≤ pivot ∧ pivot ≤ pg ∧ pg ≤ T)) →
      0 ≤ (recovery_pivot_loop query fuel ns pr pg pivot).2.1 ∧
      (recovery_pivot_loop query fuel ns pr pg pivot).2.1 ≤ T ∧
      0 ≤ (recovery_pivot_loop query fuel ns pr pg pivot).2.2 := by
  have hbase : ∀ (pr pg pivot : ℚ),
      ((pr = 0 ∧ pg = T + 1 ∧ pivot = T) ∨ (pr = T ∧ pg = T + 1) ∨
        (0 ≤ pr ∧ pr ≤ pivot ∧ pivot ≤ pg ∧ pg ≤ T)) → 0 ≤ pr ∧ pr ≤ T ∧ 0 ≤ pg := by
    intro pr pg pivot h
    rcases h with ⟨h1, h2, _⟩ | ⟨h1, h2⟩ | ⟨h1, h2, h3, h4⟩
    · subst h1; subst h2; exact ⟨le_refl _, hT, by linarith⟩
    · subst h1; subst h2; exact ⟨hT, le_refl _, by linarith⟩
    · exact ⟨h1, by linarith, by linarith⟩
  intro fuel
  induction fuel with
  | zero =>
    intro ns pr pg pivot h
    exact hbase pr pg pivot h
  | succ n ih =>
    intro ns pr pg pivot h
    unfold recovery_pivot_loop
    by_cases hgap : pg - pr > 1
    · rw [if_pos hgap]
      by_cases hred : (query pivot ns).isEmpty = true
      · rw [if_pos hred]
        apply ih
        rcases h with ⟨h1, h2, h3⟩ | ⟨h1, h2⟩ | ⟨h1, h2, h3, h4⟩
        · exact Or.inr (Or.inl ⟨h3, h2⟩)
        · exfalso; subst h1; subst h2; linarith
        · exact Or.inr (Or.inr ⟨by linarith, by linarith, by linarith, h4⟩)
      · rw [if_neg hred]
        apply ih
        rcases h with ⟨h1, h2, h3⟩ | ⟨h1, h2⟩ | ⟨h1, h2, h3, h4⟩
        · subst h1; subst h3
          exact Or.inr (Or.inr ⟨le_refl _, by linarith, by linarith, le_refl _⟩)
        · exfalso; subst h1; subst h2; linarith
        · exact Or.inr (Or.inr ⟨h1, by linarith, by linarith, by linarith⟩)
    · rw [if_neg hgap]
      exact hbase pr pg pivot h

theorem recovery_search_bounds {AC : Type} (axis : Axis AC) (alerting_set : List AC)
    (repac : Option AC) (T h v : ℚ) (ns : IntervalSet) (hT : 0 ≤ T) :
    0 ≤ (recovery_search axis alerting_set repac T h v ns).2.1 ∧
    (recovery_search axis alerting_set repac T h v ns).2.1 ≤ T ∧
    0 ≤ (recovery_search axis alerting_set repac T h v ns).2.2 := by
  unfold recovery_search
  apply recovery_pivot_loop_bounds _ T hT
  exact Or.inl ⟨rfl, rfl, by ring⟩

theorem recovery_time_of_bounds (T stab pr pg : ℚ) (hT : 0 ≤ T) (hstab : 0 ≤ stab)
    (hpr : 0 ≤ pr ∧ pr ≤ T ∧ 0 ≤ pg) :
    0 ≤ recovery_time_of T stab pr pg ∧ recovery_time_of T stab pr pg ≤ T := by
  unfold recovery_time_of
  by_cases h : pg ≤ T
  · rw [if_pos h]
    exact ⟨le_min hT (by linarith [hpr.2.2]), min_le_left _ _⟩
  · rw [if_neg h]
    exact ⟨hpr.1, hpr.2.1⟩

/-- The recovery time left by the outer loop is the one it started with, `-1`, or the value
chosen after a pivot search, which lies in `[0, T]`. -/
theorem recovery_loop_time {AC : Type} (cfg : ACCoRDConfig) (core : KinematicBandsCore AC)
    (axis : Axis AC) (alerting_set : List AC) (repac : Option AC) (T : ℚ) (hT : 0 ≤ T)
    (hstab : 0 ≤ core.recovery_stability_time) :
    ∀ (fuel : Nat) (b : KinematicRealBands) (ns : IntervalSet) (h v : ℚ),
      (recovery_loop cfg core axis alerting_set repac T fuel b ns h v).1.recovery_time =
          b.recovery_time ∨
      (recovery_loop cfg core axis alerting_set repac T fuel b ns h v).1.recovery_time = -1 ∨
      (0 ≤ (recovery_loop cfg core axis alerting_set repac T fuel b ns h v).1.recovery_time ∧
        (recovery_loop cfg core axis alerting_set repac T fuel b ns h v).1.recovery_time ≤ T ∧
        ∃ h2 v2 ns2,
          (recovery_loop cfg core axis alerting_set repac T fuel b ns h v).1.recovery_time =
            recovery_time_of T core.recovery_stability_time
              (recovery_search axis alerting_set repac T h2 v2 ns2).2.1
              (recovery_search axis alerting_set repac T h2 v2 ns2).2.2) := by
  intro fuel
  induction fuel with
  | zero => intro b ns h v; exact Or.inl rfl
  | succ n ih =>
    intro b ns h v
    unfold recovery_loop
    by_cases hc : h > cfg.NMAC_D ∨ v > cfg.NMAC_H
    · rw [if_pos hc]
      simp only []
      split_ifs with h1 h2 h3 h4
      · exact Or.inl rfl
      · exact Or.inr (Or.inl rfl)
      · refine Or.inr (Or.inr ?_)
        have hb := recovery_time_of_bounds T core.recovery_stability_time _ _ hT hstab
          (recovery_search_bounds axis alerting_set repac T h v
            (axis.none_bands ns (Detection3D.cylinder h v) none repac 0 T alerting_set) hT)
        exact ⟨hb.1, hb.2, h, v, _, rfl⟩
      · rcases ih { b with recovery_time := -1 } _ (h * (4 / 5)) (v * (4 / 5)) with
          h5 | h5 | h5
        · exact Or.inr (Or.inl h5)
        · exact Or.inr (Or.inl h5)
        · exact Or.inr (Or.inr h5)
      · rename_i h4
        exfalso
        simp only [Bool.or_eq_true, Bool.not_eq_true', not_or] at h3
        exact h4 (by simpa using h3.1)
      · exact ih b _ _ _
    · rw [if_neg hc]
      exact Or.inl rfl

theorem compute_recovery_bands_time {AC : Type} (cfg : ACCoRDConfig)
    (core : KinematicBandsCore AC) (axis : Axis AC) (b : KinematicRealBands)
    (noneset : IntervalSet) (alerting_set : List AC) (hT : 0 ≤ core.maxRecoveryTime)
    (hstab : 0 ≤ core.recovery_stability_time) :
    (compute_recovery_bands cfg core axis b noneset alerting_set).1.recovery_time =
        b.recovery_time ∨
    (compute_recovery_bands cfg core axis b noneset alerting_set).1.recovery_time = -1 ∨
    (0 ≤ (compute_recovery_bands cfg core axis b noneset alerting_set).1.recovery_time ∧
      (compute_recovery_bands cfg core axis b noneset alerting_set).1.recovery_time ≤
        core.maxRecoveryTime ∧
      ∃ h v ns,
        (compute_recovery_bands cfg core axis b noneset alerting_set).1.recovery_time =
          recovery_time_of core.maxRecoveryTime core.recovery_stability_time
            (recovery_search axis alerting_set
              (if core.recovery_crit then core.getTraffic core.criteria_ac else none)
              core.maxRecoveryTime h v ns).2.1
            (recovery_search axis alerting_set
              (if core.recovery_crit then core.getTraffic core.criteria_ac else none)
              core.maxRecoveryTime h v ns).2.2) := by
  unfold compute_recovery_bands
  simp only []
  generalize (if core.recovery_crit then core.getTraffic core.criteria_ac else none) = repac
  by_cases h : (!(axis.none_bands noneset (Detection3D.cylinder cfg.NMAC_D cfg.NMAC_H) none
      repac 0 core.maxRecoveryTime alerting_set).isEmpty) = true
  · rw [if_pos h]
    exact recovery_loop_time cfg core axis alerting_set _ _ hT hstab _ b _ _ _
  · rw [if_neg h]
    exact Or.inl rfl

/-- C4. With a positive maximum recovery time `T = maxRecoveryTime()` and a non-negative
recovery stability time, whatever `none_bands` answers: when the recovery search entered with
`recovery_time = -1` leaves a recovery time other than `-1`, that time lies in `[0, T]` and is
the value chosen after a pivot search, which is `min(T, g + recovery_stability_time)` when the
search ended with a green pivot `g ≤ T`; the same holds for the recovery time left by `compute`
when it ran the recovery search (non-empty alerting set, empty non-red set, recovery enabled). -/
theorem C4_recovery_time_bounded {AC : Type} (cfg : ACCoRDConfig) (core : KinematicBandsCore AC)
    (axis : Axis AC) (b : KinematicRealBands) (hT : 0 < core.maxRecoveryTime)
    (hstab : 0 ≤ core.recovery_stability_time) :
    (∀ (noneset : IntervalSet) (alerting_set : List AC),
      (compute_recovery_bands cfg core axis { b with recovery_time := -1 } noneset
        alerting_set).1.recovery_time ≠ -1 →
      0 ≤ (compute_recovery_bands cfg core axis { b with recovery_time := -1 } noneset
        alerting_set).1.recovery_time ∧
      (compute_recovery_bands cfg core axis { b with recovery_time := -1 } noneset
        alerting_set).1.recovery_time ≤ core.maxRecoveryTime ∧
      ∃ h v ns,
        (compute_recovery_bands cfg core axis { b with recovery_time := -1 } noneset
          alerting_set).1.recovery_time =
          recovery_time_of core.maxRecoveryTime core.recovery_stability_time
            (recovery_search axis alerting_set
              (if core.recovery_crit then core.getTraffic core.criteria_ac else none)
              core.maxRecoveryTime h v ns).2.1
            (recovery_search axis alerting_set
              (if core.recovery_crit then core.getTraffic core.criteria_ac else none)
              core.maxRecoveryTime h v ns).2.2 ∧
        ((recovery_search axis alerting_set
            (if core.recovery_crit then core.getTraffic core.criteria_ac else none)
            core.maxRecoveryTime h v ns).2.2 ≤ core.maxRecoveryTime →
          (compute_recovery_bands cfg core axis { b with recovery_time := -1 } noneset
            alerting_set).1.recovery_time =
            Min.min core.maxRecoveryTime
              ((recovery_search axis alerting_set
                (if core.recovery_crit then core.getTraffic core.criteria_ac else none)
                core.maxRecoveryTime h v ns).2.2 + core.recovery_stability_time))) ∧
    ((alertingAircraft core axis).1 ++ (alertingAircraft core axis).2 ≠ [] →
      compute_none_bands core axis []
        (if core.conflict_crit then core.getTraffic core.criteria_ac else none)
        (alertingAircraft core axis) = [] →
      b.do_recovery = true →
      (compute cfg core axis b).recovery_time ≠ -1 →
      0 ≤ (compute cfg core axis b).recovery_time ∧
      (compute cfg core axis b).recovery_time ≤ core.maxRecoveryTime) := by
  have key : ∀ (noneset : IntervalSet) (alerting_set : List AC),
      (compute_recovery_bands cfg core axis { b with recovery_time := -1 } noneset
        alerting_set).1.recovery_time ≠ -1 →
      0 ≤ (compute_recovery_bands cfg core axis { b with recovery_time := -1 } noneset
        alerting_set).1.recovery_time ∧
      (compute_recovery_bands cfg core axis { b with recovery_time := -1 } noneset
        alerting_set).1.recovery_time ≤ core.maxRecoveryTime ∧
      ∃ h v ns,
        (compute_recovery_bands cfg core axis { b with recovery_time := -1 } noneset
          alerting_set).1.recovery_time =
          recovery_time_of core.maxRecoveryTime core.recovery_stability_time
            (recovery_search axis alerting_set
              (if core.recovery_crit then core.getTraffic core.criteria_ac else none)
              core.maxRecoveryTime h v ns).2.1
            (recovery_search axis alerting_set
              (if core.recovery_crit then core.getTraffic core.criteria_ac else none)
              core.maxRecoveryTime h v ns).2.2 := by
    intro noneset alerting_set hne
    rcases compute_recovery_bands_time cfg core axis { b with recovery_time := -1 } noneset
      alerting_set (le_of_lt hT) hstab with h | h | h
    · exact absurd h hne
    · exact absurd h hne
    · exact h
  refine ⟨?_, ?_⟩
  · intro noneset alerting_set hne
    obtain ⟨h1, h2, h, v, ns, h3⟩ := key noneset alerting_set hne
    refine ⟨h1, h2, h, v, ns, h3, ?_⟩
    intro hg
    rw [h3]
    unfold recovery_time_of
    rw [if_pos hg]
  · intro halert hsolid hrec hne
    have hcn : (compute cfg core axis b).recovery_time =
        (compute_recovery_bands cfg core axis { b with recovery_time := -1 } []
          ((alertingAircraft core axis).1 ++ (alertingAircraft core axis).2)).1.recovery_time := by
      rw [compute_recovery_time]
      unfold compute_noneset
      simp only []
      rw [if_neg (by simpa using halert), hsolid]
      simp [hrec]
    rw [hcn] at hne ⊢
    obtain ⟨h1, h2, _⟩ := key _ _ hne
    exact ⟨h1, h2⟩

/-! ### Recovery time `-1` and solid red -/

/-- One iteration of the outer loop, by cases on the two emptiness tests. -/
theorem recovery_loop_succ {AC : Type} (cfg : ACCoRDConfig) (core : KinematicBandsCore AC)
    (axis : Axis AC) (alerting_set : List AC) (repac : Option AC) (T : ℚ) (n : Nat)
    (b : KinematicRealBands) (ns : IntervalSet) (h v : ℚ) :
    recovery_loop cfg core axis alerting_set repac T (n + 1) b ns h v =
      if h > cfg.NMAC_D ∨ v > cfg.NMAC_H then
        if loop_ns1 axis alerting_set repac T ns h v = [] then
          if core.ca_bands = true then
            recovery_loop cfg core axis alerting_set repac T n b
              (loop_ns1 axis alerting_set repac T ns h v) (h * (4 / 5)) (v * (4 / 5))
          else (b, loop_ns1 axis alerting_set repac T ns h v)
        else if loop_ns2 core axis alerting_set repac T ns h v = [] then
          if core.ca_bands = true then
            recovery_loop cfg core axis alerting_set repac T n { b with recovery_time := -1 }
              (loop_ns2 core axis alerting_set repac T ns h v) (h * (4 / 5)) (v * (4 / 5))
          else ({ b with recovery_time := -1 }, loop_ns2 core axis alerting_set repac T ns h v)
        else
          ({ b with recovery_time := loop_rt core axis alerting_set repac T ns h v },
            loop_ns2 core axis alerting_set repac T ns h v)
      else (b, ns) := by
  rw [recovery_loop]
  by_cases hc : h > cfg.NMAC_D ∨ v > cfg.NMAC_H
  · rw [if_pos hc, if_pos hc]
    simp only []
    change (if ((loop_ns1 axis alerting_set repac T ns h v).isEmpty && !core.ca_bands) = true
      then (b, loop_ns1 axis alerting_set repac T ns h v)
      else if (!(loop_ns1 axis alerting_set repac T ns h v).isEmpty) = true then
        if (!(loop_ns2 core axis alerting_set repac T ns h v).isEmpty || !core.ca_bands) = true
        then ({ b with recovery_time :=
            if (loop_ns2 core axis alerting_set repac T ns h v).isEmpty = true then -1
            else loop_rt core axis alerting_set repac T ns h v },
          loop_ns2 core axis alerting_set repac T ns h v)
        else recovery_loop cfg core axis alerting_set repac T n
          { b with recovery_time :=
            if (loop_ns2 core axis alerting_set repac T ns h v).isEmpty = true then -1
            else loop_rt core axis alerting_set repac T ns h v }
          (loop_ns2 core axis alerting_set repac T ns h v) (h * (4 / 5)) (v * (4 / 5))
      else recovery_loop cfg core axis alerting_set repac T n b
        (loop_ns1 axis alerting_set repac T ns h v) (h * (4 / 5)) (v * (4 / 5))) = _
    generalize loop_ns1 axis alerting_set repac T ns h v = ns1
    generalize loop_ns2 core axis alerting_set repac T ns h v = ns2
    generalize loop_rt core axis alerting_set repac T ns h v = rt
    cases hca : core.ca_bands <;> cases ns1 <;> cases ns2 <;> simp
  · rw [if_neg hc, if_neg hc]

theorem loop_rt_nonneg {AC : Type} (core : KinematicBandsCore AC) (axis : Axis AC)
    (alerting_set : List AC) (repac : Option AC) (T : ℚ) (ns : IntervalSet) (h v : ℚ)
    (hT : 0 ≤ T) (hstab : 0 ≤ core.recovery_stability_time) :
    0 ≤ loop_rt core axis alerting_set repac T ns h v ∧
    loop_rt core axis alerting_set repac T ns h v ≤ T :=
  recovery_time_of_bounds T core.recovery_stability_time _ _ hT hstab
    (recovery_search_bounds axis alerting_set repac T h v _ hT)

/-- Started with `recovery_time = -1`, the outer loop leaves `-1` whenever it leaves an empty
non-red set. -/
theorem recovery_loop_solid {AC : Type} (cfg : ACCoRDConfig) (core : KinematicBandsCore AC)
    (axis : Axis AC) (alerting_set : List AC) (repac : Option AC) (T : ℚ) :
    ∀ (fuel : Nat) (b : KinematicRealBands) (ns : IntervalSet) (h v : ℚ),
      b.recovery_time = -1 →
      (recovery_loop cfg core axis alerting_set repac T fuel b ns h v).2 = [] →
      (recovery_loop cfg core axis alerting_set repac T fuel b ns h v).1.recovery_time = -1 := by
  intro fuel
  induction fuel with
  | zero => intro b ns h v hb _; exact hb
  | succ n ih =>
    intro b ns h v hb
    rw [recovery_loop_succ]
    by_cases hc : h > cfg.NMAC_D ∨ v > cfg.NMAC_H
    · rw [if_pos hc]
      by_cases h1 : loop_ns1 axis alerting_set repac T ns h v = []
      · rw [if_pos h1]
        by_cases hca : core.ca_bands = true
        · rw [if_pos hca]; exact ih _ _ _ _ hb
        · rw [if_neg hca]; intro _; exact hb
      · rw [if_neg h1]
        by_cases h2 : loop_ns2 core axis alerting_set repac T ns h v = []
        · rw [if_pos h2]
          by_cases hca : core.ca_bands = true
          · rw [if_pos hca]; exact ih _ _ _ _ rfl
          · rw [if_neg hca]; intro _; rfl
        · rw [if_neg h2]
          intro he
          exact absurd he h2
    · rw [if_neg hc]
      intro _; exact hb

/-- Once the loop is entered, or the non-red set handed to it is empty, a final recovery time
`-1` comes with an empty non-red set. -/
theorem recovery_loop_minus_one {AC : Type} (cfg : ACCoRDConfig) (core : KinematicBandsCore AC)
    (axis : Axis AC) (alerting_set : List AC) (repac : Option AC) (T : ℚ) (hT : 0 ≤ T)
    (hstab : 0 ≤ core.recovery_stability_time) :
    ∀ (fuel : Nat) (b : KinematicRealBands) (ns : IntervalSet) (h v : ℚ),
      (ns = [] ∨ ((h > cfg.NMAC_D ∨ v > cfg.NMAC_H) ∧ 0 < fuel)) →
      (recovery_loop cfg core axis alerting_set repac T fuel b ns h v).1.recovery_time = -1 →
      (recovery_loop cfg core axis alerting_set repac T fuel b ns h v).2 = [] := by
  intro fuel
  induction fuel with
  | zero =>
    intro b ns h v hns _
    rcases hns with hns | ⟨_, hf⟩
    · exact hns
    · exact absurd hf (lt_irrefl 0)
  | succ n ih =>
    intro b ns h v hns
    rw [recovery_loop_succ]
    by_cases hc : h > cfg.NMAC_D ∨ v > cfg.NMAC_H
    · rw [if_pos hc]
      by_cases h1 : loop_ns1 axis alerting_set repac T ns h v = []
      · rw [if_pos h1]
        by_cases hca : core.ca_bands = true
        · rw [if_pos hca]; exact ih _ _ _ _ (Or.inl h1)
        · rw [if_neg hca]; intro _; exact h1
      · rw [if_neg h1]
        by_cases h2 : loop_ns2 core axis alerting_set repac T ns h v = []
        · rw [if_pos h2]
          by_cases hca : core.ca_bands = true
          · rw [if_pos hca]; exact ih _ _ _ _ (Or.inl h2)
          · rw [if_neg hca]; intro _; exact h2
        · rw [if_neg h2]
          intro hrt
          exfalso
          have hb := (loop_rt_nonneg core axis alerting_set repac T ns h v hT hstab).1
          have hrt2 : loop_rt core axis alerting_set repac T ns h v = -1 := hrt
          rw [hrt2] at hb
          linarith
    · rw [if_neg hc]
      intro _
      rcases hns with hns | ⟨hns, _⟩
      · exact hns
      · exact absurd hns hc

theorem compute_noneset_solid {AC : Type} (cfg : ACCoRDConfig) (core : KinematicBandsCore AC)
    (axis : Axis AC) (b : KinematicRealBands)
    (halert : (alertingAircraft core axis).1 ++ (alertingAircraft core axis).2 ≠ [])
    (hempty : (compute_noneset cfg core axis b).2 = []) :
    (compute_noneset cfg core axis b).1.recovery_time = -1 := by
  unfold compute_noneset at hempty ⊢
  simp only [] at hempty ⊢
  rw [if_neg (by simpa using halert)] at hempty ⊢
  generalize (if core.conflict_crit then core.getTraffic core.criteria_ac else none) = repac
    at hempty ⊢
  by_cases h1 : (compute_none_bands core axis [] repac (alertingAircraft core axis)).isEmpty = true
  · rw [if_pos h1] at hempty ⊢
    by_cases h2 : b.do_recovery = true
    · rw [if_pos h2] at hempty ⊢
      unfold compute_recovery_bands at hempty ⊢
      simp only [] at hempty ⊢
      generalize (if core.recovery_crit then core.getTraffic core.criteria_ac else none) = repac2
        at hempty ⊢
      by_cases h3 : (!(axis.none_bands
          (compute_none_bands core axis [] repac (alertingAircraft core axis))
          (Detection3D.cylinder cfg.NMAC_D cfg.NMAC_H) none repac2 0 core.maxRecoveryTime
          ((alertingAircraft core axis).1 ++ (alertingAircraft core axis).2)).isEmpty) = true
      · rw [if_pos h3] at hempty ⊢
        exact recovery_loop_solid cfg core axis _ _ _ _ _ _ _ _ rfl hempty
      · rw [if_neg h3]
    · rw [if_neg h2]
  · rw [if_neg h1] at hempty
    have hempty2 : compute_none_bands core axis [] repac (alertingAircraft core axis) = [] :=
      hempty
    exact absurd (by rw [hempty2]; rfl) h1

theorem compute_noneset_minus_one {AC : Type} (cfg : ACCoRDConfig)
    (core : KinematicBandsCore AC) (axis : Axis AC) (b : KinematicRealBands)
    (hb : b.recovery_time ≠ -1)
    (hT : 0 ≤ core.maxRecoveryTime) (hstab : 0 ≤ core.recovery_stability_time)
    (hloop : b.do_recovery = false ∨ core.minHorizontalRecovery > cfg.NMAC_D ∨
      core.minVerticalRecovery > cfg.NMAC_H)
    (hrt : (compute_noneset cfg core axis b).1.recovery_time = -1) :
    (compute_noneset cfg core axis b).2 = [] := by
  unfold compute_noneset at hrt ⊢
  simp only [] at hrt ⊢
  by_cases h0 : ((alertingAircraft core axis).1 ++ (alertingAircraft core axis).2).isEmpty = true
  · rw [if_pos h0] at hrt
    exact absurd hrt hb
  · rw [if_neg h0] at hrt ⊢
    generalize (if core.conflict_crit then core.getTraffic core.criteria_ac else none) = repac
      at hrt ⊢
    by_cases h1 : (compute_none_bands core axis [] repac (alertingAircraft core axis)).isEmpty
        = true
    · rw [if_pos h1] at hrt ⊢
      by_cases h2 : b.do_recovery = true
      · rw [if_pos h2] at hrt ⊢
        have hloop2 : core.minHorizontalRecovery > cfg.NMAC_D ∨
            core.minVerticalRecovery > cfg.NMAC_H := by
          rcases hloop with h | h
          · rw [h2] at h; exact Bool.noConfusion h
          · exact h
        unfold compute_recovery_bands at hrt ⊢
        simp only [] at hrt ⊢
        generalize (if core.recovery_crit then core.getTraffic core.criteria_ac else none) =
          repac2 at hrt ⊢
        by_cases h3 : (!(axis.none_bands
            (compute_none_bands core axis [] repac (alertingAircraft core axis))
            (Detection3D.cylinder cfg.NMAC_D cfg.NMAC_H) none repac2 0 core.maxRecoveryTime
            ((alertingAircraft core axis).1 ++ (alertingAircraft core axis).2)).isEmpty) = true
        · rw [if_pos h3] at hrt ⊢
          exact recovery_loop_minus_one cfg core axis _ _ _ hT hstab _ _ _ _ _
            (Or.inr ⟨hloop2, by unfold shrink_fuel; omega⟩) hrt
        · rw [if_neg h3]
          simpa using h3
      · rw [if_neg h2]
        exact List.isEmpty_iff.mp h1
    · rw [if_neg h1] at hrt
      exact absurd hrt hb

/-- C5 (as amended). After `compute` on a reset state with a non-empty alerting set: if the
final non-red set is empty (solid red) the recovery time is `-1`, with collision-avoidance bands
enabled or disabled; conversely, with `0 ≤ maxRecoveryTime()` and a non-negative stability time,
a recovery time `-1` comes with an empty non-red set whenever recovery is disabled for the axis
or the minimum recovery cylinder exceeds the NMAC cylinder in some dimension. With implicit
bands disabled the non-red set is empty exactly when every computed band is labelled NEAR. -/
theorem C5_minus_one_solid_red {AC : Type} (cfg : ACCoRDConfig) (core : KinematicBandsCore AC)
    (axis : Axis AC) (b : KinematicRealBands)
    (halert : (alertingAircraft core axis).1 ++ (alertingAircraft core axis).2 ≠ []) :
    ((compute_noneset cfg core axis (reset b)).2 = [] →
      (compute cfg core axis (reset b)).recovery_time = -1) ∧
    (0 ≤ core.maxRecoveryTime → 0 ≤ core.recovery_stability_time →
      (b.do_recovery = false ∨ core.minHorizontalRecovery > cfg.NMAC_D ∨
        core.minVerticalRecovery > cfg.NMAC_H) →
      (compute cfg core axis (reset b)).recovery_time = -1 →
      (compute_noneset cfg core axis (reset b)).2 = []) ∧
    (core.implicit_bands = false →
      ((compute_noneset cfg core axis (reset b)).2 = [] ↔
        ∀ e ∈ (compute cfg core axis (reset b)).bands, e.2 = Region.NEAR)) := by
  refine ⟨?_, ?_, ?_⟩
  · intro hempty
    rw [compute_recovery_time]
    exact compute_noneset_solid cfg core axis (reset b) halert hempty
  · intro hT hstab hloop hrt
    rw [compute_recovery_time] at hrt
    exact compute_noneset_minus_one cfg core axis (reset b) (by simp [reset]) hT hstab hloop hrt
  · intro himp
    rw [compute_bands, himp]
    constructor
    · intro hempty e he
      rw [hempty] at he
      simp only [color_list, List.isEmpty_nil, if_true, Bool.true_or, gap_region,
        List.mem_singleton] at he
      rw [he]
    · intro hall
      cases hns : (compute_noneset cfg core axis (reset b)).2 with
      | nil => rfl
      | cons ii rest =>
        exfalso
        have hmem := color_list_green_pushed (compute_noneset cfg core axis (reset b)).1.min
          (compute_noneset cfg core axis (reset b)).1.max
          (decide ((compute_noneset cfg core axis (reset b)).1.recovery_time > 0))
          (compute_noneset cfg core axis (reset b)).2 ii (by rw [hns]; simp)
        have := hall _ hmem
        revert this
        cases decide ((compute_noneset cfg core axis (reset b)).1.recovery_time > 0) <;>
          simp [band_region]

end KinematicRealBands

/-! ### Thresholds-based alerting -/

namespace Daidalus

/-- The downward scan started at level `n` returns the greatest level `≤ n` that fires, or 0. -/
theorem thresholds_loop_spec {S : Type} (alertor : List (AlertThresholds S)) (st : S) :
    ∀ n : Nat,
      ((thresholds_loop alertor st n).1 = 0 ∧ (thresholds_loop alertor st n).2.type = -1 ∧
        ∀ j, j ≤ n → ¬ level_fires alertor st j) ∨
      (∃ k : Nat, (thresholds_loop alertor st n).1 = (k : Int) ∧ 1 ≤ k ∧ k ≤ n ∧
        level_fires alertor st k ∧ (∀ j, k < j → j ≤ n → ¬ level_fires alertor st j) ∧
        (thresholds_loop alertor st n).2.type = (k : Int)) := by
  intro n
  induction n with
  | zero =>
    left
    refine ⟨rfl, rfl, ?_⟩
    intro j hj hf
    have h1 := hf.1
    omega
  | succ n ih =>
    have hstep : ∀ j, j ≤ n + 1 → ¬ level_fires alertor st (n + 1) →
        (∀ j, j ≤ n → ¬ level_fires alertor st j) → ¬ level_fires alertor st j := by
      intro j hj hn hall
      rcases Nat.lt_or_ge j (n + 1) with h | h
      · exact hall j (Nat.lt_succ_iff.mp h)
      · have : j = n + 1 := le_antisymm hj h
        rw [this]; exact hn
    unfold thresholds_loop
    cases ha : alertor[n]? with
    | none =>
      simp only []
      have hnf : ¬ level_fires alertor st (n + 1) := by
        rintro ⟨_, a, h1, _⟩
        rw [Nat.add_sub_cancel, ha] at h1
        exact Option.noConfusion h1
      rcases ih with ⟨h0, h1, h2⟩ | ⟨k, h0, h1, h2, h3, h4, h5⟩
      · exact Or.inl ⟨h0, h1, fun j hj => hstep j hj hnf h2⟩
      · refine Or.inr ⟨k, h0, h1, Nat.le_succ_of_le h2, h3, ?_, h5⟩
        intro j hkj hj
        rcases Nat.lt_or_ge j (n + 1) with h | h
        · exact h4 j hkj (Nat.lt_succ_iff.mp h)
        · have : j = n + 1 := le_antisymm hj h
          rw [this]; exact hnf
    | some a =>
      simp only []
      by_cases hf : (a.alerting st).1 = true
      · rw [if_pos hf]
        refine Or.inr ⟨n + 1, rfl, Nat.succ_le_succ (Nat.zero_le n), le_refl _, ?_, ?_, rfl⟩
        · exact ⟨Nat.succ_le_succ (Nat.zero_le n), a, by rw [Nat.add_sub_cancel]; exact ha, hf⟩
        · intro j hkj hj
          omega
      · rw [if_neg hf]
        have hnf : ¬ level_fires alertor st (n + 1) := by
          rintro ⟨_, a2, h1, h2⟩
          rw [Nat.add_sub_cancel, ha] at h1
          rw [← Option.some.inj h1] at h2
          exact hf h2
        rcases ih with ⟨h0, h1, h2⟩ | ⟨k, h0, h1, h2, h3, h4, h5⟩
        · exact Or.inl ⟨h0, h1, fun j hj => hstep j hj hnf h2⟩
        · refine Or.inr ⟨k, h0, h1, Nat.le_succ_of_le h2, h3, ?_, h5⟩
          intro j hkj hj
          rcases Nat.lt_or_ge j (n + 1) with h | h
          · exact h4 j hkj (Nat.lt_succ_iff.mp h)
          · have : j = n + 1 := le_antisymm hj h
            rw [this]; exact hnf

theorem level_fires_le {S : Type} (alertor : List (AlertThresholds S)) (st : S) (i : Nat)
    (h : level_fires alertor st i) : i ≤ alertor.length := by
  obtain ⟨h1, a, h2, _⟩ := h
  have := (List.getElem?_eq_some_iff.mp h2).1
  omega

/-- C9. Thresholds-based alerting over an alertor of `n` tiers returns the greatest level
`i` in `1..n` whose `AlertThresholds::alerting` predicate fires and records it in the
`AlertInfo`; it returns 0 when no tier fires, in particular for an empty alertor. -/
theorem C9_thresholds_alerting_greatest {S : Type} (alertor : List (AlertThresholds S))
    (st : S) :
    (((thresholds_alerting alertor st).1 = 0 ∧ (thresholds_alerting alertor st).2.type = -1 ∧
        ∀ i, ¬ level_fires alertor st i) ∨
      (∃ k : Nat, (thresholds_alerting alertor st).1 = (k : Int) ∧
        1 ≤ k ∧ k ≤ alertor.length ∧ level_fires alertor st k ∧
        (∀ j, k < j → ¬ level_fires alertor st j) ∧
        (thresholds_alerting alertor st).2.type = (k : Int))) ∧
    (thresholds_alerting ([] : List (AlertThresholds S)) st).1 = 0 := by
  constructor
  · unfold thresholds_alerting
    rcases thresholds_loop_spec alertor st alertor.length with
      ⟨h0, h1, h2⟩ | ⟨k, h0, h1, h2, h3, h4, h5⟩
    · refine Or.inl ⟨h0, h1, ?_⟩
      intro i hf
      exact h2 i (level_fires_le alertor st i hf) hf
    · refine Or.inr ⟨k, h0, h1, h2, h3, ?_, h5⟩
      intro j hkj hf
      exact h4 j hkj (level_fires_le alertor st j hf) hf
  · rfl

/-! ### Bands-based alerting -/

/-- C10 (as amended). In bands-based alerting, when some alerting-enabled axis has bands and
the detector reports a conflict on the current trajectory within the alerting time, the result
is 4 (Warning) if `p ≤ time_to_warning` and 3 (Corrective) otherwise, where `p` is the pivot
returned by `last_time_to_maneuver` on `[0, time_in]` when `warning_when_recovery` is enabled
and `p = time_in` when it is disabled. -/
theorem C10_bands_alerting_conflict (p : DaidalusParameters) (q : AlertingView)
    (hbands : (p.trk_alerting = true ∧ q.trackLength ≠ 0) ∨
      (p.gs_alerting = true ∧ q.groundSpeedLength ≠ 0) ∨
      (p.vs_alerting = true ∧ q.verticalSpeedLength ≠ 0))
    (hconf : (q.conflictDetection 0 (alerting_time p)).conflict = true) :
    (p.warning_when_recovery = true →
      bands_alerting p q =
        if last_time_to_maneuver p q (q.conflictDetection 0 (alerting_time p)).time_in ≤
          p.time_to_warning then 4 else 3) ∧
    (p.warning_when_recovery = false →
      bands_alerting p q =
        if (q.conflictDetection 0 (alerting_time p)).time_in ≤ p.time_to_warning then 4
        else 3) := by
  have hne : ¬ ((!p.trk_alerting || decide (q.trackLength = 0)) &&
      (!p.gs_alerting || decide (q.groundSpeedLength = 0)) &&
      (!p.vs_alerting || decide (q.verticalSpeedLength = 0))) = true := by
    intro h
    simp only [Bool.and_eq_true, Bool.or_eq_true, Bool.not_eq_true', decide_eq_true_eq] at h
    obtain ⟨⟨h1, h2⟩, h3⟩ := h
    rcases hbands with ⟨a, b⟩ | ⟨a, b⟩ | ⟨a, b⟩
    · rcases h1 with h1 | h1
      · rw [a] at h1; exact Bool.noConfusion h1
      · exact b h1
    · rcases h2 with h2 | h2
      · rw [a] at h2; exact Bool.noConfusion h2
      · exact b h2
    · rcases h3 with h3 | h3
      · rw [a] at h3; exact Bool.noConfusion h3
      · exact b h3
  constructor
  · intro hw
    unfold bands_alerting
    rw [if_neg hne, if_pos hconf, hw]
    simp only [if_true]
  · intro hw
    unfold bands_alerting
    rw [if_neg hne, if_pos hconf, hw]
    simp only [Bool.false_eq_true, if_false]

end Daidalus

/-! ### Termination: the computed fuel is enough -/

theorem le_two_pow_ceil (T : ℚ) : T ≤ 2 ^ ⌈T⌉₊ := by
  have h1 : T ≤ (⌈T⌉₊ : ℚ) := Nat.le_ceil T
  have h2 : (⌈T⌉₊ : ℚ) ≤ 2 ^ ⌈T⌉₊ := by
    exact_mod_cast (Nat.lt_two_pow ⌈T⌉₊).le
  exact le_trans h1 h2

namespace KinematicRealBands

theorem recovery_pivot_loop_done (query : ℚ → IntervalSet → IntervalSet) (m : Nat)
    (ns : IntervalSet) (pr pg pivot : ℚ) (h : pg - pr ≤ 1) :
    recovery_pivot_loop query m ns pr pg pivot = (ns, pr, pg) := by
  cases m with
  | zero => rfl
  | succ m => rw [recovery_pivot_loop, if_neg (not_lt.mpr h)]

theorem recovery_pivot_loop_succ (query : ℚ → IntervalSet → IntervalSet) (m : Nat)
    (ns : IntervalSet) (pr pg pivot : ℚ) :
    recovery_pivot_loop query (m + 1) ns pr pg pivot =
      if pg - pr > 1 then
        if (query pivot ns).isEmpty then
          recovery_pivot_loop query m (query pivot ns) pivot pg ((pivot + pg) / 2)
        else
          recovery_pivot_loop query m (query pivot ns) pr pivot ((pr + pivot) / 2)
      else (ns, pr, pg) := by
  rw [recovery_pivot_loop]

/-- Once the pivot is the midpoint, `n + 1` units of fuel are enough for a gap of at most
`2 ^ n`: more fuel does not change the result. -/
theorem recovery_pivot_loop_mid (query : ℚ → IntervalSet → IntervalSet) (k : Nat) :
    ∀ (n : Nat) (ns : IntervalSet) (pr pg pivot : ℚ), pivot = (pr + pg) / 2 →
      pg - pr ≤ 2 ^ n →
      recovery_pivot_loop query (n + k + 1) ns pr pg pivot =
        recovery_pivot_loop query (n + 1) ns pr pg pivot := by
  intro n
  induction n with
  | zero =>
    intro ns pr pg pivot _ hgap
    rw [recovery_pivot_loop_done query _ ns pr pg pivot (by simpa using hgap),
      recovery_pivot_loop_done query _ ns pr pg pivot (by simpa using hgap)]
  | succ n ih =>
    intro ns pr pg pivot hmid hgap
    have e1 : n + 1 + k + 1 = (n + k + 1) + 1 := by omega
    rw [e1, recovery_pivot_loop_succ query (n + k + 1) ns pr pg pivot,
      recovery_pivot_loop_succ query (n + 1) ns pr pg pivot]
    have hgap2 : (pg - pr) / 2 ≤ 2 ^ n := by
      rw [pow_succ] at hgap
      linarith
    by_cases hc : pg - pr > 1
    · rw [if_pos hc, if_pos hc]
      by_cases hred : (query pivot ns).isEmpty = true
      · rw [if_pos hred, if_pos hred]
        exact ih _ _ _ _ (by ring) (by rw [hmid]; linarith)
      · rw [if_neg hred, if_neg hred]
        exact ih _ _ _ _ (by ring) (by rw [hmid]; linarith)
    · rw [if_neg hc, if_neg hc]

/-- The fuel `search_fuel T` of the pivot search is enough: any additional fuel gives the same
result, so the search of `compute_recovery_bands` ends by its own exit test. -/
theorem search_fuel_enough (query : ℚ → IntervalSet → IntervalSet) (T : ℚ) (ns : IntervalSet)
    (k : Nat) :
    recovery_pivot_loop query (search_fuel T + k) ns 0 (T + 1) (T + 1 - 1) =
      recovery_pivot_loop query (search_fuel T) ns 0 (T + 1) (T + 1 - 1) := by
  have e1 : search_fuel T + k = (⌈T⌉₊ + k + 1) + 1 := by unfold search_fuel; omega
  have e2 : search_fuel T = (⌈T⌉₊ + 1) + 1 := by unfold search_fuel; omega
  rw [e1, e2, recovery_pivot_loop_succ query (⌈T⌉₊ + k + 1) ns 0 (T + 1) (T + 1 - 1),
    recovery_pivot_loop_succ query (⌈T⌉₊ + 1) ns 0 (T + 1) (T + 1 - 1)]
  by_cases hc : T + 1 - 0 > 1
  · rw [if_pos hc, if_pos hc]
    by_cases hred : (query (T + 1 - 1) ns).isEmpty = true
    · rw [if_pos hred, if_pos hred, recovery_pivot_loop_done _ _ _ _ _ _ (by linarith),
        recovery_pivot_loop_done _ _ _ _ _ _ (by linarith)]
    · rw [if_neg hred, if_neg hred]
      exact recovery_pivot_loop_mid query k _ _ _ _ _ rfl
        (by have := le_two_pow_ceil T; linarith)
  · rw [if_neg hc, if_neg hc]

/-- After `n` shrinking steps by the factor 0.8 with `n ≥ 4 * ⌈h / D⌉`, the separation `h` is
at most `D`. -/
theorem shrink_le (h D : ℚ) (hD : 0 < D) (n : Nat) (hn : 4 * ⌈h / D⌉₊ ≤ n) :
    h * (4 / 5) ^ n ≤ D := by
  have hpos : (0 : ℚ) < (4 / 5) ^ n := by positivity
  rcases le_or_lt h 0 with hh | hh
  · have : h * (4 / 5) ^ n ≤ 0 := mul_nonpos_of_nonpos_of_nonneg hh (le_of_lt hpos)
    linarith
  · have hb : (1 : ℚ) + (n : ℚ) * (1 / 4) ≤ (1 + 1 / 4) ^ n :=
      one_add_mul_le_pow (by norm_num) n
    have hceil : h / D ≤ (⌈h / D⌉₊ : ℚ) := Nat.le_ceil _
    have hn2 : (4 : ℚ) * (⌈h / D⌉₊ : ℚ) ≤ (n : ℚ) := by exact_mod_cast hn
    have h54 : h / D ≤ (5 / 4 : ℚ) ^ n := by
      have : (1 + 1 / 4 : ℚ) = 5 / 4 := by norm_num
      rw [this] at hb
      linarith
    have hmul : (5 / 4 : ℚ) ^ n * (4 / 5) ^ n = 1 := by
      rw [← mul_pow]; norm_num
    have h1 : h ≤ D * (5 / 4 : ℚ) ^ n := by
      rw [div_le_iff₀ hD] at h54
      linarith
    calc h * (4 / 5) ^ n ≤ D * (5 / 4 : ℚ) ^ n * (4 / 5) ^ n :=
          mul_le_mul_of_nonneg_right h1 (le_of_lt hpos)
      _ = D := by rw [mul_assoc, hmul, mul_one]

/-- When `n` shrinking steps bring the cylinder inside the NMAC cylinder, `n + 1` units of fuel
are enough for the outer loop. -/
theorem recovery_loop_fuel {AC : Type} (cfg : ACCoRDConfig) (core : KinematicBandsCore AC)
    (axis : Axis AC) (alerting_set : List AC) (repac : Option AC) (T : ℚ) (k : Nat) :
    ∀ (n : Nat) (b : KinematicRealBands) (ns : IntervalSet) (h v : ℚ),
      h * (4 / 5) ^ n ≤ cfg.NMAC_D → v * (4 / 5) ^ n ≤ cfg.NMAC_H →
      recovery_loop cfg core axis alerting_set repac T (n + k + 1) b ns h v =
        recovery_loop cfg core axis alerting_set repac T (n + 1) b ns h v := by
  intro n
  induction n with
  | zero =>
    intro b ns h v hh hv
    have hc : ¬ (h > cfg.NMAC_D ∨ v > cfg.NMAC_H) := by
      simp only [pow_zero, mul_one] at hh hv
      rintro (h1 | h1) <;> linarith
    rw [recovery_loop_succ, recovery_loop_succ, if_neg hc, if_neg hc]
  | succ n ih =>
    intro b ns h v hh hv
    have e1 : n + 1 + k + 1 = (n + k + 1) + 1 := by omega
    have hh2 : h * (4 / 5) * (4 / 5) ^ n ≤ cfg.NMAC_D := by
      rw [pow_succ] at hh; linarith
    have hv2 : v * (4 / 5) * (4 / 5) ^ n ≤ cfg.NMAC_H := by
      rw [pow_succ] at hv; linarith
    rw [e1, recovery_loop_succ cfg core axis alerting_set repac T (n + k + 1) b ns h v,
      recovery_loop_succ cfg core axis alerting_set repac T (n + 1) b ns h v]
    rw [ih b _ _ _ hh2 hv2, ih { b with recovery_time := -1 } _ _ _ hh2 hv2]

/-- The fuel `shrink_fuel` of the outer loop of `compute_recovery_bands` is enough when the
NMAC cylinder has positive dimensions: any additional fuel gives the same result. -/
theorem shrink_fuel_enough {AC : Type} (cfg : ACCoRDConfig) (core : KinematicBandsCore AC)
    (axis : Axis AC) (alerting_set : List AC) (repac : Option AC) (T : ℚ) (k : Nat)
    (b : KinematicRealBands) (ns : IntervalSet) (h v : ℚ)
    (hD : 0 < cfg.NMAC_D) (hH : 0 < cfg.NMAC_H) :
    recovery_loop cfg core axis alerting_set repac T (shrink_fuel cfg h v + k) b ns h v =
      recovery_loop cfg core axis alerting_set repac T (shrink_fuel cfg h v) b ns h v := by
  have e1 : shrink_fuel cfg h v + k =
      (4 * ⌈h / cfg.NMAC_D⌉₊ + 4 * ⌈v / cfg.NMAC_H⌉₊) + k + 1 := by
    unfold shrink_fuel; omega
  have e2 : shrink_fuel cfg h v = (4 * ⌈h / cfg.NMAC_D⌉₊ + 4 * ⌈v / cfg.NMAC_H⌉₊) + 1 := rfl
  rw [e1, e2]
  exact recovery_loop_fuel cfg core axis alerting_set repac T k _ b ns h v
    (shrink_le h cfg.NMAC_D hD _ (by omega)) (shrink_le v cfg.NMAC_H hH _ (by omega))

end KinematicRealBands

namespace Daidalus

theorem maneuver_loop_done (p : DaidalusParameters) (q : AlertingView) (m : Nat)
    (pg pr pivot : ℚ) (h : pr - pg ≤ 1) : maneuver_loop p q m pg pr pivot = pr := by
  cases m with
  | zero => rfl
  | succ m => rw [maneuver_loop, if_neg (not_lt.mpr h)]

theorem maneuver_loop_succ (p : DaidalusParameters) (q : AlertingView) (m : Nat)
    (pg pr pivot : ℚ) :
    maneuver_loop p q (m + 1) pg pr pivot =
      if pr - pg > 1 then
        if all_axes_red p q pivot = true then
          maneuver_loop p q m pg pivot ((pivot + pg) / 2)
        else
          maneuver_loop p q m pivot pr ((pr + pivot) / 2)
      else pr := by
  rw [maneuver_loop]

theorem maneuver_loop_mid (p : DaidalusParameters) (q : AlertingView) (k : Nat) :
    ∀ (n : Nat) (pg pr pivot : ℚ), pivot = (pr + pg) / 2 → pr - pg ≤ 2 ^ n →
      maneuver_loop p q (n + k + 1) pg pr pivot = maneuver_loop p q (n + 1) pg pr pivot := by
  intro n
  induction n with
  | zero =>
    intro pg pr pivot _ hgap
    rw [maneuver_loop_done p q _ pg pr pivot (by simpa using hgap),
      maneuver_loop_done p q _ pg pr pivot (by simpa using hgap)]
  | succ n ih =>
    intro pg pr pivot hmid hgap
    have e1 : n + 1 + k + 1 = (n + k + 1) + 1 := by omega
    rw [e1, maneuver_loop_succ p q (n + k + 1) pg pr pivot,
      maneuver_loop_succ p q (n + 1) pg pr pivot]
    have hgap2 : (pr - pg) / 2 ≤ 2 ^ n := by
      rw [pow_succ] at hgap
      linarith
    by_cases hc : pr - pg > 1
    · rw [if_pos hc, if_pos hc]
      by_cases hred : all_axes_red p q pivot = true
      · rw [if_pos hred, if_pos hred]
        exact ih _ _ _ (by ring) (by rw [hmid]; linarith)
      · rw [if_neg hred, if_neg hred]
        exact ih _ _ _ (by ring) (by rw [hmid]; linarith)
    · rw [if_neg hc, if_neg hc]

/-- The fuel `maneuver_fuel t2v` of the time-to-maneuver search is enough: any additional fuel
gives the same result. -/
theorem maneuver_fuel_enough (p : DaidalusParameters) (q : AlertingView) (t2v : ℚ) (k : Nat) :
    maneuver_loop p q (maneuver_fuel t2v + k) 0 t2v (0 + 1) =
      maneuver_loop p q (maneuver_fuel t2v) 0 t2v (0 + 1) := by
  have e1 : maneuver_fuel t2v + k = (⌈t2v⌉₊ + k + 1) + 1 := by unfold maneuver_fuel; omega
  have e2 : maneuver_fuel t2v = (⌈t2v⌉₊ + 1) + 1 := by unfold maneuver_fuel; omega
  rw [e1, e2, maneuver_loop_succ p q (⌈t2v⌉₊ + k + 1) 0 t2v (0 + 1),
    maneuver_loop_succ p q (⌈t2v⌉₊ + 1) 0 t2v (0 + 1)]
  by_cases hc : t2v - 0 > 1
  · rw [if_pos hc, if_pos hc]
    by_cases hred : all_axes_red p q (0 + 1) = true
    · rw [if_pos hred, if_pos hred, maneuver_loop_done _ _ _ _ _ _ (by linarith),
        maneuver_loop_done _ _ _ _ _ _ (by linarith)]
    · rw [if_neg hred, if_neg hred]
      exact maneuver_loop_mid p q k _ _ _ _ rfl
        (by have := le_two_pow_ceil t2v; linarith)
  · rw [if_neg hc, if_neg hc]

end Daidalus

namespace KinematicAltBands

theorem red_bands_loop_succ {AC : Type} (env : AltKinematics AC) (b : KinematicAltBands)
    (B T : ℚ) (traffic : List AC) (m : Nat) (a : ℚ) (redset : IntervalSet) :
    red_bands_loop env b B T traffic (m + 1) a redset =
      if a < b.max then
        red_bands_loop env b B T traffic m (a + b.step)
          (IntervalSet.unions redset (red_cell env b B T traffic a))
      else redset := by
  rw [red_bands_loop]

/-- The sweep of `red_bands` from `a` needs at most `n` units of fuel when
`max - a ≤ n * step`. -/
theorem red_bands_loop_fuel {AC : Type} (env : AltKinematics AC) (b : KinematicAltBands)
    (B T : ℚ) (traffic : List AC) (k : Nat) :
    ∀ (n : Nat) (a : ℚ) (redset : IntervalSet), b.max - a ≤ (n : ℚ) * b.step →
      red_bands_loop env b B T traffic (n + k) a redset =
        red_bands_loop env b B T traffic n a redset := by
  intro n
  induction n with
  | zero =>
    intro a redset hgap
    have hc : ¬ a < b.max := by
      simp only [Nat.cast_zero, zero_mul] at hgap
      linarith
    cases k with
    | zero => rfl
    | succ k =>
      have e : 0 + (k + 1) = k + 1 := by omega
      rw [e, red_bands_loop_succ, if_neg hc]
      rfl
  | succ n ih =>
    intro a redset hgap
    have e1 : n + 1 + k = (n + k) + 1 := by omega
    rw [e1, red_bands_loop_succ env b B T traffic (n + k) a redset,
      red_bands_loop_succ env b B T traffic n a redset]
    by_cases hc : a < b.max
    · rw [if_pos hc, if_pos hc]
      apply ih
      push_cast at hgap
      linarith
    · rw [if_neg hc, if_neg hc]

/-- The fuel `sweep_fuel min max step` of the sweep of `red_bands` is enough when the step is
positive: any additional fuel gives the same result. -/
theorem sweep_fuel_enough {AC : Type} (env : AltKinematics AC) (b : KinematicAltBands)
    (B T : ℚ) (traffic : List AC) (hstep : 0 < b.step) (k : Nat) :
    red_bands_loop env b B T traffic (sweep_fuel b.min b.max b.step + k) b.min [] =
      red_bands_loop env b B T traffic (sweep_fuel b.min b.max b.step) b.min [] := by
  apply red_bands_loop_fuel env b B T traffic k
  unfold sweep_fuel
  have h1 : (b.max - b.min) / b.step ≤ (⌈(b.max - b.min) / b.step⌉₊ : ℚ) := Nat.le_ceil _
  rw [div_le_iff₀ hstep] at h1
  push_cast
  nlinarith

end KinematicAltBands

/-! ### Bands-based alerting without conflict -/

namespace Daidalus

/-- The first test of `bands_alerting` fails when some alerting-enabled axis has bands. -/
theorem bands_gate_open (p : DaidalusParameters) (q : AlertingView)
    (hbands : (p.trk_alerting = true ∧ q.trackLength ≠ 0) ∨
      (p.gs_alerting = true ∧ q.groundSpeedLength ≠ 0) ∨
      (p.vs_alerting = true ∧ q.verticalSpeedLength ≠ 0)) :
    ¬ ((!p.trk_alerting || decide (q.trackLength = 0)) &&
      (!p.gs_alerting || decide (q.groundSpeedLength = 0)) &&
      (!p.vs_alerting || decide (q.verticalSpeedLength = 0))) = true := by
  intro h
  simp only [Bool.and_eq_true, Bool.or_eq_true, Bool.not_eq_true', decide_eq_true_eq] at h
  obtain ⟨⟨h1, h2⟩, h3⟩ := h
  rcases hbands with ⟨a, b⟩ | ⟨a, b⟩ | ⟨a, b⟩
  · rcases h1 with h1 | h1
    · rw [a] at h1; exact Bool.noConfusion h1
    · exact b h1
  · rcases h2 with h2 | h2
    · rw [a] at h2; exact Bool.noConfusion h2
    · exact b h2
  · rcases h3 with h3 | h3
    · rw [a] at h3; exact Bool.noConfusion h3
    · exact b h3

/-- C11. In bands-based alerting, when some alerting-enabled axis has bands and the detector
reports no conflict within the alerting time, the result is 2 (Preventive) exactly when the
vertical separation is within the preventive altitude threshold (or that threshold is negative)
and, for one of track, ground speed and vertical speed, alerting on the axis is enabled, the
axis has a non-empty band list and the current value of the ownship is within the preventive
threshold of the axis of a conflict band (or that threshold is negative); otherwise the result
is 1 (Proximate). -/
theorem C11_bands_alerting_no_conflict (p : DaidalusParameters) (q : AlertingView)
    (hbands : (p.trk_alerting = true ∧ q.trackLength ≠ 0) ∨
      (p.gs_alerting = true ∧ q.groundSpeedLength ≠ 0) ∨
      (p.vs_alerting = true ∧ q.verticalSpeedLength ≠ 0))
    (hnc : (q.conflictDetection 0 (alerting_time p)).conflict = false) :
    (bands_alerting p q = 2 ↔
      (p.preventive_alt < 0 ∨ |q.so_z - q.si_z| ≤ p.preventive_alt) ∧
      ((p.trk_alerting = true ∧ q.trackLength > 0 ∧
          (p.preventive_trk < 0 ∨ q.nearTrackConflict q.trk p.preventive_trk = true)) ∨
        (p.gs_alerting = true ∧ q.groundSpeedLength > 0 ∧
          (p.preventive_gs < 0 ∨ q.nearGroundSpeedConflict q.gs p.preventive_gs = true)) ∨
        (p.vs_alerting = true ∧ q.verticalSpeedLength > 0 ∧
          (p.preventive_vs < 0 ∨
            q.nearVerticalSpeedConflict q.vs p.preventive_vs = true)))) ∧
    (bands_alerting p q ≠ 2 → bands_alerting p q = 1) := by
  have hnc' : ¬ (q.conflictDetection 0 (alerting_time p)).conflict = true := by
    rw [hnc]; exact Bool.false_ne_true
  have hval : bands_alerting p q =
      if p.preventive_alt < 0 ∨ |q.so_z - q.si_z| ≤ p.preventive_alt then
        if (p.trk_alerting && decide (q.trackLength > 0) &&
              (decide (p.preventive_trk < 0) || q.nearTrackConflict q.trk p.preventive_trk)) ||
            (p.gs_alerting && decide (q.groundSpeedLength > 0) &&
              (decide (p.preventive_gs < 0) ||
                q.nearGroundSpeedConflict q.gs p.preventive_gs)) ||
            (p.vs_alerting && decide (q.verticalSpeedLength > 0) &&
              (decide (p.preventive_vs < 0) ||
                q.nearVerticalSpeedConflict q.vs p.preventive_vs)) then 2
        else 1
      else 1 := by
    unfold bands_alerting
    rw [if_neg (bands_gate_open p q hbands), if_neg hnc']
  have haxes : ((p.trk_alerting && decide (q.trackLength > 0) &&
              (decide (p.preventive_trk < 0) || q.nearTrackConflict q.trk p.preventive_trk)) ||
            (p.gs_alerting && decide (q.groundSpeedLength > 0) &&
              (decide (p.preventive_gs < 0) ||
                q.nearGroundSpeedConflict q.gs p.preventive_gs)) ||
            (p.vs_alerting && decide (q.verticalSpeedLength > 0) &&
              (decide (p.preventive_vs < 0) ||
                q.nearVerticalSpeedConflict q.vs p.preventive_vs))) = true ↔
      ((p.trk_alerting = true ∧ q.trackLength > 0 ∧
          (p.preventive_trk < 0 ∨ q.nearTrackConflict q.trk p.preventive_trk = true)) ∨
        (p.gs_alerting = true ∧ q.groundSpeedLength > 0 ∧
          (p.preventive_gs < 0 ∨ q.nearGroundSpeedConflict q.gs p.preventive_gs = true)) ∨
        (p.vs_alerting = true ∧ q.verticalSpeedLength > 0 ∧
          (p.preventive_vs < 0 ∨
            q.nearVerticalSpeedConflict q.vs p.preventive_vs = true))) := by
    simp only [Bool.or_eq_true, Bool.and_eq_true, decide_eq_true_eq, and_assoc, or_assoc]
  rw [hval]
  by_cases halt : p.preventive_alt < 0 ∨ |q.so_z - q.si_z| ≤ p.preventive_alt
  · rw [if_pos halt]
    by_cases hax : ((p.trk_alerting && decide (q.trackLength > 0) &&
              (decide (p.preventive_trk < 0) || q.nearTrackConflict q.trk p.preventive_trk)) ||
            (p.gs_alerting && decide (q.groundSpeedLength > 0) &&
              (decide (p.preventive_gs < 0) ||
                q.nearGroundSpeedConflict q.gs p.preventive_gs)) ||
            (p.vs_alerting && decide (q.verticalSpeedLength > 0) &&
              (decide (p.preventive_vs < 0) ||
                q.nearVerticalSpeedConflict q.vs p.preventive_vs))) = true
    · rw [if_pos hax]
      exact ⟨⟨fun _ => ⟨halt, haxes.1 hax⟩, fun _ => rfl⟩, fun h => absurd rfl h⟩
    · rw [if_neg hax]
      refine ⟨⟨fun h => ?_, fun h => absurd (haxes.2 h.2) hax⟩, fun _ => rfl⟩
      exact absurd h (by decide)
  · rw [if_neg halt]
    refine ⟨⟨fun h => ?_, fun h => absurd h.1 halt⟩, fun _ => rfl⟩
    exact absurd h (by decide)

/-! ### The four tiers of `MOPS()` -/

/-- A tier with a positive alerting time `A` fires for an entry time `e` exactly when
`e < A`. -/
theorem alerting_entersAt {S : Type} (det : S → ℚ → ℚ → LossData) (st : S) (e A : ℚ)
    (hA : 0 < A) (h : EntersAt det st e) :
    ((⟨det, A, 0⟩ : AlertThresholds S).alerting st).1 = true ↔ e < A := by
  have hA0 : ¬ A = 0 := ne_of_gt hA
  unfold AlertThresholds.alerting
  simp only [if_neg hA0, Bool.and_true]
  unfold LossData.conflictThr LossData.conflict
  constructor
  · intro hc
    by_contra hlt
    have hno := (h A).2 (not_lt.mp hlt)
    unfold LossData.conflict at hno
    simp only [Bool.and_eq_true, decide_eq_true_eq] at hc
    simp only [decide_eq_false_iff_not] at hno
    exact hno hc.1
  · intro hlt
    obtain ⟨h1, h2⟩ := (h A).1 hlt
    simp only [Bool.and_eq_true, decide_eq_true_eq]
    rw [h1]
    exact ⟨h2, by linarith⟩

end Daidalus

namespace Daidalus

/-- C12 (as amended). With the four tiers of `MOPS()` (alerting times 60, 55, 40 and 20 s) and
detectors that see the intruder enter violation at the time `e`, the alert level is 4 when
`e < 20`, 3 when `20 ≤ e < 40`, 2 when `40 ≤ e < 55`, 1 when `55 ≤ e < 60` and 0 when
`60 ≤ e`. -/
theorem C12_MOPS_levels {S : Type} (d1 d2 d3 d4 : S → ℚ → ℚ → LossData) (st : S) (e : ℚ)
    (h1 : EntersAt d1 st e) (h2 : EntersAt d2 st e) (h3 : EntersAt d3 st e)
    (h4 : EntersAt d4 st e) :
    (thresholds_alerting (MOPS d1 d2 d3 d4) st).1 =
      if e < 20 then 4 else if e < 40 then 3 else if e < 55 then 2 else if e < 60 then 1
      else 0 := by
  have a1 := alerting_entersAt d1 st e 60 (by norm_num) h1
  have a2 := alerting_entersAt d2 st e 55 (by norm_num) h2
  have a3 := alerting_entersAt d3 st e 40 (by norm_num) h3
  have a4 := alerting_entersAt d4 st e 20 (by norm_num) h4
  have l4 : (MOPS d1 d2 d3 d4)[3]? = some ⟨d4, 20, 0⟩ := rfl
  have l3 : (MOPS d1 d2 d3 d4)[2]? = some ⟨d3, 40, 0⟩ := rfl
  have l2 : (MOPS d1 d2 d3 d4)[1]? = some ⟨d2, 55, 0⟩ := rfl
  have l1 : (MOPS d1 d2 d3 d4)[0]? = some ⟨d1, 60, 0⟩ := rfl
  have hlen : (MOPS d1 d2 d3 d4).length = 4 := rfl
  unfold thresholds_alerting
  rw [hlen]
  by_cases c4 : e < 20
  · rw [if_pos c4]
    unfold thresholds_loop
    simp only [l4, if_pos (a4.2 c4)]
    rfl
  rw [if_neg c4]
  have n4 : ¬ ((⟨d4, 20, 0⟩ : AlertThresholds S).alerting st).1 = true := fun h => c4 (a4.1 h)
  by_cases c3 : e < 40
  · rw [if_pos c3]
    unfold thresholds_loop
    simp only [l4, if_neg n4]
    unfold thresholds_loop
    simp only [l3, if_pos (a3.2 c3)]
    rfl
  rw [if_neg c3]
  have n3 : ¬ ((⟨d3, 40, 0⟩ : AlertThresholds S).alerting st).1 = true := fun h => c3 (a3.1 h)
  by_cases c2 : e < 55
  · rw [if_pos c2]
    unfold thresholds_loop
    simp only [l4, if_neg n4]
    unfold thresholds_loop
    simp only [l3, if_neg n3]
    unfold thresholds_loop
    simp only [l2, if_pos (a2.2 c2)]
    rfl
  rw [if_neg c2]
  have n2 : ¬ ((⟨d2, 55, 0⟩ : AlertThresholds S).alerting st).1 = true := fun h => c2 (a2.1 h)
  by_cases c1 : e < 60
  · rw [if_pos c1]
    unfold thresholds_loop
    simp only [l4, if_neg n4]
    unfold thresholds_loop
    simp only [l3, if_neg n3]
    unfold thresholds_loop
    simp only [l2, if_neg n2]
    unfold thresholds_loop
    simp only [l1, if_pos (a1.2 c1)]
    rfl
  rw [if_neg c1]
  have n1 : ¬ ((⟨d1, 60, 0⟩ : AlertThresholds S).alerting st).1 = true := fun h => c1 (a1.1 h)
  unfold thresholds_loop
  simp only [l4, if_neg n4]
  unfold thresholds_loop
  simp only [l3, if_neg n3]
  unfold thresholds_loop
  simp only [l2, if_neg n2]
  unfold thresholds_loop
  simp only [l1, if_neg n1]
  rfl

end Daidalus

namespace AlertThresholds

/-- C13 fails on the code: for a tier whose alerting time is 0 and whose detector clips its
result to the query window `[0, 0]` (either `time_in > time_out` or
`0 ≤ time_in ≤ time_out ≤ 0`), `alerting` never reports an alert, whether the aircraft are in
violation or not: the clipped loss interval has `time_in = time_out`, which `conflict()`
(`time_in < time_out`) rejects. -/
theorem C13_zero_alerting_time_never_alerts {S : Type} (a : AlertThresholds S) (st : S)
    (h0 : a.alerting_time = 0)
    (hclip : (a.detector st 0 0).time_in > (a.detector st 0 0).time_out ∨
      (0 ≤ (a.detector st 0 0).time_in ∧
        (a.detector st 0 0).time_in ≤ (a.detector st 0 0).time_out ∧
        (a.detector st 0 0).time_out ≤ 0)) :
    (a.alerting st).1 = false := by
  have hno : (a.detector st 0 0).conflict = false := by
    unfold LossData.conflict
    simp only [decide_eq_false_iff_not, not_lt]
    rcases hclip with h | ⟨h1, _, h3⟩
    · exact le_of_lt h
    · linarith
  unfold alerting
  rw [h0]
  unfold LossData.conflictThr
  rw [hno]
  rfl

end AlertThresholds

/-! ### The aircraft list of the `Daidalus` object -/

namespace Daidalus

/-- The loop of `setWindField` rewrites the aircraft at every index with its own timestamp. -/
theorem rewind_all_getElem (gc : GreatCircleLinear) (ow w : Velocity) (cur : ℚ) :
    ∀ (acs : List TrafficState) (ts : List ℚ), ts.length = acs.length →
      ∀ (i : Nat) (a : TrafficState), acs[i]? = some a →
        ∃ t, ts[i]? = some t ∧
          (rewind_all gc ow w cur acs ts)[i]? = some (rewind gc ow w cur a t) := by
  intro acs
  induction acs with
  | nil => intro ts _ i a h; simp at h
  | cons ac rest ih =>
    intro ts hlen i a h
    cases ts with
    | nil => simp at hlen
    | cons t ts =>
      cases i with
      | zero =>
        simp only [List.getElem?_cons_zero, Option.some.injEq] at h
        subst h
        exact ⟨t, by simp, by simp [rewind_all]⟩
      | succ i =>
        simp only [List.getElem?_cons_succ] at h
        simp only [List.length_cons, add_left_inj] at hlen
        obtain ⟨t', h1, h2⟩ := ih ts hlen i a h
        exact ⟨t', by simpa using h1, by simpa [rewind_all] using h2⟩

/-- The loop of `setWindField` keeps the number of aircraft. -/
theorem rewind_all_length (gc : GreatCircleLinear) (ow w : Velocity) (cur : ℚ) :
    ∀ (acs : List TrafficState) (ts : List ℚ),
      (rewind_all gc ow w cur acs ts).length = acs.length := by
  intro acs
  induction acs with
  | nil => intro ts; rfl
  | cons ac rest ih =>
    intro ts
    cases ts with
    | nil => simp [rewind_all, ih]
    | cons t ts => simp [rewind_all, ih]

/-- The loop of `setWindField` keeps the identifiers in order. -/
theorem rewind_all_ids (gc : GreatCircleLinear) (ow w : Velocity) (cur : ℚ) :
    ∀ (acs : List TrafficState) (ts : List ℚ),
      (rewind_all gc ow w cur acs ts).map TrafficState.id = acs.map TrafficState.id := by
  intro acs
  induction acs with
  | nil => intro ts; rfl
  | cons ac rest ih =>
    intro ts
    cases ts with
    | nil => simp [rewind_all, ih]
    | cons t ts => simp [rewind_all, rewind, ih]

/-- A projection by the time 0 leaves a position as it is, for Euclidean positions and, when
the great-circle projection by 0 is the identity, for positions in latitude and longitude. -/
theorem Position_linear_zero (gc : GreatCircleLinear) (p : Position) (v : Velocity)
    (h : p.latlon = false ∨ ∀ (c : Vect3) (u : Velocity), gc c u 0 = c) :
    Position.linear gc p v 0 = p := by
  unfold Position.linear
  cases p with
  | mk ll c =>
    cases ll with
    | true =>
      rcases h with h | h
      · exact absurd h (by simp)
      · simp [h]
    | false =>
      cases c with
      | mk x y z => simp [Vect3.linear]

/-- C14. `setWindField(w)` preserves the ground velocity of every aircraft: the stored velocity
after the call plus `w` equals the stored velocity before the call plus the previous wind. It
keeps the number, the order and the identifiers of the aircraft, leaves the position of the
ownship unchanged (in Euclidean coordinates, and in latitude and longitude when the
great-circle projection by the time 0 is the identity) and sets the stored wind to `w`. Every
aircraft has a timestamp (`times.size() = acs.size()`). -/
theorem C14_setWindField_ground_velocity (gc : GreatCircleLinear) (d : Daidalus)
    (w : Velocity) (hinv : d.times.length = d.acs.length) :
    (setWindField gc d w).wind_vector = w ∧
    (setWindField gc d w).acs.length = d.acs.length ∧
    (setWindField gc d w).acs.map TrafficState.id = d.acs.map TrafficState.id ∧
    (setWindField gc d w).times = d.times ∧
    (∀ (i : Nat) (a : TrafficState), d.acs[i]? = some a →
      ∃ b, (setWindField gc d w).acs[i]? = some b ∧ b.id = a.id ∧
        Vect3.Add b.vel w = Vect3.Add a.vel d.wind_vector) ∧
    (∀ own : TrafficState, d.acs[0]? = some own →
      (own.pos.latlon = false ∨ ∀ (c : Vect3) (u : Velocity), gc c u 0 = c) →
      ∃ b, (setWindField gc d w).acs[0]? = some b ∧ b.pos = own.pos) := by
  refine ⟨rfl, rewind_all_length gc _ _ _ _ _, rewind_all_ids gc _ _ _ _ _, rfl, ?_, ?_⟩
  · intro i a ha
    obtain ⟨t, _, h2⟩ := rewind_all_getElem gc d.wind_vector w (getCurrentTime d) d.acs d.times
      hinv i a ha
    refine ⟨_, h2, rfl, ?_⟩
    simp only [rewind, Vect3.Add, Vect3.Sub, Vect3.mk.injEq]
    exact ⟨by ring, by ring, by ring⟩
  · intro own hown hgc
    obtain ⟨t, h1, h2⟩ := rewind_all_getElem gc d.wind_vector w (getCurrentTime d) d.acs
      d.times hinv 0 own hown
    refine ⟨_, h2, ?_⟩
    have hcur : getCurrentTime d = t := by
      unfold getCurrentTime
      cases hts : d.times with
      | nil => rw [hts] at h1; simp at h1
      | cons t0 ts =>
        rw [hts] at h1
        simp only [List.getElem?_cons_zero, Option.some.injEq] at h1
        exact h1
    simp only [rewind, hcur, sub_self, neg_zero]
    rw [Position_linear_zero gc own.pos own.vel hgc]
    exact Position_linear_zero gc own.pos _ hgc

/-- C15. `addTrafficState(id, pos, vel, time)` on an empty aircraft list makes the aircraft the
ownship at index 0, sets the current time to `time` and returns 0; on a list of `n ≥ 1`
aircraft (each with a timestamp) it appends the aircraft at index `n` and returns `n`, the
stored velocity is `vel - wind`, the stored position is `pos` moved linearly by `vel - wind`
for `current_time - time`, and the current time, the wind and the aircraft stored before are
unchanged. -/
theorem C15_addTrafficState (gc : GreatCircleLinear) (d : Daidalus) (id : String)
    (pos : Position) (vel : Velocity) (time : ℚ) :
    (d.acs = [] →
      (addTrafficState gc d id pos vel time).1 = 0 ∧
      (addTrafficState gc d id pos vel time).2.acs = [⟨id, pos, Vect3.Sub vel d.wind_vector⟩] ∧
      (addTrafficState gc d id pos vel time).2.times = [time] ∧
      getCurrentTime (addTrafficState gc d id pos vel time).2 = time) ∧
    (d.acs ≠ [] → d.times.length = d.acs.length →
      (addTrafficState gc d id pos vel time).1 = (d.acs.length : Int) ∧
      (addTrafficState gc d id pos vel time).2.acs =
        d.acs ++ [⟨id, Position.linear gc pos (Vect3.Sub vel d.wind_vector)
          (getCurrentTime d - time), Vect3.Sub vel d.wind_vector⟩] ∧
      (addTrafficState gc d id pos vel time).2.acs[d.acs.length]? =
        some ⟨id, Position.linear gc pos (Vect3.Sub vel d.wind_vector)
          (getCurrentTime d - time), Vect3.Sub vel d.wind_vector⟩ ∧
      (∀ (i : Nat), i < d.acs.length →
        (addTrafficState gc d id pos vel time).2.acs[i]? = d.acs[i]?) ∧
      (addTrafficState gc d id pos vel time).2.times = d.times ++ [time] ∧
      getCurrentTime (addTrafficState gc d id pos vel time).2 = getCurrentTime d ∧
      (addTrafficState gc d id pos vel time).2.wind_vector = d.wind_vector) := by
  constructor
  · intro h
    have hl : d.acs.length = 0 := by rw [h]; rfl
    unfold addTrafficState
    rw [if_pos hl]
    exact ⟨rfl, rfl, rfl, rfl⟩
  · intro h hinv
    have hl : ¬ d.acs.length = 0 := fun h0 => h (List.length_eq_zero.mp h0)
    unfold addTrafficState
    rw [if_neg hl]
    refine ⟨?_, rfl, ?_, ?_, rfl, ?_, rfl⟩
    · simp
    · simp
    · intro i hi
      exact List.getElem?_append_left hi
    · simp only [getCurrentTime]
      cases hts : d.times with
      | nil => rw [hts] at hinv; exact absurd hinv.symm hl
      | cons t ts => rfl

/-- C16. After `setAircraftList(acl, t)` with a non-empty list `acl` the stored aircraft list
is `acl` in the same order, so that the first element of `acl` is the ownship at index 0; the
current time is `t`, every aircraft carries the timestamp `t`, and the wind vector is zero. -/
theorem C16_setAircraftList (d : Daidalus) (acl : List TrafficState) (t : ℚ)
    (hne : acl ≠ []) :
    (setAircraftList d acl t).acs = acl ∧
    (setAircraftList d acl t).acs[0]? = acl.head? ∧
    getCurrentTime (setAircraftList d acl t) = t ∧
    (setAircraftList d acl t).times.length = acl.length ∧
    (∀ x ∈ (setAircraftList d acl t).times, x = t) ∧
    (setAircraftList d acl t).wind_vector = Vect3.ZERO := by
  have hacs : (setAircraftList d acl t).acs = acl := by
    simp [setAircraftList, reset]
  have htimes : (setAircraftList d acl t).times = List.replicate acl.length t := by
    simp [setAircraftList, reset]
  refine ⟨hacs, ?_, ?_, ?_, ?_, rfl⟩
  · rw [hacs]
    cases acl with
    | nil => rfl
    | cons a rest => simp
  · unfold getCurrentTime
    rw [htimes]
    cases acl with
    | nil => exact absurd rfl hne
    | cons a rest => rfl
  · rw [htimes]; simp
  · intro x hx
    rw [htimes] at hx
    exact (List.mem_replicate.mp hx).2

end Daidalus

/-! ### Alerting queries -/

namespace Daidalus

/-- The result of `bands_alerting` is one of 0, 1, 2, 3, 4. -/
theorem bands_alerting_nonneg (p : DaidalusParameters) (q : AlertingView) :
    0 ≤ bands_alerting p q := by
  unfold bands_alerting
  split_ifs <;> decide

/-- The result of the loop of `thresholds_alerting` is not negative. -/
theorem thresholds_loop_nonneg {S : Type} (alertor : List (AlertThresholds S)) (st : S) :
    ∀ n : Nat, 0 ≤ (thresholds_loop alertor st n).1 := by
  intro n
  induction n with
  | zero => simp [thresholds_loop]
  | succ i ih =>
    unfold thresholds_loop
    cases h : alertor[i]? with
    | none => simpa using ih
    | some a =>
      simp only
      by_cases hf : (a.alerting st).1 = true
      · rw [if_pos hf]; exact Int.natCast_nonneg _
      · rw [if_neg hf]; exact ih

/-- An error added to the log is recorded. -/
theorem addError_hasError (g : ErrorLogStatics) (e : ErrorLog) (msg : String) :
    (e.addError g msg).hasError = true := rfl

/-- C18. `alertingAt(ac, time)` returns a negative number if and only if the aircraft index or
the time is not valid (`ac ≤ 0`, `ac ≥ n`, `time < current_time` or
`time > current_time + lookahead`); in that case it returns -1, records an error and leaves the
aircraft list, the timestamps and the wind unchanged; for valid arguments the result is at
least 0. -/
theorem C18_alertingAt_negative_iff (g : ErrorLogStatics) (gc : GreatCircleLinear)
    (views : AlertingViews) (d : Daidalus) (ac : Int) (time : ℚ) :
    ((alertingAt g gc views d ac time).1 < 0 ↔ InvalidQuery d ac time) ∧
    (InvalidQuery d ac time →
      (alertingAt g gc views d ac time).1 = -1 ∧
      (alertingAt g gc views d ac time).2.error.hasError = true ∧
      (alertingAt g gc views d ac time).2.acs = d.acs ∧
      (alertingAt g gc views d ac time).2.times = d.times ∧
      (alertingAt g gc views d ac time).2.wind_vector = d.wind_vector) ∧
    (¬ InvalidQuery d ac time → 0 ≤ (alertingAt g gc views d ac time).1) := by
  have hinv : InvalidQuery d ac time →
      (alertingAt g gc views d ac time).1 = -1 ∧
      (alertingAt g gc views d ac time).2.error.hasError = true ∧
      (alertingAt g gc views d ac time).2.acs = d.acs ∧
      (alertingAt g gc views d ac time).2.times = d.times ∧
      (alertingAt g gc views d ac time).2.wind_vector = d.wind_vector := by
    intro h
    unfold alertingAt
    by_cases h1 : ac ≤ 0 ∨ ac ≥ (d.acs.length : Int)
    · rw [if_pos h1]
      exact ⟨rfl, rfl, rfl, rfl, rfl⟩
    · rw [if_neg h1]
      have h2 : time < getCurrentTime d ∨ time > getCurrentTime d + getLookaheadTime d := by
        rcases h with h | h | h | h
        · exact absurd (Or.inl h) h1
        · exact absurd (Or.inr h) h1
        · exact Or.inl h
        · exact Or.inr h
      rw [if_pos h2]
      exact ⟨rfl, rfl, rfl, rfl, rfl⟩
  have hval : ¬ InvalidQuery d ac time → 0 ≤ (alertingAt g gc views d ac time).1 := by
    intro h
    have h1 : ¬ (ac ≤ 0 ∨ ac ≥ (d.acs.length : Int)) := by
      rintro (h1 | h1)
      · exact h (Or.inl h1)
      · exact h (Or.inr (Or.inl h1))
    have h2 : ¬ (time < getCurrentTime d ∨ time > getCurrentTime d + getLookaheadTime d) := by
      rintro (h2 | h2)
      · exact h (Or.inr (Or.inr (Or.inl h2)))
      · exact h (Or.inr (Or.inr (Or.inr h2)))
    have hpos : 0 < ac := not_le.mp (fun h0 => h1 (Or.inl h0))
    have hlt : ac < (d.acs.length : Int) := not_le.mp (fun h0 => h1 (Or.inr h0))
    have hnat : ac.toNat < d.acs.length := by omega
    have hlen : 0 < d.acs.length := by omega
    have e0 : d.acs[0]? = some (d.acs.get ⟨0, hlen⟩) := List.getElem?_eq_getElem hlen
    have ei : d.acs[ac.toNat]? = some (d.acs.get ⟨ac.toNat, hnat⟩) :=
      List.getElem?_eq_getElem hnat
    unfold alertingAt
    rw [if_neg h1, if_neg h2]
    simp only [e0, ei]
    by_cases hb : d.parameters.bands_alerting = true
    · rw [if_pos hb]
      exact bands_alerting_nonneg _ _
    · rw [if_neg hb]
      exact thresholds_loop_nonneg _ _ _
  refine ⟨⟨fun h => ?_, fun h => ?_⟩, hinv, hval⟩
  · by_contra hn
    exact absurd h (not_lt.mpr (hval hn))
  · rw [(hinv h).1]; decide

end Daidalus

/-! ### Validating setters of the parameters -/

namespace ParameterBlock

/-- C20. For every validating setter of `DaidalusParameters`: a call with an admissible value
(positive, respectively non-negative) is the plain assignment of the guarded field, so that the
field holds the value and no other field nor the error log changes; a call with a value that
violates the requirement leaves every parameter field unchanged and records an error
(`hasError()` is true afterwards). -/
theorem C20_validating_setters (f : Validated) (g : ErrorLogStatics) (p : ParameterBlock)
    (val : ℚ) :
    (f.admissible val →
      f.setter g p val = f.assign p val ∧ f.get (f.setter g p val) = val) ∧
    (¬ f.admissible val →
      { f.setter g p val with error := p.error } = p ∧
      (f.setter g p val).hasError = true) := by
  constructor
  · intro h
    cases f <;>
      simp only [Validated.admissible, Validated.positive, if_true, Bool.false_eq_true,
        if_false] at h <;>
      simp [Validated.setter, Validated.assign, Validated.get, setDTHR, setZTHR, setD, setH,
        setLookaheadTime, setMaxGroundSpeed, setMaxAltitude, setTrackStep, setGroundSpeedStep,
        setVerticalSpeedStep, setAltitudeStep, setTimeToWarningThreshold, setTTHR, setTCOA,
        setAlertingTime, setMinGroundSpeed, setMinAltitude, setHorizontalAcceleration,
        setVerticalAcceleration, setTurnRate, setBankAngle, setVerticalRate,
        setRecoveryStabilityTime, setMaxRecoveryTime, setMinHorizontalRecovery,
        setMinVerticalRecovery, ErrorLog.isPositive, ErrorLog.isNonNegative, h]
  · intro h
    cases f <;>
      simp only [Validated.admissible, Validated.positive, if_true, Bool.false_eq_true,
        if_false] at h <;>
      simp [Validated.setter, setDTHR, setZTHR, setD, setH,
        setLookaheadTime, setMaxGroundSpeed, setMaxAltitude, setTrackStep, setGroundSpeedStep,
        setVerticalSpeedStep, setAltitudeStep, setTimeToWarningThreshold, setTTHR, setTCOA,
        setAlertingTime, setMinGroundSpeed, setMinAltitude, setHorizontalAcceleration,
        setVerticalAcceleration, setTurnRate, setBankAngle, setVerticalRate,
        setRecoveryStabilityTime, setMaxRecoveryTime, setMinHorizontalRecovery,
        setMinVerticalRecovery, ErrorLog.isPositive, ErrorLog.isNonNegative, h, hasError,
        ErrorLog.hasError, ErrorLog.addError]

end ParameterBlock

/-! ### The bands object -/

namespace KinematicBands

/-- After `reset()` the four band caches are invalidated. -/
theorem reset_invalidated (b : KinematicBands) : (reset b).Invalidated :=
  ⟨⟨rfl, rfl, rfl, rfl⟩, ⟨rfl, rfl, rfl, rfl⟩, ⟨rfl, rfl, rfl, rfl⟩, ⟨rfl, rfl, rfl, rfl⟩⟩

/-- Every writing operation of `KinematicBands` other than `clear` either ends with `reset()`,
which invalidates the four band caches, or changes nothing but the error log (a rejected
`addTraffic`, a rejected value, a value equal to the stored one, a projection by 0). -/
theorem apply_invalidated (g : ErrorLogStatics) (gc : GreatCircleLinear) (b : KinematicBands)
    (op : Op) (h : op ≠ Op.clear) :
    (Op.apply g gc b op).Invalidated ∨ { Op.apply g gc b op with error := b.error } = b := by
  cases op <;> simp only [Op.apply]
  case clear => exact absurd rfl h
  case addTraffic ac =>
    unfold addTraffic
    split_ifs
    · exact Or.inr rfl
    · exact Or.inr rfl
    · exact Or.inl (reset_invalidated _)
  case linearProjection offset =>
    unfold linearProjection
    split_ifs
    · exact Or.inl (reset_invalidated _)
    · exact Or.inr rfl
  case setImplicitBands flag =>
    unfold setImplicitBands
    split_ifs
    · exact Or.inl (reset_invalidated _)
    · exact Or.inr rfl
  case setCollisionAvoidanceBands flag =>
    unfold setCollisionAvoidanceBands
    split_ifs
    · exact Or.inl (reset_invalidated _)
    · exact Or.inr rfl
  case setLookaheadTime val =>
    unfold setLookaheadTime ErrorLog.isPositive
    split_ifs <;> first | exact Or.inl (reset_invalidated _) | exact Or.inr rfl
  all_goals first
    | exact Or.inl (reset_invalidated _)
    | (unfold setAlertingTime ErrorLog.isNonNegative
       split_ifs <;> first | exact Or.inl (reset_invalidated _) | exact Or.inr rfl)
    | (unfold setMaxRecoveryTime ErrorLog.isNonNegative
       split_ifs <;> first | exact Or.inl (reset_invalidated _) | exact Or.inr rfl)
    | (unfold setRecoveryStabilityTime ErrorLog.isNonNegative
       split_ifs <;> first | exact Or.inl (reset_invalidated _) | exact Or.inr rfl)
    | (unfold setMinHorizontalRecovery ErrorLog.isNonNegative
       split_ifs <;> first | exact Or.inl (reset_invalidated _) | exact Or.inr rfl)
    | (unfold setMinVerticalRecovery ErrorLog.isNonNegative
       split_ifs <;> first | exact Or.inl (reset_invalidated _) | exact Or.inr rfl)
    | (unfold setTrackStep ErrorLog.isPositive
       split_ifs <;> first | exact Or.inl (reset_invalidated _) | exact Or.inr rfl)
    | (unfold setBankAngle ErrorLog.isNonNegative
       split_ifs <;> first | exact Or.inl (reset_invalidated _) | exact Or.inr rfl)
    | (unfold setTurnRate ErrorLog.isNonNegative
       split_ifs <;> first | exact Or.inl (reset_invalidated _) | exact Or.inr rfl)
    | (unfold setMinGroundSpeed ErrorLog.isNonNegative
       split_ifs <;> first | exact Or.inl (reset_invalidated _) | exact Or.inr rfl)
    | (unfold setMaxGroundSpeed ErrorLog.isPositive
       split_ifs <;> first | exact Or.inl (reset_invalidated _) | exact Or.inr rfl)
    | (unfold setGroundSpeedStep ErrorLog.isPositive
       split_ifs <;> first | exact Or.inl (reset_invalidated _) | exact Or.inr rfl)
    | (unfold setHorizontalAcceleration ErrorLog.isNonNegative
       split_ifs <;> first | exact Or.inl (reset_invalidated _) | exact Or.inr rfl)
    | (unfold setVerticalSpeedStep ErrorLog.isPositive
       split_ifs <;> first | exact Or.inl (reset_invalidated _) | exact Or.inr rfl)
    | (unfold setMinAltitude ErrorLog.isNonNegative
       split_ifs <;> first | exact Or.inl (reset_invalidated _) | exact Or.inr rfl)
    | (unfold setMaxAltitude ErrorLog.isPositive
       split_ifs <;> first | exact Or.inl (reset_invalidated _) | exact Or.inr rfl)
    | (unfold setAltitudeStep ErrorLog.isPositive
       split_ifs <;> first | exact Or.inl (reset_invalidated _) | exact Or.inr rfl)
    | (unfold setVerticalRate ErrorLog.isNonNegative
       split_ifs <;> first | exact Or.inl (reset_invalidated _) | exact Or.inr rfl)
    | (unfold setVerticalAcceleration ErrorLog.isNonNegative
       split_ifs <;> first | exact Or.inl (reset_invalidated _) | exact Or.inr rfl)

end KinematicBands
namespace KinematicBands

/-- `setParameters` keeps the ownship, the traffic list and the detector, and ends with
`reset()`. -/
theorem setParameters_core (g : ErrorLogStatics) (b : KinematicBands)
    (parameters : ParameterBlock) :
    (setParameters g b parameters).core.ownship = b.core.ownship ∧
    (setParameters g b parameters).core.traffic = b.core.traffic ∧
    (setParameters g b parameters).core.detector = b.core.detector ∧
    (setParameters g b parameters).Invalidated := by
  refine ⟨?_, ?_, ?_, reset_invalidated _⟩
  all_goals
    unfold setParameters setParameters_tail setVerticalAcceleration setParameters_head
    split_ifs <;> rfl

/-- A linear projection keeps the coordinate system of an aircraft. -/
theorem linearProjection_isLatLon (gc : GreatCircleLinear) (ac : TrafficState) (t : ℚ) :
    (ac.linearProjection gc t).isLatLon = ac.isLatLon := by
  unfold TrafficState.linearProjection TrafficState.isLatLon Position.linear
  split_ifs with h
  · exact h.symm
  · simpa using h

/-- The loop of `addTraffic` calls over aircraft in the coordinate system of the ownship
appends them in order and keeps the ownship, the detector and the error log. -/
theorem foldl_addTraffic (g : ErrorLogStatics) (f : TrafficState → TrafficState)
    (own : OwnshipState) :
    ∀ (l : List TrafficState) (b : KinematicBands), b.core.ownship = some own →
      (∀ ac ∈ l, (f ac).isLatLon = own.isLatLon) →
      (l.foldl (fun bands ac => addTraffic g bands (f ac)) b).core.ownship = some own ∧
      (l.foldl (fun bands ac => addTraffic g bands (f ac)) b).core.traffic =
        b.core.traffic ++ l.map f ∧
      (l.foldl (fun bands ac => addTraffic g bands (f ac)) b).core.detector =
        b.core.detector ∧
      (l.foldl (fun bands ac => addTraffic g bands (f ac)) b).error = b.error ∧
      (b.Invalidated → (l.foldl (fun bands ac => addTraffic g bands (f ac)) b).Invalidated) := by
  intro l
  induction l with
  | nil =>
    intro b hb _
    exact ⟨hb, by simp, rfl, rfl, fun h => h⟩
  | cons a rest ih =>
    intro b hb hl
    have hown : b.hasOwnship = true := by
      unfold hasOwnship CoreState.hasOwnship
      rw [hb]; rfl
    have hll : ¬ (f a).isLatLon ≠ b.isLatLon := by
      unfold isLatLon
      rw [hb]
      simp only [ne_eq, not_not]
      exact hl a (List.mem_cons_self _ _)
    have hadd : addTraffic g b (f a) =
        reset { b with core := { b.core with traffic := b.core.traffic ++ [f a] } } := by
      unfold addTraffic
      rw [if_neg (by rw [hown]; simp), if_neg hll]
    have hrest := ih (addTraffic g b (f a)) (by rw [hadd]; exact hb)
      (fun ac hac => hl ac (List.mem_cons_of_mem _ hac))
    simp only [List.foldl_cons]
    refine ⟨hrest.1, ?_, ?_, ?_, fun _ => hrest.2.2.2.2 (by rw [hadd]; exact reset_invalidated _)⟩
    · rw [hrest.2.1, hadd]
      simp [reset]
    · rw [hrest.2.2.1, hadd]; rfl
    · rw [hrest.2.2.2.1, hadd]; rfl

end KinematicBands

namespace Daidalus

/-- C17. For a non-empty aircraft list in a single coordinate system and a time `t` with
`current_time ≤ t ≤ current_time + lookahead`, `getKinematicBandsAt(t)` returns a fresh bands
object (built on the detector of the `Daidalus` object, with invalidated caches) whose ownship
is aircraft 0 linearly projected by `dt = t - current_time` and whose traffic list is, in
order, the aircraft `1..n-1` each linearly projected by `dt`; the `Daidalus` object itself
(aircraft list, times, wind and error log) is unchanged. -/
theorem C17_getKinematicBandsAt (g : ErrorLogStatics) (gc : GreatCircleLinear)
    (dflt : BandsDefaults) (d : Daidalus) (time : ℚ) (own : TrafficState)
    (traffic : List TrafficState) (hacs : d.acs = own :: traffic)
    (hll : ∀ ac ∈ traffic, ac.isLatLon = own.isLatLon)
    (ht : getCurrentTime d ≤ time ∧ time ≤ getCurrentTime d + getLookaheadTime d) :
    (getKinematicBandsAt g gc dflt d time).1.core.ownship =
      some ⟨own.linearProjection gc (time - getCurrentTime d)⟩ ∧
    (getKinematicBandsAt g gc dflt d time).1.core.traffic =
      traffic.map (fun ac => ac.linearProjection gc (time - getCurrentTime d)) ∧
    (getKinematicBandsAt g gc dflt d time).1.core.detector = d.detector ∧
    (getKinematicBandsAt g gc dflt d time).1.Invalidated ∧
    (getKinematicBandsAt g gc dflt d time).2 = d := by
  have hrange : ¬ (time < getCurrentTime d ∨ time > getCurrentTime d + getLookaheadTime d) := by
    rintro (h | h)
    · exact absurd ht.1 (not_le.mpr h)
    · exact absurd ht.2 (not_le.mpr h)
  have hpar := KinematicBands.setParameters_core g (KinematicBands.create g dflt d.detector)
    d.parameters
  have hfold := KinematicBands.foldl_addTraffic g
    (fun ac => ac.linearProjection gc (time - getCurrentTime d))
    ⟨own.linearProjection gc (time - getCurrentTime d)⟩ traffic
    (KinematicBands.setOwnship
      (KinematicBands.setParameters g (KinematicBands.create g dflt d.detector) d.parameters)
      ⟨own.linearProjection gc (time - getCurrentTime d)⟩)
    rfl
    (fun ac hac => by
      show (ac.linearProjection gc (time - getCurrentTime d)).isLatLon =
        (own.linearProjection gc (time - getCurrentTime d)).isLatLon
      rw [KinematicBands.linearProjection_isLatLon, KinematicBands.linearProjection_isLatLon]
      exact hll ac hac)
  have hval : getKinematicBandsAt g gc dflt d time =
      (KinematicBands.setCriteriaAircraftStrat
        (traffic.foldl
          (fun bands ac =>
            KinematicBands.addTraffic g bands (ac.linearProjection gc (time - getCurrentTime d)))
          (KinematicBands.setOwnship
            (KinematicBands.setParameters g (KinematicBands.create g dflt d.detector)
              d.parameters)
            ⟨own.linearProjection gc (time - getCurrentTime d)⟩))
        d.urgency_strat, d) := by
    unfold getKinematicBandsAt
    rw [hacs]
    simp only [if_neg hrange]
  rw [hval]
  refine ⟨hfold.1, ?_, ?_, KinematicBands.reset_invalidated _, rfl⟩
  · refine Eq.trans hfold.2.1 ?_
    have h0 : (KinematicBands.setOwnship
        (KinematicBands.setParameters g (KinematicBands.create g dflt d.detector) d.parameters)
        ⟨own.linearProjection gc (time - getCurrentTime d)⟩).core.traffic =
        (KinematicBands.setParameters g (KinematicBands.create g dflt d.detector)
          d.parameters).core.traffic := rfl
    rw [h0, hpar.2.1]
    rfl
  · refine Eq.trans hfold.2.2.1 ?_
    have h0 : (KinematicBands.setOwnship
        (KinematicBands.setParameters g (KinematicBands.create g dflt d.detector) d.parameters)
        ⟨own.linearProjection gc (time - getCurrentTime d)⟩).core.detector =
        (KinematicBands.setParameters g (KinematicBands.create g dflt d.detector)
          d.parameters).core.detector := rfl
    rw [h0, hpar.2.2.1]
    rfl

end Daidalus

/-! ### Parameter store and bulk load -/

namespace ParameterData

/-- A key written with `setInternal` is found with that value; other keys are looked up in the
store as it was. -/
theorem lookup_setInternal (p : ParameterData) (key : String) (val : ℚ) (u : String)
    (k : String) :
    (p.setInternal key val u).lookup k =
      if key = k then some (ParameterEntry.value val) else p.lookup k := by
  unfold setInternal lookup
  by_cases h : key = k
  · simp [List.find?, h]
  · have hb : (key == k) = false := by simpa using h
    simp [List.find?, hb, h]

/-- A key written with `setBool` is found with that boolean; other keys are looked up in the
store as it was. -/
theorem lookup_setBool (p : ParameterData) (key : String) (b : Bool) (k : String) :
    (p.setBool key b).lookup k =
      if key = k then some (ParameterEntry.bool b) else p.lookup k := by
  unfold setBool lookup
  by_cases h : key = k
  · simp [List.find?, h]
  · have hb : (key == k) = false := by simpa using h
    simp [List.find?, hb, h]

/-- The empty store holds no key. -/
theorem lookup_empty (k : String) : empty.lookup k = none := rfl

end ParameterData

namespace ParameterBlock

/-- Reading back the store written by `P` gives every parameter field of `P`. -/
theorem setParameters_getParameters (P Q : ParameterBlock) :
    { setParameters Q (getParameters P) with error := P.error } = P := by
  simp [setParameters, getParameters, updateParameterData, ParameterData.contains,
    ParameterData.getValue, ParameterData.getBool, ParameterData.lookup_setInternal,
    ParameterData.lookup_setBool, ParameterData.lookup_empty]

end ParameterBlock
namespace ParameterBlock

/-- An individual setter keeps the sign conditions of the ground speed and altitude bounds. -/
theorem Mutation.apply_signs (g : ErrorLogStatics) (P : ParameterBlock) (m : Mutation)
    (hm : m.isBulk = false) (h : Signs P) : Signs (Mutation.apply g P m) := by
  unfold Signs at *
  obtain ⟨h1, h2, h3, h4⟩ := h
  cases m with
  | setParameters p => exact absurd hm (by simp [Mutation.isBulk])
  | validated f val =>
    cases f <;>
      simp only [Mutation.apply, Validated.setter, setDTHR, setZTHR, setD, setH,
        setLookaheadTime, setMaxGroundSpeed, setMaxAltitude, setTrackStep, setGroundSpeedStep,
        setVerticalSpeedStep, setAltitudeStep, setTimeToWarningThreshold, setTTHR, setTCOA,
        setAlertingTime, setMinGroundSpeed, setMinAltitude, setHorizontalAcceleration,
        setVerticalAcceleration, setTurnRate, setBankAngle, setVerticalRate,
        setRecoveryStabilityTime, setMaxRecoveryTime, setMinHorizontalRecovery,
        setMinVerticalRecovery, ErrorLog.isPositive, ErrorLog.isNonNegative] <;>
      split_ifs <;> simp_all
  | _ => exact ⟨h1, h2, h3, h4⟩

/-- An individual setter keeps the four steps positive. -/
theorem Mutation.apply_steps (g : ErrorLogStatics) (P : ParameterBlock) (m : Mutation)
    (hm : m.isBulk = false) (h : StepsPositive P) : StepsPositive (Mutation.apply g P m) := by
  unfold StepsPositive at *
  obtain ⟨h1, h2, h3, h4⟩ := h
  cases m with
  | setParameters p => exact absurd hm (by simp [Mutation.isBulk])
  | validated f val =>
    cases f <;>
      simp only [Mutation.apply, Validated.setter, setDTHR, setZTHR, setD, setH,
        setLookaheadTime, setMaxGroundSpeed, setMaxAltitude, setTrackStep, setGroundSpeedStep,
        setVerticalSpeedStep, setAltitudeStep, setTimeToWarningThreshold, setTTHR, setTCOA,
        setAlertingTime, setMinGroundSpeed, setMinAltitude, setHorizontalAcceleration,
        setVerticalAcceleration, setTurnRate, setBankAngle, setVerticalRate,
        setRecoveryStabilityTime, setMaxRecoveryTime, setMinHorizontalRecovery,
        setMinVerticalRecovery, ErrorLog.isPositive, ErrorLog.isNonNegative] <;>
      split_ifs <;> simp_all
  | _ => exact ⟨h1, h2, h3, h4⟩

/-- A property kept by every individual setter holds after every sequence of individual
setters. -/
theorem Mutation.run_induction (g : ErrorLogStatics) (Inv : ParameterBlock → Prop)
    (hstep : ∀ (P : ParameterBlock) (m : Mutation), m.isBulk = false → Inv P →
      Inv (Mutation.apply g P m)) :
    ∀ (ms : List Mutation) (P : ParameterBlock), (∀ m ∈ ms, m.isBulk = false) → Inv P →
      Inv (Mutation.run g P ms) := by
  intro ms
  induction ms with
  | nil => intro P _ h; exact h
  | cons m rest ih =>
    intro P hms h
    unfold Mutation.run
    rw [List.foldl_cons]
    exact ih _ (fun x hx => hms x (List.mem_cons_of_mem _ hx))
      (hstep P m (hms m (List.mem_cons_self _ _)) h)

/-- Without the bulk load the four steps stay positive: starting from the default block, after
every sequence of individual setter calls `trk_step`, `gs_step`, `vs_step` and `alt_step` are
positive. -/
theorem steps_positive_without_bulk (U : Units) (g : ErrorLogStatics) (ms : List Mutation)
    (hms : ∀ m ∈ ms, m.isBulk = false)
    (hU : 0 < U.from_ "deg" 1 ∧ 0 < U.from_ "knot" 1 ∧ 0 < U.from_ "fpm" 10 ∧
      0 < U.from_ "ft" 500) :
    StepsPositive (Mutation.run g (create U g) ms) :=
  Mutation.run_induction g StepsPositive (Mutation.apply_steps g) ms (create U g) hms hU

/-- C21 (as amended). Starting from the default parameter block, after any sequence of
individual setter calls the sign conditions `0 ≤ min_gs`, `0 < max_gs`, `0 ≤ min_alt` and
`0 < max_alt` hold, but the order of the bounds is not checked: `setMinGroundSpeed(v)` and
`setMinAltitude(v)` with `v ≥ 0` at or above the maximum, and `setMinVerticalSpeed(v)` with any
`v` at or above the maximum, are accepted without an error and leave `max ≤ min`. -/
theorem C21_bounds_signs_only (U : Units) (g : ErrorLogStatics) (ms : List Mutation)
    (hms : ∀ m ∈ ms, m.isBulk = false)
    (hU : 0 < U.from_ "knot" 700 ∧ 0 ≤ U.from_ "ft" 500 ∧ 0 < U.from_ "ft" 50000) :
    Signs (Mutation.run g (create U g) ms) ∧
    (∀ (P : ParameterBlock) (v : ℚ), 0 ≤ v → P.max_gs ≤ v →
      (setMinGroundSpeed g P v).max_gs ≤ (setMinGroundSpeed g P v).min_gs ∧
      (setMinGroundSpeed g P v).error = P.error) ∧
    (∀ (P : ParameterBlock) (v : ℚ), 0 ≤ v → P.max_alt ≤ v →
      (setMinAltitude g P v).max_alt ≤ (setMinAltitude g P v).min_alt ∧
      (setMinAltitude g P v).error = P.error) ∧
    (∀ (P : ParameterBlock) (v : ℚ), P.max_vs ≤ v →
      (setMinVerticalSpeed P v).max_vs ≤ (setMinVerticalSpeed P v).min_vs ∧
      (setMinVerticalSpeed P v).error = P.error) := by
  refine ⟨Mutation.run_induction g Signs (Mutation.apply_signs g) ms (create U g) hms
    ⟨le_refl _, hU.1, hU.2.1, hU.2.2⟩, ?_, ?_, ?_⟩
  · intro P v hv hmax
    have hp : (ErrorLog.isNonNegative g P.error "DaidalusParameters::setMinGroundSpeed" v) =
        (true, P.error) := by
      unfold ErrorLog.isNonNegative
      rw [if_pos hv]
    unfold setMinGroundSpeed
    simp only [hp, if_true]
    exact ⟨hmax, trivial⟩
  · intro P v hv hmax
    have hp : (ErrorLog.isNonNegative g P.error "DaidalusParameters::setMinAltitude" v) =
        (true, P.error) := by
      unfold ErrorLog.isNonNegative
      rw [if_pos hv]
    unfold setMinAltitude
    simp only [hp, if_true]
    exact ⟨hmax, trivial⟩
  · intro P v hmax
    exact ⟨hmax, rfl⟩

/-- C23. Parameter round trip: for all parameter blocks `P` and `Q`, with `ParameterData` a
store that returns the internal value or boolean written under a key,
`Q.setParameters(P.getParameters())` leaves every parameter field of `Q` equal to the field of
`P`, so that the written output of the block read back is that of `P`. -/
theorem C23_parameter_round_trip (U : Units) (g : ErrorLogStatics) (P Q : ParameterBlock) :
    { setParameters Q (getParameters P) with error := P.error } = P ∧
    toString U g (setParameters Q (getParameters P)) = toString U g P := by
  have h := setParameters_getParameters P Q
  refine ⟨h, ?_⟩
  have ht : ∀ R : ParameterBlock,
      toString U g R = toString U g { R with error := P.error } := by
    intro R
    unfold toString
    simp only
  rw [ht (setParameters Q (getParameters P)), h]

end ParameterBlock

namespace DefaultDaidalusParameters

/-- C30 fails on the code: `DefaultDaidalusParameters::disableRepulsiveCriteria()` calls
`parameters.disableRecoveryCriteria()`. After the repulsive criteria have been enabled it
disables the criteria for recovery bands only and `isEnabledConflictCriteria()` stays true,
where `DaidalusParameters::disableRepulsiveCriteria()` disables both. -/
theorem C30_disableRepulsiveCriteria_keeps_conflict (parameters : ParameterBlock) :
    isEnabledConflictCriteria
      (disableRepulsiveCriteria (enableRepulsiveCriteria parameters)) = true ∧
    isEnabledRecoveryCriteria
      (disableRepulsiveCriteria (enableRepulsiveCriteria parameters)) = false ∧
    (disableRepulsiveCriteria parameters).conflict_crit = parameters.conflict_crit ∧
    ParameterBlock.isEnabledConflictCriteria
      (ParameterBlock.disableRepulsiveCriteria (enableRepulsiveCriteria parameters)) = false ∧
    ParameterBlock.isEnabledRecoveryCriteria
      (ParameterBlock.disableRepulsiveCriteria (enableRepulsiveCriteria parameters)) = false :=
  ⟨rfl, rfl, rfl, rfl, rfl⟩

end DefaultDaidalusParameters

/-! ### Threshold accessors -/

namespace ErrorLog

/-- A trimmed message is not empty. -/
theorem trim_length_pos (m : String) : 0 < (trim m).length := by
  unfold trim
  rw [String.length_append]
  have h : "[...] ".length = 6 := by decide
  omega

/-- A message that ends with a line feed is not empty. -/
theorem append_newline_length_pos (m : String) : 0 < (m ++ newline).length := by
  rw [String.length_append]
  have h : newline.length = 1 := by decide
  omega

/-- A warning leaves a message in the log. -/
theorem addWarning_hasMessage (g : ErrorLogStatics) (e : ErrorLog) (msg : String) :
    (e.addWarning g msg).hasMessage = true := by
  unfold addWarning hasMessage
  simp only [decide_eq_true_eq]
  by_cases h : e.size + 1 > g.limit
  · rw [if_pos h]
    exact trim_length_pos _
  · rw [if_neg h]
    exact append_newline_length_pos _

/-- A warning never sets the error flag. -/
theorem addWarning_hasError (g : ErrorLogStatics) (e : ErrorLog) (msg : String)
    (h : (e.addWarning g msg).hasError = true) : e.hasError = true := by
  unfold addWarning hasError at h
  unfold hasError
  by_cases hp : e.local_purge_flag ≠ g.global_purge_flag
  · simp [hp] at h
  · simpa [hp] using h

end ErrorLog

namespace Daidalus

/-- C24. For every `Daidalus` object and each of the thresholds `DTHR`, `ZTHR`, `TTHR`, `TCOA`,
`D` and `H`, the getter returns the value stored in the parameter block whatever the detector
is; it leaves the object unchanged when the detector is of the matching kind and otherwise
records a warning in the error log, which never sets the error flag; with a mismatching
detector the setter called with a valid value stores the value in the parameter block and
leaves the detector unchanged. -/
theorem C24_threshold_accessors (t : Threshold) (g : ErrorLogStatics) (d : Daidalus)
    (det : DetectorObject) (val : ℚ) :
    (t.getter g d det).1 = t.stored d.parameters ∧
    (t.Matches det → (t.getter g d det).2 = d) ∧
    (¬ t.Matches det →
      (∃ msg, (t.getter g d det).2 = { d with error := d.error.addWarning g msg }) ∧
      (t.getter g d det).2.error.hasMessage = true) ∧
    ((t.getter g d det).2.error.hasError = true → d.error.hasError = true) ∧
    (¬ t.Matches det → t.Valid val →
      (t.setter g d det val).2 = det ∧
      t.stored (t.setter g d det val).1.parameters = val) := by
  cases t <;>
    simp only [Threshold.getter, Threshold.setter, Threshold.stored, Threshold.Matches,
      Threshold.Valid, Threshold.expected] <;>
    refine ⟨?_, ?_, ?_, ?_, ?_⟩
  all_goals first
    | (unfold getDTHR; split_ifs <;> rfl)
    | (unfold getZTHR; split_ifs <;> rfl)
    | (unfold getTTHR; split_ifs <;> rfl)
    | (unfold getTCOA; split_ifs <;> rfl)
    | (unfold getD; split_ifs <;> rfl)
    | (unfold getH; split_ifs <;> rfl)
    | (intro hm
       first
        | (unfold getDTHR; rw [if_neg (not_not.mpr hm)])
        | (unfold getZTHR; rw [if_neg (not_not.mpr hm)])
        | (unfold getTTHR; rw [if_neg (not_not.mpr hm)])
        | (unfold getTCOA; rw [if_neg (not_not.mpr hm)])
        | (unfold getD; rw [if_neg (not_not.mpr hm)])
        | (unfold getH; rw [if_neg (not_not.mpr hm)]))
    | (intro hm
       first
        | (unfold getDTHR; rw [if_pos hm])
        | (unfold getZTHR; rw [if_pos hm])
        | (unfold getTTHR; rw [if_pos hm])
        | (unfold getTCOA; rw [if_pos hm])
        | (unfold getD; rw [if_pos hm])
        | (unfold getH; rw [if_pos hm])
       exact ⟨⟨_, rfl⟩, ErrorLog.addWarning_hasMessage _ _ _⟩)
    | (intro h
       first
        | unfold getDTHR at h
        | unfold getZTHR at h
        | unfold getTTHR at h
        | unfold getTCOA at h
        | unfold getD at h
        | unfold getH at h
       split_ifs at h
       · exact ErrorLog.addWarning_hasError _ _ _ h
       · exact h)
    | (intro hm hv
       first
        | (unfold setDTHR ParameterBlock.setDTHR ErrorLog.isPositive)
        | (unfold setZTHR ParameterBlock.setZTHR ErrorLog.isPositive)
        | (unfold setTTHR ParameterBlock.setTTHR ErrorLog.isNonNegative)
        | (unfold setTCOA ParameterBlock.setTCOA ErrorLog.isNonNegative)
        | (unfold setD ParameterBlock.setD ErrorLog.isPositive)
        | (unfold setH ParameterBlock.setH ErrorLog.isPositive)
       simp [hm, hv])

end Daidalus
/-! ### Traffic of the bands object and band queries -/

namespace KinematicBands

/-- C25. `KinematicBands::addTraffic(ac)` rejects the aircraft, leaving the traffic list, the
ownship, the other core data and the four cached bands unchanged and recording an error, when
no ownship has been set or when the coordinate system of `ac` differs from that of the ownship;
otherwise it appends `ac` as the last traffic element, leaves the earlier elements, the ownship
and the error log unchanged and invalidates the cached bands. -/
theorem C25_addTraffic (g : ErrorLogStatics) (b : KinematicBands) (ac : TrafficState) :
    ((b.hasOwnship = false ∨ ac.isLatLon ≠ b.isLatLon) →
      (addTraffic g b ac).core = b.core ∧
      (addTraffic g b ac).trk_band = b.trk_band ∧
      (addTraffic g b ac).gs_band = b.gs_band ∧
      (addTraffic g b ac).vs_band = b.vs_band ∧
      (addTraffic g b ac).alt_band = b.alt_band ∧
      (addTraffic g b ac).error.hasError = true) ∧
    ((b.hasOwnship = true ∧ ac.isLatLon = b.isLatLon) →
      (addTraffic g b ac).core.traffic = b.core.traffic ++ [ac] ∧
      (∀ i : Nat, i < b.core.traffic.length →
        (addTraffic g b ac).core.traffic[i]? = b.core.traffic[i]?) ∧
      (addTraffic g b ac).core.ownship = b.core.ownship ∧
      (addTraffic g b ac).error = b.error ∧
      (addTraffic g b ac).Invalidated) := by
  constructor
  · intro h
    unfold addTraffic
    by_cases h1 : (!b.hasOwnship) = true
    · rw [if_pos h1]
      exact ⟨rfl, rfl, rfl, rfl, rfl, rfl⟩
    · rw [if_neg h1]
      have h2 : ac.isLatLon ≠ b.isLatLon := by
        rcases h with h | h
        · rw [h] at h1; exact absurd rfl h1
        · exact h
      rw [if_pos h2]
      exact ⟨rfl, rfl, rfl, rfl, rfl, rfl⟩
  · rintro ⟨h1, h2⟩
    have hadd : addTraffic g b ac =
        reset { b with core := { b.core with traffic := b.core.traffic ++ [ac] } } := by
      unfold addTraffic
      rw [if_neg (by rw [h1]; simp), if_neg (not_not.mpr h2)]
    rw [hadd]
    refine ⟨rfl, ?_, rfl, rfl, reset_invalidated _⟩
    intro i hi
    exact List.getElem?_append_left hi

end KinematicBands

namespace OwnshipState

/-- C26 fails on the code: `pos_to_s` and `vel_to_v` return the invalid vector only when the
ownship is Euclidean and the position is in latitude and longitude; when the ownship is in
latitude and longitude and the position is Euclidean they return the coordinates of the
position and the velocity as they are. -/
theorem C26_mixed_frames_one_direction (prj : EuclideanProjection) (own : OwnshipState)
    (p : Position) (v : Velocity) :
    (own.pos.latlon = false → p.latlon = true →
      pos_to_s prj own p = none ∧ vel_to_v prj own p v = none) ∧
    (own.pos.latlon = true → p.latlon = false →
      pos_to_s prj own p = some p.coords ∧ vel_to_v prj own p v = some v) := by
  constructor
  · intro ho hp
    unfold pos_to_s vel_to_v
    simp [ho, hp]
  · intro _ hp
    unfold pos_to_s vel_to_v
    simp [hp]

end OwnshipState

namespace KinematicRealBands

/-- With an ownship and a value inside `[min, max]`, `almostNear` is the test of the loop on
some interval of the recomputed bands. -/
theorem almostNear_iff {AC : Type} (core : KinematicBandsCore AC)
    (recomp : KinematicRealBands → KinematicRealBands) (b : KinematicRealBands) (val thr : ℚ)
    (hown : core.hasOwnship = true) (hmin : b.min ≤ val) (hmax : val ≤ b.max) :
    (almostNear core recomp b val thr).1 = true ↔
      ∃ e ∈ (recomp b).bands, e.2 = Region.NEAR ∧
        ((e.1.low - thr < val ∧ val ≤ e.1.low) ∨ (e.1.up ≤ val ∧ val < e.1.up + thr)) := by
  have hg : ¬ (core.hasOwnship = false ∨ val < b.min ∨ val > b.max) := by
    rintro (h | h | h)
    · rw [hown] at h; exact Bool.noConfusion h
    · exact absurd hmin (not_le.mpr h)
    · exact absurd hmax (not_le.mpr h)
  unfold almostNear
  rw [if_neg hg]
  simp only [List.any_eq_true, near_test, Bool.and_eq_true, Bool.or_eq_true,
    decide_eq_true_eq, bands]

/-- Without ownship every band query returns its sentinel and leaves the band as it is. -/
theorem queries_without_ownship {AC : Type} (core : KinematicBandsCore AC)
    (recomp : KinematicRealBands → KinematicRealBands) (b : KinematicRealBands)
    (h : core.hasOwnship = false) :
    bandsLength core recomp b = (-1, b) ∧
    (∀ i, interval core recomp b i = (Interval.EMPTY, b)) ∧
    (∀ i, region core recomp b i = (Region.UNKNOWN, b)) ∧
    (∀ val, regionOf core recomp b val = (Region.UNKNOWN, b)) ∧
    (∀ val thr, almostNear core recomp b val thr = (false, b)) := by
  refine ⟨?_, ?_, ?_, ?_, ?_⟩
  · unfold bandsLength
    simp [h]
  · intro i
    unfold interval
    rw [if_pos (Or.inl h)]
  · intro i
    unfold region
    rw [if_pos (Or.inl h)]
  · intro val
    unfold regionOf
    rw [if_pos (Or.inl h)]
  · intro val thr
    unfold almostNear
    rw [if_pos (Or.inl h)]

end KinematicRealBands

namespace KinematicBands

/-- C27 (as amended). For the ground speed and vertical speed bands with an ownship set and a
value `val` with `min ≤ val ≤ max`, `nearGroundSpeedConflict(val, thr)` and
`nearVerticalSpeedConflict(val, thr)` return true exactly when some interval `[low, up]`
labelled NEAR has `low - thr < val ≤ low` or `up ≤ val < up + thr`: the value is within `thr`
of an end of a conflict band from outside or on the end; a value strictly inside a conflict
band does not count for that band. -/
theorem C27_near_conflict_edges (E : BandsEnv) (b : KinematicBands) (val thr : ℚ)
    (hown : b.hasOwnship = true) :
    (b.gs_band.min ≤ val → val ≤ b.gs_band.max →
      ((nearGroundSpeedConflict E b val thr).1 = true ↔
        ∃ e ∈ (gs_recomp E b b.gs_band.toKinematicRealBands).bands, e.2 = Region.NEAR ∧
          ((e.1.low - thr < val ∧ val ≤ e.1.low) ∨ (e.1.up ≤ val ∧ val < e.1.up + thr)))) ∧
    (b.vs_band.min ≤ val → val ≤ b.vs_band.max →
      ((nearVerticalSpeedConflict E b val thr).1 = true ↔
        ∃ e ∈ (vs_recomp E b b.vs_band.toKinematicRealBands).bands, e.2 = Region.NEAR ∧
          ((e.1.low - thr < val ∧ val ≤ e.1.low) ∨ (e.1.up ≤ val ∧ val < e.1.up + thr)))) := by
  have hcore : (coreView E b).hasOwnship = true := hown
  constructor
  · intro hmin hmax
    exact KinematicRealBands.almostNear_iff (coreView E b) (gs_recomp E b)
      b.gs_band.toKinematicRealBands val thr hcore hmin hmax
  · intro hmin hmax
    exact KinematicRealBands.almostNear_iff (coreView E b) (vs_recomp E b)
      b.vs_band.toKinematicRealBands val thr hcore hmin hmax

/-- C28 (as amended). On a `KinematicBands` object with no ownship set, each length query
returns -1, each interval query returns the empty interval and each region query returns
UNKNOWN, for every index, value and unit; the object is returned as it was, so that nothing is
recorded in its error log. -/
theorem C28_no_ownship_sentinels (E : BandsEnv) (U : Units) (b : KinematicBands)
    (h : b.hasOwnship = false) (i : Int) (val : ℚ) (u : String) :
    trackLength E b = (-1, b) ∧ groundSpeedLength E b = (-1, b) ∧
    verticalSpeedLength E b = (-1, b) ∧ altitudeLength E b = (-1, b) ∧
    track E U b i u = (Interval.EMPTY, b) ∧ groundSpeed E U b i u = (Interval.EMPTY, b) ∧
    verticalSpeed E U b i u = (Interval.EMPTY, b) ∧ altitude E U b i u = (Interval.EMPTY, b) ∧
    trackRegion E b i = (Region.UNKNOWN, b) ∧ groundSpeedRegion E b i = (Region.UNKNOWN, b) ∧
    verticalSpeedRegion E b i = (Region.UNKNOWN, b) ∧
    altitudeRegion E b i = (Region.UNKNOWN, b) ∧
    trackRegionOf E U b val u = (Region.UNKNOWN, b) ∧
    groundSpeedRegionOf E U b val u = (Region.UNKNOWN, b) ∧
    verticalSpeedRegionOf E U b val u = (Region.UNKNOWN, b) ∧
    altitudeRegionOf E U b val u = (Region.UNKNOWN, b) := by
  have hcore : (coreView E b).hasOwnship = false := h
  have qt := KinematicRealBands.queries_without_ownship (coreView E b) (trk_recomp E b)
    b.trk_band.toKinematicRealBands hcore
  have qg := KinematicRealBands.queries_without_ownship (coreView E b) (gs_recomp E b)
    b.gs_band.toKinematicRealBands hcore
  have qv := KinematicRealBands.queries_without_ownship (coreView E b) (vs_recomp E b)
    b.vs_band.toKinematicRealBands hcore
  have qa := KinematicRealBands.queries_without_ownship (coreView E b) (alt_recomp E b)
    b.alt_band.toKinematicRealBands hcore
  have he : to_units U u Interval.EMPTY = Interval.EMPTY := by
    unfold to_units
    rw [if_pos (by decide!)]
  refine ⟨?_, ?_, ?_, ?_, ?_, ?_, ?_, ?_, ?_, ?_, ?_, ?_, ?_, ?_, ?_, ?_⟩
  · unfold trackLength; rw [qt.1]
  · unfold groundSpeedLength; rw [qg.1]
  · unfold verticalSpeedLength; rw [qv.1]
  · unfold altitudeLength; rw [qa.1]
  · unfold track; rw [qt.2.1, he]
  · unfold groundSpeed; rw [qg.2.1, he]
  · unfold verticalSpeed; rw [qv.2.1, he]
  · unfold altitude; rw [qa.2.1, he]
  · unfold trackRegion; rw [qt.2.2.1]
  · unfold groundSpeedRegion; rw [qg.2.2.1]
  · unfold verticalSpeedRegion; rw [qv.2.2.1]
  · unfold altitudeRegion; rw [qa.2.2.1]
  · unfold trackRegionOf; rw [qt.2.2.2.1]
  · unfold groundSpeedRegionOf; rw [qg.2.2.2.1]
  · unfold verticalSpeedRegionOf; rw [qv.2.2.2.1]
  · unfold altitudeRegionOf; rw [qa.2.2.2.1]

end KinematicBands

namespace TrafficState

/-- The first element of a list that satisfies a test, described by its position. -/
theorem find?_eq_some_first {α : Type} (p : α → Bool) :
    ∀ (l : List α) (a : α), l.find? p = some a ↔
      ∃ l1 l2, l = l1 ++ a :: l2 ∧ p a = true ∧ ∀ x ∈ l1, p x = false := by
  intro l
  induction l with
  | nil =>
    intro a
    simp
  | cons x rest ih =>
    intro a
    by_cases hx : p x = true
    · rw [List.find?_cons_of_pos _ hx]
      constructor
      · intro h
        simp only [Option.some.injEq] at h
        subst h
        exact ⟨[], rest, rfl, hx, by simp⟩
      · rintro ⟨l1, l2, hl, ha, hl1⟩
        cases l1 with
        | nil =>
          simp only [List.nil_append, List.cons.injEq] at hl
          rw [hl.1]
        | cons y l1 =>
          simp only [List.cons_append, List.cons.injEq] at hl
          have := hl1 y (List.mem_cons_self _ _)
          rw [← hl.1, hx] at this
          exact Bool.noConfusion this
    · rw [List.find?_cons_of_neg _ hx, ih a]
      constructor
      · rintro ⟨l1, l2, hl, ha, hl1⟩
        refine ⟨x :: l1, l2, by rw [hl]; rfl, ha, ?_⟩
        intro y hy
        rcases List.mem_cons.mp hy with h | h
        · rw [h]; simpa using hx
        · exact hl1 y h
      · rintro ⟨l1, l2, hl, ha, hl1⟩
        cases l1 with
        | nil =>
          simp only [List.nil_append, List.cons.injEq] at hl
          rw [hl.1] at hx
          exact absurd ha hx
        | cons y l1 =>
          simp only [List.cons_append, List.cons.injEq] at hl
          exact ⟨l1, l2, hl.2, ha, fun z hz => hl1 z (List.mem_cons_of_mem _ hz)⟩

/-- C29. `TrafficState::getTraffic(traffic, id)`, and with it
`FixedAircraftUrgencyStrategy(id).mostUrgentAircraft` and `KinematicBandsCore::getTraffic(id)`,
returns the first element of the traffic list whose identifier is `id`, and the INVALID
aircraft when no element has that identifier or when `id` is the reserved identifier `_NoAc_`;
so the answer is never an aircraft with another identifier, and a criterion aircraft that is
not in the list gives the invalid aircraft and the coordination sign 0. -/
theorem C29_getTraffic_first_match (traffic : List TrafficState) (id : String)
    (det : StateDetector) (own : OwnshipState) (T : ℚ)
    (epsilon : OwnshipState → TrafficState → Int) (c : CoreState) :
    (id ≠ "_NoAc_" → ∀ ac, getTraffic traffic id = some ac ↔
      ∃ l1 l2, traffic = l1 ++ ac :: l2 ∧ ac.id = id ∧ ∀ x ∈ l1, x.id ≠ id) ∧
    ((id = "_NoAc_" ∨ ∀ x ∈ traffic, x.id ≠ id) → getTraffic traffic id = none) ∧
    (∀ ac, getTraffic traffic id = some ac → ac ∈ traffic ∧ ac.id = id) ∧
    FixedAircraftUrgencyStrategy.mostUrgentAircraft id det own traffic T =
      getTraffic traffic id ∧
    c.getTraffic id = getTraffic c.traffic id ∧
    ((∀ x ∈ traffic, x.id ≠ id) →
      KinematicBandsCore.coordination epsilon own (getTraffic traffic id) = 0) := by
  have hfirst : id ≠ "_NoAc_" → ∀ ac, getTraffic traffic id = some ac ↔
      ∃ l1 l2, traffic = l1 ++ ac :: l2 ∧ ac.id = id ∧ ∀ x ∈ l1, x.id ≠ id := by
    intro hid ac
    unfold getTraffic
    rw [if_pos hid, find?_eq_some_first]
    constructor
    · rintro ⟨l1, l2, hl, ha, hl1⟩
      refine ⟨l1, l2, hl, (of_decide_eq_true ha).symm, fun x hx hxid => ?_⟩
      have := hl1 x hx
      simp only [decide_eq_false_iff_not] at this
      exact this hxid.symm
    · rintro ⟨l1, l2, hl, ha, hl1⟩
      refine ⟨l1, l2, hl, decide_eq_true ha.symm, fun x hx => ?_⟩
      simp only [decide_eq_false_iff_not]
      exact fun h => hl1 x hx h.symm
  have hnone : (id = "_NoAc_" ∨ ∀ x ∈ traffic, x.id ≠ id) → getTraffic traffic id = none := by
    intro h
    unfold getTraffic
    by_cases hid : id ≠ "_NoAc_"
    · rw [if_pos hid]
      rcases h with h | h
      · exact absurd h hid
      · rw [List.find?_eq_none]
        intro x hx
        simp only [decide_eq_true_eq]
        exact fun hxid => h x hx hxid.symm
    · rw [if_neg hid]
  have hmem : ∀ ac, getTraffic traffic id = some ac → ac ∈ traffic ∧ ac.id = id := by
    intro ac h
    by_cases hid : id ≠ "_NoAc_"
    · obtain ⟨l1, l2, hl, ha, _⟩ := (hfirst hid ac).1 h
      exact ⟨by rw [hl]; simp, ha⟩
    · unfold getTraffic at h
      rw [if_neg hid] at h
      exact Option.noConfusion h
  refine ⟨hfirst, hnone, hmem, rfl, rfl, fun h => ?_⟩
  rw [hnone (Or.inr h)]
  rfl

end TrafficState

/-! ### Loss intervals -/

namespace ExtLossData

/-- A time is never before itself. -/
theorem Time_lt_irrefl (t : Time) : Time.lt t t = false := by
  cases t <;> simp [Time.lt]

/-- A time is at most itself. -/
theorem Time_le_refl (t : Time) : Time.le t t = true := by
  cases t <;> simp [Time.le]

/-- The strict comparison of times is the comparison `<=` without equality. -/
theorem Time_lt_iff (a b : Time) : Time.lt a b = true ↔ Time.le a b = true ∧ a ≠ b := by
  cases a <;> cases b <;> simp [Time.lt, Time.le, lt_iff_le_and_ne]

/-- C32. For every `LossData` value, with finite or infinite times, `conflict()` returns true
if and only if `time_in < time_out`, that is `time_in <= time_out` and `time_in ≠ time_out`;
so a conflict implies `time_in <= time_out`, an interval with equal times has
`time_in <= time_out` without conflict, the value built by the default constructor has neither,
the value built by `LossData(tin, tout)` is in conflict exactly when `tin < tout` and the two
times are not almost equal, and on finite times `conflict()` is the test `time_in < time_out`
of the rational model. -/
theorem C32_conflict_iff_strict (d : ExtLossData) :
    (d.conflict = true ↔ Time.le d.time_in d.time_out = true ∧ d.time_in ≠ d.time_out) ∧
    (d.time_in = d.time_out →
      Time.le d.time_in d.time_out = true ∧ d.conflict = false) ∧
    (EMPTY.conflict = false ∧ Time.le EMPTY.time_in EMPTY.time_out = false) ∧
    (∀ (almost_equals : Time → Time → Bool) (tin tout : Time),
      (make almost_equals tin tout).conflict = true ↔
        Time.lt tin tout = true ∧ almost_equals tin tout = false) ∧
    (∀ l : LossData, (ofLossData l).conflict = l.conflict ∧
      ((ofLossData l).conflict = true ↔ l.time_in < l.time_out)) := by
  refine ⟨?_, ?_, ?_, ?_, ?_⟩
  · unfold conflict
    exact Time_lt_iff _ _
  · intro h
    unfold conflict
    rw [h]
    exact ⟨Time_le_refl _, Time_lt_irrefl _⟩
  · exact ⟨rfl, rfl⟩
  · intro ae tin tout
    unfold make conflict
    by_cases h : ae tin tout = true
    · rw [if_pos h]
      simp [Time_lt_irrefl, h]
    · rw [if_neg h]
      simp at h
      simp [h]
  · intro l
    constructor
    · simp [ofLossData, conflict, Time.lt, LossData.conflict]
    · simp [ofLossData, conflict, Time.lt]

end ExtLossData

/-! ### The file walker -/

namespace DaidalusFileWalker

/-- A call of `goToTimeStep` with the number of time steps is rejected. -/
theorem goToTimeStep_length (w : DaidalusFileWalker) :
    goToTimeStep w (w.times.length : Int) = (false, w) := by
  unfold goToTimeStep
  rw [if_neg]
  intro h
  exact lt_irrefl _ h.2

/-- The index after `goNext` from an index in `[0, n]`: one more, capped at `n`. -/
theorem goNext_index (w : DaidalusFileWalker) (h0 : 0 ≤ w.index) :
    (goNext w).index = Min.min (w.index + 1) (w.times.length : Int) ∧
    (goNext w).times = w.times := by
  unfold goNext goToTimeStep
  by_cases h : 0 ≤ w.index + 1 ∧ w.index + 1 < (w.times.length : Int)
  · rw [if_pos h]
    simp only [if_true]
    exact ⟨(min_eq_left (le_of_lt h.2)).symm, trivial⟩
  · rw [if_neg h]
    simp only [Bool.false_eq_true, if_false]
    refine ⟨?_, trivial⟩
    have : (w.times.length : Int) ≤ w.index + 1 := by
      by_contra hc
      exact h ⟨by omega, by omega⟩
    exact (min_eq_right this).symm

/-- The index after `k` calls of `goNext` from an index in `[0, n]`. -/
theorem goNextTimes_index (k : Nat) : ∀ (w : DaidalusFileWalker), 0 ≤ w.index →
    w.index ≤ (w.times.length : Int) →
    (goNextTimes k w).index = Min.min (w.index + k) (w.times.length : Int) ∧
    (goNextTimes k w).times = w.times := by
  induction k with
  | zero =>
    intro w _ hn
    simp [goNextTimes, hn]
  | succ k ih =>
    intro w h0 hn
    obtain ⟨hi, ht⟩ := goNext_index w h0
    have h0' : 0 ≤ (goNext w).index := by rw [hi]; exact le_min (by omega) (by omega)
    have hn' : (goNext w).index ≤ ((goNext w).times.length : Int) := by
      rw [hi, ht]; exact min_le_right _ _
    obtain ⟨hi2, ht2⟩ := ih (goNext w) h0' hn'
    unfold goNextTimes
    rw [hi2, ht2, hi, ht]
    refine ⟨?_, rfl⟩
    push_cast
    rcases le_total (w.index + 1) (w.times.length : Int) with h | h
    · rw [min_eq_left h]
      congr 1
      ring
    · rw [min_eq_right h, min_eq_right (by omega), min_eq_right (by omega)]

/-- C38. The function `goToEnd` leaves every walker as it is, because `goToTimeStep` rejects
the index `times.size()`: after `goToEnd()` the walker is at the end only if it was there
before. From every index in `[0, n]`, `n` calls of `goNext` do reach the end. -/
theorem C38_goToEnd_does_nothing (w : DaidalusFileWalker) :
    goToEnd w = w ∧ atEnd (goToEnd w) = atEnd w ∧
    (atEnd (goToEnd w) = true ↔ w.index = (w.times.length : Int)) ∧
    (0 ≤ w.index ∧ w.index ≤ (w.times.length : Int) →
      atEnd (goNextTimes w.times.length w) = true) := by
  have h : goToEnd w = w := by
    unfold goToEnd
    rw [goToTimeStep_length]
  refine ⟨h, by rw [h], ?_, ?_⟩
  · rw [h]
    simp [atEnd]
  · intro hw
    obtain ⟨hi, ht⟩ := goNextTimes_index w.times.length w hw.1 hw.2
    unfold atEnd
    rw [hi, ht]
    simp only [decide_eq_true_eq]
    exact min_eq_right (by omega)

end DaidalusFileWalker

/-! ### Copies of the core -/

namespace CoreState

/-- C39. After the assignment `a = b` of `KinematicBandsCore::operator=`, the traffic list of
`a` is its former traffic followed by the traffic of `b`: it equals the traffic of `b` exactly
when `a` held no traffic before. Every other member of `a` is the member of `b`, and the copy
constructor yields the traffic of `b`. -/
theorem C39_assignment_appends_traffic (a b : CoreState) :
    (assign a b).traffic = a.traffic ++ b.traffic ∧
    (assign a b).traffic.length = a.traffic.length + b.traffic.length ∧
    ((assign a b).traffic = b.traffic ↔ a.traffic = []) ∧
    (copy b).traffic = b.traffic ∧
    (assign a b).ownship = b.ownship ∧ (assign a b).criteria_ac = b.criteria_ac ∧
    (assign a b).lookahead = b.lookahead := by
  refine ⟨rfl, by simp [assign], ?_, by simp [copy], rfl, rfl, rfl⟩
  show a.traffic ++ b.traffic = b.traffic ↔ a.traffic = []
  constructor
  · intro h
    have hl := congrArg List.length h
    simp only [List.length_append] at hl
    exact List.eq_nil_of_length_eq_zero (by omega)
  · intro h
    rw [h]
    rfl

end CoreState

/-! ### Discretisation of the axes -/

/-- An integral number in the range of `int` is its own conversion. -/
theorem to_int_of_range (n : Int) (h0 : INT_MIN ≤ n) (h1 : n ≤ INT_MAX) : to_int n = some n := by
  unfold to_int
  rw [if_pos ⟨h0, h1⟩]

/-- A quotient by a number other than zero is a number. -/
theorem fdiv_of_ne (a b : ℚ) (h : b ≠ 0) : fdiv a b = some (a / b) := by
  unfold fdiv
  rw [if_neg h]

/-- A quotient by zero is not a number. -/
theorem fdiv_zero (a : ℚ) : fdiv a 0 = none := by
  unfold fdiv
  rw [if_pos rfl]

/-- The cell extent of a quotient whose ceiling is below `INT_MAX`. -/
theorem cell_extent_of_lt (x : ℚ) (h : ⌈x⌉ < INT_MAX) :
    cell_extent x = some (Max.max ⌈x⌉ 0 + 1) := by
  unfold cell_extent
  have hm : Max.max ⌈x⌉ 0 < INT_MAX := max_lt h (by decide)
  have h0 : (0 : Int) ≤ Max.max ⌈x⌉ 0 := le_max_right _ _
  have hmin : INT_MIN ≤ 0 := by decide
  rw [to_int_of_range _ (le_trans hmin h0) (le_of_lt hm)]
  simp only [Option.some_bind]
  exact to_int_of_range _ (by omega) (by omega)

/-- A cell extent is defined only for a ceiling below `INT_MAX`. -/
theorem cell_extent_none (x : ℚ) (h : INT_MAX ≤ ⌈x⌉) : cell_extent x = none := by
  unfold cell_extent
  by_cases hx : ⌈x⌉ ≤ INT_MAX
  · have he : ⌈x⌉ = INT_MAX := le_antisymm hx h
    have hm : Max.max ⌈x⌉ 0 = INT_MAX := by rw [he]; decide
    rw [hm]
    decide
  · have hm : ¬ (INT_MIN ≤ Max.max ⌈x⌉ 0 ∧ Max.max ⌈x⌉ 0 ≤ INT_MAX) := by
      intro hc
      exact hx (le_trans (le_max_left _ _) hc.2)
    unfold to_int
    rw [if_neg hm]
    rfl

/-- The grid of `n = max(ceil(d/step), 0) + 1` cells of width `step > 0` reaches strictly past
the distance `d`. -/
theorem cells_reach_past (d step : ℚ) (hstep : 0 < step) :
    1 ≤ Max.max ⌈d / step⌉ 0 + 1 ∧ d < ((Max.max ⌈d / step⌉ 0 + 1 : Int) : ℚ) * step := by
  constructor
  · have : (0 : Int) ≤ Max.max ⌈d / step⌉ 0 := le_max_right _ _
    omega
  · have h1 : d / step ≤ ((⌈d / step⌉ : Int) : ℚ) := Int.le_ceil _
    have h2 : ((⌈d / step⌉ : Int) : ℚ) ≤ ((Max.max ⌈d / step⌉ 0 : Int) : ℚ) := by
      exact_mod_cast le_max_left _ _
    have h3 : d / step < ((Max.max ⌈d / step⌉ 0 + 1 : Int) : ℚ) := by
      rw [Int.cast_add, Int.cast_one]
      linarith
    exact (div_lt_iff₀ hstep).mp h3

namespace KinematicRealBands

/-- The function `setStep` stores a positive step. -/
theorem setStep_step (b : KinematicRealBands) (val : ℚ) (h : 0 < val) :
    (setStep b val).step = val := by
  unfold setStep
  by_cases hc : val > 0 ∧ val ≠ b.step
  · rw [if_pos hc]
    rfl
  · rw [if_neg hc]
    by_contra hne
    exact hc ⟨h, fun e => hne e.symm⟩

/-- The function `setRecovery` keeps the step. -/
theorem setRecovery_step (b : KinematicRealBands) (flag : Bool) :
    (setRecovery b flag).step = b.step := by
  unfold setRecovery
  split_ifs <;> rfl

end KinematicRealBands

namespace KinematicGsBands

/-- The function `setHorizontalAcceleration` stores a non-negative acceleration and keeps the
step. -/
theorem setHorizontalAcceleration_fields (b : KinematicGsBands) (val : ℚ) (h : 0 ≤ val) :
    (setHorizontalAcceleration b val).horizontal_accel = val ∧
    (setHorizontalAcceleration b val).step = b.step := by
  unfold setHorizontalAcceleration
  by_cases hc : val ≥ 0 ∧ val ≠ b.horizontal_accel
  · rw [if_pos hc]
    exact ⟨rfl, rfl⟩
  · rw [if_neg hc]
    refine ⟨?_, rfl⟩
    by_contra hne
    exact hc ⟨h, fun e => hne e.symm⟩

end KinematicGsBands

namespace KinematicVsBands

/-- The function `setVerticalAcceleration` stores a non-negative acceleration and keeps the
step. -/
theorem setVerticalAcceleration_fields (b : KinematicVsBands) (val : ℚ) (h : 0 ≤ val) :
    (setVerticalAcceleration b val).vertical_accel = val ∧
    (setVerticalAcceleration b val).step = b.step := by
  unfold setVerticalAcceleration
  by_cases hc : val ≥ 0 ∧ val ≠ b.vertical_accel
  · rw [if_pos hc]
    exact ⟨rfl, rfl⟩
  · rw [if_neg hc]
    refine ⟨?_, rfl⟩
    by_contra hne
    exact hc ⟨h, fun e => hne e.symm⟩

end KinematicVsBands

namespace KinematicTrkBands

/-- The functions `setTurnRate` and `setBankAngle` keep the step. -/
theorem setTurnRate_setBankAngle_step (b : KinematicTrkBands) (r a : ℚ) :
    (setTurnRate b r).step = b.step ∧ (setBankAngle b a).step = b.step := by
  unfold setTurnRate setBankAngle
  constructor <;> split_ifs <;> rfl

end KinematicTrkBands

namespace KinematicBands

/-- The bands of `setParameters` hold the accelerations and steps of a parameter block with
non-negative accelerations and positive steps. -/
theorem setParameters_discretisation (g : ErrorLogStatics) (b : KinematicBands)
    (p : ParameterBlock) (hh : 0 ≤ p.horizontal_accel) (hv : 0 ≤ p.vertical_accel)
    (hg : 0 < p.gs_step) (hs : 0 < p.vs_step) (ht : 0 < p.trk_step) :
    (setParameters g b p).gs_band.horizontal_accel = p.horizontal_accel ∧
    (setParameters g b p).gs_band.step = p.gs_step ∧
    (setParameters g b p).vs_band.vertical_accel = p.vertical_accel ∧
    (setParameters g b p).vs_band.step = p.vs_step ∧
    (setParameters g b p).trk_band.step = p.trk_step := by
  have hacc : (ErrorLog.isNonNegative g (setParameters_head b p).error "setVerticalAcceleration"
      p.vertical_accel).1 = true := by
    unfold ErrorLog.isNonNegative
    rw [if_pos hv]
  have e1 : (setParameters g b p).gs_band.horizontal_accel =
      ((((b.gs_band.setMin p.min_gs).setMax p.max_gs).setStep
        p.gs_step).setHorizontalAcceleration p.horizontal_accel).horizontal_accel := by
    unfold setParameters setParameters_tail setVerticalAcceleration
    rw [if_pos hacc]
    rfl
  have e2 : (setParameters g b p).gs_band.step =
      (KinematicRealBands.setRecovery ((((b.gs_band.setMin p.min_gs).setMax p.max_gs).setStep
        p.gs_step).setHorizontalAcceleration p.horizontal_accel).toKinematicRealBands.reset
          p.recovery_gs).step := by
    unfold setParameters setParameters_tail setVerticalAcceleration
    rw [if_pos hacc]
    rfl
  have e3 : (setParameters g b p).vs_band.vertical_accel =
      ((((b.vs_band.setMin p.min_vs).setMax p.max_vs).setStep
        p.vs_step).setVerticalAcceleration p.vertical_accel).vertical_accel := by
    unfold setParameters setParameters_tail setVerticalAcceleration
    rw [if_pos hacc]
    rfl
  have e4 : (setParameters g b p).vs_band.step =
      (KinematicRealBands.setRecovery ((((b.vs_band.setMin p.min_vs).setMax p.max_vs).setStep
        p.vs_step).setVerticalAcceleration p.vertical_accel).toKinematicRealBands.reset
          p.recovery_vs).step := by
    unfold setParameters setParameters_tail setVerticalAcceleration
    rw [if_pos hacc]
    rfl
  have e5 : (setParameters g b p).trk_band.step =
      (KinematicRealBands.setRecovery
        ((KinematicTrkBands.setBankAngle (KinematicTrkBands.setTurnRate
          { (b.trk_band.setStep p.trk_step) with
            toKinematicRealBands := (b.trk_band.setStep p.trk_step).toKinematicRealBands.reset }
          p.turn_rate) p.bank_angle).toKinematicRealBands) p.recovery_trk).step := by
    unfold setParameters setParameters_tail setVerticalAcceleration
    rw [if_pos hacc]
    rfl
  refine ⟨?_, ?_, ?_, ?_, ?_⟩
  · rw [e1]
    exact (KinematicGsBands.setHorizontalAcceleration_fields _ _ hh).1
  · rw [e2, KinematicRealBands.setRecovery_step]
    refine Eq.trans (KinematicGsBands.setHorizontalAcceleration_fields _ _ hh).2 ?_
    exact KinematicRealBands.setStep_step _ _ hg
  · rw [e3]
    exact (KinematicVsBands.setVerticalAcceleration_fields _ _ hv).1
  · rw [e4, KinematicRealBands.setRecovery_step]
    refine Eq.trans (KinematicVsBands.setVerticalAcceleration_fields _ _ hv).2 ?_
    exact KinematicRealBands.setStep_step _ _ hs
  · rw [e5, KinematicRealBands.setRecovery_step]
    refine Eq.trans (KinematicTrkBands.setTurnRate_setBankAngle_step _ 0 _).2 ?_
    refine Eq.trans (KinematicTrkBands.setTurnRate_setBankAngle_step _ _ 0).1 ?_
    exact KinematicRealBands.setStep_step _ _ ht

end KinematicBands

namespace KinematicGsBands

/-- The cell extent of a distance `d` on a grid of positive step whose cell count is in the range
of `int`: it is `max(ceil(d/step), 0) + 1`, at least 1, and reaches strictly past `d`. -/
theorem extent_spec (d step : ℚ) (hstep : 0 < step) (hr : ⌈d / step⌉ < INT_MAX) :
    ∃ n : Int, (fdiv d step).bind cell_extent = some n ∧ n = Max.max ⌈d / step⌉ 0 + 1 ∧
      1 ≤ n ∧ d < (n : ℚ) * step := by
  refine ⟨Max.max ⌈d / step⌉ 0 + 1, ?_, rfl, (cells_reach_past d step hstep).1,
    (cells_reach_past d step hstep).2⟩
  rw [fdiv_of_ne _ _ (ne_of_gt hstep)]
  exact cell_extent_of_lt _ hr

/-- C35. On the ground speed and the vertical speed axes, for every step > 0, every min and
max and every current value c for which the cell counts `ceil((c - min)/step)` and
`ceil((max - c)/step)` are below `INT_MAX`, the extents `maxdown` and `maxup` are defined, equal
`max(ceil((c - min)/step), 0) + 1` and `max(ceil((max - c)/step), 0) + 1`, are both at least 1,
and the grid reaches strictly past both bounds: `c - maxdown*step < min` and
`c + maxup*step > max`. -/
theorem C35_cell_extents (g : KinematicGsBands) (v : KinematicVsBands) (gso vso : ℚ)
    (hg : 0 < g.step) (hv : 0 < v.step)
    (hgd : ⌈(gso - g.min) / g.step⌉ < INT_MAX) (hgu : ⌈(g.max - gso) / g.step⌉ < INT_MAX)
    (hvd : ⌈(vso - v.min) / v.step⌉ < INT_MAX) (hvu : ⌈(v.max - vso) / v.step⌉ < INT_MAX) :
    (∃ d u : Int, g.maxdown gso = some d ∧ g.maxup gso = some u ∧
      d = Max.max ⌈(gso - g.min) / g.step⌉ 0 + 1 ∧ u = Max.max ⌈(g.max - gso) / g.step⌉ 0 + 1 ∧
      1 ≤ d ∧ 1 ≤ u ∧ -d < 0 ∧ 0 < u ∧
      gso - (d : ℚ) * g.step < g.min ∧ gso + (u : ℚ) * g.step > g.max) ∧
    (∃ d u : Int, v.maxdown vso = some d ∧ v.maxup vso = some u ∧
      d = Max.max ⌈(vso - v.min) / v.step⌉ 0 + 1 ∧ u = Max.max ⌈(v.max - vso) / v.step⌉ 0 + 1 ∧
      1 ≤ d ∧ 1 ≤ u ∧ -d < 0 ∧ 0 < u ∧
      vso - (d : ℚ) * v.step < v.min ∧ vso + (u : ℚ) * v.step > v.max) := by
  obtain ⟨d, hd, hd', hd1, hdr⟩ := extent_spec (gso - g.min) g.step hg hgd
  obtain ⟨u, hu, hu', hu1, hur⟩ := extent_spec (g.max - gso) g.step hg hgu
  obtain ⟨d2, hd2, hd2', hd21, hd2r⟩ := extent_spec (vso - v.min) v.step hv hvd
  obtain ⟨u2, hu2, hu2', hu21, hu2r⟩ := extent_spec (v.max - vso) v.step hv hvu
  refine ⟨⟨d, u, hd, hu, hd', hu', hd1, hu1, by omega, by omega, by linarith, by linarith⟩,
    ⟨d2, u2, hd2, hu2, hd2', hu2', hd21, hu21, by omega, by omega, by linarith, by linarith⟩⟩

/-- A cell count of at least `INT_MAX` leaves the extent undefined. -/
theorem extent_none (d step : ℚ) (hstep : 0 < step) (hr : INT_MAX ≤ ⌈d / step⌉) :
    (fdiv d step).bind cell_extent = none := by
  rw [fdiv_of_ne _ _ (ne_of_gt hstep)]
  exact cell_extent_none _ hr

end KinematicGsBands

namespace ParameterBlock

/-- C36. The validating setters accept the accelerations 0 and every track step above `2*Pi`,
and for the bands object that `setParameters` builds from such a block the discretisation is
not defined: with horizontal acceleration 0 the ground speed time step `step/horizontal_accel`
is a division by zero, with vertical acceleration 0 so is the vertical speed time step
`step/vertical_accel`, and with a track step above `2*Pi` the track cell count
`maxn = round(Pi/trk_step)` is 0, so that the cell width `Pi/maxn` is a division by zero. -/
theorem C36_accepted_parameters_divide_by_zero (g : ErrorLogStatics) (E : AxisEnv)
    (b : KinematicBands) (p : ParameterBlock) (step : ℚ)
    (hh : 0 ≤ p.horizontal_accel) (hv : 0 ≤ p.vertical_accel)
    (hg : 0 < p.gs_step) (hs : 0 < p.vs_step) (ht : 0 < p.trk_step)
    (hPi : 0 < E.Pi) (hstep : 2 * E.Pi < step) :
    ((setHorizontalAcceleration g p 0).error = p.error ∧
      (setHorizontalAcceleration g p 0).horizontal_accel = 0 ∧
      (KinematicBands.setParameters g b (setHorizontalAcceleration g p 0)).gs_band.tstep
        = none) ∧
    ((setVerticalAcceleration g p 0).error = p.error ∧
      (setVerticalAcceleration g p 0).vertical_accel = 0 ∧
      (KinematicBands.setParameters g b (setVerticalAcceleration g p 0)).vs_band.tstep
        = none) ∧
    ((setTrackStep g p step).error = p.error ∧
      (setTrackStep g p step).trk_step = step ∧
      KinematicTrkBands.maxn E (KinematicBands.setParameters g b (setTrackStep g p step)).trk_band
        = some 0 ∧
      KinematicTrkBands.cell_width E
        (KinematicBands.setParameters g b (setTrackStep g p step)).trk_band = none) := by
  have hstep0 : 0 < step := by linarith
  have eh : setHorizontalAcceleration g p 0 = { p with horizontal_accel := 0 } := by
    unfold setHorizontalAcceleration ErrorLog.isNonNegative
    simp
  have ev : setVerticalAcceleration g p 0 = { p with vertical_accel := 0 } := by
    unfold setVerticalAcceleration ErrorLog.isNonNegative
    simp
  have et : setTrackStep g p step = { p with trk_step := step } := by
    unfold setTrackStep ErrorLog.isPositive
    simp [hstep0]
  refine ⟨⟨?_, ?_, ?_⟩, ⟨?_, ?_, ?_⟩, ⟨?_, ?_, ?_, ?_⟩⟩
  · rw [eh]
  · rw [eh]
  · rw [eh]
    unfold KinematicGsBands.tstep
    rw [(KinematicBands.setParameters_discretisation g b { p with horizontal_accel := 0 }
      (le_refl _) hv hg hs ht).1]
    exact fdiv_zero _
  · rw [ev]
  · rw [ev]
  · rw [ev]
    unfold KinematicVsBands.tstep
    rw [(KinematicBands.setParameters_discretisation g b { p with vertical_accel := 0 }
      hh (le_refl _) hg hs ht).2.2.1]
    exact fdiv_zero _
  · rw [et]
  · rw [et]
  · rw [et]
    unfold KinematicTrkBands.maxn
    rw [(KinematicBands.setParameters_discretisation g b { p with trk_step := step }
      hh hv hg hs hstep0).2.2.2.2]
    rw [fdiv_of_ne _ _ (ne_of_gt hstep0)]
    have hq0 : 0 < E.Pi / step := div_pos hPi hstep0
    have hq1 : E.Pi / step < 1 / 2 := by
      rw [div_lt_iff₀ hstep0]
      linarith
    have hr : c_round (E.Pi / step) = 0 := by
      unfold c_round
      rw [if_neg (not_lt.mpr (le_of_lt hq0))]
      rw [Int.floor_eq_iff]
      constructor
      · push_cast
        linarith
      · push_cast
        linarith
    simp only [Option.some_bind, hr]
    rfl
  · rw [et]
    unfold KinematicTrkBands.cell_width KinematicTrkBands.maxn
    rw [(KinematicBands.setParameters_discretisation g b { p with trk_step := step }
      hh hv hg hs hstep0).2.2.2.2]
    rw [fdiv_of_ne _ _ (ne_of_gt hstep0)]
    have hq0 : 0 < E.Pi / step := div_pos hPi hstep0
    have hq1 : E.Pi / step < 1 / 2 := by
      rw [div_lt_iff₀ hstep0]
      linarith
    have hr : c_round (E.Pi / step) = 0 := by
      unfold c_round
      rw [if_neg (not_lt.mpr (le_of_lt hq0))]
      rw [Int.floor_eq_iff]
      constructor
      · push_cast
        linarith
      · push_cast
        linarith
    simp only [Option.some_bind, hr]
    have h0 : to_int 0 = some 0 := rfl
    rw [h0]
    simp only [Option.some_bind, Int.cast_zero]
    exact fdiv_zero _

end ParameterBlock

namespace KinematicTrkBands

/-- C37. The three track-band queries do not hand the same coordination signs to the integer
band engine: `all_red` and `none_bands` pass the horizontal sign `epsilonH(ownship, repac)` (0
without a valid criterion aircraft) and the vertical sign 0, while `any_red` passes the
horizontal sign 0 and `epsilonH(ownship, repac)` as the vertical sign. The calls of `any_red`
and `all_red` agree in every other argument, so they are equal exactly when the sign is 0. The
ground speed and vertical speed bands pass the same signs in their three queries. -/
theorem C37_any_red_swaps_signs (E : AxisEnv) (b : KinematicTrkBands)
    (g : KinematicGsBands) (v : KinematicVsBands)
    (repac : Option TrafficState) (B T : ℚ) (ownship : OwnshipState) :
    (all_red_call E b repac B T ownship).epsh =
        KinematicBandsCore.coordination E.epsilonH ownship repac ∧
    (all_red_call E b repac B T ownship).epsv = 0 ∧
    (none_bands_call E b repac B T ownship).epsh =
        KinematicBandsCore.coordination E.epsilonH ownship repac ∧
    (none_bands_call E b repac B T ownship).epsv = 0 ∧
    (any_red_call E b repac B T ownship).epsh = 0 ∧
    (any_red_call E b repac B T ownship).epsv =
        KinematicBandsCore.coordination E.epsilonH ownship repac ∧
    (any_red_call E b repac B T ownship).dir = some 0 ∧
    (all_red_call E b repac B T ownship).dir = some 0 ∧
    (any_red_call E b repac B T ownship =
        { all_red_call E b repac B T ownship with
          epsh := 0, epsv := KinematicBandsCore.coordination E.epsilonH ownship repac }) ∧
    (any_red_call E b repac B T ownship = all_red_call E b repac B T ownship ↔
        KinematicBandsCore.coordination E.epsilonH ownship repac = 0) ∧
    g.any_red_call E repac B T ownship = g.all_red_call E repac B T ownship ∧
    v.any_red_call E repac B T ownship = v.all_red_call E repac B T ownship := by
  refine ⟨rfl, rfl, rfl, rfl, rfl, rfl, rfl, rfl, rfl, ?_, rfl, rfl⟩
  unfold any_red_call all_red_call
  constructor
  · intro h
    have := congrArg EngineCall.epsh h
    exact this.symm
  · intro h
    rw [h]

end KinematicTrkBands

/-! ### Growth of the error log -/

namespace ErrorLog

/-- Line feeds of a concatenation. -/
theorem feeds_append (a b : String) : feeds (a ++ b) = feeds a + feeds b := by
  unfold feeds
  rw [String.data_append, List.count_append]

/-- A text without line feed consists of other characters. -/
theorem feeds_zero_iff (s : String) : feeds s = 0 ↔ ∀ c ∈ s.data, (c != Char.ofNat 10) = true := by
  unfold feeds
  rw [List.count_eq_zero]
  constructor
  · intro h c hc
    simp only [bne_iff_ne, ne_eq]
    intro e
    exact h (e ▸ hc)
  · intro h hc
    have := h _ hc
    simp at this

/-- Dropping the characters before the first line feed. -/
theorem dropWhile_before_feed (a r : List Char) (h : ∀ c ∈ a, (c != Char.ofNat 10) = true) :
    (a ++ Char.ofNat 10 :: r).dropWhile (fun c => c != Char.ofNat 10) = Char.ofNat 10 :: r := by
  induction a with
  | nil => simp [List.dropWhile]
  | cons x xs ih =>
    have hx : (x != Char.ofNat 10) = true := h x (List.mem_cons_self _ _)
    simp only [List.cons_append, List.dropWhile, hx]
    exact ih (fun c hc => h c (List.mem_cons_of_mem _ hc))

/-- An entry of a single-line call in a log with a single-line name is a line: characters
other than the line feed, followed by one line feed. -/
theorem entry_line (name : String) (c : Call) (hn : feeds name = 0) (hc : feeds c.msg = 0) :
    ∃ a : List Char, (∀ x ∈ a, (x != Char.ofNat 10) = true) ∧
      (entry name c).data = a ++ [Char.ofNat 10] := by
  have hn' := (feeds_zero_iff name).mp hn
  have hc' := (feeds_zero_iff c.msg).mp hc
  cases c with
  | error msg =>
    refine ⟨"ERROR in ".data ++ name.data ++ ": ".data ++ msg.data, ?_, ?_⟩
    · intro x hx
      simp only [List.mem_append] at hx
      rcases hx with ((hx | hx) | hx) | hx
      · revert x; decide
      · exact hn' x hx
      · revert x; decide
      · exact hc' x hx
    · simp [entry, newline, String.data_append]
  | warning msg =>
    refine ⟨"Warning in ".data ++ name.data ++ ": ".data ++ msg.data, ?_, ?_⟩
    · intro x hx
      simp only [List.mem_append] at hx
      rcases hx with ((hx | hx) | hx) | hx
      · revert x; decide
      · exact hn' x hx
      · revert x; decide
      · exact hc' x hx
    · simp [entry, newline, String.data_append]

/-- Trimming a message that starts with an entry replaces that entry by the marker line. -/
theorem trim_entry (name : String) (c : Call) (r : String) (hn : feeds name = 0)
    (hc : feeds c.msg = 0) : trim (entry name c ++ r) = marker ++ r := by
  obtain ⟨a, ha, hd⟩ := entry_line name c hn hc
  apply String.ext
  unfold trim marker newline
  simp only [String.data_append, hd, List.append_assoc, List.singleton_append]
  rw [dropWhile_before_feed a r.data ha]
  simp [String.singleton]

/-- Trimming a message that starts with the marker line leaves it as it is: no entry is
removed. -/
theorem trim_marker (r : String) : trim (marker ++ r) = marker ++ r := by
  apply String.ext
  unfold trim marker newline
  simp only [String.data_append]
  have h : ∀ c ∈ "[...] ".data, (c != Char.ofNat 10) = true := by decide
  have e : ("[...] ".data ++ (String.singleton (Char.ofNat 10)).data) ++ r.data =
      "[...] ".data ++ Char.ofNat 10 :: r.data := by
    simp [String.singleton]
  rw [e, dropWhile_before_feed _ _ h]

/-- The entries of a sequence of calls followed by one more call. -/
theorem entriesText_append (name : String) (cs : List Call) (c : Call) :
    entriesText name (cs ++ [c]) = entriesText name cs ++ entry name c := by
  induction cs with
  | nil => simp [entriesText]
  | cons x xs ih =>
    show entry name x ++ entriesText name (xs ++ [c]) =
      entry name x ++ entriesText name xs ++ entry name c
    rw [ih, String.append_assoc]

/-- The message that a call builds before trimming. -/
theorem record_message (g : ErrorLogStatics) (e : ErrorLog) (c : Call)
    (hp : e.local_purge_flag = g.global_purge_flag) :
    (record g e c).message =
      if e.size + 1 > g.limit then trim (e.message ++ entry e.name c)
      else e.message ++ entry e.name c := by
  cases c with
  | error msg =>
    simp only [record, addError, entry, hp, ne_eq, not_true_eq_false, if_false,
      String.append_assoc]
  | warning msg =>
    simp only [record, addWarning, entry, hp, ne_eq, not_true_eq_false, if_false,
      String.append_assoc]

/-- The counter, the name and the purge flag after a call. -/
theorem record_fields (g : ErrorLogStatics) (e : ErrorLog) (c : Call) :
    (record g e c).size = (if e.size + 1 > g.limit then e.size + 1 - 1 else e.size + 1) ∧
    (record g e c).name = e.name ∧
    (record g e c).local_purge_flag = g.global_purge_flag := by
  cases c <;> exact ⟨rfl, rfl, rfl⟩

/-- One call on a grown log gives the log grown by that call. -/
theorem Grown_step (g : ErrorLogStatics) (name : String) (L : Nat) (hL : g.limit = (L : Int))
    (hn : feeds name = 0) (done : List Call) (hd : ∀ c ∈ done, feeds c.msg = 0) (e : ErrorLog)
    (c : Call) (hc : feeds c.msg = 0) (h : Grown g name L done e) :
    Grown g name L (done ++ [c]) (record g e c) := by
  obtain ⟨h1, h2, h3, h4, h5⟩ := h
  obtain ⟨f1, f2, f3⟩ := record_fields g e c
  have hm := record_message g e c h2
  rw [h1] at hm
  have hlen : (done ++ [c]).length = done.length + 1 := by simp
  rcases lt_trichotomy done.length L with hlt | heq | hgt
  · have hs : ¬ e.size + 1 > g.limit := by
      rw [h3, hL, min_eq_left (le_of_lt hlt)]
      omega
    refine ⟨f2.trans h1, f3, ?_, ?_, ?_⟩
    · rw [f1, if_neg hs, h3, hlen, min_eq_left (le_of_lt hlt), min_eq_left (by omega)]
      push_cast
      rfl
    · intro _
      rw [hm, if_neg hs, h4 (le_of_lt hlt), entriesText_append]
    · intro hc2
      rw [hlen] at hc2
      omega
  · have hs : e.size + 1 > g.limit := by
      rw [h3, hL, min_eq_left (le_of_eq heq)]
      omega
    refine ⟨f2.trans h1, f3, ?_, ?_, ?_⟩
    · rw [f1, if_pos hs, h3, hlen, min_eq_left (le_of_eq heq), min_eq_right (by omega)]
      omega
    · intro hc2
      rw [hlen] at hc2
      omega
    · intro _
      rw [hm, if_pos hs, h4 (le_of_eq heq), ← entriesText_append]
      cases hdc : done ++ [c] with
      | nil => simp at hdc
      | cons x xs =>
        have hx : feeds x.msg = 0 := by
          have hmem : x ∈ done ++ [c] := by rw [hdc]; exact List.mem_cons_self _ _
          rcases List.mem_append.mp hmem with hm1 | hm1
          · exact hd x hm1
          · rw [List.mem_singleton.mp hm1]
            exact hc
        simp only [entriesText, List.tail_cons]
        exact trim_entry name x _ hn hx
  · have hs : e.size + 1 > g.limit := by
      rw [h3, hL, min_eq_right (le_of_lt hgt)]
      omega
    refine ⟨f2.trans h1, f3, ?_, ?_, ?_⟩
    · rw [f1, if_pos hs, h3, hlen, min_eq_right (le_of_lt hgt), min_eq_right (by omega)]
      omega
    · intro hc2
      rw [hlen] at hc2
      omega
    · intro _
      rw [hm, if_pos hs, h5 hgt, String.append_assoc, trim_marker]
      cases done with
      | nil => simp at hgt
      | cons x xs =>
        simp only [List.cons_append, List.tail_cons]
        rw [entriesText_append]

/-- The log after a sequence of single-line calls on a grown log. -/
theorem Grown_recordAll (g : ErrorLogStatics) (name : String) (L : Nat)
    (hL : g.limit = (L : Int)) (hn : feeds name = 0) :
    ∀ (rest done : List Call) (e : ErrorLog), (∀ c ∈ done, feeds c.msg = 0) →
      (∀ c ∈ rest, feeds c.msg = 0) → Grown g name L done e →
      Grown g name L (done ++ rest) (recordAll g e rest) := by
  intro rest
  induction rest with
  | nil =>
    intro done e _ _ h
    simpa [recordAll] using h
  | cons c cs ih =>
    intro done e hd hr h
    have hc : feeds c.msg = 0 := hr c (List.mem_cons_self _ _)
    have hstep := Grown_step g name L hL hn done hd e c hc h
    have hd' : ∀ x ∈ done ++ [c], feeds x.msg = 0 := by
      intro x hx
      rcases List.mem_append.mp hx with hm1 | hm1
      · exact hd x hm1
      · rw [List.mem_singleton.mp hm1]
        exact hc
    have := ih (done ++ [c]) (record g e c) hd'
      (fun x hx => hr x (List.mem_cons_of_mem _ hx)) hstep
    simpa [recordAll, List.append_assoc] using this

/-- The text of the entries of single-line calls has one line feed for each call. -/
theorem feeds_entriesText (name : String) (hn : feeds name = 0) :
    ∀ cs : List Call, (∀ c ∈ cs, feeds c.msg = 0) → feeds (entriesText name cs) = cs.length := by
  intro cs
  induction cs with
  | nil => intro _; rfl
  | cons c cs ih =>
    intro h
    have hc : feeds c.msg = 0 := h c (List.mem_cons_self _ _)
    obtain ⟨a, ha, hd⟩ := entry_line name c hn hc
    have he : feeds (entry name c) = 1 := by
      unfold feeds
      rw [hd, List.count_append]
      have : List.count (Char.ofNat 10) a = 0 := by
        rw [List.count_eq_zero]
        intro hmem
        have := ha _ hmem
        simp at this
      rw [this]
      rfl
    simp only [entriesText, feeds_append, he, ih (fun x hx => h x (List.mem_cons_of_mem _ hx)),
      List.length_cons]
    omega

end ErrorLog

namespace ErrorLog

/-- The text of the entries of at least one call starts with the letter of `ERROR` or of
`Warning`, not with the marker line. -/
theorem entriesText_no_marker (name : String) (cs : List Call) :
    (entriesText name cs).data.take marker.data.length ≠ marker.data := by
  cases cs with
  | nil =>
    intro h
    have h2 := congrArg List.length h
    revert h2
    simp [entriesText, marker, newline, String.singleton]
  | cons c cs =>
    cases c with
    | error msg =>
      intro h
      have := congrArg List.head? h
      simp [entriesText, entry, String.data_append, marker, newline, String.singleton] at this
    | warning msg =>
      intro h
      have := congrArg List.head? h
      simp [entriesText, entry, String.data_append, marker, newline, String.singleton] at this

/-- C31. The error log is not bounded by its limit. For every sequence of `addError` and
`addWarning` calls with single-line messages on a new log with a single-line name (no purge,
limit 25): up to 25 calls the message is the text of all entries; from the 26th call on, the
message is the marker line `[...] ` followed by the entries of all calls but the first, because
the trimming removes the text before the first line feed, which is the first entry once and the
marker itself ever after. So after n > 25 calls the message holds n - 1 entries, while the
counter `size` stays at 25. -/
theorem C31_log_keeps_all_but_first (g : ErrorLogStatics) (name : String) (calls : List Call)
    (hL : g.limit = 25) (hn : feeds name = 0) (hc : ∀ c ∈ calls, feeds c.msg = 0) :
    (calls.length ≤ 25 →
      (recordAll g (init g name) calls).message = entriesText name calls ∧
      entryCount (recordAll g (init g name) calls) = calls.length) ∧
    (25 < calls.length →
      (recordAll g (init g name) calls).message = marker ++ entriesText name calls.tail ∧
      entryCount (recordAll g (init g name) calls) = calls.length - 1 ∧
      (recordAll g (init g name) calls).size = 25) := by
  have h0 : Grown g name 25 [] (init g name) := by
    refine ⟨rfl, rfl, rfl, fun _ => rfl, fun h => ?_⟩
    simp at h
  have hL' : g.limit = ((25 : Nat) : Int) := by rw [hL]; rfl
  have hG := Grown_recordAll g name 25 hL' hn calls [] (init g name) (by simp) hc h0
  simp only [List.nil_append] at hG
  obtain ⟨_, _, h3, h4, h5⟩ := hG
  constructor
  · intro hle
    have hm := h4 hle
    refine ⟨hm, ?_⟩
    unfold entryCount
    rw [hm, if_neg (entriesText_no_marker name calls)]
    exact feeds_entriesText name hn calls hc
  · intro hlt
    have hm := h5 hlt
    refine ⟨hm, ?_, ?_⟩
    · unfold entryCount
      rw [hm]
      have ht : (marker ++ entriesText name calls.tail).data.take marker.data.length =
          marker.data := by
        rw [String.data_append]
        exact List.take_left' rfl
      rw [if_pos ht, feeds_append]
      have hf : feeds marker = 1 := by decide
      rw [hf, feeds_entriesText name hn calls.tail
        (fun c hcm => hc c (List.mem_of_mem_tail hcm))]
      simp
    · rw [h3, min_eq_right (le_of_lt hlt)]
      rfl

end ErrorLog

/-! ### Wind and loading of aircraft -/

namespace Daidalus

/-- On an object that holds an ownship with the timestamp of `own`, the `addTrafficState` calls
append the traffic aircraft, each projected to the time of the ownship with its velocity
relative to the wind, and their timestamps. -/
theorem load_spec (gc : GreatCircleLinear) (own : TimedState) :
    ∀ (traffic : List TimedState) (d : Daidalus) (first : TrafficState) (rest : List TrafficState)
      (ts : List ℚ), d.acs = first :: rest → d.times = own.time :: ts →
      traffic.foldl (fun acc ac => (addTrafficState gc acc ac.id ac.pos ac.vel ac.time).2) d =
        { d with
          acs := d.acs ++ traffic.map (fun ac =>
            (⟨ac.id, Position.linear gc ac.pos (Vect3.Sub ac.vel d.wind_vector)
              (own.time - ac.time), Vect3.Sub ac.vel d.wind_vector⟩ : TrafficState))
          times := d.times ++ traffic.map (fun ac => ac.time) } := by
  intro traffic
  induction traffic with
  | nil =>
    intro d first rest ts _ _
    simp
  | cons ac acs ih =>
    intro d first rest ts ha ht
    simp only [List.foldl_cons]
    have hne : ¬ d.acs.length = 0 := by rw [ha]; simp
    have hcur : getCurrentTime d = own.time := by
      unfold getCurrentTime
      rw [ht]
    have hstep : (addTrafficState gc d ac.id ac.pos ac.vel ac.time).2 =
        { d with
          acs := d.acs ++ [⟨ac.id, Position.linear gc ac.pos (Vect3.Sub ac.vel d.wind_vector)
            (own.time - ac.time), Vect3.Sub ac.vel d.wind_vector⟩]
          times := d.times ++ [ac.time] } := by
      unfold addTrafficState
      rw [if_neg hne, hcur]
    rw [hstep]
    have key := ih
      { d with
        acs := d.acs ++ [⟨ac.id, Position.linear gc ac.pos (Vect3.Sub ac.vel d.wind_vector)
          (own.time - ac.time), Vect3.Sub ac.vel d.wind_vector⟩]
        times := d.times ++ [ac.time] }
      first
      (rest ++ [⟨ac.id, Position.linear gc ac.pos (Vect3.Sub ac.vel d.wind_vector)
          (own.time - ac.time), Vect3.Sub ac.vel d.wind_vector⟩])
      (ts ++ [ac.time]) (by simp [ha]) (by simp [ht])
    rw [key]
    simp [List.append_assoc]

/-- The loop of `setWindField` on a list of aircraft with their timestamps, one by one. -/
theorem rewind_all_map (gc : GreatCircleLinear) (ow w : Velocity) (cur : ℚ)
    (mk : Velocity → TimedState → TrafficState) :
    ∀ l : List TimedState,
      (∀ ac ∈ l, rewind gc ow w cur (mk ow ac) ac.time = mk w ac) →
      rewind_all gc ow w cur (l.map (mk ow)) (l.map (fun ac => ac.time)) = l.map (mk w) := by
  intro l
  induction l with
  | nil => intro _; rfl
  | cons a l ih =>
    intro h
    simp only [List.map_cons, rewind_all]
    rw [h a (List.mem_cons_self _ _), ih (fun ac hac => h ac (List.mem_cons_of_mem _ hac))]

/-- In Euclidean coordinates, the loop body of `setWindField` turns the aircraft stored for the
old wind into the aircraft stored for the new wind. -/
theorem rewind_euclidean (gc : GreatCircleLinear) (ow w : Velocity) (cur : ℚ) (ac : TimedState)
    (h : ac.pos.latlon = false) :
    rewind gc ow w cur
      ⟨ac.id, Position.linear gc ac.pos (Vect3.Sub ac.vel ow) (cur - ac.time),
        Vect3.Sub ac.vel ow⟩ ac.time =
      ⟨ac.id, Position.linear gc ac.pos (Vect3.Sub ac.vel w) (cur - ac.time),
        Vect3.Sub ac.vel w⟩ := by
  unfold rewind Position.linear
  simp only [h, Bool.false_eq_true, if_false]
  simp only [Vect3.linear, Vect3.Sub, Vect3.Add, TrafficState.mk.injEq, Position.mk.injEq,
    Vect3.mk.injEq, true_and]
  refine ⟨⟨?_, ?_, ?_⟩, ?_, ?_, ?_⟩ <;> ring

/-- C40. In Euclidean coordinates, setting the wind commutes with loading aircraft: for every
object (whatever its wind and aircraft), every wind `w`, ownship state and list of traffic
states with ground velocities and timestamps, `setOwnshipState` and the `addTrafficState`
calls followed by `setWindField(w)` give the same object as `setWindField(w)` followed by the
same `setOwnshipState` and `addTrafficState` calls; the stored aircraft are the ownship with
the velocity `vel - w` and each traffic aircraft with the velocity `vel - w` at the position
`pos + (t_own - t) * (vel - w)`, with the timestamps as given. -/
theorem C40_setWindField_commutes_with_load (gc : GreatCircleLinear) (d : Daidalus)
    (w : Velocity) (own : TimedState) (traffic : List TimedState)
    (hown : own.pos.latlon = false) (htraffic : ∀ ac ∈ traffic, ac.pos.latlon = false) :
    setWindField gc (load gc d own traffic) w = load gc (setWindField gc d w) own traffic ∧
    (load gc (setWindField gc d w) own traffic).acs =
      ⟨own.id, own.pos, Vect3.Sub own.vel w⟩ :: traffic.map (fun ac =>
        (⟨ac.id, ⟨false, Vect3.linear ac.pos.coords (Vect3.Sub ac.vel w) (own.time - ac.time)⟩,
          Vect3.Sub ac.vel w⟩ : TrafficState)) ∧
    (load gc (setWindField gc d w) own traffic).times =
      own.time :: traffic.map (fun ac => ac.time) ∧
    (load gc (setWindField gc d w) own traffic).wind_vector = w := by
  have hL : load gc d own traffic =
      { d with
        acs := ⟨own.id, own.pos, Vect3.Sub own.vel d.wind_vector⟩ :: traffic.map (fun ac =>
          (⟨ac.id, Position.linear gc ac.pos (Vect3.Sub ac.vel d.wind_vector)
            (own.time - ac.time), Vect3.Sub ac.vel d.wind_vector⟩ : TrafficState))
        times := own.time :: traffic.map (fun ac => ac.time) } := by
    unfold load
    rw [load_spec gc own traffic (setOwnshipState d own.id own.pos own.vel own.time)
      ⟨own.id, own.pos, Vect3.Sub own.vel d.wind_vector⟩ [] [] rfl rfl]
    rfl
  have hR : load gc (setWindField gc d w) own traffic =
      { d with
        acs := ⟨own.id, own.pos, Vect3.Sub own.vel w⟩ :: traffic.map (fun ac =>
          (⟨ac.id, Position.linear gc ac.pos (Vect3.Sub ac.vel w)
            (own.time - ac.time), Vect3.Sub ac.vel w⟩ : TrafficState))
        times := own.time :: traffic.map (fun ac => ac.time)
        wind_vector := w } := by
    unfold load
    rw [load_spec gc own traffic
      (setOwnshipState (setWindField gc d w) own.id own.pos own.vel own.time)
      ⟨own.id, own.pos, Vect3.Sub own.vel w⟩ [] [] rfl rfl]
    rfl
  have hown2 : rewind gc d.wind_vector w own.time
      ⟨own.id, own.pos, Vect3.Sub own.vel d.wind_vector⟩ own.time =
      ⟨own.id, own.pos, Vect3.Sub own.vel w⟩ := by
    have h := rewind_euclidean gc d.wind_vector w own.time own hown
    rw [sub_self, Position_linear_zero gc own.pos _ (Or.inl hown),
      Position_linear_zero gc own.pos _ (Or.inl hown)] at h
    exact h
  have htr : rewind_all gc d.wind_vector w own.time
      (traffic.map (fun ac =>
        (⟨ac.id, Position.linear gc ac.pos (Vect3.Sub ac.vel d.wind_vector)
          (own.time - ac.time), Vect3.Sub ac.vel d.wind_vector⟩ : TrafficState)))
      (traffic.map (fun ac => ac.time)) =
      traffic.map (fun ac =>
        (⟨ac.id, Position.linear gc ac.pos (Vect3.Sub ac.vel w)
          (own.time - ac.time), Vect3.Sub ac.vel w⟩ : TrafficState)) :=
    rewind_all_map gc d.wind_vector w own.time
      (fun v ac => (⟨ac.id, Position.linear gc ac.pos (Vect3.Sub ac.vel v)
        (own.time - ac.time), Vect3.Sub ac.vel v⟩ : TrafficState)) traffic
      (fun ac hac => rewind_euclidean gc d.wind_vector w own.time ac (htraffic ac hac))
  refine ⟨?_, ?_, ?_, ?_⟩
  · rw [hL, hR]
    unfold setWindField
    simp only [getCurrentTime, rewind_all, hown2, htr]
  · rw [hR]
    simp only [List.cons.injEq, true_and]
    apply List.map_congr_left
    intro ac hac
    unfold Position.linear
    rw [htraffic ac hac]
    rfl
  · rw [hR]
  · rw [hR]

end Daidalus

/-! ### The searches reach their exit -/

namespace Daidalus

/-- Below the exit tolerance the search stops at once. -/
theorem maneuver_run_done (p : DaidalusParameters) (q : AlertingView) (m : Nat)
    (pg pr pivot : ℚ) (probes : List ℚ) (h : pr - pg ≤ 1) :
    maneuver_run p q m pg pr pivot probes = some (pg, pr, probes) := by
  cases m with
  | zero => rw [maneuver_run, if_neg (not_lt.mpr h)]
  | succ m => rw [maneuver_run, if_neg (not_lt.mpr h)]

/-- One iteration of the search. -/
theorem maneuver_run_succ (p : DaidalusParameters) (q : AlertingView) (m : Nat)
    (pg pr pivot : ℚ) (probes : List ℚ) :
    maneuver_run p q (m + 1) pg pr pivot probes =
      if pr - pg > 1 then
        if all_axes_red p q pivot = true then
          maneuver_run p q m pg pivot ((pivot + pg) / 2) (probes ++ [pivot])
        else
          maneuver_run p q m pivot pr ((pr + pivot) / 2) (probes ++ [pivot])
      else some (pg, pr, probes) := by
  rw [maneuver_run]

/-- A probe strictly between the pivots keeps the search state, whatever its outcome. -/
theorem SearchState_probe (p : DaidalusParameters) (q : AlertingView) (t2v pg pr pivot : ℚ)
    (probes : List ℚ) (h : SearchState p q t2v pg pr probes) (h1 : pg < pivot)
    (h2 : pivot < pr) :
    (all_axes_red p q pivot = true → SearchState p q t2v pg pivot (probes ++ [pivot])) ∧
    (¬ all_axes_red p q pivot = true → SearchState p q t2v pivot pr (probes ++ [pivot])) := by
  obtain ⟨_, a2, a3, a4, a5⟩ := h
  constructor
  · intro hred
    refine ⟨le_of_lt h1, a2, by linarith, Or.inr ⟨by simp, hred⟩, ?_⟩
    rcases a5 with a5 | ⟨a5, a6⟩
    · exact Or.inl a5
    · exact Or.inr ⟨List.mem_append_left _ a5, a6⟩
  · intro hred
    refine ⟨le_of_lt h2, by linarith, a3, ?_, Or.inr ⟨by simp, by simpa using hred⟩⟩
    rcases a4 with a4 | ⟨a4, a6⟩
    · exact Or.inl a4
    · exact Or.inr ⟨List.mem_append_left _ a4, a6⟩

/-- With the pivot at the midpoint and a gap of at most `2 ^ n`, every fuel `m ≥ n` lets the
search reach its exit; the result is the one of `maneuver_loop`, the final pivots are at most 1
apart and the search state is kept. -/
theorem maneuver_run_mid (p : DaidalusParameters) (q : AlertingView) (t2v : ℚ) :
    ∀ (n m : Nat) (pg pr pivot : ℚ) (probes : List ℚ), n ≤ m → pivot = (pr + pg) / 2 →
      pr - pg ≤ 2 ^ n → SearchState p q t2v pg pr probes →
      ∃ g r pb, maneuver_run p q m pg pr pivot probes = some (g, r, pb) ∧
        maneuver_loop p q m pg pr pivot = r ∧ r - g ≤ 1 ∧ SearchState p q t2v g r pb := by
  intro n
  induction n with
  | zero =>
    intro m pg pr pivot probes _ _ hgap hs
    have hg : pr - pg ≤ 1 := by simpa using hgap
    exact ⟨pg, pr, probes, maneuver_run_done p q m pg pr pivot probes hg,
      maneuver_loop_done p q m pg pr pivot hg, hg, hs⟩
  | succ n ih =>
    intro m pg pr pivot probes hm hmid hgap hs
    obtain ⟨m', rfl⟩ : ∃ m', m = m' + 1 := ⟨m - 1, by omega⟩
    have hgap2 : (pr - pg) / 2 ≤ 2 ^ n := by
      rw [pow_succ] at hgap
      linarith
    rw [maneuver_run_succ, maneuver_loop_succ]
    by_cases hc : pr - pg > 1
    · rw [if_pos hc, if_pos hc]
      have h1 : pg < pivot := by rw [hmid]; linarith
      have h2 : pivot < pr := by rw [hmid]; linarith
      obtain ⟨sr, sg⟩ := SearchState_probe p q t2v pg pr pivot probes hs h1 h2
      by_cases hred : all_axes_red p q pivot = true
      · rw [if_pos hred, if_pos hred]
        exact ih m' _ _ _ _ (by omega) (by ring) (by rw [hmid]; linarith) (sr hred)
      · rw [if_neg hred, if_neg hred]
        exact ih m' _ _ _ _ (by omega) (by ring) (by rw [hmid]; linarith) (sg hred)
    · rw [if_neg hc, if_neg hc]
      exact ⟨pg, pr, probes, rfl, rfl, not_lt.mp hc, hs⟩

/-- C33. For every `t2v ≥ 0` and every behaviour of the all-red test, the search of
`last_time_to_maneuver` reaches its exit within the fuel `maneuver_fuel t2v` and returns the
pivot `r = pivot_red` with `r ≤ t2v` such that `r = t2v` or `r` is a probed time at which all
alerting-enabled axes are entirely red; the final `g = pivot_green` has `0 ≤ g`,
`r - 1 ≤ g ≤ r` and is 0 or a probed time at which some enabled axis is not entirely red. When
`t2v ≤ 1` no probe is made and `r = t2v`. -/
theorem C33_last_time_to_maneuver_search (p : DaidalusParameters) (q : AlertingView) (t2v : ℚ)
    (h0 : 0 ≤ t2v) :
    ∃ g r probes, maneuver_run p q (maneuver_fuel t2v) 0 t2v (0 + 1) [] = some (g, r, probes) ∧
      last_time_to_maneuver p q t2v = r ∧ r ≤ t2v ∧
      (r = t2v ∨ (r ∈ probes ∧ all_axes_red p q r = true)) ∧
      0 ≤ g ∧ r - 1 ≤ g ∧ g ≤ r ∧
      (g = 0 ∨ (g ∈ probes ∧ all_axes_red p q g = false)) ∧
      (t2v ≤ 1 → probes = [] ∧ r = t2v) := by
  have hinit : SearchState p q t2v 0 t2v [] :=
    ⟨h0, le_refl _, le_refl _, Or.inl rfl, Or.inl rfl⟩
  have e : maneuver_fuel t2v = (⌈t2v⌉₊ + 1) + 1 := by unfold maneuver_fuel; omega
  unfold last_time_to_maneuver
  rw [e, maneuver_run_succ, maneuver_loop_succ]
  by_cases hc : t2v - 0 > 1
  · rw [if_pos hc, if_pos hc]
    have h1 : (0 : ℚ) < 0 + 1 := by norm_num
    have h2 : (0 : ℚ) + 1 < t2v := by linarith
    obtain ⟨sr, sg⟩ := SearchState_probe p q t2v 0 t2v (0 + 1) [] hinit h1 h2
    by_cases hred : all_axes_red p q (0 + 1) = true
    · rw [if_pos hred, if_pos hred]
      have hg : (0 : ℚ) + 1 - 0 ≤ 1 := by norm_num
      rw [maneuver_run_done p q _ _ _ _ _ hg, maneuver_loop_done p q _ _ _ _ hg]
      obtain ⟨b1, b2, b3, b4, b5⟩ := sr hred
      exact ⟨0, 0 + 1, [] ++ [0 + 1], rfl, rfl, b3, b4, b2, by linarith, b1, b5,
        fun hle => absurd hle (not_le.mpr (by linarith))⟩
    · rw [if_neg hred, if_neg hred]
      obtain ⟨g, r, pb, e1, e2, e3, b1, b2, b3, b4, b5⟩ :=
        maneuver_run_mid p q t2v ⌈t2v⌉₊ (⌈t2v⌉₊ + 1) (0 + 1) t2v ((t2v + (0 + 1)) / 2)
          ([] ++ [0 + 1]) (by omega) rfl (by have := le_two_pow_ceil t2v; linarith) (sg hred)
      exact ⟨g, r, pb, e1, e2, b3, b4, b2, by linarith, b1, b5,
        fun hle => absurd hle (not_le.mpr (by linarith))⟩
  · rw [if_neg hc, if_neg hc]
    exact ⟨0, t2v, [], rfl, rfl, le_refl _, Or.inl rfl, le_refl _, by linarith, h0,
      Or.inl rfl, fun _ => ⟨rfl, rfl⟩⟩

end Daidalus

namespace KinematicRealBands

/-- Below the exit tolerance the pivot search stops at once. -/
theorem recovery_pivot_run_done (query : ℚ → IntervalSet → IntervalSet) (m : Nat)
    (ns : IntervalSet) (pr pg pivot : ℚ) (c : Nat) (h : pg - pr ≤ 1) :
    recovery_pivot_run query m ns pr pg pivot c = some ((ns, pr, pg), c) := by
  cases m with
  | zero => rw [recovery_pivot_run, if_neg (not_lt.mpr h)]
  | succ m => rw [recovery_pivot_run, if_neg (not_lt.mpr h)]

/-- One iteration of the pivot search. -/
theorem recovery_pivot_run_succ (query : ℚ → IntervalSet → IntervalSet) (m : Nat)
    (ns : IntervalSet) (pr pg pivot : ℚ) (c : Nat) :
    recovery_pivot_run query (m + 1) ns pr pg pivot c =
      if pg - pr > 1 then
        if (query pivot ns).isEmpty then
          recovery_pivot_run query m (query pivot ns) pivot pg ((pivot + pg) / 2) (c + 1)
        else
          recovery_pivot_run query m (query pivot ns) pr pivot ((pr + pivot) / 2) (c + 1)
      else some ((ns, pr, pg), c) := by
  rw [recovery_pivot_run]

/-- With the pivot at the midpoint and a gap of at most `2 ^ n`, every fuel `m ≥ n` lets the
pivot search reach its exit after at most `n` more probes; the result is the one of
`recovery_pivot_loop` and its pivots are at most 1 apart. -/
theorem recovery_pivot_run_mid (query : ℚ → IntervalSet → IntervalSet) :
    ∀ (n m : Nat) (ns : IntervalSet) (pr pg pivot : ℚ) (c : Nat), n ≤ m →
      pivot = (pr + pg) / 2 → pg - pr ≤ 2 ^ n →
      ∃ c', recovery_pivot_run query m ns pr pg pivot c =
          some (recovery_pivot_loop query m ns pr pg pivot, c') ∧ c' ≤ c + n ∧
        (recovery_pivot_loop query m ns pr pg pivot).2.2 -
          (recovery_pivot_loop query m ns pr pg pivot).2.1 ≤ 1 := by
  intro n
  induction n with
  | zero =>
    intro m ns pr pg pivot c _ _ hgap
    have hg : pg - pr ≤ 1 := by simpa using hgap
    rw [recovery_pivot_run_done query m ns pr pg pivot c hg,
      recovery_pivot_loop_done query m ns pr pg pivot hg]
    exact ⟨c, rfl, le_refl _, hg⟩
  | succ n ih =>
    intro m ns pr pg pivot c hm hmid hgap
    obtain ⟨m', rfl⟩ : ∃ m', m = m' + 1 := ⟨m - 1, by omega⟩
    have hgap2 : (pg - pr) / 2 ≤ 2 ^ n := by
      rw [pow_succ] at hgap
      linarith
    rw [recovery_pivot_run_succ, recovery_pivot_loop_succ]
    by_cases hc : pg - pr > 1
    · rw [if_pos hc, if_pos hc]
      by_cases hred : (query pivot ns).isEmpty = true
      · rw [if_pos hred, if_pos hred]
        obtain ⟨c', e1, e2, e3⟩ := ih m' (query pivot ns) pivot pg ((pivot + pg) / 2) (c + 1)
          (by omega) (by ring) (by rw [hmid]; linarith)
        exact ⟨c', e1, by omega, e3⟩
      · rw [if_neg hred, if_neg hred]
        obtain ⟨c', e1, e2, e3⟩ := ih m' (query pivot ns) pr pivot ((pr + pivot) / 2) (c + 1)
          (by omega) (by ring) (by rw [hmid]; linarith)
        exact ⟨c', e1, by omega, e3⟩
    · rw [if_neg hc, if_neg hc]
      exact ⟨c, rfl, by omega, not_lt.mp hc⟩

/-- The pivot search of `compute_recovery_bands` on `[0, T+1]` reaches its exit within the fuel
`search_fuel T`, after at most `search_fuel T` probes. -/
theorem recovery_pivot_run_search (query : ℚ → IntervalSet → IntervalSet) (T : ℚ)
    (ns : IntervalSet) :
    ∃ c, recovery_pivot_run query (search_fuel T) ns 0 (T + 1) (T + 1 - 1) 0 =
        some (recovery_pivot_loop query (search_fuel T) ns 0 (T + 1) (T + 1 - 1), c) ∧
      c ≤ search_fuel T ∧
      (recovery_pivot_loop query (search_fuel T) ns 0 (T + 1) (T + 1 - 1)).2.2 -
        (recovery_pivot_loop query (search_fuel T) ns 0 (T + 1) (T + 1 - 1)).2.1 ≤ 1 := by
  have e : search_fuel T = (⌈T⌉₊ + 1) + 1 := by unfold search_fuel; omega
  rw [e, recovery_pivot_run_succ, recovery_pivot_loop_succ]
  by_cases hc : T + 1 - 0 > 1
  · rw [if_pos hc, if_pos hc]
    by_cases hred : (query (T + 1 - 1) ns).isEmpty = true
    · rw [if_pos hred, if_pos hred]
      have hg : T + 1 - (T + 1 - 1) ≤ 1 := by linarith
      rw [recovery_pivot_run_done query _ _ _ _ _ _ hg,
        recovery_pivot_loop_done query _ _ _ _ _ hg]
      exact ⟨0 + 1, rfl, by omega, hg⟩
    · rw [if_neg hred, if_neg hred]
      obtain ⟨c', e1, e2, e3⟩ := recovery_pivot_run_mid query ⌈T⌉₊ (⌈T⌉₊ + 1)
        (query (T + 1 - 1) ns) 0 (T + 1 - 1) ((0 + (T + 1 - 1)) / 2) (0 + 1) (by omega) rfl
        (by have := le_two_pow_ceil T; linarith)
      exact ⟨c', e1, by omega, e3⟩
  · rw [if_neg hc, if_neg hc]
    exact ⟨0, rfl, by omega, not_lt.mp hc⟩

/-- One iteration of the outer loop with explicit exit, by cases on the two emptiness
tests. -/
theorem recovery_run_succ {AC : Type} (cfg : ACCoRDConfig) (core : KinematicBandsCore AC)
    (axis : Axis AC) (alerting_set : List AC) (repac : Option AC) (T : ℚ) (n : Nat)
    (b : KinematicRealBands) (ns : IntervalSet) (h v : ℚ) (c : Nat) :
    recovery_run cfg core axis alerting_set repac T (n + 1) b ns h v c =
      if h > cfg.NMAC_D ∨ v > cfg.NMAC_H then
        if loop_ns1 axis alerting_set repac T ns h v = [] then
          if core.ca_bands = true then
            recovery_run cfg core axis alerting_set repac T n b
              (loop_ns1 axis alerting_set repac T ns h v) (h * (4 / 5)) (v * (4 / 5)) (c + 1)
          else some ((b, loop_ns1 axis alerting_set repac T ns h v), c)
        else if loop_ns2 core axis alerting_set repac T ns h v = [] then
          if core.ca_bands = true then
            recovery_run cfg core axis alerting_set repac T n { b with recovery_time := -1 }
              (loop_ns2 core axis alerting_set repac T ns h v) (h * (4 / 5)) (v * (4 / 5))
              (c + 1)
          else some (({ b with recovery_time := -1 },
            loop_ns2 core axis alerting_set repac T ns h v), c)
        else
          some (({ b with recovery_time := loop_rt core axis alerting_set repac T ns h v },
            loop_ns2 core axis alerting_set repac T ns h v), c)
      else some ((b, ns), c) := by
  rw [recovery_run]
  by_cases hc : h > cfg.NMAC_D ∨ v > cfg.NMAC_H
  · rw [if_pos hc, if_pos hc]
    obtain ⟨k, hk, _, _⟩ := recovery_pivot_run_search
      (fun p ns => axis.none_bands ns Detection3D.core (some (Detection3D.cylinder h v))
        repac p T alerting_set) T
      (axis.none_bands ns (Detection3D.cylinder h v) none repac 0 T alerting_set)
    simp only [hk]
    unfold loop_ns2 loop_rt recovery_search loop_ns1
    generalize axis.none_bands ns (Detection3D.cylinder h v) none repac 0 T alerting_set = ns1
    generalize recovery_pivot_loop
      (fun p ns => axis.none_bands ns Detection3D.core (some (Detection3D.cylinder h v))
        repac p T alerting_set) (search_fuel T) ns1 0 (T + 1) (T + 1 - 1) = found
    generalize axis.none_bands found.1 Detection3D.core (some (Detection3D.cylinder h v))
      repac (recovery_time_of T core.recovery_stability_time found.2.1 found.2.2) T
      alerting_set = ns2
    by_cases h1 : ns1 = []
    · rw [if_pos h1]
      by_cases hca : core.ca_bands = true
      · simp [h1, hca]
      · simp [h1, hca]
    · rw [if_neg h1]
      have h1' : ns1.isEmpty = false := by
        simpa [List.isEmpty_iff] using h1
      by_cases h2 : ns2 = []
      · rw [if_pos h2]
        by_cases hca : core.ca_bands = true
        · simp [h1', h2, hca]
        · simp [h1', h2, hca]
      · rw [if_neg h2]
        have h2' : ns2.isEmpty = false := by
          simpa [List.isEmpty_iff] using h2
        simp [h1', h2']
  · rw [if_neg hc, if_neg hc]

/-- When `n` shrinking steps bring the cylinder inside the NMAC cylinder, every fuel `m ≥ n`
lets the outer loop reach an exit after at most `n` shrinking steps, with the result of
`recovery_loop`. -/
theorem recovery_run_fuel {AC : Type} (cfg : ACCoRDConfig) (core : KinematicBandsCore AC)
    (axis : Axis AC) (alerting_set : List AC) (repac : Option AC) (T : ℚ) :
    ∀ (n m : Nat) (b : KinematicRealBands) (ns : IntervalSet) (h v : ℚ) (c : Nat), n ≤ m →
      h * (4 / 5) ^ n ≤ cfg.NMAC_D → v * (4 / 5) ^ n ≤ cfg.NMAC_H →
      ∃ c', recovery_run cfg core axis alerting_set repac T m b ns h v c =
          some (recovery_loop cfg core axis alerting_set repac T m b ns h v, c') ∧
        c' ≤ c + n := by
  intro n
  induction n with
  | zero =>
    intro m b ns h v c _ hh hv
    have hc : ¬ (h > cfg.NMAC_D ∨ v > cfg.NMAC_H) := by
      simp only [pow_zero, mul_one] at hh hv
      rintro (h1 | h1) <;> linarith
    cases m with
    | zero =>
      rw [recovery_run, if_neg hc]
      exact ⟨c, rfl, le_refl _⟩
    | succ m =>
      rw [recovery_run_succ, recovery_loop_succ, if_neg hc, if_neg hc]
      exact ⟨c, rfl, le_refl _⟩
  | succ n ih =>
    intro m b ns h v c hm hh hv
    obtain ⟨m', rfl⟩ : ∃ m', m = m' + 1 := ⟨m - 1, by omega⟩
    have hh2 : h * (4 / 5) * (4 / 5) ^ n ≤ cfg.NMAC_D := by
      rw [pow_succ] at hh; linarith
    have hv2 : v * (4 / 5) * (4 / 5) ^ n ≤ cfg.NMAC_H := by
      rw [pow_succ] at hv; linarith
    rw [recovery_run_succ, recovery_loop_succ]
    obtain ⟨c1, e1, l1⟩ := ih m' b (loop_ns1 axis alerting_set repac T ns h v)
      (h * (4 / 5)) (v * (4 / 5)) (c + 1) (by omega) hh2 hv2
    obtain ⟨c2, e2, l2⟩ := ih m' { b with recovery_time := -1 }
      (loop_ns2 core axis alerting_set repac T ns h v)
      (h * (4 / 5)) (v * (4 / 5)) (c + 1) (by omega) hh2 hv2
    by_cases hc : h > cfg.NMAC_D ∨ v > cfg.NMAC_H
    · rw [if_pos hc, if_pos hc]
      by_cases h1 : loop_ns1 axis alerting_set repac T ns h v = []
      · rw [if_pos h1, if_pos h1]
        by_cases hca : core.ca_bands = true
        · rw [if_pos hca, if_pos hca]
          exact ⟨c1, e1, by omega⟩
        · rw [if_neg hca, if_neg hca]
          exact ⟨c, rfl, by omega⟩
      · rw [if_neg h1, if_neg h1]
        by_cases h2 : loop_ns2 core axis alerting_set repac T ns h v = []
        · rw [if_pos h2, if_pos h2]
          by_cases hca : core.ca_bands = true
          · rw [if_pos hca, if_pos hca]
            exact ⟨c2, e2, by omega⟩
          · rw [if_neg hca, if_neg hca]
            exact ⟨c, rfl, by omega⟩
        · rw [if_neg h2, if_neg h2]
          exact ⟨c, rfl, by omega⟩
    · rw [if_neg hc, if_neg hc]
      exact ⟨c, rfl, by omega⟩

/-- C34. The function `compute_recovery_bands` terminates for every maximum recovery time,
every pair of minimum recovery distances and every behaviour of `none_bands`, when the NMAC
cylinder has positive dimensions. The inner binary search on `[0, T+1]` reaches its exit
`pivot_green - pivot_red ≤ 1` within the fuel `search_fuel T`, after at most that many probes.
The outer loop, which multiplies both cylinder dimensions by 0.8 on each unsuccessful iteration,
reaches a `return` or its exit test within the fuel `shrink_fuel`, with the result of the total
function `compute_recovery_bands`; it shrinks the cylinder at most `j` times for every `j` such
that after `j` steps neither dimension exceeds the NMAC cylinder. -/
theorem C34_compute_recovery_bands_terminates {AC : Type} (cfg : ACCoRDConfig)
    (core : KinematicBandsCore AC) (axis : Axis AC) (b : KinematicRealBands)
    (noneset : IntervalSet) (alerting_set : List AC)
    (hD : 0 < cfg.NMAC_D) (hH : 0 < cfg.NMAC_H) :
    (∀ (query : ℚ → IntervalSet → IntervalSet) (T : ℚ) (ns : IntervalSet),
      ∃ probes, recovery_pivot_run query (search_fuel T) ns 0 (T + 1) (T + 1 - 1) 0 =
          some (recovery_pivot_loop query (search_fuel T) ns 0 (T + 1) (T + 1 - 1), probes) ∧
        probes ≤ search_fuel T ∧
        (recovery_pivot_loop query (search_fuel T) ns 0 (T + 1) (T + 1 - 1)).2.2 -
          (recovery_pivot_loop query (search_fuel T) ns 0 (T + 1) (T + 1 - 1)).2.1 ≤ 1) ∧
    (∃ shrinks, compute_recovery_run cfg core axis b noneset alerting_set =
        some (compute_recovery_bands cfg core axis b noneset alerting_set, shrinks) ∧
      shrinks ≤ shrink_fuel cfg core.minHorizontalRecovery core.minVerticalRecovery ∧
      ∀ j : Nat, core.minHorizontalRecovery * (4 / 5) ^ j ≤ cfg.NMAC_D →
        core.minVerticalRecovery * (4 / 5) ^ j ≤ cfg.NMAC_H → shrinks ≤ j) := by
  refine ⟨fun query T ns => recovery_pivot_run_search query T ns, ?_⟩
  unfold compute_recovery_run compute_recovery_bands
  simp only []
  generalize (if core.recovery_crit = true then core.getTraffic core.criteria_ac else none) = repac
  generalize axis.none_bands noneset (Detection3D.cylinder cfg.NMAC_D cfg.NMAC_H) none repac 0
    core.maxRecoveryTime alerting_set = ns0
  by_cases hns : (!ns0.isEmpty) = true
  · rw [if_pos hns, if_pos hns]
    have hfuel : shrink_fuel cfg core.minHorizontalRecovery core.minVerticalRecovery =
        (4 * ⌈core.minHorizontalRecovery / cfg.NMAC_D⌉₊ +
          4 * ⌈core.minVerticalRecovery / cfg.NMAC_H⌉₊) + 1 := rfl
    obtain ⟨c', e1, l1⟩ := recovery_run_fuel cfg core axis alerting_set repac
      core.maxRecoveryTime
      (4 * ⌈core.minHorizontalRecovery / cfg.NMAC_D⌉₊ +
        4 * ⌈core.minVerticalRecovery / cfg.NMAC_H⌉₊)
      (shrink_fuel cfg core.minHorizontalRecovery core.minVerticalRecovery) b ns0
      core.minHorizontalRecovery core.minVerticalRecovery 0 (by omega)
      (shrink_le _ cfg.NMAC_D hD _ (by omega)) (shrink_le _ cfg.NMAC_H hH _ (by omega))
    refine ⟨c', e1, by omega, ?_⟩
    intro j hj1 hj2
    by_cases hjm : j ≤ shrink_fuel cfg core.minHorizontalRecovery core.minVerticalRecovery
    · obtain ⟨c2, e2, l2⟩ := recovery_run_fuel cfg core axis alerting_set repac
        core.maxRecoveryTime j
        (shrink_fuel cfg core.minHorizontalRecovery core.minVerticalRecovery) b ns0
        core.minHorizontalRecovery core.minVerticalRecovery 0 hjm hj1 hj2
      rw [e1] at e2
      have : c' = c2 := by
        have := Option.some.inj e2
        exact (Prod.mk.inj this).2
      omega
    · omega
  · rw [if_neg hns, if_neg hns]
    exact ⟨0, rfl, Nat.zero_le _, fun j _ _ => Nat.zero_le _⟩

end KinematicRealBands

/-! ### Evaluations on the example configurations -/

namespace Examples

open KinematicRealBands

/-- C5 (as stated) fails: with collision-avoidance bands enabled and recovery disabled, an axis
that is solid red for the single corrective aircraft gets recovery time `-1`. -/
theorem C5_counterexample :
    (alertingAircraft coreCA axisRed).1 ++ (alertingAircraft coreCA axisRed).2 ≠ [] ∧
    ¬ ((compute cfgEx coreCA axisRed (reset bandsNoRec)).recovery_time = -1 ↔
      ((compute_noneset cfgEx coreCA axisRed (reset bandsNoRec)).2 = [] ∧
        (∀ e ∈ (compute cfgEx coreCA axisRed (reset bandsNoRec)).bands, e.2 = Region.NEAR) ∧
        coreCA.ca_bands = false)) := by
  decide!

/-- C6 fails on the code: with a recovery cylinder configured inside the NMAC cylinder the
shrinking loop is never entered, `compute` leaves recovery time `-1`, and the interval `[2,4]`
that is green for the NMAC cylinder is reported with label NONE. -/
theorem C6_minus_one_with_green_band :
    coreSmall.implicit_bands = false ∧
    (compute cfgEx coreSmall axisNmacGreen (reset bandsEx)).recovery_time = -1 ∧
    (compute cfgEx coreSmall axisNmacGreen (reset bandsEx)).bands =
      [(⟨0, 2⟩, Region.NEAR), (⟨2, 4⟩, Region.NONE), (⟨4, 10⟩, Region.NEAR)] := by
  decide!

/-- C1 at the green set `[2,4], [6,10]` inside `[0,10]`. -/
theorem C1_witness :
    bandsEx.min < bandsEx.max ∧
    SortedDisjointIn bandsEx.min bandsEx.max [⟨2, 4⟩, ⟨6, 10⟩] ∧
    (color_bands bandsEx [⟨2, 4⟩, ⟨6, 10⟩] true false false).intervals =
      [⟨0, 2⟩, ⟨2, 4⟩, ⟨4, 6⟩, ⟨6, 10⟩] ∧
    (color_bands bandsEx [⟨2, 4⟩, ⟨6, 10⟩] true false false).intervals.Chain'
      (fun i j => i.up = j.low) :=
  ⟨by decide!, by unfold SortedDisjointIn; decide!, by decide!,
    (C1_color_bands_partition bandsEx [⟨2, 4⟩, ⟨6, 10⟩] false (by decide!)
      (by unfold SortedDisjointIn; decide!)).2.2.2.2.2.1⟩

/-- C2 at a traffic list whose single aircraft is neither corrective nor preventive. -/
theorem C2_witness :
    coreQuiet.hasOwnship = true ∧ bandsEx.min < bandsEx.max ∧
    ((alertingAircraft coreQuiet axisGreen).1 = [] ∧
      (alertingAircraft coreQuiet axisGreen).2 = []) ∧
    (force_compute cfgEx coreQuiet axisGreen bandsEx).recovery_time = 0 ∧
    (force_compute cfgEx coreQuiet axisGreen bandsEx).intervals = [⟨0, 10⟩] ∧
    (force_compute cfgEx coreQuiet axisGreen bandsEx).regions = [Region.NONE] :=
  ⟨by decide!, by decide!, by decide!,
    (C2_no_alerting_all_green cfgEx coreQuiet axisGreen bandsEx (by decide!) (by decide!)
      (by decide!)).1,
    ((C2_no_alerting_all_green cfgEx coreQuiet axisGreen bandsEx (by decide!) (by decide!)
      (by decide!)).2.1 (by decide!)).1,
    ((C2_no_alerting_all_green cfgEx coreQuiet axisGreen bandsEx (by decide!) (by decide!)
      (by decide!)).2.1 (by decide!)).2⟩

/-- C4 at a recovery search that finds the green pivot 3: the recovery time is
`min(8, 3 + 2) = 5`. -/
theorem C4_witness :
    0 < coreEx.maxRecoveryTime ∧ 0 ≤ coreEx.recovery_stability_time ∧
    (compute cfgEx coreEx axisRecover bandsEx).recovery_time = 5 ∧
    0 ≤ (compute cfgEx coreEx axisRecover bandsEx).recovery_time ∧
    (compute cfgEx coreEx axisRecover bandsEx).recovery_time ≤ coreEx.maxRecoveryTime :=
  ⟨by decide!, by decide!, by decide!,
    (C4_recovery_time_bounded cfgEx coreEx axisRecover bandsEx (by decide!) (by decide!)).2
      (by decide!) (by decide!) (by decide!) (by decide!)⟩

/-- C5 (as amended) at an axis that is solid red with recovery enabled. -/
theorem C5_witness :
    (alertingAircraft coreEx axisRed).1 ++ (alertingAircraft coreEx axisRed).2 ≠ [] ∧
    (compute_noneset cfgEx coreEx axisRed (reset bandsEx)).2 = [] ∧
    (compute cfgEx coreEx axisRed (reset bandsEx)).recovery_time = -1 :=
  ⟨by decide!, by decide!,
    (C5_minus_one_solid_red cfgEx coreEx axisRed bandsEx (by decide!)).1 (by decide!)⟩

/-- C10 (as stated) fails: with `warning_when_recovery` disabled the time compared with
`time_to_warning = 5` is `time_in = 10`, not the pivot 1 of the time-to-maneuver search, and
the result is 3 where the claim gives 4. -/
theorem C10_counterexample :
    (paramsEx.trk_alerting = true ∧ viewEx.trackLength ≠ 0) ∧
    (viewEx.conflictDetection 0 (Daidalus.alerting_time paramsEx)).conflict = true ∧
    Daidalus.last_time_to_maneuver paramsEx viewEx
      (viewEx.conflictDetection 0 (Daidalus.alerting_time paramsEx)).time_in = 1 ∧
    ¬ (Daidalus.bands_alerting paramsEx viewEx =
      if Daidalus.last_time_to_maneuver paramsEx viewEx
          (viewEx.conflictDetection 0 (Daidalus.alerting_time paramsEx)).time_in ≤
        paramsEx.time_to_warning then 4 else 3) := by
  decide!

/-- C10 (as amended) with `warning_when_recovery` enabled: the pivot 1 is within the warning
time 5 and the result is 4. -/
theorem C10_witness :
    ((paramsRec.trk_alerting = true ∧ viewEx.trackLength ≠ 0) ∨
      (paramsRec.gs_alerting = true ∧ viewEx.groundSpeedLength ≠ 0) ∨
      (paramsRec.vs_alerting = true ∧ viewEx.verticalSpeedLength ≠ 0)) ∧
    (viewEx.conflictDetection 0 (Daidalus.alerting_time paramsRec)).conflict = true ∧
    Daidalus.bands_alerting paramsRec viewEx =
      (if Daidalus.last_time_to_maneuver paramsRec viewEx
          (viewEx.conflictDetection 0 (Daidalus.alerting_time paramsRec)).time_in ≤
        paramsRec.time_to_warning then 4 else 3) ∧
    Daidalus.bands_alerting paramsRec viewEx = 4 :=
  ⟨by decide!, by decide!,
    (Daidalus.C10_bands_alerting_conflict paramsRec viewEx (by decide!) (by decide!)).1
      (by decide!),
    by decide!⟩

/-- C8 fails on the code: with `min_alt = 1000 < max_alt = 3000`, `alt_step = 500` and the
lowest target altitude in conflict, `red_bands` adds the cell `[500, 1500]` and `color_bands`
reports it unclipped, so the first altitude band starts below `min_alt`. -/
theorem C8_altitude_band_below_min :
    altEx.min < altEx.max ∧ 0 < altEx.step ∧
    KinematicAltBands.red_bands altKinEx altEx 0 coreEx.alertingTime coreEx.traffic =
      [⟨500, 1500⟩] ∧
    (KinematicAltBands.compute coreEx altKinEx altEx).bands =
      [(⟨500, 1500⟩, Region.NEAR), (⟨1500, 3000⟩, Region.NONE)] ∧
    ¬ (∀ i ∈ (KinematicAltBands.compute coreEx altKinEx altEx).intervals,
      altEx.min ≤ i.low ∧ i.low ≤ i.up ∧ i.up ≤ altEx.max) := by
  decide!


/-- The detector `detEntry e` sees the intruder enter violation at the time `e`. -/
theorem detEntry_entersAt (e : ℚ) : Daidalus.EntersAt (detEntry e) () e := by
  intro A
  unfold detEntry
  constructor
  · intro h
    simp only [if_pos h]
    exact ⟨trivial, h⟩
  · intro h
    simp only [if_neg (not_lt.mpr h)]
    decide!

/-- C12 (as stated) fails: an intruder that enters violation at 22 s gets level 3 and not
level 4 (the tier of level 4 has the alerting time 20 s); entries at 58 s and 80 s get the
levels 1 and 0 where the claim gives 2 and 1. -/
theorem C12_counterexample :
    Daidalus.EntersAt (detEntry 22) () 22 ∧
    (Daidalus.thresholds_alerting
      (Daidalus.MOPS (detEntry 22) (detEntry 22) (detEntry 22) (detEntry 22)) ()).1 = 3 ∧
    ¬ (Daidalus.thresholds_alerting
      (Daidalus.MOPS (detEntry 22) (detEntry 22) (detEntry 22) (detEntry 22)) ()).1 = 4 ∧
    (Daidalus.thresholds_alerting
      (Daidalus.MOPS (detEntry 58) (detEntry 58) (detEntry 58) (detEntry 58)) ()).1 = 1 ∧
    (Daidalus.thresholds_alerting
      (Daidalus.MOPS (detEntry 80) (detEntry 80) (detEntry 80) (detEntry 80)) ()).1 = 0 :=
  ⟨detEntry_entersAt 22, by decide!, by decide!, by decide!, by decide!⟩

/-- C12 (as amended) at the entry time 38 s: `20 ≤ 38 < 40` and the level is 3. -/
theorem C12_witness :
    Daidalus.EntersAt (detEntry 38) () 38 ∧
    (Daidalus.thresholds_alerting
      (Daidalus.MOPS (detEntry 38) (detEntry 38) (detEntry 38) (detEntry 38)) ()).1 =
      (if (38 : ℚ) < 20 then 4 else if (38 : ℚ) < 40 then 3 else if (38 : ℚ) < 55 then 2
        else if (38 : ℚ) < 60 then 1 else 0) ∧
    (Daidalus.thresholds_alerting
      (Daidalus.MOPS (detEntry 38) (detEntry 38) (detEntry 38) (detEntry 38)) ()).1 = 3 :=
  ⟨detEntry_entersAt 38,
    Daidalus.C12_MOPS_levels (detEntry 38) (detEntry 38) (detEntry 38) (detEntry 38) () 38
      (detEntry_entersAt 38) (detEntry_entersAt 38) (detEntry_entersAt 38)
      (detEntry_entersAt 38),
    by decide!⟩

/-- C11 at a pair without conflict whose track band is near the ownship track and whose
vertical separation 100 is within the preventive altitude threshold 200: the result is 2. -/
theorem C11_witness :
    ((paramsPrev.trk_alerting = true ∧ viewPrev.trackLength ≠ 0) ∨
      (paramsPrev.gs_alerting = true ∧ viewPrev.groundSpeedLength ≠ 0) ∨
      (paramsPrev.vs_alerting = true ∧ viewPrev.verticalSpeedLength ≠ 0)) ∧
    (viewPrev.conflictDetection 0 (Daidalus.alerting_time paramsPrev)).conflict = false ∧
    Daidalus.bands_alerting paramsPrev viewPrev = 2 :=
  ⟨by decide!, by decide!,
    (Daidalus.C11_bands_alerting_no_conflict paramsPrev viewPrev (by decide!) (by decide!)).1.2
      (by decide!)⟩

/-- C13 at a pair that is in violation now and until the time 30, with alerting time 0 and a
detector that clips the loss interval `[0, 30]` to the window `[0, 0]`: the violation test is
true and `alerting` reports no alert, where the same detector with the alerting time 60 reports
one. -/
theorem C13_witness :
    (⟨detClip, 0, 0⟩ : AlertThresholds Unit).alerting_time = 0 ∧
    detClip () 0 0 = ⟨0, 0⟩ ∧
    violationClip () = true ∧
    ((⟨detClip, 0, 0⟩ : AlertThresholds Unit).alerting ()).1 = false ∧
    ((⟨detClip, 60, 0⟩ : AlertThresholds Unit).alerting ()).1 = true :=
  ⟨rfl, by decide!, by decide!,
    AlertThresholds.C13_zero_alerting_time_never_alerts ⟨detClip, 0, 0⟩ () rfl
      (Or.inr (by decide!)),
    by decide!⟩

/-- C14 on a list of two aircraft with wind `(5, 0, 0)` replaced by `(0, 3, 0)`. -/
theorem C14_witness :
    daaEx.times.length = daaEx.acs.length ∧
    (Daidalus.setWindField gcEx daaEx ⟨0, 3, 0⟩).acs.map TrafficState.vel =
      [⟨105, -3, 0⟩, ⟨-95, -3, 0⟩] ∧
    (Daidalus.setWindField gcEx daaEx ⟨0, 3, 0⟩).acs.length = daaEx.acs.length :=
  ⟨by decide!, by decide!,
    (Daidalus.C14_setWindField_ground_velocity gcEx daaEx ⟨0, 3, 0⟩ (by decide!)).2.1⟩

/-- C15 on a list of two aircraft: the third aircraft, reported at the time 8, is stored at
index 2 with its air velocity and its position projected by 2 s. -/
theorem C15_witness :
    daaEx.acs ≠ [] ∧ daaEx.times.length = daaEx.acs.length ∧
    (Daidalus.addTrafficState gcEx daaEx "ac2" ⟨false, ⟨0, 9000, 1200⟩⟩ ⟨5, -100, 0⟩ 8).1 = 2 ∧
    (Daidalus.addTrafficState gcEx daaEx "ac2" ⟨false, ⟨0, 9000, 1200⟩⟩ ⟨5, -100, 0⟩ 8).2.acs =
      [ownEx, intruderEx, ⟨"ac2", ⟨false, ⟨0, 8800, 1200⟩⟩, ⟨0, -100, 0⟩⟩] :=
  ⟨by decide!, by decide!,
    ((Daidalus.C15_addTrafficState gcEx daaEx "ac2" ⟨false, ⟨0, 9000, 1200⟩⟩ ⟨5, -100, 0⟩ 8).2
      (by decide!) (by decide!)).1,
    by decide!⟩

/-- C16 on the list of the ownship and one intruder at the time 42. -/
theorem C16_witness :
    [ownEx, intruderEx] ≠ [] ∧
    (Daidalus.setAircraftList daaEx [ownEx, intruderEx] 42).acs = [ownEx, intruderEx] ∧
    Daidalus.getCurrentTime (Daidalus.setAircraftList daaEx [ownEx, intruderEx] 42) = 42 :=
  ⟨by decide!,
    (Daidalus.C16_setAircraftList daaEx [ownEx, intruderEx] 42 (by decide!)).1,
    (Daidalus.C16_setAircraftList daaEx [ownEx, intruderEx] 42 (by decide!)).2.2.1⟩

/-- C18 on a list of two aircraft: the index 2 is not that of a stored aircraft and the answer
is -1; the index 1 at the current time is valid and the answer is the level 3. -/
theorem C18_witness :
    Daidalus.InvalidQuery daaEx 2 10 ∧ ¬ Daidalus.InvalidQuery daaEx 1 10 ∧
    (Daidalus.alertingAt logEx gcEx (fun _ _ _ => viewEx) daaEx 2 10).1 = -1 ∧
    (Daidalus.alertingAt logEx gcEx (fun _ _ _ => viewEx) daaEx 1 10).1 = 3 ∧
    0 ≤ (Daidalus.alertingAt logEx gcEx (fun _ _ _ => viewEx) daaEx 1 10).1 :=
  ⟨by unfold Daidalus.InvalidQuery; decide!, by unfold Daidalus.InvalidQuery; decide!,
    ((Daidalus.C18_alertingAt_negative_iff logEx gcEx (fun _ _ _ => viewEx) daaEx 2 10).2.1
      (by unfold Daidalus.InvalidQuery; decide!)).1,
    by decide!,
    (Daidalus.C18_alertingAt_negative_iff logEx gcEx (fun _ _ _ => viewEx) daaEx 1 10).2.2
      (by unfold Daidalus.InvalidQuery; decide!)⟩

/-- C20 on `setDTHR`: the value 1000 is stored, the value 0 is rejected with an error. -/
theorem C20_witness :
    ParameterBlock.Validated.admissible ParameterBlock.Validated.DTHR 1000 ∧
    ¬ ParameterBlock.Validated.admissible ParameterBlock.Validated.DTHR 0 ∧
    (ParameterBlock.setDTHR logEx blockEx 1000).DTHR = 1000 ∧
    (ParameterBlock.setDTHR logEx blockEx 0).DTHR = 1222 ∧
    (ParameterBlock.setDTHR logEx blockEx 0).hasError = true :=
  ⟨by unfold ParameterBlock.Validated.admissible; decide!,
    by unfold ParameterBlock.Validated.admissible; decide!,
    ((ParameterBlock.C20_validating_setters ParameterBlock.Validated.DTHR logEx blockEx
      1000).1 (by unfold ParameterBlock.Validated.admissible; decide!)).2,
    by decide!,
    ((ParameterBlock.C20_validating_setters ParameterBlock.Validated.DTHR logEx blockEx 0).2
      (by unfold ParameterBlock.Validated.admissible; decide!)).2⟩

/-- C19 fails on the code: `KinematicBands::clear()` calls `core.clear()` only and not
`reset()`. On an object whose track bands were computed with recovery time 5, `clear()` removes
the ownship and the traffic but leaves the track cache as it was (not outdated, three
intervals, recovery time 5), and the next `trackRecoveryTime()` returns the 5 computed from the
removed aircraft, whatever the track axis, where an invalidated cache gives 0. -/
theorem C19_clear_keeps_stale_cache :
    bandsObjEx.Invalidated ∧
    (KinematicBands.trackRecoveryTime cfgEx (fun _ => 700) (fun _ => 200) axisTrk
      bandsObjEx).1 = 5 ∧
    (KinematicBands.clear bandsObjQueried).core.ownship = none ∧
    (KinematicBands.clear bandsObjQueried).core.traffic = [] ∧
    (KinematicBands.clear bandsObjQueried).trk_band.outdated = false ∧
    (KinematicBands.clear bandsObjQueried).trk_band.intervals = [⟨0, 2⟩, ⟨2, 4⟩, ⟨4, 710 / 113⟩] ∧
    (KinematicBands.clear bandsObjQueried).trk_band.recovery_time = 5 ∧
    ¬ (KinematicBands.clear bandsObjQueried).Invalidated ∧
    (∀ axis : Axis TrafficState,
      (KinematicBands.trackRecoveryTime cfgEx (fun _ => 700) (fun _ => 200) axis
        (KinematicBands.clear bandsObjQueried)).1 = 5) ∧
    (∀ axis : Axis TrafficState,
      (KinematicBands.trackRecoveryTime cfgEx (fun _ => 700) (fun _ => 200) axis
        (KinematicBands.reset (KinematicBands.clear bandsObjQueried))).1 = 0) := by
  refine ⟨?_, by decide!, by decide!, by decide!, by decide!, by decide!, by decide!, ?_, ?_, ?_⟩
  · unfold KinematicBands.Invalidated KinematicRealBands.Invalidated; decide!
  · unfold KinematicBands.Invalidated KinematicRealBands.Invalidated; decide!
  · intro axis
    have h : (KinematicBands.clear bandsObjQueried).trk_band.recovery_time = 5 := by decide!
    exact h
  · intro axis
    rfl

/-- C17 on the list of the ownship and one intruder at the time 10, queried at the time 12: the
ownship and the intruder are projected by 2 s. -/
theorem C17_witness :
    daaEx.acs = ownEx :: [intruderEx] ∧
    (∀ ac ∈ [intruderEx], ac.isLatLon = ownEx.isLatLon) ∧
    (Daidalus.getCurrentTime daaEx ≤ 12 ∧
      12 ≤ Daidalus.getCurrentTime daaEx + Daidalus.getLookaheadTime daaEx) ∧
    (Daidalus.getKinematicBandsAt logEx gcEx dfltEx daaEx 12).1.core.ownship =
      some ⟨⟨"own", ⟨false, ⟨200, 0, 1000⟩⟩, ⟨100, 0, 0⟩⟩⟩ ∧
    (Daidalus.getKinematicBandsAt logEx gcEx dfltEx daaEx 12).1.core.traffic =
      [⟨"ac1", ⟨false, ⟨4800, 0, 1000⟩⟩, ⟨-100, 0, 0⟩⟩] ∧
    (Daidalus.getKinematicBandsAt logEx gcEx dfltEx daaEx 12).2 = daaEx :=
  ⟨rfl, by decide!, by decide!, by decide!, by decide!,
    (Daidalus.C17_getKinematicBandsAt logEx gcEx dfltEx daaEx 12 ownEx [intruderEx] rfl
      (by decide!) (by decide!)).2.2.2.2⟩

/-- C21 (as stated) fails: on the default block `setMinGroundSpeed(1000)` is accepted without
an error although the maximum ground speed is 700 knots (about 360 m/s), and the block is left
with `min_gs ≥ max_gs`. -/
theorem C21_counterexample :
    (ParameterBlock.create unitsEx logEx).min_gs < (ParameterBlock.create unitsEx logEx).max_gs ∧
    (ParameterBlock.Mutation.run logEx (ParameterBlock.create unitsEx logEx)
      [ParameterBlock.Mutation.validated ParameterBlock.Validated.min_gs 1000]).min_gs = 1000 ∧
    ¬ (ParameterBlock.Mutation.run logEx (ParameterBlock.create unitsEx logEx)
        [ParameterBlock.Mutation.validated ParameterBlock.Validated.min_gs 1000]).min_gs <
      (ParameterBlock.Mutation.run logEx (ParameterBlock.create unitsEx logEx)
        [ParameterBlock.Mutation.validated ParameterBlock.Validated.min_gs 1000]).max_gs ∧
    (ParameterBlock.Mutation.run logEx (ParameterBlock.create unitsEx logEx)
      [ParameterBlock.Mutation.validated ParameterBlock.Validated.min_gs 1000]).hasError =
      false := by
  decide!

/-- C21 (as amended) on the default block with `setMinGroundSpeed(1000)` followed by
`setMaxAltitude(100)`: the sign conditions hold. -/
theorem C21_witness :
    (∀ m ∈ [ParameterBlock.Mutation.validated ParameterBlock.Validated.min_gs 1000,
        ParameterBlock.Mutation.validated ParameterBlock.Validated.max_alt 100],
      m.isBulk = false) ∧
    (0 < unitsEx.from_ "knot" 700 ∧ 0 ≤ unitsEx.from_ "ft" 500 ∧
      0 < unitsEx.from_ "ft" 50000) ∧
    ParameterBlock.Signs (ParameterBlock.Mutation.run logEx (ParameterBlock.create unitsEx logEx)
      [ParameterBlock.Mutation.validated ParameterBlock.Validated.min_gs 1000,
        ParameterBlock.Mutation.validated ParameterBlock.Validated.max_alt 100]) :=
  ⟨by decide, by decide!,
    (ParameterBlock.C21_bounds_signs_only unitsEx logEx
      [ParameterBlock.Mutation.validated ParameterBlock.Validated.min_gs 1000,
        ParameterBlock.Mutation.validated ParameterBlock.Validated.max_alt 100]
      (by decide) (by decide!)).1⟩

/-- C22 fails on the code: the bulk load `setParameters(ParameterData)` assigns the steps without
the validation of the individual setters. On the default block a store with the steps 0, -1, 0
and -150 is loaded without an error and leaves no step positive, where `setTrackStep(0)` is
rejected with an error. -/
theorem C22_bulk_load_breaks_steps :
    ParameterBlock.StepsPositive (ParameterBlock.create unitsEx logEx) ∧
    (ParameterBlock.Mutation.run logEx (ParameterBlock.create unitsEx logEx)
      [ParameterBlock.Mutation.setParameters storeBadSteps]).trk_step = 0 ∧
    (ParameterBlock.Mutation.run logEx (ParameterBlock.create unitsEx logEx)
      [ParameterBlock.Mutation.setParameters storeBadSteps]).gs_step = -1 ∧
    (ParameterBlock.Mutation.run logEx (ParameterBlock.create unitsEx logEx)
      [ParameterBlock.Mutation.setParameters storeBadSteps]).vs_step = 0 ∧
    (ParameterBlock.Mutation.run logEx (ParameterBlock.create unitsEx logEx)
      [ParameterBlock.Mutation.setParameters storeBadSteps]).alt_step = -150 ∧
    (ParameterBlock.Mutation.run logEx (ParameterBlock.create unitsEx logEx)
      [ParameterBlock.Mutation.setParameters storeBadSteps]).hasError = false ∧
    (ParameterBlock.setTrackStep logEx (ParameterBlock.create unitsEx logEx) 0).trk_step =
      (ParameterBlock.create unitsEx logEx).trk_step ∧
    (ParameterBlock.setTrackStep logEx (ParameterBlock.create unitsEx logEx) 0).hasError =
      true := by
  refine ⟨?_, by decide!, by decide!, by decide!, by decide!, by decide!, by decide!,
    by decide!⟩
  unfold ParameterBlock.StepsPositive
  decide!

/-- C24 on an object whose detector is a cylinder: `getDTHR` returns the stored 1222, records a
warning and no error; `setDTHR(1500)` stores 1500 in the parameter block and leaves the
cylinder as it is. -/
theorem C24_witness :
    ¬ Daidalus.Threshold.Matches Daidalus.Threshold.DTHR cylinderEx ∧
    Daidalus.Threshold.Valid Daidalus.Threshold.DTHR 1500 ∧
    (Daidalus.getDTHR logEx daaEx cylinderEx).1 = 1222 ∧
    (Daidalus.getDTHR logEx daaEx cylinderEx).2.error.hasMessage = true ∧
    (Daidalus.getDTHR logEx daaEx cylinderEx).2.error.hasError = false ∧
    (Daidalus.setDTHR logEx daaEx cylinderEx 1500).2 = cylinderEx ∧
    (Daidalus.setDTHR logEx daaEx cylinderEx 1500).1.parameters.DTHR = 1500 :=
  ⟨by unfold Daidalus.Threshold.Matches; decide,
    by unfold Daidalus.Threshold.Valid; decide!,
    (Daidalus.C24_threshold_accessors Daidalus.Threshold.DTHR logEx daaEx cylinderEx 1500).1,
    ((Daidalus.C24_threshold_accessors Daidalus.Threshold.DTHR logEx daaEx cylinderEx
      1500).2.2.1 (by unfold Daidalus.Threshold.Matches; decide)).2,
    by decide!,
    ((Daidalus.C24_threshold_accessors Daidalus.Threshold.DTHR logEx daaEx cylinderEx
      1500).2.2.2.2 (by unfold Daidalus.Threshold.Matches; decide)
      (by unfold Daidalus.Threshold.Valid; decide!)).1,
    ((Daidalus.C24_threshold_accessors Daidalus.Threshold.DTHR logEx daaEx cylinderEx
      1500).2.2.2.2 (by unfold Daidalus.Threshold.Matches; decide)
      (by unfold Daidalus.Threshold.Valid; decide!)).2⟩

/-- C25 on the example object with a Euclidean ownship: an aircraft in latitude and longitude
is rejected with an error, a Euclidean aircraft is appended after the intruder. -/
theorem C25_witness :
    (bandsObjEx.hasOwnship = false ∨ ownLL.toTrafficState.isLatLon ≠ bandsObjEx.isLatLon) ∧
    (bandsObjEx.hasOwnship = true ∧ ownEx.isLatLon = bandsObjEx.isLatLon) ∧
    (KinematicBands.addTraffic logEx bandsObjEx ownLL.toTrafficState).core.traffic =
      [intruderEx] ∧
    (KinematicBands.addTraffic logEx bandsObjEx ownLL.toTrafficState).error.hasError = true ∧
    (KinematicBands.addTraffic logEx bandsObjEx ownEx).core.traffic = [intruderEx, ownEx] :=
  ⟨by decide!, by decide!, by decide!,
    ((KinematicBands.C25_addTraffic logEx bandsObjEx ownLL.toTrafficState).1
      (by decide!)).2.2.2.2.2,
    by decide!⟩

/-- C26 at an ownship in latitude and longitude and a Euclidean position: the frame conversion
returns the coordinates `(5000, 0, 1000)` and the velocity as they are, not the invalid
vector. -/
theorem C26_witness :
    ownLL.pos.latlon = true ∧ intruderEx.pos.latlon = false ∧
    OwnshipState.pos_to_s prjEx ownLL intruderEx.pos = some ⟨5000, 0, 1000⟩ ∧
    OwnshipState.vel_to_v prjEx ownLL intruderEx.pos intruderEx.vel = some ⟨-100, 0, 0⟩ ∧
    OwnshipState.pos_to_s prjEx ⟨ownEx⟩ ownLL.pos = none :=
  ⟨rfl, rfl,
    ((OwnshipState.C26_mixed_frames_one_direction prjEx ownLL intruderEx.pos
      intruderEx.vel).2 rfl rfl).1,
    ((OwnshipState.C26_mixed_frames_one_direction prjEx ownLL intruderEx.pos
      intruderEx.vel).2 rfl rfl).2,
    by decide!⟩

/-- C27 (as stated) fails: with the ground speed bands `[0,100]` NEAR, `[100,200]` NONE,
`[200,360]` NEAR, the value 50 lies inside the conflict band `[0,100]`, hence within 10 of it,
and `nearGroundSpeedConflict(50, 10)` is false. -/
theorem C27_counterexample :
    bandsObjEx.hasOwnship = true ∧
    bandsObjEx.gs_band.min ≤ 50 ∧ (50 : ℚ) ≤ bandsObjEx.gs_band.max ∧
    (KinematicBands.gs_recomp envEx bandsObjEx bandsObjEx.gs_band.toKinematicRealBands).bands =
      [(⟨0, 100⟩, Region.NEAR), (⟨100, 200⟩, Region.NONE), (⟨200, 360⟩, Region.NEAR)] ∧
    ((0 : ℚ) - 10 < 50 ∧ (50 : ℚ) < 100 + 10) ∧
    (KinematicBands.nearGroundSpeedConflict envEx bandsObjEx 50 10).1 = false := by
  decide!

/-- C27 (as amended) on the same bands: the value 105 is within 10 above the end 100 of the
conflict band `[0,100]` and `nearGroundSpeedConflict(105, 10)` is true. -/
theorem C27_witness :
    bandsObjEx.hasOwnship = true ∧
    bandsObjEx.gs_band.min ≤ 105 ∧ (105 : ℚ) ≤ bandsObjEx.gs_band.max ∧
    (KinematicBands.nearGroundSpeedConflict envEx bandsObjEx 105 10).1 = true :=
  ⟨by decide!, by decide!, by decide!,
    ((KinematicBands.C27_near_conflict_edges envEx bandsObjEx 105 10 (by decide!)).1
      (by decide!) (by decide!)).2
      ⟨(⟨0, 100⟩, Region.NEAR), by decide!, rfl, Or.inr (by decide!)⟩⟩

/-- C28 (as stated) fails: on a freshly built object without ownship `trackLength()` returns
-1 and the error log holds neither an error nor a message afterwards. -/
theorem C28_counterexample :
    (KinematicBands.createDefault logEx dfltEx).hasOwnship = false ∧
    (KinematicBands.trackLength envEx (KinematicBands.createDefault logEx dfltEx)).1 = -1 ∧
    (KinematicBands.trackLength envEx
      (KinematicBands.createDefault logEx dfltEx)).2.error.hasError = false ∧
    (KinematicBands.trackLength envEx
      (KinematicBands.createDefault logEx dfltEx)).2.error.hasMessage = false ∧
    (KinematicBands.track envEx unitsEx (KinematicBands.createDefault logEx dfltEx) 0
      "deg").2.error.hasMessage = false := by
  decide!

/-- C28 (as amended) on a freshly built object without ownship. -/
theorem C28_witness :
    (KinematicBands.createDefault logEx dfltEx).hasOwnship = false ∧
    KinematicBands.trackLength envEx (KinematicBands.createDefault logEx dfltEx) =
      (-1, KinematicBands.createDefault logEx dfltEx) ∧
    KinematicBands.altitudeRegionOf envEx unitsEx (KinematicBands.createDefault logEx dfltEx)
      1000 "ft" = (Region.UNKNOWN, KinematicBands.createDefault logEx dfltEx) :=
  ⟨by decide!,
    (KinematicBands.C28_no_ownship_sentinels envEx unitsEx
      (KinematicBands.createDefault logEx dfltEx) (by decide!) 0 1000 "ft").1,
    (KinematicBands.C28_no_ownship_sentinels envEx unitsEx
      (KinematicBands.createDefault logEx dfltEx) (by decide!) 0 1000 "ft").2.2.2.2.2.2.2.2.2.2.2.2.2.2.2⟩

/-- C29 on the traffic list of the example: the identifier `ac1` gives the intruder, the
identifier `ac9` of no aircraft gives the invalid aircraft and the coordination sign 0. -/
theorem C29_witness :
    "ac1" ≠ "_NoAc_" ∧ (∀ x ∈ [intruderEx], x.id ≠ "ac9") ∧
    TrafficState.getTraffic [intruderEx] "ac1" = some intruderEx ∧
    TrafficState.getTraffic [intruderEx] "ac9" = none ∧
    KinematicBandsCore.coordination (fun _ _ => 1) ⟨ownEx⟩
      (TrafficState.getTraffic [intruderEx] "ac9") = 0 :=
  ⟨by decide, by decide,
    ((TrafficState.C29_getTraffic_first_match [intruderEx] "ac1" detConflict ⟨ownEx⟩ 0
      (fun _ _ => 1) bandsObjEx.core).1 (by decide) intruderEx).2
      ⟨[], [], rfl, rfl, by simp⟩,
    (TrafficState.C29_getTraffic_first_match [intruderEx] "ac9" detConflict ⟨ownEx⟩ 0
      (fun _ _ => 1) bandsObjEx.core).2.1 (Or.inr (by decide)),
    (TrafficState.C29_getTraffic_first_match [intruderEx] "ac9" detConflict ⟨ownEx⟩ 0
      (fun _ _ => 1) bandsObjEx.core).2.2.2.2.2 (by decide)⟩

/-- After 27 single-line calls on a new log with the limit 25, the message holds 26 entries
below the marker line, while the counter is 25. -/
theorem C31_witness :
    25 < callsEx.length ∧
    ErrorLog.entryCount (ErrorLog.recordAll logEx (ErrorLog.init logEx "Daidalus") callsEx)
      = 26 ∧
    (ErrorLog.recordAll logEx (ErrorLog.init logEx "Daidalus") callsEx).size = 25 :=
  ⟨by decide,
    ((ErrorLog.C31_log_keeps_all_but_first logEx "Daidalus" callsEx rfl (by decide)
      (by decide)).2 (by decide)).2.1,
    ((ErrorLog.C31_log_keeps_all_but_first logEx "Daidalus" callsEx rfl (by decide)
      (by decide)).2 (by decide)).2.2⟩

/-- An interval with `time_in = time_out = 5` has `time_in <= time_out`, and `conflict()` is
false. -/
theorem C32_counterexample :
    Time.le lossPoint.time_in lossPoint.time_out = true ∧ lossPoint.conflict = false :=
  ⟨ExtLossData.Time_le_refl _, ExtLossData.Time_lt_irrefl _⟩

/-- The interval from 2 s to 7 s is a conflict, and the interval with equal times is not. -/
theorem C32_witness :
    lossEx.conflict = true ∧
    (Time.le lossPoint.time_in lossPoint.time_out = true ∧ lossPoint.conflict = false) :=
  ⟨(ExtLossData.C32_conflict_iff_strict lossEx).1.mpr ⟨by decide!, by decide!⟩,
    (ExtLossData.C32_conflict_iff_strict lossPoint).2.1 rfl⟩

/-- The search on `[0, 30]` for the example view. -/
theorem C33_witness :
    (0 : ℚ) ≤ 30 ∧
    ∃ g r probes,
      Daidalus.maneuver_run paramsEx viewEx (Daidalus.maneuver_fuel 30) 0 30 (0 + 1) [] =
        some (g, r, probes) ∧
      Daidalus.last_time_to_maneuver paramsEx viewEx 30 = r ∧ r ≤ 30 ∧
      (r = 30 ∨ (r ∈ probes ∧ Daidalus.all_axes_red paramsEx viewEx r = true)) ∧
      0 ≤ g ∧ r - 1 ≤ g ∧ g ≤ r ∧
      (g = 0 ∨ (g ∈ probes ∧ Daidalus.all_axes_red paramsEx viewEx g = false)) ∧
      ((30 : ℚ) ≤ 1 → probes = [] ∧ r = 30) :=
  ⟨by norm_num, Daidalus.C33_last_time_to_maneuver_search paramsEx viewEx 30 (by norm_num)⟩

/-- The recovery computation on the example core with collision avoidance bands and an axis
that is red for every cylinder. -/
theorem C34_witness :
    0 < cfgEx.NMAC_D ∧ 0 < cfgEx.NMAC_H ∧
    ∃ shrinks, KinematicRealBands.compute_recovery_run cfgEx coreCA axisRed bandsEx [] [1] =
        some (KinematicRealBands.compute_recovery_bands cfgEx coreCA axisRed bandsEx [] [1],
          shrinks) ∧
      shrinks ≤ KinematicRealBands.shrink_fuel cfgEx coreCA.minHorizontalRecovery
        coreCA.minVerticalRecovery :=
  ⟨by decide!, by decide!,
    (KinematicRealBands.C34_compute_recovery_bands_terminates cfgEx coreCA axisRed bandsEx []
      [1] (by decide!) (by decide!)).2.imp (fun _ h => ⟨h.1, h.2.1⟩)⟩

/-- With the step `10^-7` m/s, the ownship at 500 m/s is `5 * 10^9` cells above the minimum
0: the count is not an `int` and `maxdown` is not defined. -/
theorem C35_counterexample :
    0 < gsTiny.step ∧ gsTiny.maxdown 500 = none ∧
    ¬ ∃ d : Int, gsTiny.maxdown 500 = some d ∧ 1 ≤ d := by
  have h : gsTiny.maxdown 500 = none := by
    unfold KinematicGsBands.maxdown
    refine KinematicGsBands.extent_none _ _ (by decide!) ?_
    have e : ((500 : ℚ) - gsTiny.min) / gsTiny.step = ((5000000000 : Int) : ℚ) := by
      unfold gsTiny
      norm_num
    rw [e, Int.ceil_intCast]
    decide
  refine ⟨by decide!, h, ?_⟩
  rintro ⟨d, hd, _⟩
  rw [h] at hd
  exact Option.noConfusion hd

/-- The extents of the example ground speed bands at 100 m/s and of the example vertical speed
bands in level flight. -/
theorem C35_witness :
    (0 < gsEx.step ∧ 0 < vsEx.step) ∧
    (∃ d u : Int, gsEx.maxdown 100 = some d ∧ gsEx.maxup 100 = some u ∧
      d = Max.max ⌈((100 : ℚ) - gsEx.min) / gsEx.step⌉ 0 + 1 ∧
      u = Max.max ⌈(gsEx.max - 100) / gsEx.step⌉ 0 + 1 ∧
      1 ≤ d ∧ 1 ≤ u ∧ -d < 0 ∧ 0 < u ∧
      100 - (d : ℚ) * gsEx.step < gsEx.min ∧ 100 + (u : ℚ) * gsEx.step > gsEx.max) ∧
    (∃ d u : Int, vsEx.maxdown 0 = some d ∧ vsEx.maxup 0 = some u ∧
      d = Max.max ⌈((0 : ℚ) - vsEx.min) / vsEx.step⌉ 0 + 1 ∧
      u = Max.max ⌈(vsEx.max - 0) / vsEx.step⌉ 0 + 1 ∧
      1 ≤ d ∧ 1 ≤ u ∧ -d < 0 ∧ 0 < u ∧
      0 - (d : ℚ) * vsEx.step < vsEx.min ∧ 0 + (u : ℚ) * vsEx.step > vsEx.max) :=
  ⟨⟨by decide!, by decide!⟩,
    KinematicGsBands.C35_cell_extents gsEx vsEx 100 0 (by decide!) (by decide!)
      (by decide!) (by decide!) (by decide!) (by decide!)⟩

/-- The values of the extents in the example: 201 cells down and 521 cells up on the ground
speed axis. -/
theorem gsEx_extents : gsEx.maxdown 100 = some 201 ∧ gsEx.maxup 100 = some 521 := by
  decide!

/-- The parameter block `blockEx` with horizontal acceleration 0, with vertical acceleration 0
and with the track step 7 rad is accepted without error, and the bands built from it have no
ground speed time step, no vertical speed time step and no track cell width. -/
theorem C36_witness :
    ((0 : ℚ) < axisEnvEx.Pi ∧ 2 * axisEnvEx.Pi < 7) ∧
    (ParameterBlock.setHorizontalAcceleration logEx blockEx 0).error = blockEx.error ∧
    (KinematicBands.setParameters logEx bandsObjEx
      (ParameterBlock.setHorizontalAcceleration logEx blockEx 0)).gs_band.tstep = none ∧
    (ParameterBlock.setVerticalAcceleration logEx blockEx 0).error = blockEx.error ∧
    (KinematicBands.setParameters logEx bandsObjEx
      (ParameterBlock.setVerticalAcceleration logEx blockEx 0)).vs_band.tstep = none ∧
    (ParameterBlock.setTrackStep logEx blockEx 7).error = blockEx.error ∧
    KinematicTrkBands.maxn axisEnvEx (KinematicBands.setParameters logEx bandsObjEx
      (ParameterBlock.setTrackStep logEx blockEx 7)).trk_band = some 0 ∧
    KinematicTrkBands.cell_width axisEnvEx (KinematicBands.setParameters logEx bandsObjEx
      (ParameterBlock.setTrackStep logEx blockEx 7)).trk_band = none :=
  have h := ParameterBlock.C36_accepted_parameters_divide_by_zero logEx axisEnvEx bandsObjEx
    blockEx 7 (by decide!) (by decide!) (by decide!) (by decide!) (by decide!) (by decide!)
    (by decide!)
  ⟨⟨by decide!, by decide!⟩, h.1.1, h.1.2.2, h.2.1.1, h.2.1.2.2, h.2.2.1, h.2.2.2.2.1,
    h.2.2.2.2.2⟩

/-- With the criterion aircraft `intruderEx` and the horizontal sign 1, `any_red` of the track
bands calls the engine with the signs `(0, 1)` and `all_red` with the signs `(1, 0)`. -/
theorem C37_swapped_signs :
    (KinematicTrkBands.any_red_call axisEnvEx trkEx (some intruderEx) 0 60 ⟨ownEx⟩).epsh = 0 ∧
    (KinematicTrkBands.any_red_call axisEnvEx trkEx (some intruderEx) 0 60 ⟨ownEx⟩).epsv = 1 ∧
    (KinematicTrkBands.all_red_call axisEnvEx trkEx (some intruderEx) 0 60 ⟨ownEx⟩).epsh = 1 ∧
    (KinematicTrkBands.all_red_call axisEnvEx trkEx (some intruderEx) 0 60 ⟨ownEx⟩).epsv = 0 ∧
    (KinematicTrkBands.none_bands_call axisEnvEx trkEx (some intruderEx) 0 60 ⟨ownEx⟩).epsh
      = 1 ∧
    (KinematicTrkBands.none_bands_call axisEnvEx trkEx (some intruderEx) 0 60 ⟨ownEx⟩).epsv
      = 0 :=
  ⟨rfl, rfl, rfl, rfl, rfl, rfl⟩

/-- At the beginning of a file with three time steps, `goToEnd()` leaves the walker at the
index 0, not at the end, while three calls of `goNext()` reach the end. -/
theorem C38_witness :
    (0 ≤ walkerEx.index ∧ walkerEx.index ≤ (walkerEx.times.length : Int)) ∧
    DaidalusFileWalker.goToEnd walkerEx = walkerEx ∧
    DaidalusFileWalker.atEnd (DaidalusFileWalker.goNextTimes walkerEx.times.length walkerEx)
      = true :=
  ⟨⟨by decide, by decide⟩, (DaidalusFileWalker.C38_goToEnd_does_nothing walkerEx).1,
    (DaidalusFileWalker.C38_goToEnd_does_nothing walkerEx).2.2.2 ⟨by decide, by decide⟩⟩

/-- The values in the example: index 0 and not at the end after `goToEnd()`, index 3 after
three calls of `goNext()`. -/
theorem walkerEx_goToEnd :
    (DaidalusFileWalker.goToEnd walkerEx).index = 0 ∧
    DaidalusFileWalker.atEnd (DaidalusFileWalker.goToEnd walkerEx) = false ∧
    (DaidalusFileWalker.goNextTimes 3 walkerEx).index = 3 ∧
    DaidalusFileWalker.atEnd (DaidalusFileWalker.goNextTimes 3 walkerEx) = true := by
  decide

/-- Assigning the core of `bandsObjEx`, which holds one traffic aircraft, to a core that holds
the same aircraft gives a core with two traffic aircraft; the copy constructor gives one. -/
theorem coreEx_assign :
    (CoreState.assign bandsObjEx.core bandsObjEx.core).traffic = [intruderEx, intruderEx] ∧
    bandsObjEx.core.traffic = [intruderEx] ∧
    (CoreState.copy bandsObjEx.core).traffic = [intruderEx] := by
  refine ⟨?_, ?_, ?_⟩ <;> rfl

/-- Loading the ownship at the time 10 and an intruder at the time 8 into `daaEx` and setting
the wind `(3, 4, 0)`, in either order. -/
theorem C40_witness :
    (ownTimed.pos.latlon = false ∧ ∀ ac ∈ [intruderTimed], ac.pos.latlon = false) ∧
    Daidalus.setWindField gcEx (Daidalus.load gcEx daaEx ownTimed [intruderTimed]) ⟨3, 4, 0⟩ =
      Daidalus.load gcEx (Daidalus.setWindField gcEx daaEx ⟨3, 4, 0⟩) ownTimed
        [intruderTimed] ∧
    (Daidalus.load gcEx (Daidalus.setWindField gcEx daaEx ⟨3, 4, 0⟩) ownTimed
        [intruderTimed]).times = [10, 8] :=
  have h := Daidalus.C40_setWindField_commutes_with_load gcEx daaEx ⟨3, 4, 0⟩ ownTimed
    [intruderTimed] rfl (by decide)
  ⟨⟨rfl, by decide⟩, h.1, h.2.2.1⟩

end Examples

end larcfm
